import Mathlib

/-!
# node-gdal: wrapper identity cache and ownership bridge

A shallow embedding of the wrapper lifecycle code of node-gdal
(`gdal_layer.cpp`, `gdal_rasterband.cpp`, `gdal_geometry.cpp`,
`gdal_feature_defn.cpp`, `gdal_common.hpp`) and theorems about it.

Conventions of the embedding

* A native pointer is a natural number, `0` being `NULL`.
* Every wrapper class has a heap: the list of all wrapper objects of the class
  ever constructed, a wrapper being named by its index (`ObjId`).  A wrapper
  record holds the fields of the C++ object together with the hidden values of
  the JS object that wraps it.
* The static caches and the record of native calls are fields of `World`;
  every operation maps a `World` to a `World` and an `Outcome`.
* The GDAL/OGR library is an environment `Native`, fixed for the duration of
  one operation, that answers every native call.
* `LOG` expands to nothing (logging disabled, the default build).
-/

namespace node_gdal

/-! ## Values -/

/-- A native address; `0` is `NULL`. -/
abbrev Ptr := Nat

/-- The identity of a wrapper object: its index in the heap of its class. -/
abbrev ObjId := Nat

/-- The JS classes of the binding. -/
inductive Klass
  | Layer | RasterBand | Dataset | FeatureDefn | SpatialReference
  | Geometry | Point | LineString | LinearRing | Polygon | GeometryCollection
  | MultiPoint | MultiLineString | MultiPolygon
  | LayerFeatures | LayerFields | RasterBandOverviews | RasterBandPixels
  | FeatureDefnFields | CoordinateTransformation
  deriving DecidableEq, Repr

/-- A C `double`, as far as the binding passes it along. -/
inductive Dbl
  | finite (q : ℚ)
  | nan
  | inf (negative : Bool)
  deriving DecidableEq, Repr

/-- A scalar passed to or received from the native library. -/
inductive NVal
  | int (i : Int)
  | num (d : Dbl)
  | str (s : Option String)
  | ptr (p : Ptr)
  | strs (l : Option (List String))
  deriving DecidableEq, Repr

/-- A JS value as the binding inspects it (`IsString`, `IsInt32`, ...).
`int32 i` is a number for which `IsInt32()` holds, `double d` any other number,
`array xs` an Array recorded by the string form of its elements (the source
reads array elements only through `TOSTR`), `object c id` the JS object of
wrapper `id` of class `c`, `collection c owner` a collection object of class
`c` built over the object `owner`, `plain fields` a fresh object literal with
the given numeric properties, `external id` the `External` that `New` hands
to the JS constructor, holding the C++ wrapper `id`, and `empty` an empty
handle. -/
inductive JsValue
  | empty
  | undefined
  | null
  | boolean (b : Bool)
  | int32 (i : Int)
  | double (d : Dbl)
  | string (s : String)
  | array (xs : List String)
  | object (c : Klass) (id : ObjId)
  | collection (c : Klass) (owner : ObjId)
  | plain (fields : List (String × NVal))
  | external (id : ObjId)
  deriving DecidableEq, Repr

/-- How a binding function ends: it returns a value, or throws an `Error`
with a message (`NODE_THROW`), or stops in a failed assertion. -/
inductive Outcome
  | ret (v : JsValue)
  | throw (msg : String)
  | abort
  deriving DecidableEq, Repr

/-! ## The native library -/

/-- One call into GDAL/OGR: the member function, the object it is called on
(`0` for a free function) and the arguments. -/
structure NativeCall where
  fn : String
  target : Ptr
  args : List NVal
  deriving DecidableEq, Repr

/-- The GDAL/OGR library, and the number conversion of the JS engine, as seen
during one operation of the binding: the overview and mask links of the native
bands, and the answers to every other call, by the C type of the answer
(`retInt` for `int`, `bool`, enumerations and error codes, `retStr` for
`const char *` with `none` for `NULL`, `outInt` and `outNum` for the output
parameter at a position of the argument list, `reported` for the errors, as
error number and message, that the call hands to the installed CPL error
handler). -/
structure Native where
  GetOverviewCount : Ptr → Int
  GetOverview : Ptr → Int → Ptr
  GetMaskBand : Ptr → Ptr
  retInt : NativeCall → Int
  retNum : NativeCall → Dbl
  retStr : NativeCall → Option String
  retPtr : NativeCall → Ptr
  retStrs : NativeCall → Option (List String)
  outInt : NativeCall → Nat → Int
  outNum : NativeCall → Nat → Dbl
  reported : NativeCall → List (Int × String)
  IntegerValue : Dbl → Int

/-! ## ObjectCache -/

/-- Modelled from the spec: `ObjectCache<K>` (declared in `obj_cache.hpp`, which
is not among the sources).  Spec section 4.1, IdentityCache: a mapping from
native handle to the single wrapper object representing it, with `lookup`,
`insert`, `evict` and `has`.  The entries are kept as an association list,
newest first. -/
structure ObjectCache where
  entries : List (Ptr × ObjId)
  deriving DecidableEq, Repr

/-- Modelled from the spec: `lookup(handle) -> WrapperObject | not-found`. -/
def ObjectCache.get (c : ObjectCache) (key : Ptr) : Option ObjId :=
  c.entries.lookup key

/-- Modelled from the spec: `has(handle) -> bool`. -/
def ObjectCache.has (c : ObjectCache) (key : Ptr) : Bool :=
  (c.get key).isSome

/-- Modelled from the spec: `insert(handle, wrapper)` fails (programmer error /
assertion) if the handle is already present; the failure is `none`. -/
def ObjectCache.add (c : ObjectCache) (key : Ptr) (obj : ObjId) : Option ObjectCache :=
  if c.has key then none else some ⟨(key, obj) :: c.entries⟩

/-- Modelled from the spec: `evict(handle)` is idempotent; removing an absent
key is a no-op. -/
def ObjectCache.erase (c : ObjectCache) (key : Ptr) : ObjectCache :=
  ⟨c.entries.filter (fun e => e.1 != key)⟩

/-- The number of entries of a cache. -/
def ObjectCache.size (c : ObjectCache) : Nat := c.entries.length

/-- The handle a cache lookup yields: the cached object, or an empty handle. -/
def ObjectCache.handle (c : ObjectCache) (cls : Klass) (key : Ptr) : JsValue :=
  match c.get key with
  | some id => .object cls id
  | none => .empty

/-! ## Wrapper objects -/

/-- A `Layer` wrapper: the fields of the C++ object and the hidden values
`ds_`, `features_`, `fields_` of its JS object.  The default value is what the
constructor `Layer()` builds. -/
structure Layer where
  this_ : Ptr := 0
  parent_ds : Ptr := 0
  is_result_set : Bool := false
  ds_ : JsValue := .empty
  features_ : JsValue := .empty
  fields_ : JsValue := .empty
  deriving DecidableEq, Repr

/-- A `RasterBand` wrapper: the fields of the C++ object and the hidden values
`ds_`, `overviews_`, `pixels_` of its JS object.  The default value is what the
constructor `RasterBand()` builds. -/
structure RasterBand where
  this_ : Ptr := 0
  parent_ds : Ptr := 0
  ds_ : JsValue := .empty
  overviews_ : JsValue := .empty
  pixels_ : JsValue := .empty
  deriving DecidableEq, Repr

/-- A geometry wrapper of any of the geometry classes (`Point`, `Polygon`, ...):
the class, and the fields `this_`, `owned_`, `size_` every one of them has.
The default value is what the constructor `Geometry()` builds. -/
structure Geometry where
  cls : Klass := .Geometry
  this_ : Ptr := 0
  owned_ : Bool := true
  size_ : Int := 0
  deriving DecidableEq, Repr

/-- A `FeatureDefn` wrapper.  The default value is what the constructor
`FeatureDefn()` builds. -/
structure FeatureDefn where
  this_ : Ptr := 0
  owned_ : Bool := true
  fields_ : JsValue := .empty
  deriving DecidableEq, Repr

/-- A `Dataset` wrapper; the class is outside these sources and only the native
pointer it stands for is recorded. -/
structure Dataset where
  this_ : Ptr := 0
  deriving DecidableEq, Repr

/-- The state of the binding: the wrapper heaps, the static caches
(`Layer::cache`, `RasterBand::cache`, and the dataset cache that `New`
consults, `Dataset::dataset_cache`), the native calls made so far in order,
and the global `stats_file_err`. -/
structure World where
  layers : List Layer := []
  bands : List RasterBand := []
  geometries : List Geometry := []
  feature_defns : List FeatureDefn := []
  datasets : List Dataset := []
  layer_cache : ObjectCache := ⟨[]⟩
  band_cache : ObjectCache := ⟨[]⟩
  dataset_cache : ObjectCache := ⟨[]⟩
  trace : List NativeCall := []
  stats_file_err : String := ""
  deriving DecidableEq, Repr

/-- The wrapper `ObjectWrap::Unwrap<Layer>` yields for an object id. -/
def World.layer (w : World) (id : ObjId) : Layer := w.layers.getD id {}

/-- The wrapper `ObjectWrap::Unwrap<RasterBand>` yields for an object id. -/
def World.band (w : World) (id : ObjId) : RasterBand := w.bands.getD id {}

/-- Record a native call. -/
def World.log (w : World) (c : NativeCall) : World :=
  { w with trace := w.trace ++ [c] }

/-- Store a new state of the `Layer` wrapper `id`. -/
def World.setLayer (w : World) (id : ObjId) (l : Layer) : World :=
  { w with layers := w.layers.set id l }

/-- Store a new state of the `RasterBand` wrapper `id`. -/
def World.setBand (w : World) (id : ObjId) (b : RasterBand) : World :=
  { w with bands := w.bands.set id b }

/-! ## Functions of the binding that are outside these sources -/

/-- The wrapping functions of classes whose implementation is not among the
sources and that the embedded functions call: the `New(geom, owned)` of the
geometry subclasses (`Point::New`, ..., `MultiPolygon::New`), by class, and
`SpatialReference::New(srs, owned)`. -/
structure Collaborators where
  geometryNew : Klass → World → Ptr → Bool → World × Outcome
  spatialReferenceNew : World → Ptr → Bool → World × Outcome

/-! ## gdal_common.hpp -/

/-- The native call `CPLGetLastErrorMsg()`. -/
def cplGetLastErrorMsg : NativeCall := ⟨"CPLGetLastErrorMsg", 0, []⟩

/-- `getOGRErrMsg(int err)` (gdal_common.hpp 32-59). -/
def getOGRErrMsg (nat : Native) (err : Int) : String :=
  if err = 6 then (nat.retStr cplGetLastErrorMsg).getD ""
  else if err = 0 then "No error"
  else if err = 1 then "Not enough data"
  else if err = 2 then "Not enough memory"
  else if err = 3 then "Unsupported geometry type"
  else if err = 4 then "Unsupported operation"
  else if err = 5 then "Corrupt Data"
  else if err = 6 then "Failure"
  else if err = 7 then "Unsupported SRS"
  else "Invalid Error"

/-- `NODE_THROW_CPLERR(err)`: throw the text of `CPLGetLastErrorMsg()`. -/
def NODE_THROW_CPLERR (nat : Native) (w : World) : World × Outcome :=
  (w.log cplGetLastErrorMsg, .throw ((nat.retStr cplGetLastErrorMsg).getD ""))

/-- `NODE_THROW_OGRERR(err)`: throw the text of `getOGRErrMsg(err)`, which
calls `CPLGetLastErrorMsg()` for the code 6. -/
def NODE_THROW_OGRERR (nat : Native) (w : World) (err : Int) : World × Outcome :=
  ((if err = 6 then w.log cplGetLastErrorMsg else w), .throw (getOGRErrMsg nat err))

/-- `SafeString::New(const char *)`: `null` for a null pointer. -/
def SafeString.New (data : Option String) : JsValue :=
  match data with
  | none => .null
  | some s => .string s

/-- `TOSTR(obj)` (gdal_common.hpp 61) of a string, read as the C string it is
handed on as (assigned to a `std::string`, or passed as `const char *`): the
characters before the first NUL character. -/
def TOSTR (s : String) : String :=
  ⟨s.data.takeWhile (fun c => c ≠ Char.ofNat 0)⟩

/-- The value of `args[num]`: `undefined` beyond the arguments given. -/
def argAt (args : List JsValue) (num : Nat) : JsValue := args.getD num .undefined

/-- `static_cast<int>` of a 64-bit integer. -/
def toCInt (i : Int) : Int := (i + 2 ^ 31) % 2 ^ 32 - 2 ^ 31

/-- `v->IntegerValue()` of a number. -/
def JsValue.IntegerValue (nat : Native) : JsValue → Int
  | .int32 i => i
  | .double d => nat.IntegerValue d
  | _ => 0

/-- `v->NumberValue()` of a number. -/
def JsValue.NumberValue : JsValue → Dbl
  | .int32 i => .finite i
  | .double d => d
  | _ => .nan

/-- `v->IsNumber()`. -/
def JsValue.IsNumber : JsValue → Bool
  | .int32 _ => true
  | .double _ => true
  | _ => false

/-- `v->IsNull() || v->IsUndefined()`. -/
def JsValue.IsNullOrUndefined : JsValue → Bool
  | .null => true
  | .undefined => true
  | _ => false

/-- `NODE_ARG_INT(num, name, var)`: the new value of `var`, or the message thrown. -/
def NODE_ARG_INT (nat : Native) (args : List JsValue) (num : Nat) (name : String) :
    Except String Int :=
  if args.length < num + 1 then .error (name ++ " must be given")
  else if !(argAt args num).IsNumber then .error (name ++ " must be an integer")
  else .ok (toCInt ((argAt args num).IntegerValue nat))

/-- `NODE_ARG_BOOL(num, name, var)`. -/
def NODE_ARG_BOOL (args : List JsValue) (num : Nat) (name : String) : Except String Bool :=
  if args.length < num + 1 then .error (name ++ " must be given")
  else match argAt args num with
    | .boolean b => .ok b
    | _ => .error (name ++ " must be an boolean")

/-- `NODE_ARG_DOUBLE(num, name, var)`. -/
def NODE_ARG_DOUBLE (args : List JsValue) (num : Nat) (name : String) : Except String Dbl :=
  if args.length < num + 1 then .error (name ++ " must be given")
  else if !(argAt args num).IsNumber then .error (name ++ " must be a number")
  else .ok (argAt args num).NumberValue

/-- `NODE_ARG_STR(num, name, var)`; `var` is a `std::string` assigned from
`TOSTR`. -/
def NODE_ARG_STR (args : List JsValue) (num : Nat) (name : String) : Except String String :=
  if args.length < num + 1 then .error (name ++ " must be given")
  else match argAt args num with
    | .string s => .ok (TOSTR s)
    | _ => .error (name ++ " must be an string")

/-- `NODE_ARG_BOOL_OPT(num, name, var)`: the value of `var` afterwards, or the
message thrown. -/
def NODE_ARG_BOOL_OPT (args : List JsValue) (num : Nat) (name : String) (var : Bool) :
    Except String Bool :=
  if args.length > num then
    match argAt args num with
    | .boolean b => .ok b
    | v => if !v.IsNullOrUndefined then .error (name ++ " must be an boolean") else .ok var
  else .ok var

/-- `NODE_ARG_OPT_STR(num, name, var)`; `var` is a `std::string` assigned from
`TOSTR`. -/
def NODE_ARG_OPT_STR (args : List JsValue) (num : Nat) (name : String) (var : String) :
    Except String String :=
  if args.length > num then
    match argAt args num with
    | .string s => .ok (TOSTR s)
    | v => if !v.IsNullOrUndefined then .error (name ++ " must be an string") else .ok var
  else .ok var

/-- `NODE_ARG_DOUBLE_OPT(num, name, var)`. -/
def NODE_ARG_DOUBLE_OPT (args : List JsValue) (num : Nat) (name : String) (var : Dbl) :
    Except String Dbl :=
  if args.length > num then
    if (argAt args num).IsNumber then .ok (argAt args num).NumberValue
    else if !(argAt args num).IsNullOrUndefined then .error (name ++ " must be a number")
    else .ok var
  else .ok var

/-! ## Geometry -/

/-- The constant `wkb25DBit` of `ogr_core.h`. -/
def wkb25DBit : Nat := 0x80000000

/-- The macro `wkbFlatten(x)` of `ogr_core.h`: `x & (~wkb25DBit)` on 32 bits. -/
def wkbFlatten (x : Nat) : Nat := x &&& 0x7FFFFFFF

/-- The geometry type codes of `ogr_core.h`. -/
def wkbPoint : Nat := 1
/-- See `wkbPoint`. -/
def wkbLineString : Nat := 2
/-- See `wkbPoint`. -/
def wkbPolygon : Nat := 3
/-- See `wkbPoint`. -/
def wkbMultiPoint : Nat := 4
/-- See `wkbPoint`. -/
def wkbMultiLineString : Nat := 5
/-- See `wkbPoint`. -/
def wkbMultiPolygon : Nat := 6
/-- See `wkbPoint`. -/
def wkbGeometryCollection : Nat := 7
/-- See `wkbPoint`. -/
def wkbLinearRing : Nat := 101

/-- The wrapper `ObjectWrap::Unwrap` yields for a geometry object id. -/
def World.geometry (w : World) (id : ObjId) : Geometry := w.geometries.getD id {}

/-- The wrapper `ObjectWrap::Unwrap<FeatureDefn>` yields for an object id. -/
def World.featureDefn (w : World) (id : ObjId) : FeatureDefn := w.feature_defns.getD id {}

/-- `Geometry::getGeometryType_fixed(OGRGeometry *geom)` (gdal_geometry.cpp
184-198): the world after the two native calls, and the type, as the unsigned
32-bit value of the enumeration. -/
def Geometry.getGeometryType_fixed (nat : Native) (w : World) (geom : Ptr) : World × Nat :=
  let type := ((nat.retInt ⟨"getGeometryType", geom, []⟩) % 2 ^ 32).toNat
  let w1 := w.log ⟨"getGeometryType", geom, []⟩
  let name := nat.retStr ⟨"getGeometryName", geom, []⟩
  let w2 := w1.log ⟨"getGeometryName", geom, []⟩
  if name = some "LINEARRING" then (w2, wkbLinearRing ||| (type &&& wkb25DBit))
  else (w2, type)

/-- `Geometry::New(OGRGeometry *geom, bool owned)` (gdal_geometry.cpp 151-182). -/
def Geometry.New (nat : Native) (co : Collaborators) (w : World) (geom : Ptr) (owned : Bool) :
    World × Outcome :=
  if geom = 0 then (w, .ret .null)
  else
    let (w1, type0) := Geometry.getGeometryType_fixed nat w geom
    let type := wkbFlatten type0
    if type = wkbPoint then co.geometryNew .Point w1 geom owned
    else if type = wkbLineString then co.geometryNew .LineString w1 geom owned
    else if type = wkbLinearRing then co.geometryNew .LinearRing w1 geom owned
    else if type = wkbPolygon then co.geometryNew .Polygon w1 geom owned
    else if type = wkbGeometryCollection then co.geometryNew .GeometryCollection w1 geom owned
    else if type = wkbMultiPoint then co.geometryNew .MultiPoint w1 geom owned
    else if type = wkbMultiLineString then co.geometryNew .MultiLineString w1 geom owned
    else if type = wkbMultiPolygon then co.geometryNew .MultiPolygon w1 geom owned
    else (w1, .throw "Tried to create unsupported geometry type")

/-- `Geometry::New(OGRGeometry *geom)` (gdal_geometry.cpp 145-149). -/
def Geometry.New1 (nat : Native) (co : Collaborators) (w : World) (geom : Ptr) :
    World × Outcome :=
  Geometry.New nat co w geom true

/-- `Geometry::~Geometry()` (gdal_geometry.cpp 108-117).  The adjustment of the
engine's external memory count is not a call into GDAL/OGR and is not
recorded. -/
def Geometry.destroy (w : World) (self : ObjId) : World :=
  let g := w.geometry self
  if g.this_ ≠ 0 then
    let w1 :=
      if g.owned_ then w.log ⟨"OGRGeometryFactory::destroyGeometry", 0, [.ptr g.this_]⟩
      else w
    { w1 with geometries := w1.geometries.set self { w1.geometry self with this_ := 0 } }
  else w

/-! ## FeatureDefn -/

/-- `FeatureDefn::New(OGRFeatureDefn *def, bool owned)` (gdal_feature_defn.cpp
90-118).  `NewInstance` runs `FeatureDefn::New(const Arguments&)`, which sets
the hidden value `fields_`.  Calling `Reference()` through a null pointer (a
null answer of `Clone()`) ends the run. -/
def FeatureDefn.New (nat : Native) (w : World) (defn : Ptr) (owned : Bool) : World × Outcome :=
  if defn = 0 then (w, .ret .null)
  else
    let w1 := if !owned then w.log ⟨"Clone", defn, []⟩ else w
    let defn1 := if !owned then nat.retPtr ⟨"Clone", defn, []⟩ else defn
    let obj : ObjId := w1.feature_defns.length
    let wrapped : FeatureDefn := { this_ := defn1, owned_ := true }
    let w2 := { w1 with feature_defns := w1.feature_defns ++ [wrapped] }
    if defn1 = 0 then (w2, .abort)
    else
      let w3 := w2.log ⟨"Reference", defn1, []⟩
      let w4 := { w3 with feature_defns :=
        w3.feature_defns.set obj { w3.featureDefn obj with fields_ := .collection .FeatureDefnFields obj } }
      (w4, .ret (.object .FeatureDefn obj))

/-- `FeatureDefn::New(OGRFeatureDefn *def)` (gdal_feature_defn.cpp 84-88). -/
def FeatureDefn.New1 (nat : Native) (w : World) (defn : Ptr) : World × Outcome :=
  FeatureDefn.New nat w defn false

/-- `FeatureDefn::~FeatureDefn()` (gdal_feature_defn.cpp 46-54). -/
def FeatureDefn.destroy (w : World) (self : ObjId) : World :=
  let f := w.featureDefn self
  if f.this_ ≠ 0 then
    let w1 := if f.owned_ then w.log ⟨"Release", f.this_, []⟩ else w
    { w1 with feature_defns := w1.feature_defns.set self { w1.featureDefn self with this_ := 0 } }
  else w

/-- `FeatureDefn::New(const Arguments& args)` (gdal_feature_defn.cpp 56-82), the
JS constructor: `new FeatureDefn()` when it is called without an `External`.
The object under construction, `args.This()`, is the JS side of the wrapper.
`new OGRFeatureDefn()` is a native call whose answer is the new definition;
calling `Reference()` through a null pointer ends the run. -/
def FeatureDefn.NewArguments (nat : Native) (w : World) (isConstructCall : Bool)
    (args : List JsValue) : World × Outcome :=
  if !isConstructCall then
    (w, .throw "Cannot call constructor as function, you need to use 'new' keyword")
  else
    match argAt args 0 with
    | .external f =>
      ({ w with feature_defns :=
          w.feature_defns.set f { w.featureDefn f with fields_ := .collection .FeatureDefnFields f } },
        .ret (.object .FeatureDefn f))
    | _ =>
      if args.length ≠ 0 then (w, .throw "FeatureDefn constructor doesn't take any arguments")
      else
        let c : NativeCall := ⟨"new OGRFeatureDefn", 0, []⟩
        let defn := nat.retPtr c
        let f : ObjId := w.feature_defns.length
        let w1 := { w.log c with feature_defns := w.feature_defns ++ [{ this_ := defn, owned_ := true }] }
        if defn = 0 then (w1, .abort)
        else
          let w2 := w1.log ⟨"Reference", defn, []⟩
          ({ w2 with feature_defns :=
              w2.feature_defns.set f { w2.featureDefn f with fields_ := .collection .FeatureDefnFields f } },
            .ret (.object .FeatureDefn f))

/-- The reference count of the native feature definition `p` after the recorded
calls `t`, from the count `r` it had before them: in GDAL,
`OGRFeatureDefn::Reference()` adds one and `OGRFeatureDefn::Release()` takes
one, and a definition just created or cloned has the count 0. -/
def referenceCount (r : Int) (t : List NativeCall) (p : Ptr) : Int :=
  r + (t.count ⟨"Reference", p, []⟩ : Nat) - (t.count ⟨"Release", p, []⟩ : Nat)


/-! ## Layer -/

/-- `Layer::dispose()` (gdal_layer.cpp 71-86). -/
def Layer.dispose (w : World) (self : ObjId) : World :=
  let l := w.layer self
  if l.this_ ≠ 0 then
    let w1 := { w with layer_cache := w.layer_cache.erase l.this_ }
    let w2 :=
      if l.is_result_set ∧ l.parent_ds ≠ 0 ∧ l.this_ ≠ 0 then
        w1.log ⟨"ReleaseResultSet", l.parent_ds, [.ptr l.this_]⟩
      else w1
    w2.setLayer self { w2.layer self with this_ := 0 }
  else w

/-- One effect of `Layer::dispose` on the state, as the source performs them
one after the other: the eviction of a key from `Layer::cache`, a native call,
or the assignment of `this_`. -/
inductive Layer.Effect
  | cacheErase (key : Ptr)
  | native (c : NativeCall)
  | setHandle (p : Ptr)
  deriving DecidableEq, Repr

/-- The state after one effect of `Layer::dispose` on the wrapper `self`. -/
def Layer.Effect.apply (self : ObjId) (w : World) : Layer.Effect → World
  | .cacheErase key => { w with layer_cache := w.layer_cache.erase key }
  | .native c => w.log c
  | .setHandle p => w.setLayer self { w.layer self with this_ := p }

/-- `Layer::dispose()` (gdal_layer.cpp 71-86) as the list of its effects, in the
order of the statements of the source: `cache.erase(this_)` (line 77), then
`parent_ds->ReleaseResultSet(this_)` under its condition (lines 78-81), then
`this_ = NULL` (line 84). -/
def Layer.disposeEffects (w : World) (self : ObjId) : List Layer.Effect :=
  let l := w.layer self
  if l.this_ ≠ 0 then
    [.cacheErase l.this_] ++
      (if l.is_result_set ∧ l.parent_ds ≠ 0 ∧ l.this_ ≠ 0 then
        [.native ⟨"ReleaseResultSet", l.parent_ds, [.ptr l.this_]⟩]
      else []) ++
      [.setHandle 0]
  else []

/-- `Layer::New(OGRLayer *raw, GDALDataset *raw_parent, bool result_set)`
(gdal_layer.cpp 126-172).  `new Layer(raw)` and `NewInstance` together add one
wrapper to the heap; `NewInstance` runs `Layer::New(const Arguments&)`, which
sets the hidden values `features_` and `fields_`. -/
def Layer.New (w : World) (raw raw_parent : Ptr) (result_set : Bool) : World × Outcome :=
  if raw = 0 then (w, .ret .null)
  else if w.layer_cache.has raw then (w, .ret (w.layer_cache.handle .Layer raw))
  else
    let obj : ObjId := w.layers.length
    let wrapped : Layer :=
      { this_ := raw, parent_ds := 0, is_result_set := result_set,
        features_ := .collection .LayerFeatures obj,
        fields_ := .collection .LayerFields obj }
    let w1 := { w with layers := w.layers ++ [wrapped] }
    match w1.layer_cache.add raw obj with
    | none => (w1, .abort)
    | some c =>
      let w2 := { w1 with layer_cache := c }
      if raw_parent ≠ 0 then
        if w2.dataset_cache.has raw_parent then
          let ds := w2.dataset_cache.handle .Dataset raw_parent
          let w3 := w2.setLayer obj { w2.layer obj with parent_ds := raw_parent, ds_ := ds }
          (w3, .ret (.object .Layer obj))
        else (w2, .throw "Layer's parent dataset disappeared from cache")
      else (w2, .ret (.object .Layer obj))

/-- The state after `n` calls of `Layer::dispose()` on the wrapper `self`. -/
def Layer.disposeTimes (self : ObjId) : Nat → World → World
  | 0, w => w
  | n + 1, w => Layer.disposeTimes self n (Layer.dispose w self)

/-- `Type::constructor->HasInstance(v)` for `Type = Geometry`: the value is the
JS object of a geometry wrapper. -/
def JsValue.isGeometryInstance : JsValue → Bool
  | .object c _ =>
    c = .Geometry || c = .Point || c = .LineString || c = .LinearRing || c = .Polygon
      || c = .GeometryCollection || c = .MultiPoint || c = .MultiLineString || c = .MultiPolygon
  | _ => false

/-- `NODE_ARG_WRAPPED_OPT(num, name, Geometry, var)`: the native pointer
`var->get()` of the wrapper the variable ends up with (`none` if it stays
`NULL`), or the message thrown. -/
def NODE_ARG_WRAPPED_OPT (w : World) (args : List JsValue) (num : Nat) (name : String) :
    Except String (Option Ptr) :=
  if args.length > num ∧ !(argAt args num).IsNullOrUndefined then
    match argAt args num with
    | .object c id =>
      if !(JsValue.object c id).isGeometryInstance then
        .error (name ++ " must be an instance of Geometry")
      else if (w.geometry id).this_ = 0 then .error "Geometry parameter already destroyed"
      else .ok (some (w.geometry id).this_)
    | _ => .error (name ++ " must be an instance of Geometry")
  else .ok none

/-- `NODE_WRAPPED_METHOD_WITH_OGRERR_RESULT(Layer, syncToDisk, SyncToDisk)`
(gdal_layer.cpp 189), the JS method `flush`. -/
def Layer.syncToDisk (nat : Native) (w : World) (self : ObjId) (_args : List JsValue) :
    World × Outcome :=
  let obj := w.layer self
  if obj.this_ = 0 then (w, .throw "Layer object has already been destroyed")
  else
    let c : NativeCall := ⟨"SyncToDisk", obj.this_, []⟩
    let err := nat.retInt c
    if err ≠ 0 then NODE_THROW_OGRERR nat (w.log c) err else (w.log c, .ret .undefined)

/-- `NODE_WRAPPED_METHOD_WITH_RESULT_1_STRING_PARAM(Layer, testCapability,
Boolean, TestCapability, "capability")` (gdal_layer.cpp 190).  The macro
stringifies the quoted parameter name, quotes included. -/
def Layer.testCapability (nat : Native) (w : World) (self : ObjId) (args : List JsValue) :
    World × Outcome :=
  match NODE_ARG_STR args 0 "\"capability\"" with
  | .error msg => (w, .throw msg)
  | .ok param =>
    let obj := w.layer self
    if obj.this_ = 0 then (w, .throw "Layer object has already been destroyed")
    else
      let c : NativeCall := ⟨"TestCapability", obj.this_, [.str (some param)]⟩
      (w.log c, .ret (.boolean (nat.retInt c ≠ 0)))

/-- `Layer::getExtent` (gdal_layer.cpp 192-219).  The output parameters 0 to 3
of `GetExtent` are `MinX`, `MaxX`, `MinY`, `MaxY` of the envelope. -/
def Layer.getExtent (nat : Native) (w : World) (self : ObjId) (args : List JsValue) :
    World × Outcome :=
  let layer := w.layer self
  if layer.this_ = 0 then (w, .throw "Layer object has already been destroyed")
  else
    match NODE_ARG_BOOL_OPT args 0 "force" true with
    | .error msg => (w, .throw msg)
    | .ok force =>
      let c : NativeCall := ⟨"GetExtent", layer.this_, [.int (if force then 1 else 0)]⟩
      let err := nat.retInt c
      if err ≠ 0 then (w.log c, .throw "Can't get layer extent without computing it")
      else
        (w.log c, .ret (.plain [("minX", .num (nat.outNum c 0)), ("maxX", .num (nat.outNum c 1)),
          ("minY", .num (nat.outNum c 2)), ("maxY", .num (nat.outNum c 3))]))

/-- `Layer::getSpatialFilter` (gdal_layer.cpp 221-231). -/
def Layer.getSpatialFilter (nat : Native) (co : Collaborators) (w : World) (self : ObjId)
    (_args : List JsValue) : World × Outcome :=
  let layer := w.layer self
  if layer.this_ = 0 then (w, .throw "Layer object has already been destroyed")
  else
    let c : NativeCall := ⟨"GetSpatialFilter", layer.this_, []⟩
    Geometry.New nat co (w.log c) (nat.retPtr c) false

/-- `Layer::setSpatialFilter` (gdal_layer.cpp 233-264). -/
def Layer.setSpatialFilter (w : World) (self : ObjId) (args : List JsValue) : World × Outcome :=
  let layer := w.layer self
  if layer.this_ = 0 then (w, .throw "Layer object has already been destroyed")
  else if args.length = 1 then
    match NODE_ARG_WRAPPED_OPT w args 0 "filter" with
    | .error msg => (w, .throw msg)
    | .ok (some g) => (w.log ⟨"SetSpatialFilter", layer.this_, [.ptr g]⟩, .ret .undefined)
    | .ok none => (w.log ⟨"SetSpatialFilter", layer.this_, [.ptr 0]⟩, .ret .undefined)
  else if args.length = 4 then
    match NODE_ARG_DOUBLE args 0 "minX" with
    | .error msg => (w, .throw msg)
    | .ok minX =>
    match NODE_ARG_DOUBLE args 1 "minY" with
    | .error msg => (w, .throw msg)
    | .ok minY =>
    match NODE_ARG_DOUBLE args 2 "maxX" with
    | .error msg => (w, .throw msg)
    | .ok maxX =>
    match NODE_ARG_DOUBLE args 3 "maxY" with
    | .error msg => (w, .throw msg)
    | .ok maxY =>
      (w.log ⟨"SetSpatialFilterRect", layer.this_, [.num minX, .num minY, .num maxX, .num maxY]⟩,
        .ret .undefined)
  else (w, .throw "Invalid number of arguments")

/-- `Layer::setAttributeFilter` (gdal_layer.cpp 266-288). -/
def Layer.setAttributeFilter (nat : Native) (w : World) (self : ObjId) (args : List JsValue) :
    World × Outcome :=
  let layer := w.layer self
  if layer.this_ = 0 then (w, .throw "Layer object has already been destroyed")
  else
    match NODE_ARG_OPT_STR args 0 "filter" "" with
    | .error msg => (w, .throw msg)
    | .ok filter =>
      let c : NativeCall :=
        if filter.isEmpty then ⟨"SetAttributeFilter", layer.this_, [.str none]⟩
        else ⟨"SetAttributeFilter", layer.this_, [.str (some filter)]⟩
      let err := nat.retInt c
      if err ≠ 0 then NODE_THROW_OGRERR nat (w.log c) err else (w.log c, .ret .undefined)

/-- `Layer::dsGetter` (gdal_layer.cpp 303-307). -/
def Layer.dsGetter (w : World) (self : ObjId) : World × Outcome :=
  (w, .ret (w.layer self).ds_)

/-- `Layer::srsGetter` (gdal_layer.cpp 309-317). -/
def Layer.srsGetter (nat : Native) (co : Collaborators) (w : World) (self : ObjId) :
    World × Outcome :=
  let layer := w.layer self
  if layer.this_ = 0 then (w, .throw "Layer object has already been destroyed")
  else
    let c : NativeCall := ⟨"GetSpatialRef", layer.this_, []⟩
    co.spatialReferenceNew (w.log c) (nat.retPtr c) false

/-- `Layer::nameGetter` (gdal_layer.cpp 319-327). -/
def Layer.nameGetter (nat : Native) (w : World) (self : ObjId) : World × Outcome :=
  let layer := w.layer self
  if layer.this_ = 0 then (w, .throw "Layer object has already been destroyed")
  else
    let c : NativeCall := ⟨"GetName", layer.this_, []⟩
    (w.log c, .ret (SafeString.New (nat.retStr c)))

/-- `Layer::geomColumnGetter` (gdal_layer.cpp 329-337). -/
def Layer.geomColumnGetter (nat : Native) (w : World) (self : ObjId) : World × Outcome :=
  let layer := w.layer self
  if layer.this_ = 0 then (w, .throw "Layer object has already been destroyed")
  else
    let c : NativeCall := ⟨"GetGeometryColumn", layer.this_, []⟩
    (w.log c, .ret (SafeString.New (nat.retStr c)))

/-- `Layer::fidColumnGetter` (gdal_layer.cpp 339-347). -/
def Layer.fidColumnGetter (nat : Native) (w : World) (self : ObjId) : World × Outcome :=
  let layer := w.layer self
  if layer.this_ = 0 then (w, .throw "Layer object has already been destroyed")
  else
    let c : NativeCall := ⟨"GetFIDColumn", layer.this_, []⟩
    (w.log c, .ret (SafeString.New (nat.retStr c)))

/-- `Layer::geomTypeGetter` (gdal_layer.cpp 349-357). -/
def Layer.geomTypeGetter (nat : Native) (w : World) (self : ObjId) : World × Outcome :=
  let layer := w.layer self
  if layer.this_ = 0 then (w, .throw "Layer object has already been destroyed")
  else
    let c : NativeCall := ⟨"GetGeomType", layer.this_, []⟩
    (w.log c, .ret (.int32 (nat.retInt c)))

/-! ## RasterBand -/

/-- The guarded recursive call of `RasterBand::dispose`:
`if (RasterBand::cache.has(band)) ObjectWrap::Unwrap<RasterBand>(RasterBand::cache.get(band))->dispose()`. -/
def RasterBand.disposeCached (rec : World → ObjId → Option World) (w : World) (band : Ptr) :
    Option World :=
  if w.band_cache.has band then
    match w.band_cache.get band with
    | some band_wrapped => rec w band_wrapped
    | none => none
  else some w

/-- The loop `for (int i = 0; i < n; i++)` of `RasterBand::dispose` from index
`i` with `r` iterations left.  `this_` is read anew in every iteration;
dereferencing it when it is null has no result. -/
def RasterBand.disposeOverviews (nat : Native) (rec : World → ObjId → Option World)
    (self : ObjId) : Nat → Int → World → Option World
  | 0, _, w => some w
  | r + 1, i, w =>
    let this_ := (w.band self).this_
    if this_ = 0 then none
    else
      let band := nat.GetOverview this_ i
      let w1 := w.log ⟨"GetOverview", this_, [.int i]⟩
      match RasterBand.disposeCached rec w1 band with
      | none => none
      | some w2 => RasterBand.disposeOverviews nat rec self r (i + 1) w2

/-- `RasterBand::dispose()` (gdal_rasterband.cpp 83-114).  The recursion is
bounded by `fuel`; `none` means that the fuel ran out or a null `this_` was
dereferenced. -/
def RasterBand.dispose (nat : Native) : Nat → World → ObjId → Option World
  | 0, _, _ => none
  | fuel + 1, w, self =>
    let this_ := (w.band self).this_
    if this_ = 0 then some w
    else
      let w1 := { w with band_cache := w.band_cache.erase this_ }
      let n := nat.GetOverviewCount this_
      let w2 := w1.log ⟨"GetOverviewCount", this_, []⟩
      match RasterBand.disposeOverviews nat (RasterBand.dispose nat fuel) self n.toNat 0 w2 with
      | none => none
      | some w3 =>
        let this3 := (w3.band self).this_
        if this3 = 0 then none
        else
          let band := nat.GetMaskBand this3
          let w4 := w3.log ⟨"GetMaskBand", this3, []⟩
          match RasterBand.disposeCached (RasterBand.dispose nat fuel) w4 band with
          | none => none
          | some w5 => some (w5.setBand self { w5.band self with this_ := 0 })

/-- `RasterBand::New(GDALRasterBand *raw, GDALDataset *raw_parent)`
(gdal_rasterband.cpp 141-178).  `NewInstance` runs
`RasterBand::New(const Arguments&)`, which sets the hidden values `overviews_`
and `pixels_`. -/
def RasterBand.New (w : World) (raw raw_parent : Ptr) : World × Outcome :=
  if raw = 0 then (w, .ret .null)
  else if w.band_cache.has raw then (w, .ret (w.band_cache.handle .RasterBand raw))
  else
    let obj : ObjId := w.bands.length
    let wrapped : RasterBand :=
      { this_ := raw, parent_ds := 0,
        overviews_ := .collection .RasterBandOverviews obj,
        pixels_ := .collection .RasterBandPixels obj }
    let w1 := { w with bands := w.bands ++ [wrapped] }
    match w1.band_cache.add raw obj with
    | none => (w1, .abort)
    | some c =>
      let w2 := { w1 with band_cache := c }
      if raw_parent ≠ 0 then
        if w2.dataset_cache.has raw_parent then
          let ds := w2.dataset_cache.handle .Dataset raw_parent
          let w3 := w2.setBand obj { w2.band obj with parent_ds := raw_parent, ds_ := ds }
          (w3, .ret (.object .RasterBand obj))
        else (w2, .throw "Band's parent dataset disappeared from cache")
      else (w2, .ret (.object .RasterBand obj))

/-- `Number::New(double)`: the number as a JS value. -/
def JsValue.ofNumber (d : Dbl) : JsValue :=
  match d with
  | .finite q =>
    if q.den = 1 ∧ -(2 ^ 31 : Int) ≤ q.num ∧ q.num < 2 ^ 31 then .int32 q.num else .double d
  | _ => .double d

/-- `NODE_WRAPPED_METHOD(RasterBand, flush, FlushCache)` (gdal_rasterband.cpp 186). -/
def RasterBand.flush (w : World) (self : ObjId) (_args : List JsValue) : World × Outcome :=
  let obj := w.band self
  if obj.this_ = 0 then (w, .throw "RasterBand object has already been destroyed")
  else (w.log ⟨"FlushCache", obj.this_, []⟩, .ret .undefined)

/-- `NODE_WRAPPED_METHOD_WITH_RESULT(RasterBand, getMaskFlags, Integer,
GetMaskFlags)` (gdal_rasterband.cpp 187). -/
def RasterBand.getMaskFlags (nat : Native) (w : World) (self : ObjId) (_args : List JsValue) :
    World × Outcome :=
  let obj := w.band self
  if obj.this_ = 0 then (w, .throw "RasterBand object has already been destroyed")
  else
    let c : NativeCall := ⟨"GetMaskFlags", obj.this_, []⟩
    (w.log c, .ret (.int32 (nat.retInt c)))

/-- `NODE_WRAPPED_METHOD_WITH_CPLERR_RESULT_1_INTEGER_PARAM(RasterBand,
createMaskBand, CreateMaskBand, "number of desired samples")`
(gdal_rasterband.cpp 188).  The macro stringifies the quoted parameter name,
quotes included. -/
def RasterBand.createMaskBand (nat : Native) (w : World) (self : ObjId) (args : List JsValue) :
    World × Outcome :=
  match NODE_ARG_INT nat args 0 "\"number of desired samples\"" with
  | .error msg => (w, .throw msg)
  | .ok param =>
    let obj := w.band self
    if obj.this_ = 0 then (w, .throw "RasterBand object has already been destroyed")
    else
      let c : NativeCall := ⟨"CreateMaskBand", obj.this_, [.int param]⟩
      let err := nat.retInt c
      if err ≠ 0 then NODE_THROW_CPLERR nat (w.log c) else (w.log c, .ret .undefined)

/-- `RasterBand::getMaskBand` (gdal_rasterband.cpp 190-204); `getParent()` is
the field `parent_ds`. -/
def RasterBand.getMaskBand (nat : Native) (w : World) (self : ObjId) (_args : List JsValue) :
    World × Outcome :=
  let band := w.band self
  if band.this_ = 0 then (w, .throw "RasterBand object has already been destroyed")
  else
    let mask_band := nat.GetMaskBand band.this_
    let w1 := w.log ⟨"GetMaskBand", band.this_, []⟩
    if mask_band = 0 then (w1, .ret .null)
    else RasterBand.New w1 mask_band band.parent_ds

/-- `RasterBand::fill` (gdal_rasterband.cpp 206-224).  The second argument is
read into `real`, as the source has it. -/
def RasterBand.fill (nat : Native) (w : World) (self : ObjId) (args : List JsValue) :
    World × Outcome :=
  let imaginary : Dbl := .finite 0
  match NODE_ARG_DOUBLE args 0 "real value" with
  | .error msg => (w, .throw msg)
  | .ok real0 =>
  match NODE_ARG_DOUBLE_OPT args 1 "imaginary value" real0 with
  | .error msg => (w, .throw msg)
  | .ok real =>
    let band := w.band self
    if band.this_ = 0 then (w, .throw "RasterBand object has already been destroyed")
    else
      let c : NativeCall := ⟨"Fill", band.this_, [.num real, .num imaginary]⟩
      let err := nat.retInt c
      if err ≠ 0 then NODE_THROW_CPLERR nat (w.log c) else (w.log c, .ret .undefined)

/-- The constant `CPLE_OpenFailed` of `cpl_error.h`. -/
def CPLE_OpenFailed : Int := 4

/-- The constant `CE_Warning` of `cpl_error.h`. -/
def CE_Warning : Int := 2

/-- `statisticsErrorHandler` (gdal_rasterband.cpp 231-238) run on the errors a
native call reports, in order: the value of `stats_file_err` afterwards. -/
def statisticsErrorHandler (stats_file_err : String) : List (Int × String) → String
  | [] => stats_file_err
  | (err_no, msg) :: rest =>
    statisticsErrorHandler (if err_no = CPLE_OpenFailed then msg else stats_file_err) rest

/-- A native statistics call between `pushStatsErrorHandler()` and
`popStatsErrorHandler()` (gdal_rasterband.cpp 239-245): the call is recorded
and the errors it reports go through `statisticsErrorHandler`. -/
def World.statsCall (nat : Native) (w : World) (c : NativeCall) : World :=
  { w.log c with stats_file_err := statisticsErrorHandler w.stats_file_err (nat.reported c) }

/-- The object `{min, max, mean, std_dev}` built from the output parameters of
a statistics call. -/
def statsResult (nat : Native) (c : NativeCall) : JsValue :=
  .plain [("min", .num (nat.outNum c 0)), ("max", .num (nat.outNum c 1)),
    ("mean", .num (nat.outNum c 2)), ("std_dev", .num (nat.outNum c 3))]

/-- `RasterBand::getStatistics` (gdal_rasterband.cpp 248-280).  When
`stats_file_err` is not empty the source calls `NODE_THROW` without returning:
the exception is scheduled and is what the caller gets. -/
def RasterBand.getStatistics (nat : Native) (w : World) (self : ObjId) (args : List JsValue) :
    World × Outcome :=
  match NODE_ARG_BOOL args 0 "allow approximation" with
  | .error msg => (w, .throw msg)
  | .ok approx =>
  match NODE_ARG_BOOL args 1 "force" with
  | .error msg => (w, .throw msg)
  | .ok force =>
    let band := w.band self
    if band.this_ = 0 then (w, .throw "RasterBand object has already been destroyed")
    else
      let c : NativeCall := ⟨"GetStatistics", band.this_,
        [.int (if approx then 1 else 0), .int (if force then 1 else 0)]⟩
      let err := nat.retInt c
      let w1 := w.statsCall nat c
      if !w1.stats_file_err.isEmpty then (w1, .throw w1.stats_file_err)
      else if err ≠ 0 then
        if !force ∧ err = CE_Warning then
          (w1, .throw "Statistics cannot be efficiently computed without scanning raster")
        else NODE_THROW_CPLERR nat w1
      else (w1, .ret (statsResult nat c))

/-- `RasterBand::computeStatistics` (gdal_rasterband.cpp 282-310); see
`RasterBand.getStatistics` for the `NODE_THROW` without `return`. -/
def RasterBand.computeStatistics (nat : Native) (w : World) (self : ObjId)
    (args : List JsValue) : World × Outcome :=
  match NODE_ARG_BOOL args 0 "allow approximation" with
  | .error msg => (w, .throw msg)
  | .ok approx =>
    let band := w.band self
    if band.this_ = 0 then (w, .throw "RasterBand object has already been destroyed")
    else
      let c : NativeCall := ⟨"ComputeStatistics", band.this_, [.int (if approx then 1 else 0)]⟩
      let err := nat.retInt c
      let w1 := w.statsCall nat c
      if !w1.stats_file_err.isEmpty then (w1, .throw w1.stats_file_err)
      else if err ≠ 0 then NODE_THROW_CPLERR nat w1
      else (w1, .ret (statsResult nat c))

/-- `RasterBand::setStatistics` (gdal_rasterband.cpp 312-333). -/
def RasterBand.setStatistics (nat : Native) (w : World) (self : ObjId) (args : List JsValue) :
    World × Outcome :=
  match NODE_ARG_DOUBLE args 0 "min" with
  | .error msg => (w, .throw msg)
  | .ok min =>
  match NODE_ARG_DOUBLE args 1 "max" with
  | .error msg => (w, .throw msg)
  | .ok max =>
  match NODE_ARG_DOUBLE args 2 "mean" with
  | .error msg => (w, .throw msg)
  | .ok mean =>
  match NODE_ARG_DOUBLE args 3 "standard deviation" with
  | .error msg => (w, .throw msg)
  | .ok std_dev =>
    let band := w.band self
    if band.this_ = 0 then (w, .throw "RasterBand object has already been destroyed")
    else
      let c : NativeCall := ⟨"SetStatistics", band.this_,
        [.num min, .num max, .num mean, .num std_dev]⟩
      let err := nat.retInt c
      if err ≠ 0 then NODE_THROW_CPLERR nat (w.log c) else (w.log c, .ret .undefined)

/-- `CPLIsNan(double)`. -/
def CPLIsNan : Dbl → Bool
  | .nan => true
  | _ => false

/-- The constant `GDT_Unknown` of `gdal.h`. -/
def GDT_Unknown : Int := 0

/-- The constant `GA_Update` of `gdal.h`. -/
def GA_Update : Int := 1

/-- The constant `GCI_Undefined` of `gdal.h`. -/
def GCI_Undefined : Int := 0

/-- `RasterBand::dsGetter` (gdal_rasterband.cpp 335-339). -/
def RasterBand.dsGetter (w : World) (self : ObjId) : World × Outcome :=
  (w, .ret (w.band self).ds_)

/-- `RasterBand::overviewsGetter` (gdal_rasterband.cpp 341-345). -/
def RasterBand.overviewsGetter (w : World) (self : ObjId) : World × Outcome :=
  (w, .ret (w.band self).overviews_)

/-- `RasterBand::pixelsGetter` (gdal_rasterband.cpp 347-351). -/
def RasterBand.pixelsGetter (w : World) (self : ObjId) : World × Outcome :=
  (w, .ret (w.band self).pixels_)

/-- `RasterBand::idGetter` (gdal_rasterband.cpp 353-364). -/
def RasterBand.idGetter (nat : Native) (w : World) (self : ObjId) : World × Outcome :=
  let band := w.band self
  if band.this_ = 0 then (w, .throw "RasterBand object has already been destroyed")
  else
    let c : NativeCall := ⟨"GetBand", band.this_, []⟩
    let id := nat.retInt c
    (w.log c, .ret (if id = 0 then .null else .int32 id))

/-- `RasterBand::sizeGetter` (gdal_rasterband.cpp 366-378). -/
def RasterBand.sizeGetter (nat : Native) (w : World) (self : ObjId) : World × Outcome :=
  let band := w.band self
  if band.this_ = 0 then (w, .throw "RasterBand object has already been destroyed")
  else
    let cx : NativeCall := ⟨"GetXSize", band.this_, []⟩
    let cy : NativeCall := ⟨"GetYSize", band.this_, []⟩
    ((w.log cx).log cy, .ret (.plain [("x", .int (nat.retInt cx)), ("y", .int (nat.retInt cy))]))

/-- `RasterBand::blockSizeGetter` (gdal_rasterband.cpp 380-395). -/
def RasterBand.blockSizeGetter (nat : Native) (w : World) (self : ObjId) : World × Outcome :=
  let band := w.band self
  if band.this_ = 0 then (w, .throw "RasterBand object has already been destroyed")
  else
    let c : NativeCall := ⟨"GetBlockSize", band.this_, []⟩
    (w.log c, .ret (.plain [("x", .int (nat.outInt c 0)), ("y", .int (nat.outInt c 1))]))

/-- `RasterBand::minimumGetter` (gdal_rasterband.cpp 397-408). -/
def RasterBand.minimumGetter (nat : Native) (w : World) (self : ObjId) : World × Outcome :=
  let band := w.band self
  if band.this_ = 0 then (w, .throw "RasterBand object has already been destroyed")
  else
    let c : NativeCall := ⟨"GetMinimum", band.this_, []⟩
    (w.log c, .ret (JsValue.ofNumber (nat.retNum c)))

/-- `RasterBand::maximumGetter` (gdal_rasterband.cpp 410-421). -/
def RasterBand.maximumGetter (nat : Native) (w : World) (self : ObjId) : World × Outcome :=
  let band := w.band self
  if band.this_ = 0 then (w, .throw "RasterBand object has already been destroyed")
  else
    let c : NativeCall := ⟨"GetMaximum", band.this_, []⟩
    (w.log c, .ret (JsValue.ofNumber (nat.retNum c)))

/-- `RasterBand::offsetGetter` (gdal_rasterband.cpp 423-434). -/
def RasterBand.offsetGetter (nat : Native) (w : World) (self : ObjId) : World × Outcome :=
  let band := w.band self
  if band.this_ = 0 then (w, .throw "RasterBand object has already been destroyed")
  else
    let c : NativeCall := ⟨"GetOffset", band.this_, []⟩
    (w.log c, .ret (JsValue.ofNumber (nat.retNum c)))

/-- `RasterBand::scaleGetter` (gdal_rasterband.cpp 436-447). -/
def RasterBand.scaleGetter (nat : Native) (w : World) (self : ObjId) : World × Outcome :=
  let band := w.band self
  if band.this_ = 0 then (w, .throw "RasterBand object has already been destroyed")
  else
    let c : NativeCall := ⟨"GetScale", band.this_, []⟩
    (w.log c, .ret (JsValue.ofNumber (nat.retNum c)))

/-- `RasterBand::noDataValueGetter` (gdal_rasterband.cpp 449-462).  The output
parameter 0 of `GetNoDataValue` is `success`. -/
def RasterBand.noDataValueGetter (nat : Native) (w : World) (self : ObjId) : World × Outcome :=
  let band := w.band self
  if band.this_ = 0 then (w, .throw "RasterBand object has already been destroyed")
  else
    let c : NativeCall := ⟨"GetNoDataValue", band.this_, []⟩
    let success := nat.outInt c 0
    let result := nat.retNum c
    (w.log c, .ret (if success ≠ 0 ∧ !CPLIsNan result then JsValue.ofNumber result else .null))

/-- `RasterBand::unitTypeGetter` (gdal_rasterband.cpp 464-474). -/
def RasterBand.unitTypeGetter (nat : Native) (w : World) (self : ObjId) : World × Outcome :=
  let band := w.band self
  if band.this_ = 0 then (w, .throw "RasterBand object has already been destroyed")
  else
    let c : NativeCall := ⟨"GetUnitType", band.this_, []⟩
    (w.log c, .ret (SafeString.New (nat.retStr c)))

/-- `RasterBand::dataTypeGetter` (gdal_rasterband.cpp 476-488). -/
def RasterBand.dataTypeGetter (nat : Native) (w : World) (self : ObjId) : World × Outcome :=
  let band := w.band self
  if band.this_ = 0 then (w, .throw "RasterBand object has already been destroyed")
  else
    let c : NativeCall := ⟨"GetRasterDataType", band.this_, []⟩
    let type := nat.retInt c
    if type = GDT_Unknown then (w.log c, .ret .undefined)
    else
      let cn : NativeCall := ⟨"GDALGetDataTypeName", 0, [.int type]⟩
      ((w.log c).log cn, .ret (SafeString.New (nat.retStr cn)))

/-- `RasterBand::readOnlyGetter` (gdal_rasterband.cpp 490-500). -/
def RasterBand.readOnlyGetter (nat : Native) (w : World) (self : ObjId) : World × Outcome :=
  let band := w.band self
  if band.this_ = 0 then (w, .throw "RasterBand object has already been destroyed")
  else
    let c : NativeCall := ⟨"GetAccess", band.this_, []⟩
    (w.log c, .ret (.boolean (if nat.retInt c = GA_Update then false else true)))

/-- `RasterBand::hasArbitraryOverviewsGetter` (gdal_rasterband.cpp 502-512). -/
def RasterBand.hasArbitraryOverviewsGetter (nat : Native) (w : World) (self : ObjId) : World × Outcome :=
  let band := w.band self
  if band.this_ = 0 then (w, .throw "RasterBand object has already been destroyed")
  else
    let c : NativeCall := ⟨"HasArbitraryOverviews", band.this_, []⟩
    (w.log c, .ret (.boolean (nat.retInt c ≠ 0)))

/-- `RasterBand::categoryNamesGetter` (gdal_rasterband.cpp 514-535). -/
def RasterBand.categoryNamesGetter (nat : Native) (w : World) (self : ObjId) : World × Outcome :=
  let band := w.band self
  if band.this_ = 0 then (w, .throw "RasterBand object has already been destroyed")
  else
    let c : NativeCall := ⟨"GetCategoryNames", band.this_, []⟩
    (w.log c, .ret (.array ((nat.retStrs c).getD [])))

/-- `RasterBand::colorInterpretationGetter` (gdal_rasterband.cpp 537-547). -/
def RasterBand.colorInterpretationGetter (nat : Native) (w : World) (self : ObjId) : World × Outcome :=
  let band := w.band self
  if band.this_ = 0 then (w, .throw "RasterBand object has already been destroyed")
  else
    let c : NativeCall := ⟨"GetColorInterpretation", band.this_, []⟩
    let interp := nat.retInt c
    if interp = GCI_Undefined then (w.log c, .ret .undefined)
    else
      let cn : NativeCall := ⟨"GDALGetColorInterpretationName", 0, [.int interp]⟩
      ((w.log c).log cn, .ret (SafeString.New (nat.retStr cn)))

/-- `RasterBand::unitTypeSetter` (gdal_rasterband.cpp 549-567); a setter returns
nothing, which is `undefined` here. -/
def RasterBand.unitTypeSetter (nat : Native) (w : World) (self : ObjId) (value : JsValue) :
    World × Outcome :=
  let band := w.band self
  if band.this_ = 0 then (w, .throw "RasterBand object has already been destroyed")
  else
    match value with
    | .string input =>
      let c : NativeCall := ⟨"SetUnitType", band.this_, [.str (some (TOSTR input))]⟩
      if nat.retInt c ≠ 0 then NODE_THROW_CPLERR nat (w.log c) else (w.log c, .ret .undefined)
    | _ => (w, .throw "Unit type must be a string")

/-- `RasterBand::noDataValueSetter` (gdal_rasterband.cpp 569-593); a setter returns
nothing, which is `undefined` here. -/
def RasterBand.noDataValueSetter (nat : Native) (w : World) (self : ObjId) (value : JsValue) :
    World × Outcome :=
  let band := w.band self
  if band.this_ = 0 then (w, .throw "RasterBand object has already been destroyed")
  else
    if value.IsNullOrUndefined ∨ value.IsNumber then
      let input : Dbl := if value.IsNullOrUndefined then .nan else value.NumberValue
      let c : NativeCall := ⟨"SetNoDataValue", band.this_, [.num input]⟩
      if nat.retInt c ≠ 0 then NODE_THROW_CPLERR nat (w.log c) else (w.log c, .ret .undefined)
    else (w, .throw "No data value must be a number")

/-- `RasterBand::scaleSetter` (gdal_rasterband.cpp 595-613); a setter returns
nothing, which is `undefined` here. -/
def RasterBand.scaleSetter (nat : Native) (w : World) (self : ObjId) (value : JsValue) :
    World × Outcome :=
  let band := w.band self
  if band.this_ = 0 then (w, .throw "RasterBand object has already been destroyed")
  else
    if !value.IsNumber then (w, .throw "Scale must be a number")
    else
      let c : NativeCall := ⟨"SetScale", band.this_, [.num value.NumberValue]⟩
      if nat.retInt c ≠ 0 then NODE_THROW_CPLERR nat (w.log c) else (w.log c, .ret .undefined)

/-- `RasterBand::offsetSetter` (gdal_rasterband.cpp 615-633); a setter returns
nothing, which is `undefined` here. -/
def RasterBand.offsetSetter (nat : Native) (w : World) (self : ObjId) (value : JsValue) :
    World × Outcome :=
  let band := w.band self
  if band.this_ = 0 then (w, .throw "RasterBand object has already been destroyed")
  else
    if !value.IsNumber then (w, .throw "Offset must be a number")
    else
      let c : NativeCall := ⟨"SetOffset", band.this_, [.num value.NumberValue]⟩
      if nat.retInt c ≠ 0 then NODE_THROW_CPLERR nat (w.log c) else (w.log c, .ret .undefined)

/-- `RasterBand::categoryNamesSetter` (gdal_rasterband.cpp 635-669); a setter returns
nothing, which is `undefined` here. -/
def RasterBand.categoryNamesSetter (nat : Native) (w : World) (self : ObjId) (value : JsValue) :
    World × Outcome :=
  let band := w.band self
  if band.this_ = 0 then (w, .throw "RasterBand object has already been destroyed")
  else
    match value with
    | .array names =>
      let list : Option (List String) :=
        if names.length > 0 then some (names.map TOSTR) else none
      let c : NativeCall := ⟨"SetCategoryNames", band.this_, [.strs list]⟩
      if nat.retInt c ≠ 0 then NODE_THROW_CPLERR nat (w.log c) else (w.log c, .ret .undefined)
    | _ => (w, .throw "Category names must be an array")

/-- `RasterBand::colorInterpretationSetter` (gdal_rasterband.cpp 671-694); a setter returns
nothing, which is `undefined` here. -/
def RasterBand.colorInterpretationSetter (nat : Native) (w : World) (self : ObjId) (value : JsValue) :
    World × Outcome :=
  let band := w.band self
  if band.this_ = 0 then (w, .throw "RasterBand object has already been destroyed")
  else
    match value with
    | .string name =>
      let cn : NativeCall :=
        ⟨"GDALGetColorInterpretationByName", 0, [.str (some (TOSTR name))]⟩
      let c : NativeCall := ⟨"SetColorInterpretation", band.this_, [.int (nat.retInt cn)]⟩
      if nat.retInt c ≠ 0 then NODE_THROW_CPLERR nat ((w.log cn).log c)
      else ((w.log cn).log c, .ret .undefined)
    | v =>
      if !v.IsNullOrUndefined then (w, .throw "color interpretation must be a string or undefined")
      else
        let c : NativeCall := ⟨"SetColorInterpretation", band.this_, [.int GCI_Undefined]⟩
        if nat.retInt c ≠ 0 then NODE_THROW_CPLERR nat (w.log c) else (w.log c, .ret .undefined)

/-! ## The wrappers `New` builds -/

/-- The wrapper `Layer::New` leaves on the heap on a cache miss: the parent
link and the hidden value `ds_` are set only if the parent is not null and is
in the dataset cache. -/
def Layer.fresh (w : World) (raw raw_parent : Ptr) (result_set : Bool) : Layer :=
  if raw_parent ≠ 0 ∧ w.dataset_cache.has raw_parent = true then
    { this_ := raw, parent_ds := raw_parent, is_result_set := result_set,
      ds_ := w.dataset_cache.handle .Dataset raw_parent,
      features_ := .collection .LayerFeatures w.layers.length,
      fields_ := .collection .LayerFields w.layers.length }
  else
    { this_ := raw, parent_ds := 0, is_result_set := result_set,
      features_ := .collection .LayerFeatures w.layers.length,
      fields_ := .collection .LayerFields w.layers.length }

/-- The wrapper `RasterBand::New` leaves on the heap on a cache miss. -/
def RasterBand.fresh (w : World) (raw raw_parent : Ptr) : RasterBand :=
  if raw_parent ≠ 0 ∧ w.dataset_cache.has raw_parent = true then
    { this_ := raw, parent_ds := raw_parent,
      ds_ := w.dataset_cache.handle .Dataset raw_parent,
      overviews_ := .collection .RasterBandOverviews w.bands.length,
      pixels_ := .collection .RasterBandPixels w.bands.length }
  else
    { this_ := raw, parent_ds := 0,
      overviews_ := .collection .RasterBandOverviews w.bands.length,
      pixels_ := .collection .RasterBandPixels w.bands.length }

/-! ## Reachable states, the cache invariant, links between native bands -/

/-- The number of entries a cache holds for a key. -/
def ObjectCache.count (c : ObjectCache) (key : Ptr) : Nat :=
  c.entries.countP (fun e => e.1 == key)

/-- The states reachable from empty `Layer` and `RasterBand` caches and heaps
by calls of `Layer::New`, `Layer::dispose`, `RasterBand::New` and
`RasterBand::dispose` (explicit, or by the destructor), with any arguments,
the calls of `New` that fail included.  The dataset cache is maintained
outside these sources: it is arbitrary at the start and may change between
calls. -/
inductive Reachable : World → Prop
  | init (dataset_cache : ObjectCache) (datasets : List Dataset) :
      Reachable { dataset_cache := dataset_cache, datasets := datasets }
  | datasets (w : World) (dataset_cache : ObjectCache) (datasets : List Dataset) :
      Reachable w → Reachable { w with dataset_cache := dataset_cache, datasets := datasets }
  | layerNew (w : World) (raw raw_parent : Ptr) (result_set : Bool) :
      Reachable w → Reachable (Layer.New w raw raw_parent result_set).1
  | layerDispose (w : World) (self : ObjId) :
      Reachable w → Reachable (Layer.dispose w self)
  | bandNew (w : World) (raw raw_parent : Ptr) :
      Reachable w → Reachable (RasterBand.New w raw raw_parent).1
  | bandDispose (nat : Native) (fuel : Nat) (w w1 : World) (self : ObjId) :
      Reachable w → RasterBand.dispose nat fuel w self = some w1 → Reachable w1

/-- The cache invariant for one class, given the cache, the handle `this_` of
every wrapper and the size of the heap: at most one entry per key, and every
entry maps its key to an existing wrapper whose handle is the key, which is
not null. -/
def CacheOk (c : ObjectCache) (handle : ObjId → Ptr) (heapSize : Nat) : Prop :=
  (c.entries.map Prod.fst).Nodup ∧
    ∀ e ∈ c.entries, e.2 < heapSize ∧ handle e.2 = e.1 ∧ e.1 ≠ 0

/-- Every wrapper with a non-null handle is the one cached for its handle. -/
def LiveCached (c : ObjectCache) (handle : ObjId → Ptr) (heapSize : Nat) : Prop :=
  ∀ id, id < heapSize → handle id ≠ 0 → c.get (handle id) = some id

/-- The invariant of the reachable states. -/
structure Inv (w : World) : Prop where
  layers_ok : CacheOk w.layer_cache (fun id => (w.layer id).this_) w.layers.length
  bands_ok : CacheOk w.band_cache (fun id => (w.band id).this_) w.bands.length
  layers_live : LiveCached w.layer_cache (fun id => (w.layer id).this_) w.layers.length
  bands_live : LiveCached w.band_cache (fun id => (w.band id).this_) w.bands.length

/-- The native band `b` is an overview `GetOverview(i)`, `0 <= i <
GetOverviewCount()`, or the mask band `GetMaskBand()` of the native band `a`. -/
def Native.link (nat : Native) (a b : Ptr) : Prop :=
  (∃ i : Int, 0 ≤ i ∧ i < nat.GetOverviewCount a ∧ nat.GetOverview a i = b) ∨
    nat.GetMaskBand a = b

/-- The native band `b` is `a` or is reachable from `a` through overview and
mask links. -/
inductive Native.Linked (nat : Native) (a : Ptr) : Ptr → Prop
  | refl : Native.Linked nat a a
  | step (b c : Ptr) : Native.Linked nat a b → nat.link b c → Native.Linked nat a c

/-! ## What a run of `RasterBand::dispose` preserves and guarantees -/

/-- The cache invariant of `RasterBand::cache` in a state. -/
def BandsOk (w : World) : Prop :=
  CacheOk w.band_cache (fun id => (w.band id).this_) w.bands.length

/-- Every `RasterBand` wrapper with a non-null handle, those in `P` (the ones
whose `dispose` is under way) apart, is the one cached for its handle. -/
def BandsLive (P : ObjId → Prop) (w : World) : Prop :=
  ∀ id, id < w.bands.length → ¬ P id → (w.band id).this_ ≠ 0 →
    w.band_cache.get (w.band id).this_ = some id

/-- What a run of `RasterBand::dispose` started on the native band `root` may
change between two states: only the trace, the band cache, which loses
entries with keys linked to `root`, and the handles of the wrappers of lost
entries, which become null. -/
structure BandStep (nat : Native) (root : Ptr) (w w1 : World) : Prop where
  layers : w1.layers = w.layers
  geometries : w1.geometries = w.geometries
  feature_defns : w1.feature_defns = w.feature_defns
  datasets : w1.datasets = w.datasets
  layer_cache : w1.layer_cache = w.layer_cache
  dataset_cache : w1.dataset_cache = w.dataset_cache
  stats_file_err : w1.stats_file_err = w.stats_file_err
  len : w1.bands.length = w.bands.length
  sub : w1.band_cache.entries.Sublist w.band_cache.entries
  linked : ∀ e ∈ w.band_cache.entries, e ∉ w1.band_cache.entries → nat.Linked root e.1
  bands : ∀ id, w1.band id = w.band id ∨
    (w1.band id = { w.band id with this_ := 0 } ∧
      ∃ p, (p, id) ∈ w.band_cache.entries ∧ (p, id) ∉ w1.band_cache.entries)

/-- What `RasterBand::dispose` guarantees when it returns, run on the wrapper
`obj` with handle `k` from the state `w`. -/
structure DisposePost (nat : Native) (P : ObjId → Prop) (k : Ptr) (obj : ObjId)
    (w w1 : World) : Prop where
  ok : BandsOk w1
  live : BandsLive P w1
  step : BandStep nat k w w1
  nulled : (w1.band obj).this_ = 0
  erased : w1.band_cache.has k = false
  children : ∀ c, nat.link k c → w1.band_cache.has c = false

/-- The function `rec` does what `RasterBand::dispose` guarantees for every
cached wrapper with a non-null handle, in states whose cache has at most
`fuel` entries. -/
def DisposeSpec (nat : Native) (P : ObjId → Prop) (fuel : Nat)
    (rec : World → ObjId → Option World) : Prop :=
  ∀ w x, BandsOk w → BandsLive P w → (w.band x).this_ ≠ 0 →
    w.band_cache.get (w.band x).this_ = some x → w.band_cache.size ≤ fuel →
    ∃ w1, rec w x = some w1 ∧ DisposePost nat P (w.band x).this_ x w w1

/-! ## The remaining functions of `Layer` and `RasterBand` -/

/-- `Layer::New(OGRLayer *raw, GDALDataset *raw_parent)` (gdal_layer.cpp
116-124). -/
def Layer.New2 (w : World) (raw raw_parent : Ptr) : World × Outcome :=
  Layer.New w raw raw_parent false

/-- `Layer::New(const Arguments& args)` (gdal_layer.cpp 88-114), the JS
constructor.  With an `External` it sets the hidden values `features_` and
`fields_` of the object of the wrapper the `External` holds. -/
def Layer.NewArguments (w : World) (isConstructCall : Bool) (args : List JsValue) :
    World × Outcome :=
  if !isConstructCall then
    (w, .throw "Cannot call constructor as function, you need to use 'new' keyword")
  else
    match argAt args 0 with
    | .external f =>
      (w.setLayer f { w.layer f with
          features_ := .collection .LayerFeatures f, fields_ := .collection .LayerFields f },
        .ret (.object .Layer f))
    | _ => (w, .throw "Cannot create layer directly. Create with dataset instead.")

/-- `Layer::toString` (gdal_layer.cpp 174-187).  Writing a null `const char *`
to the stream puts it in the failed state, and what follows is not written. -/
def Layer.toString (nat : Native) (w : World) (self : ObjId) (_args : List JsValue) :
    World × Outcome :=
  let layer := w.layer self
  if layer.this_ = 0 then (w, .ret (.string "Null layer"))
  else
    let c : NativeCall := ⟨"GetName", layer.this_, []⟩
    let ss : String :=
      match nat.retStr c with
      | some name => "Layer (" ++ name ++ ")"
      | none => "Layer ("
    (w.log c, .ret (SafeString.New (some ss)))

/-- `Layer::featuresGetter` (gdal_layer.cpp 359-363). -/
def Layer.featuresGetter (w : World) (self : ObjId) : World × Outcome :=
  (w, .ret (w.layer self).features_)

/-- `Layer::fieldsGetter` (gdal_layer.cpp 365-369). -/
def Layer.fieldsGetter (w : World) (self : ObjId) : World × Outcome :=
  (w, .ret (w.layer self).fields_)

/-- `RasterBand::New(const Arguments& args)` (gdal_rasterband.cpp 117-140), the
JS constructor.  With an `External` it sets the hidden values `overviews_` and
`pixels_` of the object of the wrapper the `External` holds. -/
def RasterBand.NewArguments (w : World) (isConstructCall : Bool) (args : List JsValue) :
    World × Outcome :=
  if !isConstructCall then
    (w, .throw "Cannot call constructor as function, you need to use 'new' keyword")
  else
    match argAt args 0 with
    | .external f =>
      (w.setBand f { w.band f with
          overviews_ := .collection .RasterBandOverviews f,
          pixels_ := .collection .RasterBandPixels f },
        .ret (.object .RasterBand f))
    | _ => (w, .throw "Cannot create band directly create with dataset instead")

/-- `RasterBand::toString` (gdal_rasterband.cpp 180-184). -/
def RasterBand.toString (w : World) (_self : ObjId) (_args : List JsValue) : World × Outcome :=
  (w, .ret (.string "RasterBand"))

/-! ## Operations and runs -/

/-- The prototype methods `Layer::Initialize` registers (gdal_layer.cpp 29-35),
by their JS names. -/
inductive Layer.Method
  | toString | getExtent | setAttributeFilter | setSpatialFilter | getSpatialFilter
  | testCapability | flush
  deriving DecidableEq, Repr

/-- The accessors `Layer::Initialize` registers (gdal_layer.cpp 37-44), by their
JS names; all of them are read-only. -/
inductive Layer.Accessor
  | ds | srs | features | fields | name | geomType | geomColumn | fidColumn
  deriving DecidableEq, Repr

/-- The prototype methods `RasterBand::Initialize` registers
(gdal_rasterband.cpp 27-35), by their JS names. -/
inductive RasterBand.Method
  | toString | flush | fill | getStatistics | setStatistics | computeStatistics
  | getMaskBand | getMaskFlags | createMaskBand
  deriving DecidableEq, Repr

/-- The accessors `RasterBand::Initialize` registers (gdal_rasterband.cpp
46-62), by their JS names. -/
inductive RasterBand.Accessor
  | ds | id | size | overviews | pixels | blockSize | minimum | maximum | readOnly
  | dataType | hasArbitraryOverviews | unitType | scale | offset | noDataValue
  | categoryNames | colorInterpretation
  deriving DecidableEq, Repr

/-- A call of a JS method of a `Layer` object: the function `Initialize` binds
to the name. -/
def Layer.callMethod (nat : Native) (co : Collaborators) (w : World) (m : Layer.Method)
    (self : ObjId) (args : List JsValue) : World × Outcome :=
  match m with
  | .toString => Layer.toString nat w self args
  | .getExtent => Layer.getExtent nat w self args
  | .setAttributeFilter => Layer.setAttributeFilter nat w self args
  | .setSpatialFilter => Layer.setSpatialFilter w self args
  | .getSpatialFilter => Layer.getSpatialFilter nat co w self args
  | .testCapability => Layer.testCapability nat w self args
  | .flush => Layer.syncToDisk nat w self args

/-- A read of a JS property of a `Layer` object. -/
def Layer.getAccessor (nat : Native) (co : Collaborators) (w : World) (a : Layer.Accessor)
    (self : ObjId) : World × Outcome :=
  match a with
  | .ds => Layer.dsGetter w self
  | .srs => Layer.srsGetter nat co w self
  | .features => Layer.featuresGetter w self
  | .fields => Layer.fieldsGetter w self
  | .name => Layer.nameGetter nat w self
  | .geomType => Layer.geomTypeGetter nat w self
  | .geomColumn => Layer.geomColumnGetter nat w self
  | .fidColumn => Layer.fidColumnGetter nat w self

/-- A call of a JS method of a `RasterBand` object. -/
def RasterBand.callMethod (nat : Native) (w : World) (m : RasterBand.Method)
    (self : ObjId) (args : List JsValue) : World × Outcome :=
  match m with
  | .toString => RasterBand.toString w self args
  | .flush => RasterBand.flush w self args
  | .fill => RasterBand.fill nat w self args
  | .getStatistics => RasterBand.getStatistics nat w self args
  | .setStatistics => RasterBand.setStatistics nat w self args
  | .computeStatistics => RasterBand.computeStatistics nat w self args
  | .getMaskBand => RasterBand.getMaskBand nat w self args
  | .getMaskFlags => RasterBand.getMaskFlags nat w self args
  | .createMaskBand => RasterBand.createMaskBand nat w self args

/-- A read of a JS property of a `RasterBand` object. -/
def RasterBand.getAccessor (nat : Native) (w : World) (a : RasterBand.Accessor)
    (self : ObjId) : World × Outcome :=
  match a with
  | .ds => RasterBand.dsGetter w self
  | .id => RasterBand.idGetter nat w self
  | .size => RasterBand.sizeGetter nat w self
  | .overviews => RasterBand.overviewsGetter w self
  | .pixels => RasterBand.pixelsGetter w self
  | .blockSize => RasterBand.blockSizeGetter nat w self
  | .minimum => RasterBand.minimumGetter nat w self
  | .maximum => RasterBand.maximumGetter nat w self
  | .readOnly => RasterBand.readOnlyGetter nat w self
  | .dataType => RasterBand.dataTypeGetter nat w self
  | .hasArbitraryOverviews => RasterBand.hasArbitraryOverviewsGetter nat w self
  | .unitType => RasterBand.unitTypeGetter nat w self
  | .scale => RasterBand.scaleGetter nat w self
  | .offset => RasterBand.offsetGetter nat w self
  | .noDataValue => RasterBand.noDataValueGetter nat w self
  | .categoryNames => RasterBand.categoryNamesGetter nat w self
  | .colorInterpretation => RasterBand.colorInterpretationGetter nat w self

/-- A write of a JS property of a `RasterBand` object; the properties registered
with `READ_ONLY_SETTER` have no setter in these sources, and a write to one of
them changes nothing here. -/
def RasterBand.setAccessor (nat : Native) (w : World) (a : RasterBand.Accessor)
    (self : ObjId) (value : JsValue) : World × Outcome :=
  match a with
  | .unitType => RasterBand.unitTypeSetter nat w self value
  | .scale => RasterBand.scaleSetter nat w self value
  | .offset => RasterBand.offsetSetter nat w self value
  | .noDataValue => RasterBand.noDataValueSetter nat w self value
  | .categoryNames => RasterBand.categoryNamesSetter nat w self value
  | .colorInterpretation => RasterBand.colorInterpretationSetter nat w self value
  | _ => (w, .ret .undefined)

/-- One operation on the state of the binding: a call of one of the embedded
functions with its arguments (`dispose` stands for the destructor too, which
only calls it; `bandDispose` carries the bound of the recursion), or a change
of the dataset cache, which is maintained outside these sources. -/
inductive Op
  | setDatasets (cache : ObjectCache) (heap : List Dataset)
  | layerNew (raw raw_parent : Ptr) (result_set : Bool)
  | layerNew2 (raw raw_parent : Ptr)
  | layerNewArguments (isConstructCall : Bool) (args : List JsValue)
  | layerDispose (self : ObjId)
  | layerMethod (m : Layer.Method) (self : ObjId) (args : List JsValue)
  | layerGet (a : Layer.Accessor) (self : ObjId)
  | bandNew (raw raw_parent : Ptr)
  | bandNewArguments (isConstructCall : Bool) (args : List JsValue)
  | bandDispose (fuel : Nat) (self : ObjId)
  | bandMethod (m : RasterBand.Method) (self : ObjId) (args : List JsValue)
  | bandGet (a : RasterBand.Accessor) (self : ObjId)
  | bandSet (a : RasterBand.Accessor) (self : ObjId) (value : JsValue)
  | geometryNew (geom : Ptr) (owned : Bool)
  | geometryNew1 (geom : Ptr)
  | geometryDestroy (self : ObjId)
  | featureDefnNew (defn : Ptr) (owned : Bool)
  | featureDefnNew1 (defn : Ptr)
  | featureDefnNewArguments (isConstructCall : Bool) (args : List JsValue)
  | featureDefnDestroy (self : ObjId)

/-- The state after one operation, with the native library answering as `nat`;
`none` if `RasterBand::dispose` does not return within its bound. -/
def Op.run (nat : Native) (co : Collaborators) (w : World) : Op → Option World
  | .setDatasets cache heap => some { w with dataset_cache := cache, datasets := heap }
  | .layerNew raw raw_parent result_set => some (Layer.New w raw raw_parent result_set).1
  | .layerNew2 raw raw_parent => some (Layer.New2 w raw raw_parent).1
  | .layerNewArguments isConstructCall args => some (Layer.NewArguments w isConstructCall args).1
  | .layerDispose self => some (Layer.dispose w self)
  | .layerMethod m self args => some (Layer.callMethod nat co w m self args).1
  | .layerGet a self => some (Layer.getAccessor nat co w a self).1
  | .bandNew raw raw_parent => some (RasterBand.New w raw raw_parent).1
  | .bandNewArguments isConstructCall args =>
    some (RasterBand.NewArguments w isConstructCall args).1
  | .bandDispose fuel self => RasterBand.dispose nat fuel w self
  | .bandMethod m self args => some (RasterBand.callMethod nat w m self args).1
  | .bandGet a self => some (RasterBand.getAccessor nat w a self).1
  | .bandSet a self value => some (RasterBand.setAccessor nat w a self value).1
  | .geometryNew geom owned => some (Geometry.New nat co w geom owned).1
  | .geometryNew1 geom => some (Geometry.New1 nat co w geom).1
  | .geometryDestroy self => some (Geometry.destroy w self)
  | .featureDefnNew defn owned => some (FeatureDefn.New nat w defn owned).1
  | .featureDefnNew1 defn => some (FeatureDefn.New1 nat w defn).1
  | .featureDefnNewArguments isConstructCall args =>
    some (FeatureDefn.NewArguments nat w isConstructCall args).1
  | .featureDefnDestroy self => some (FeatureDefn.destroy w self)

/-- The state after a sequence of operations, run in order, each with the
native library answering as given with it. -/
def runOps (co : Collaborators) (w : World) : List (Native × Op) → Option World
  | [] => some w
  | (nat, op) :: rest =>
    match op.run nat co w with
    | none => none
    | some w1 => runOps co w1 rest

/-- The result `r` of an operation run from the state `w` has the `Layer` and
the `RasterBand` wrappers of `w`, unchanged. -/
def KeepsWrappers (w : World) (r : World × Outcome) : Prop :=
  r.1.layers = w.layers ∧ r.1.bands = w.bands

/-- From the state `w` to the state `w1` no `Layer` or `RasterBand` wrapper has
gone and no null handle of one of them has become non-null. -/
structure NullStays (w w1 : World) : Prop where
  layers_len : w.layers.length ≤ w1.layers.length
  bands_len : w.bands.length ≤ w1.bands.length
  layers_null : ∀ id, id < w.layers.length → (w.layer id).this_ = 0 → (w1.layer id).this_ = 0
  bands_null : ∀ id, id < w.bands.length → (w.band id).this_ = 0 → (w1.band id).this_ = 0

/-- What is assumed of the wrapping functions outside these sources: they
remove no `Layer` or `RasterBand` wrapper and make no null handle of one of
them non-null. -/
def Collaborators.KeepNull (co : Collaborators) : Prop :=
  (∀ cls w geom owned, NullStays w (co.geometryNew cls w geom owned).1) ∧
    (∀ w srs owned, NullStays w (co.spatialReferenceNew w srs owned).1)

/-! ## More of gdal_common.hpp: optional arguments and field references -/

/-- `v->IsInt32()`. -/
def JsValue.IsInt32 : JsValue → Bool
  | .int32 _ => true
  | _ => false

/-- `v->IsBoolean()`. -/
def JsValue.IsBoolean : JsValue → Bool
  | .boolean _ => true
  | _ => false

/-- `v->IsString()`. -/
def JsValue.IsString : JsValue → Bool
  | .string _ => true
  | _ => false

/-- `v->IsArray()`. -/
def JsValue.IsArray : JsValue → Bool
  | .array _ => true
  | _ => false

/-- `NODE_ARG_INT_OPT(num, name, var)` (gdal_common.hpp 252-259): the value of
`var` afterwards, or the message thrown. -/
def NODE_ARG_INT_OPT (nat : Native) (args : List JsValue) (num : Nat) (name : String)
    (var : Int) : Except String Int :=
  if args.length > num then
    if (argAt args num).IsInt32 then .ok (toCInt ((argAt args num).IntegerValue nat))
    else if !(argAt args num).IsNullOrUndefined then .error (name ++ " must be an integer")
    else .ok var
  else .ok var

/-- `NODE_ARG_ENUM_OPT(num, name, enum_type, var)` (gdal_common.hpp 262-269);
the enumeration value is the C `int` it is cast from. -/
def NODE_ARG_ENUM_OPT (nat : Native) (args : List JsValue) (num : Nat) (name : String)
    (var : Int) : Except String Int :=
  if args.length > num then
    if (argAt args num).IsInt32 then .ok (toCInt ((argAt args num).IntegerValue nat))
    else if !(argAt args num).IsNullOrUndefined then .error (name ++ " must be an integer")
    else .ok var
  else .ok var

/-- `NODE_ARG_ARRAY_OPT(num, name, var)` (gdal_common.hpp 312-319); `var` is a
handle, set to the array itself. -/
def NODE_ARG_ARRAY_OPT (args : List JsValue) (num : Nat) (name : String) (var : JsValue) :
    Except String JsValue :=
  if args.length > num then
    if (argAt args num).IsArray then .ok (argAt args num)
    else if !(argAt args num).IsNullOrUndefined then .error (name ++ " must be an array")
    else .ok var
  else .ok var

/-- `ARG_FIELD_ID(num, f, var)` (gdal_common.hpp 153-168): the state after the
native calls, and the value of `var` afterwards or the message thrown.  The
macro names the variable `field_index` of the enclosing function in its test
after `GetFieldIndex`: `field_index` is `none` when `var` is that variable, and
`some v` when `var` is another variable and `field_index` has the value `v`.
`GetFieldCount()` is called only when `var` is not negative. -/
def ARG_FIELD_ID (nat : Native) (w : World) (args : List JsValue) (num : Nat) (f : Ptr)
    (field_index : Option Int) : World × Except String Int :=
  match argAt args num with
  | .string field_name =>
    let c : NativeCall := ⟨"GetFieldIndex", f, [.str (some (TOSTR field_name))]⟩
    let var := nat.retInt c
    if field_index.getD var = -1 then (w.log c, .error "Specified field name does not exist")
    else (w.log c, .ok var)
  | .int32 i =>
    let var := i
    if var < 0 then (w, .error "Invalid field index")
    else
      let c : NativeCall := ⟨"GetFieldCount", f, []⟩
      if var ≥ nat.retInt c then (w.log c, .error "Invalid field index")
      else (w.log c, .ok var)
  | _ => (w, .error "Field index must be integer or string")

/-! ## gdal.hpp -/

/-- The constant `GA_ReadOnly` of `gdal.h`. -/
def GA_ReadOnly : Int := 0

/-- The functions `Dataset::New(OGRDataSource *)` and
`Dataset::New(GDALDataset *)`, whose implementation is not among the
sources. -/
structure DatasetCollaborators where
  newOGR : World → Ptr → World × Outcome
  newGDAL : World → Ptr → World × Outcome

/-- The function `open` of gdal.hpp (24-52), the JS `gdal.open`. -/
def gdal_open (nat : Native) (ds : DatasetCollaborators) (w : World) (args : List JsValue) :
    World × Outcome :=
  match NODE_ARG_STR args 0 "path" with
  | .error msg => (w, .throw msg)
  | .ok path =>
  match NODE_ARG_OPT_STR args 1 "update" "r" with
  | .error msg => (w, .throw msg)
  | .ok mode =>
    if mode ≠ "r+" ∧ mode ≠ "r" then
      (w, .throw "Invalid open mode. Must be \"r\" or \"r+\"")
    else
      let access : Int := if mode = "r+" then GA_Update else GA_ReadOnly
      let c1 : NativeCall := ⟨"OGRSFDriverRegistrar::Open", 0, [.str (some path), .int access]⟩
      let ogr_ds := nat.retPtr c1
      let w1 := w.log c1
      if ogr_ds ≠ 0 then ds.newOGR w1 ogr_ds
      else
        let c2 : NativeCall := ⟨"GDALOpen", 0, [.str (some path), .int access]⟩
        let gdal_ds := nat.retPtr c2
        let w2 := w1.log c2
        if gdal_ds ≠ 0 then ds.newGDAL w2 gdal_ds
        else (w2, .throw "Error opening dataset")

/-! ## Geometry::exportToWKB -/

/-- The constant `wkbXDR` of `ogr_core.h` (most significant byte first). -/
def wkbXDR : Int := 0

/-- The constant `wkbNDR` of `ogr_core.h` (least significant byte first). -/
def wkbNDR : Int := 1

/-- The constant `wkbVariantOgc` of `ogr_core.h`. -/
def wkbVariantOgc : Int := 0

/-- The constant `wkbVariantIso` of `ogr_core.h`. -/
def wkbVariantIso : Int := 1

/-- The end of `Geometry::exportToWKB` (gdal_geometry.cpp 308-325): the native
`exportToWkb` call `c`, then the error or the buffer.  `fastBuffer c size` is
the value of `FastBuffer::New(data, size)` (not among the sources) for the
bytes the call `c` wrote. -/
def Geometry.exportToWKB.finish (nat : Native) (fastBuffer : NativeCall → Int → JsValue)
    (w : World) (size : Int) (c : NativeCall) : World × Outcome :=
  let err := nat.retInt c
  if err ≠ 0 then NODE_THROW_OGRERR nat (w.log c) err
  else (w.log c, .ret (fastBuffer c size))

/-- `Geometry::exportToWKB` (gdal_geometry.cpp 275-326).  `major` and `minor`
are `GDAL_VERSION_MAJOR` and `GDAL_VERSION_MINOR`, which decide whether the
variant argument exists.  The handle is not tested: calling `WkbSize()`
through a null handle ends the run. -/
def Geometry.exportToWKB (nat : Native) (fastBuffer : NativeCall → Int → JsValue)
    (major minor : Nat) (w : World) (self : ObjId) (args : List JsValue) : World × Outcome :=
  let geom := w.geometry self
  if geom.this_ = 0 then (w, .abort)
  else
    let cs : NativeCall := ⟨"WkbSize", geom.this_, []⟩
    let size := nat.retInt cs
    let w1 := w.log cs
    match NODE_ARG_OPT_STR args 0 "byte order" "MSB" with
    | .error msg => (w1, .throw msg)
    | .ok order =>
      if order ≠ "MSB" ∧ order ≠ "LSB" then (w1, .throw "byte order must be 'MSB' or 'LSB'")
      else
        let byte_order : Int := if order = "MSB" then wkbXDR else wkbNDR
        if major > 1 ∨ minor > 10 then
          match NODE_ARG_OPT_STR args 1 "wkb variant" "OGC" with
          | .error msg => (w1, .throw msg)
          | .ok variant =>
            if variant = "OGC" then
              Geometry.exportToWKB.finish nat fastBuffer w1 size
                ⟨"exportToWkb", geom.this_, [.int byte_order, .int wkbVariantOgc]⟩
            else if order = "ISO" then
              Geometry.exportToWKB.finish nat fastBuffer w1 size
                ⟨"exportToWkb", geom.this_, [.int byte_order, .int wkbVariantIso]⟩
            else (w1, .throw "byte order must be 'OGC' or 'ISO'")
        else
          Geometry.exportToWKB.finish nat fastBuffer w1 size
            ⟨"exportToWkb", geom.this_, [.int byte_order]⟩

/-! ## typed_array.cpp -/

/-- The enumeration `v8::ExternalArrayType`. -/
inductive ExternalArrayType
  | kExternalByteArray | kExternalUnsignedByteArray | kExternalShortArray
  | kExternalUnsignedShortArray | kExternalIntArray | kExternalUnsignedIntArray
  | kExternalFloatArray | kExternalDoubleArray | kExternalPixelArray
  deriving DecidableEq, Repr

/-- A JS object as `TypedArray` looks at it: the kind of its indexed external
array data (`none` if it has none) and the length of that data. -/
structure ArrayObject where
  kind : Option ExternalArrayType
  length : Nat
  deriving DecidableEq, Repr

/-- The global object of the JS context, as `TypedArray::New` uses it: the
function a global name is bound to (`none` if the value is empty or not a
function), as the object `NewInstance` builds from the size (`none` if the
result is empty or not an object). -/
structure JsGlobal where
  get : String → Option (Nat → Option ArrayObject)

/-- The constant `GDT_Byte` of `gdal.h`. -/
def GDT_Byte : Int := 1
/-- The constant `GDT_UInt16` of `gdal.h`. -/
def GDT_UInt16 : Int := 2
/-- The constant `GDT_Int16` of `gdal.h`. -/
def GDT_Int16 : Int := 3
/-- The constant `GDT_UInt32` of `gdal.h`. -/
def GDT_UInt32 : Int := 4
/-- The constant `GDT_Int32` of `gdal.h`. -/
def GDT_Int32 : Int := 5
/-- The constant `GDT_Float32` of `gdal.h`. -/
def GDT_Float32 : Int := 6
/-- The constant `GDT_Float64` of `gdal.h`. -/
def GDT_Float64 : Int := 7

/-- `TypedArray::New(GDALDataType type, unsigned int length)` (typed_array.cpp
8-39): the array, or the message thrown. -/
def TypedArray.New (g : JsGlobal) (type : Int) (length : Nat) : Except String ArrayObject :=
  let name : Option String :=
    if type = GDT_Byte then some "Uint8Array"
    else if type = GDT_Int16 then some "Int16Array"
    else if type = GDT_UInt16 then some "Uint16Array"
    else if type = GDT_Int32 then some "Int32Array"
    else if type = GDT_UInt32 then some "Uint32Array"
    else if type = GDT_Float32 then some "Float32Array"
    else if type = GDT_Float64 then some "Float64Array"
    else none
  match name with
  | none => .error "Unsupported array type"
  | some name =>
    match g.get name with
    | none => .error "Error getting typed array constructor"
    | some constructor =>
      match constructor length with
      | none => .error "Error allocating array"
      | some array => .ok array

/-- `TypedArray::Identify(Handle<Object> obj)` (typed_array.cpp 41-53). -/
def TypedArray.Identify (obj : ArrayObject) : Int :=
  match obj.kind with
  | some .kExternalByteArray => GDT_Byte
  | some .kExternalUnsignedByteArray => GDT_Byte
  | some .kExternalShortArray => GDT_Int16
  | some .kExternalUnsignedShortArray => GDT_UInt16
  | some .kExternalIntArray => GDT_Int32
  | some .kExternalUnsignedIntArray => GDT_UInt32
  | some .kExternalFloatArray => GDT_Float32
  | some .kExternalDoubleArray => GDT_Float64
  | _ => GDT_Unknown

/-- The kind of external array data of the typed arrays of the JS engine, by
constructor name (the engine is outside these sources). -/
def typedArrayKind (name : String) : Option ExternalArrayType :=
  if name = "Int8Array" then some .kExternalByteArray
  else if name = "Uint8Array" then some .kExternalUnsignedByteArray
  else if name = "Int16Array" then some .kExternalShortArray
  else if name = "Uint16Array" then some .kExternalUnsignedShortArray
  else if name = "Int32Array" then some .kExternalIntArray
  else if name = "Uint32Array" then some .kExternalUnsignedIntArray
  else if name = "Float32Array" then some .kExternalFloatArray
  else if name = "Float64Array" then some .kExternalDoubleArray
  else if name = "Uint8ClampedArray" then some .kExternalPixelArray
  else none

/-- The global object of an engine whose typed-array constructors are in
place: each builds an array of its kind and of the length asked for. -/
def JsGlobal.standard : JsGlobal :=
  { get := fun name => (typedArrayKind name).map (fun k n => some ⟨some k, n⟩) }

/-! ## The macro-generated methods of `Geometry` that take a parameter -/

/-- A wrapper class as `NODE_ARG_WRAPPED` uses it: the name `#type`,
`type::constructor->HasInstance(v)`, and the native pointer `get()` of the
wrapper of an object. -/
structure WrappedType where
  name : String
  HasInstance : JsValue → Bool
  get : World → JsValue → Ptr

/-- The class `Geometry` as a parameter type. -/
def WrappedType.Geometry : WrappedType :=
  { name := "Geometry"
    HasInstance := JsValue.isGeometryInstance
    get := fun w v =>
      match v with
      | .object _ id => (w.geometry id).this_
      | _ => 0 }

/-- The class `CoordinateTransformation` as a parameter type; the class is
outside these sources, and `get` gives the native pointer of its wrappers. -/
def WrappedType.CoordinateTransformation (get : ObjId → Ptr) : WrappedType :=
  { name := "CoordinateTransformation"
    HasInstance := fun v =>
      match v with
      | .object .CoordinateTransformation _ => true
      | _ => false
    get := fun _ v =>
      match v with
      | .object _ id => get id
      | _ => 0 }

/-- The class `SpatialReference` as a parameter type; the class is outside
these sources, and `get` gives the native pointer of its wrappers. -/
def WrappedType.SpatialReference (get : ObjId → Ptr) : WrappedType :=
  { name := "SpatialReference"
    HasInstance := fun v =>
      match v with
      | .object .SpatialReference _ => true
      | _ => false
    get := fun _ v =>
      match v with
      | .object _ id => get id
      | _ => 0 }

/-- `NODE_ARG_WRAPPED(num, name, type, var)` (gdal_common.hpp 230-238): the
native pointer `var->get()`, or the message thrown. -/
def NODE_ARG_WRAPPED (type : WrappedType) (w : World) (args : List JsValue) (num : Nat)
    (name : String) : Except String Ptr :=
  if args.length < num + 1 then .error (name ++ " must be given")
  else if (argAt args num).IsNullOrUndefined ∨ !type.HasInstance (argAt args num) then
    .error (name ++ " must be an instance of " ++ type.name)
  else if type.get w (argAt args num) = 0 then .error (type.name ++ " parameter already destroyed")
  else .ok (type.get w (argAt args num))

/-- `Boolean::New(b)` of the answer of a native call. -/
def Boolean.New (nat : Native) (w : World) (c : NativeCall) : World × Outcome :=
  (w, .ret (.boolean (nat.retInt c ≠ 0)))

/-- `Number::New(d)` of the answer of a native call. -/
def Number.New (nat : Native) (w : World) (c : NativeCall) : World × Outcome :=
  (w, .ret (JsValue.ofNumber (nat.retNum c)))

/-- `Geometry::New(geom)` of the answer of a native call. -/
def Geometry.NewOfCall (nat : Native) (co : Collaborators) (w : World) (c : NativeCall) :
    World × Outcome :=
  Geometry.New1 nat co w (nat.retPtr c)

/-- `NODE_WRAPPED_METHOD_WITH_RESULT_1_WRAPPED_PARAM(klass, method, result_type,
wrapped_method, param_type, param_name)` (gdal_common.hpp 332-341); `this_` is
`obj->this_`, `result_type_New` is `result_type::New` on the answer of the
call, and `param_name` is the stringified `#param_name`. -/
def NODE_WRAPPED_METHOD_WITH_RESULT_1_WRAPPED_PARAM (klass : String) (this_ : Ptr)
    (result_type_New : World → NativeCall → World × Outcome) (wrapped_method : String)
    (param_type : WrappedType) (param_name : String) (w : World) (args : List JsValue) :
    World × Outcome :=
  match NODE_ARG_WRAPPED param_type w args 0 param_name with
  | .error msg => (w, .throw msg)
  | .ok param =>
    if this_ = 0 then (w, .throw (klass ++ " object has already been destroyed"))
    else
      let c : NativeCall := ⟨wrapped_method, this_, [.ptr param]⟩
      result_type_New (w.log c) c

/-- `NODE_WRAPPED_METHOD_WITH_RESULT_1_DOUBLE_PARAM(klass, method, result_type,
wrapped_method, param_name)` (gdal_common.hpp 379-388). -/
def NODE_WRAPPED_METHOD_WITH_RESULT_1_DOUBLE_PARAM (klass : String) (this_ : Ptr)
    (result_type_New : World → NativeCall → World × Outcome) (wrapped_method : String)
    (param_name : String) (w : World) (args : List JsValue) : World × Outcome :=
  match NODE_ARG_DOUBLE args 0 param_name with
  | .error msg => (w, .throw msg)
  | .ok param =>
    if this_ = 0 then (w, .throw (klass ++ " object has already been destroyed"))
    else
      let c : NativeCall := ⟨wrapped_method, this_, [.num param]⟩
      result_type_New (w.log c) c

/-- `NODE_WRAPPED_METHOD_WITH_1_DOUBLE_PARAM(klass, method, wrapped_method,
param_name)` (gdal_common.hpp 565-575). -/
def NODE_WRAPPED_METHOD_WITH_1_DOUBLE_PARAM (klass : String) (this_ : Ptr)
    (wrapped_method : String) (param_name : String) (w : World) (args : List JsValue) :
    World × Outcome :=
  match NODE_ARG_DOUBLE args 0 param_name with
  | .error msg => (w, .throw msg)
  | .ok param =>
    if this_ = 0 then (w, .throw (klass ++ " object has already been destroyed"))
    else (w.log ⟨wrapped_method, this_, [.num param]⟩, .ret .undefined)

/-- `NODE_WRAPPED_METHOD_WITH_OGRERR_RESULT_1_WRAPPED_PARAM(klass, method,
wrapped_method, param_type, param_name)` (gdal_common.hpp 471-482). -/
def NODE_WRAPPED_METHOD_WITH_OGRERR_RESULT_1_WRAPPED_PARAM (nat : Native) (klass : String)
    (this_ : Ptr) (wrapped_method : String) (param_type : WrappedType) (param_name : String)
    (w : World) (args : List JsValue) : World × Outcome :=
  match NODE_ARG_WRAPPED param_type w args 0 param_name with
  | .error msg => (w, .throw msg)
  | .ok param =>
    if this_ = 0 then (w, .throw (klass ++ " object has already been destroyed"))
    else
      let c : NativeCall := ⟨wrapped_method, this_, [.ptr param]⟩
      let err := nat.retInt c
      if err ≠ 0 then NODE_THROW_OGRERR nat (w.log c) err else (w.log c, .ret .undefined)

/-- `Geometry::intersects` (gdal_geometry.cpp 220). -/
def Geometry.intersects (nat : Native) (w : World) (self : ObjId) (args : List JsValue) :
    World × Outcome :=
  NODE_WRAPPED_METHOD_WITH_RESULT_1_WRAPPED_PARAM "Geometry" (w.geometry self).this_
    (Boolean.New nat) "Intersects" WrappedType.Geometry "\"geometry to compare\"" w args

/-- `Geometry::equals` (gdal_geometry.cpp 221). -/
def Geometry.equals (nat : Native) (w : World) (self : ObjId) (args : List JsValue) :
    World × Outcome :=
  NODE_WRAPPED_METHOD_WITH_RESULT_1_WRAPPED_PARAM "Geometry" (w.geometry self).this_
    (Boolean.New nat) "Equals" WrappedType.Geometry "\"geometry to compare\"" w args

/-- `Geometry::disjoint` (gdal_geometry.cpp 222). -/
def Geometry.disjoint (nat : Native) (w : World) (self : ObjId) (args : List JsValue) :
    World × Outcome :=
  NODE_WRAPPED_METHOD_WITH_RESULT_1_WRAPPED_PARAM "Geometry" (w.geometry self).this_
    (Boolean.New nat) "Disjoint" WrappedType.Geometry "\"geometry to compare\"" w args

/-- `Geometry::touches` (gdal_geometry.cpp 223). -/
def Geometry.touches (nat : Native) (w : World) (self : ObjId) (args : List JsValue) :
    World × Outcome :=
  NODE_WRAPPED_METHOD_WITH_RESULT_1_WRAPPED_PARAM "Geometry" (w.geometry self).this_
    (Boolean.New nat) "Touches" WrappedType.Geometry "\"geometry to compare\"" w args

/-- `Geometry::crosses` (gdal_geometry.cpp 224). -/
def Geometry.crosses (nat : Native) (w : World) (self : ObjId) (args : List JsValue) :
    World × Outcome :=
  NODE_WRAPPED_METHOD_WITH_RESULT_1_WRAPPED_PARAM "Geometry" (w.geometry self).this_
    (Boolean.New nat) "Crosses" WrappedType.Geometry "\"geometry to compare\"" w args

/-- `Geometry::within` (gdal_geometry.cpp 225). -/
def Geometry.within (nat : Native) (w : World) (self : ObjId) (args : List JsValue) :
    World × Outcome :=
  NODE_WRAPPED_METHOD_WITH_RESULT_1_WRAPPED_PARAM "Geometry" (w.geometry self).this_
    (Boolean.New nat) "Within" WrappedType.Geometry "\"geometry to compare\"" w args

/-- `Geometry::contains` (gdal_geometry.cpp 226). -/
def Geometry.contains (nat : Native) (w : World) (self : ObjId) (args : List JsValue) :
    World × Outcome :=
  NODE_WRAPPED_METHOD_WITH_RESULT_1_WRAPPED_PARAM "Geometry" (w.geometry self).this_
    (Boolean.New nat) "Contains" WrappedType.Geometry "\"geometry to compare\"" w args

/-- `Geometry::overlaps` (gdal_geometry.cpp 227). -/
def Geometry.overlaps (nat : Native) (w : World) (self : ObjId) (args : List JsValue) :
    World × Outcome :=
  NODE_WRAPPED_METHOD_WITH_RESULT_1_WRAPPED_PARAM "Geometry" (w.geometry self).this_
    (Boolean.New nat) "Overlaps" WrappedType.Geometry "\"geometry to compare\"" w args

/-- `Geometry::distance` (gdal_geometry.cpp 228). -/
def Geometry.distance (nat : Native) (w : World) (self : ObjId) (args : List JsValue) :
    World × Outcome :=
  NODE_WRAPPED_METHOD_WITH_RESULT_1_WRAPPED_PARAM "Geometry" (w.geometry self).this_
    (Number.New nat) "Distance" WrappedType.Geometry
    "\"geometry to use for distance calculation\"" w args

/-- `Geometry::intersection` (gdal_geometry.cpp 229). -/
def Geometry.intersection (nat : Native) (co : Collaborators) (w : World) (self : ObjId)
    (args : List JsValue) : World × Outcome :=
  NODE_WRAPPED_METHOD_WITH_RESULT_1_WRAPPED_PARAM "Geometry" (w.geometry self).this_
    (Geometry.NewOfCall nat co) "Intersection" WrappedType.Geometry
    "\"geometry to use for intersection\"" w args

/-- `Geometry::unionGeometry` (gdal_geometry.cpp 230). -/
def Geometry.unionGeometry (nat : Native) (co : Collaborators) (w : World) (self : ObjId)
    (args : List JsValue) : World × Outcome :=
  NODE_WRAPPED_METHOD_WITH_RESULT_1_WRAPPED_PARAM "Geometry" (w.geometry self).this_
    (Geometry.NewOfCall nat co) "Union" WrappedType.Geometry
    "\"geometry to use for union\"" w args

/-- `Geometry::difference` (gdal_geometry.cpp 231). -/
def Geometry.difference (nat : Native) (co : Collaborators) (w : World) (self : ObjId)
    (args : List JsValue) : World × Outcome :=
  NODE_WRAPPED_METHOD_WITH_RESULT_1_WRAPPED_PARAM "Geometry" (w.geometry self).this_
    (Geometry.NewOfCall nat co) "Difference" WrappedType.Geometry
    "\"geometry to use for difference\"" w args

/-- `Geometry::symDifference` (gdal_geometry.cpp 232). -/
def Geometry.symDifference (nat : Native) (co : Collaborators) (w : World) (self : ObjId)
    (args : List JsValue) : World × Outcome :=
  NODE_WRAPPED_METHOD_WITH_RESULT_1_WRAPPED_PARAM "Geometry" (w.geometry self).this_
    (Geometry.NewOfCall nat co) "SymDifference" WrappedType.Geometry
    "\"geometry to use for sym difference\"" w args

/-- `Geometry::simplify` (gdal_geometry.cpp 233). -/
def Geometry.simplify (nat : Native) (co : Collaborators) (w : World) (self : ObjId)
    (args : List JsValue) : World × Outcome :=
  NODE_WRAPPED_METHOD_WITH_RESULT_1_DOUBLE_PARAM "Geometry" (w.geometry self).this_
    (Geometry.NewOfCall nat co) "Simplify" "\"tolerance\"" w args

/-- `Geometry::simplifyPreserveTopology` (gdal_geometry.cpp 234). -/
def Geometry.simplifyPreserveTopology (nat : Native) (co : Collaborators) (w : World) (self : ObjId)
    (args : List JsValue) : World × Outcome :=
  NODE_WRAPPED_METHOD_WITH_RESULT_1_DOUBLE_PARAM "Geometry" (w.geometry self).this_
    (Geometry.NewOfCall nat co) "SimplifyPreserveTopology" "\"tolerance\"" w args

/-- `Geometry::segmentize` (gdal_geometry.cpp 235). -/
def Geometry.segmentize (w : World) (self : ObjId) (args : List JsValue) : World × Outcome :=
  NODE_WRAPPED_METHOD_WITH_1_DOUBLE_PARAM "Geometry" (w.geometry self).this_ "segmentize"
    "\"segment length\"" w args

/-- `Geometry::transform` (gdal_geometry.cpp 236); `ct` gives the native
pointer of the `CoordinateTransformation` wrappers. -/
def Geometry.transform (nat : Native) (ct : ObjId → Ptr) (w : World) (self : ObjId)
    (args : List JsValue) : World × Outcome :=
  NODE_WRAPPED_METHOD_WITH_OGRERR_RESULT_1_WRAPPED_PARAM nat "Geometry" (w.geometry self).this_
    "transform" (WrappedType.CoordinateTransformation ct) "\"transform\"" w args

/-- `Geometry::transformTo` (gdal_geometry.cpp 237); `srs` gives the native
pointer of the `SpatialReference` wrappers. -/
def Geometry.transformTo (nat : Native) (srs : ObjId → Ptr) (w : World) (self : ObjId)
    (args : List JsValue) : World × Outcome :=
  NODE_WRAPPED_METHOD_WITH_OGRERR_RESULT_1_WRAPPED_PARAM nat "Geometry" (w.geometry self).this_
    "transformTo" (WrappedType.SpatialReference srs) "\"spatial reference\"" w args

/-! ## Sample states and a sample native library -/

/-- A native library in which no band has overviews or a mask band and every
call answers zero, null or nothing. -/
def Native.quiet : Native :=
  { GetOverviewCount := fun _ => 0, GetOverview := fun _ _ => 0, GetMaskBand := fun _ => 0,
    retInt := fun _ => 0, retNum := fun _ => .finite 0, retStr := fun _ => none,
    retPtr := fun _ => 0, retStrs := fun _ => none, outInt := fun _ _ => 0,
    outNum := fun _ _ => .finite 0, reported := fun _ => [], IntegerValue := fun _ => 0 }

/-- Collaborators that wrap nothing and return `undefined`. -/
def Collaborators.quiet : Collaborators :=
  { geometryNew := fun _ w _ _ => (w, .ret .undefined),
    spatialReferenceNew := fun w _ _ => (w, .ret .undefined) }

/-- The state after `Layer::New(1, NULL, false)` and `RasterBand::New(1, NULL)`
from empty caches. -/
def World.sample : World :=
  (RasterBand.New (Layer.New {} 1 0 false).1 1 0).1

/-- The sample state after `dispose()` of its layer wrapper and of its band
wrapper. -/
def World.sampleDisposed : World :=
  (RasterBand.dispose Native.quiet 2 (Layer.dispose World.sample 0) 0).getD {}

/-- A native library in which the band 1 has the overviews 2 and 3 and the mask
band 4, and no other band has overviews or a mask band. -/
def Native.pyramid : Native :=
  { Native.quiet with
    GetOverviewCount := fun p => if p = 1 then 2 else 0
    GetOverview := fun p i => if p = 1 then (if i = 0 then 2 else 3) else 0
    GetMaskBand := fun p => if p = 1 then 4 else 0 }

/-- The state after `RasterBand::New` on the native bands 1, 2, 3, 4 and 5, in
this order, without parent, from empty caches: band `p` has the wrapper
`p - 1`. -/
def World.pyramid : World :=
  (RasterBand.New (RasterBand.New (RasterBand.New (RasterBand.New
    (RasterBand.New {} 1 0).1 2 0).1 3 0).1 4 0).1 5 0).1

/-- The state, with the dataset 5 cached as the dataset wrapper 0, after
`Layer::New(1, NULL, false)` and `RasterBand::New(1, NULL)`. -/
def World.sampleWithDataset : World :=
  (RasterBand.New
    (Layer.New { dataset_cache := ⟨[(5, 0)]⟩, datasets := [{ this_ := 5 }] } 1 0 false).1 1 0).1

/-- A state with two geometry wrappers: wrapper 0, a `Point` that owns the
native geometry 1, and wrapper 1, a `Point` that borrows the native geometry
2. -/
def World.geometrySample : World :=
  { geometries := [{ cls := .Point, this_ := 1, owned_ := true },
      { cls := .Point, this_ := 2, owned_ := false }] }

/-- A native library in which `Clone()` of the definition `p` answers the
definition `p + 100`, `new OGRFeatureDefn()` answers the definition 50, and
every other call answers as in `Native.quiet`. -/
def Native.cloning : Native :=
  { Native.quiet with
    retPtr := fun c =>
      if c.fn = "Clone" then c.target + 100
      else if c.fn = "new OGRFeatureDefn" then 50 else 0 }

/-- Modelled from the spec: the `New(geom, owned)` of the geometry subclasses
(`Point::New`, ..., `MultiPolygon::New`, in files that are not among the
sources).  Spec section 4.2, steps 1 and 3: a null handle gives the null
result; else a new wrapper object of the class is constructed with the
ownership the caller passes.  `SpatialReference::New` is left as in
`Collaborators.quiet`. -/
def Collaborators.wrapping : Collaborators :=
  { geometryNew := fun cls w geom owned =>
      if geom = 0 then (w, .ret .null)
      else
        ({ w with geometries := w.geometries ++ [{ cls := cls, this_ := geom, owned_ := owned }] },
          .ret (.object cls w.geometries.length))
    spatialReferenceNew := fun w _ _ => (w, .ret .undefined) }

/-- A native library in which every geometry is a point (`getGeometryType()`
answers `wkbPoint`, `getGeometryName()` answers `POINT`), and every other call
answers as in `Native.quiet`. -/
def Native.points : Native :=
  { Native.quiet with
    retInt := fun c => if c.fn = "getGeometryType" then 1 else 0
    retStr := fun c => if c.fn = "getGeometryName" then some "POINT" else none }

/-- A native library in which `GetStatistics` and `ComputeStatistics` report
the error `CPLE_OpenFailed` with the message `cannot open stats file` and
answer `CE_Failure`, and every other call answers as in `Native.quiet`. -/
def Native.openFailed : Native :=
  { Native.quiet with
    retInt := fun c => if c.fn = "GetStatistics" ∨ c.fn = "ComputeStatistics" then 3 else 0
    reported := fun c =>
      if c.fn = "GetStatistics" ∨ c.fn = "ComputeStatistics" then
        [(CPLE_OpenFailed, "cannot open stats file")]
      else [] }

/-- The operations run on `World.sampleDisposed` as an example: both native
handles are wrapped again, then methods, accessors and `dispose` are called on
the old and on the new wrappers. -/
def Op.sampleRun : List (Native × Op) :=
  [(Native.quiet, .layerNew 1 0 false), (Native.quiet, .bandNew 1 0),
    (Native.quiet, .layerNewArguments true [.external 0]),
    (Native.quiet, .layerMethod .getExtent 0 []), (Native.points, .layerMethod .getSpatialFilter 1 []),
    (Native.quiet, .layerGet .name 0), (Native.quiet, .bandMethod .getMaskBand 1 []),
    (Native.quiet, .bandSet .scale 0 (.int32 2)), (Native.quiet, .layerDispose 0),
    (Native.quiet, .bandDispose 2 0), (Native.quiet, .bandDispose 2 1),
    (Native.quiet, .bandNew 1 0)]

/-- The state the example operations lead to from `World.sampleDisposed`. -/
def World.sampleAfterRun : World :=
  (runOps Collaborators.wrapping World.sampleDisposed Op.sampleRun).getD {}

/-- The state after `getStatistics(true, true)` on the band wrapper 0 of
`World.pyramid`, run while the native library answers as
`Native.openFailed`. -/
def World.afterOpenFailed : World :=
  (RasterBand.getStatistics Native.openFailed World.pyramid 0 [.boolean true, .boolean true]).1

/-- A stand-in for `FastBuffer::New(data, size)`: an object that records the
size of the buffer. -/
def FastBuffer.sample : NativeCall → Int → JsValue :=
  fun _ size => .plain [("length", .int size)]

/-- A native library in which every geometry is a linear ring whose
`getGeometryType()` answers `wkbLineString` with the 2.5D bit set
(`0x80000002`, as a C `int`) and whose name is `LINEARRING`. -/
def Native.rings : Native :=
  { Native.quiet with
    retInt := fun c => if c.fn = "getGeometryType" then 0x80000002 - 2 ^ 32 else 0
    retStr := fun c => if c.fn = "getGeometryName" then some "LINEARRING" else none }

/-- A stand-in for the two `Dataset::New` functions: each adds a dataset wrapper
for the pointer, caches it and returns it. -/
def DatasetCollaborators.sample : DatasetCollaborators :=
  { newOGR := fun w p =>
      ({ w with datasets := w.datasets ++ [{ this_ := p }],
                dataset_cache := ⟨(p, w.datasets.length) :: w.dataset_cache.entries⟩ },
        .ret (.object .Dataset w.datasets.length))
    newGDAL := fun w p =>
      ({ w with datasets := w.datasets ++ [{ this_ := p }],
                dataset_cache := ⟨(p, w.datasets.length) :: w.dataset_cache.entries⟩ },
        .ret (.object .Dataset w.datasets.length)) }

/-- A native library in which `OGRSFDriverRegistrar::Open` answers null and
`GDALOpen` answers the dataset 7 when asked for read-only access and null when
asked for update access; every other call answers as in `Native.quiet`. -/
def Native.rasterOnly : Native :=
  { Native.quiet with
    retPtr := fun c =>
      if c.fn = "GDALOpen" ∧ c.args.getD 1 (.int 1) = .int 0 then 7 else 0 }

/-- A native library with a feature definition of three fields, of which only
`name` is found by name, at index 1; every other call answers as in
`Native.quiet`. -/
def Native.threeFields : Native :=
  { Native.quiet with
    retInt := fun c =>
      if c.fn = "GetFieldCount" then 3
      else if c.fn = "GetFieldIndex" then (if c.args = [.str (some "name")] then 1 else -1)
      else 0 }

/-- A native library in which every band is its own only overview, the bands 1
and 2 are the mask band of each other, and every other band is its own mask
band. -/
def Native.cyclic : Native :=
  { Native.quiet with
    GetOverviewCount := fun _ => 1
    GetOverview := fun p _ => p
    GetMaskBand := fun p => if p = 1 then 2 else if p = 2 then 1 else p }

/-- The JS string `r`, a NUL character, `junk`. -/
def modeWithNul : String := "r" ++ String.singleton (Char.ofNat 0) ++ "junk"

/-- The JS string `name`, a NUL character, `junk`. -/
def nameWithNul : String := "name" ++ String.singleton (Char.ofNat 0) ++ "junk"

/-- The result `r` of an operation run from the state `w` has the `Layer` and
`RasterBand` wrappers and the two class caches of `w`, unchanged. -/
def KeepsCaches (w : World) (r : World × Outcome) : Prop :=
  r.1.layers = w.layers ∧ r.1.bands = w.bands ∧ r.1.layer_cache = w.layer_cache ∧
    r.1.band_cache = w.band_cache

/-- What is assumed of the wrapping functions outside these sources for the
cache invariant: they leave the `Layer` and `RasterBand` wrappers and the two
class caches as they are. -/
def Collaborators.KeepCaches (co : Collaborators) : Prop :=
  (∀ cls w geom owned, KeepsCaches w (co.geometryNew cls w geom owned)) ∧
    (∀ w srs owned, KeepsCaches w (co.spatialReferenceNew w srs owned))

/-- The sample state after `getStatistics(true, true)` on its band wrapper, run
while the native library answers as `Native.openFailed`: a state reached
through a method call that failed. -/
def World.sampleAfterFailure : World :=
  (RasterBand.getStatistics Native.openFailed World.sample 0 [.boolean true, .boolean true]).1

/-- The state `World.geometrySample` after the destruction of its geometry
wrapper 0, whose handle is null from then on. -/
def World.geometryDestroyed : World := Geometry.destroy World.geometrySample 0

/-! # Theorems -/

/-! ## Lemmas on the cache -/

theorem ObjectCache.has_iff_get (c : ObjectCache) (k : Ptr) :
    c.has k = true ↔ ∃ id, c.get k = some id := by
  unfold ObjectCache.has
  cases c.get k <;> simp

theorem ObjectCache.handle_of_get {c : ObjectCache} {k : Ptr} {id : ObjId} (cls : Klass)
    (h : c.get k = some id) : c.handle cls k = .object cls id := by
  simp [ObjectCache.handle, h]

theorem ObjectCache.get_cons_self (k : Ptr) (id : ObjId) (l : List (Ptr × ObjId)) :
    (ObjectCache.mk ((k, id) :: l)).get k = some id := by
  simp [ObjectCache.get, List.lookup]

theorem ObjectCache.has_cons_self (k : Ptr) (id : ObjId) (l : List (Ptr × ObjId)) :
    (ObjectCache.mk ((k, id) :: l)).has k = true := by
  simp [ObjectCache.has, ObjectCache.get_cons_self]

theorem ObjectCache.mem_of_get {c : ObjectCache} {k : Ptr} {id : ObjId}
    (h : c.get k = some id) : (k, id) ∈ c.entries := by
  obtain ⟨l⟩ := c
  simp only [ObjectCache.get] at h ⊢
  induction l with
  | nil => simp [List.lookup] at h
  | cons e l ih =>
    obtain ⟨a, b⟩ := e
    by_cases hk : k = a
    · subst hk
      simp [List.lookup] at h
      simp [h]
    · have : (k == a) = false := by simpa using hk
      simp only [List.lookup, this] at h
      exact List.mem_cons_of_mem _ (ih h)

theorem ObjectCache.get_of_mem {c : ObjectCache} {k : Ptr} {id : ObjId}
    (hnd : (c.entries.map Prod.fst).Nodup) (h : (k, id) ∈ c.entries) : c.get k = some id := by
  obtain ⟨l⟩ := c
  simp only [ObjectCache.get] at hnd h ⊢
  induction l with
  | nil => simp at h
  | cons e l ih =>
    obtain ⟨a, b⟩ := e
    simp only [List.map_cons, List.nodup_cons] at hnd
    rcases List.mem_cons.1 h with h1 | h1
    · cases h1
      simp [List.lookup]
    · have hne : k ≠ a := by
        intro hka
        subst hka
        exact hnd.1 (List.mem_map.2 ⟨(k, id), h1, rfl⟩)
      have : (k == a) = false := by simpa using hne
      simp only [List.lookup, this]
      exact ih hnd.2 h1

theorem ObjectCache.has_eq_false_iff (c : ObjectCache) (k : Ptr) :
    c.has k = false ↔ ∀ e ∈ c.entries, e.1 ≠ k := by
  obtain ⟨l⟩ := c
  simp only [ObjectCache.has, ObjectCache.get]
  induction l with
  | nil => simp [List.lookup]
  | cons e l ih =>
    obtain ⟨a, b⟩ := e
    by_cases hk : k = a
    · subst hk
      simp [List.lookup]
    · have : (k == a) = false := by simpa using hk
      simp only [List.lookup, this, ih, List.mem_cons, forall_eq_or_imp]
      constructor
      · intro h
        exact ⟨fun h' => hk h'.symm, h⟩
      · intro h
        exact h.2

theorem ObjectCache.mem_erase {c : ObjectCache} {k : Ptr} {e : Ptr × ObjId} :
    e ∈ (c.erase k).entries ↔ e ∈ c.entries ∧ e.1 ≠ k := by
  simp [ObjectCache.erase, List.mem_filter]

theorem ObjectCache.erase_sublist (c : ObjectCache) (k : Ptr) :
    (c.erase k).entries.Sublist c.entries := by
  simp [ObjectCache.erase]

theorem ObjectCache.has_erase_self (c : ObjectCache) (k : Ptr) : (c.erase k).has k = false := by
  rw [ObjectCache.has_eq_false_iff]
  intro e he
  exact (ObjectCache.mem_erase.1 he).2

theorem ObjectCache.size_erase_lt {c : ObjectCache} {k : Ptr} {id : ObjId}
    (h : (k, id) ∈ c.entries) : (c.erase k).size < c.size := by
  obtain ⟨l⟩ := c
  simp only [ObjectCache.erase, ObjectCache.size] at h ⊢
  induction l with
  | nil => simp at h
  | cons e l ih =>
    rcases List.mem_cons.1 h with h1 | h1
    · subst h1
      simp only [List.filter, bne_self_eq_false, List.length_cons]
      exact Nat.lt_succ_of_le (List.length_filter_le _ _)
    · by_cases he : (e.1 != k) = true
      · simp only [List.filter, he, List.length_cons]
        exact Nat.succ_lt_succ (ih h1)
      · simp only [Bool.not_eq_true] at he
        simp only [List.filter, he, List.length_cons]
        exact Nat.lt_succ_of_le (List.length_filter_le _ _)

theorem ObjectCache.nodup_of_sublist {c d : ObjectCache} (h : d.entries.Sublist c.entries)
    (hnd : (c.entries.map Prod.fst).Nodup) : (d.entries.map Prod.fst).Nodup :=
  List.Nodup.sublist (h.map Prod.fst) hnd

theorem ObjectCache.has_false_of_sublist {c d : ObjectCache} (h : d.entries.Sublist c.entries)
    {k : Ptr} (hk : c.has k = false) : d.has k = false := by
  rw [ObjectCache.has_eq_false_iff] at hk ⊢
  intro e he
  exact hk e (h.subset he)

theorem ObjectCache.size_le_of_sublist {c d : ObjectCache} (h : d.entries.Sublist c.entries) :
    d.size ≤ c.size := h.length_le

/-! ## The cache invariant under insertion and eviction; `New` and `Layer::dispose` -/

theorem CacheOk.add_ok {c : ObjectCache} {h : ObjId → Ptr} (h1 : ObjId → Ptr) {n : Nat}
    {raw : Ptr} (hok : CacheOk c h n) (hhas : c.has raw = false) (hraw : raw ≠ 0)
    (hold : ∀ id, id < n → h1 id = h id) (hnew : h1 n = raw) :
    CacheOk ⟨(raw, n) :: c.entries⟩ h1 (n + 1) := by
  refine ⟨?_, ?_⟩
  · simp only [List.map_cons, List.nodup_cons]
    refine ⟨?_, hok.1⟩
    intro hm
    obtain ⟨e, he, hek⟩ := List.mem_map.1 hm
    exact (ObjectCache.has_eq_false_iff _ _).1 hhas e he hek
  · intro e he
    rcases List.mem_cons.1 he with h0 | h0
    · subst h0
      exact ⟨Nat.lt_succ_self _, hnew, hraw⟩
    · have := hok.2 e h0
      exact ⟨Nat.lt_succ_of_lt this.1, by rw [hold _ this.1]; exact this.2.1, this.2.2⟩

theorem LiveCached.add_live {c : ObjectCache} {h : ObjId → Ptr} (h1 : ObjId → Ptr) {n : Nat}
    {raw : Ptr} (hlive : LiveCached c h n) (hhas : c.has raw = false)
    (hold : ∀ id, id < n → h1 id = h id) (hnew : h1 n = raw) :
    LiveCached ⟨(raw, n) :: c.entries⟩ h1 (n + 1) := by
  intro id hid hl
  by_cases hn : id = n
  · subst hn
    rw [hnew]
    exact ObjectCache.get_cons_self _ _ _
  · have hlt : id < n := by omega
    rw [hold id hlt] at hl ⊢
    have hg := hlive id hlt hl
    have hne : h id ≠ raw := by
      intro heq
      have := (ObjectCache.has_eq_false_iff _ _).1 hhas _ (ObjectCache.mem_of_get hg)
      exact this heq
    have hb : (h id == raw) = false := by simpa using hne
    simpa [ObjectCache.get, List.lookup, hb] using hg

theorem CacheOk.erase_null_ok {c : ObjectCache} {h : ObjId → Ptr} (h1 : ObjId → Ptr) {n : Nat}
    (self : ObjId) (hok : CacheOk c h n) (hother : ∀ id, id ≠ self → h1 id = h id) :
    CacheOk (c.erase (h self)) h1 n := by
  refine ⟨ObjectCache.nodup_of_sublist (ObjectCache.erase_sublist _ _) hok.1, ?_⟩
  intro e he
  obtain ⟨hmem, hne⟩ := ObjectCache.mem_erase.1 he
  have := hok.2 e hmem
  have hes : e.2 ≠ self := by
    intro heq
    apply hne
    rw [← this.2.1, heq]
  exact ⟨this.1, by rw [hother _ hes]; exact this.2.1, this.2.2⟩

theorem LiveCached.erase_null_live {c : ObjectCache} {h : ObjId → Ptr} (h1 : ObjId → Ptr)
    {n : Nat} (self : ObjId) (hlive : LiveCached c h n) (hok : CacheOk c h n) (hself : self < n) (hk : h self ≠ 0)
    (hnull : h1 self = 0) (hother : ∀ id, id ≠ self → h1 id = h id) :
    LiveCached (c.erase (h self)) h1 n := by
  intro id hid hl
  have hne : id ≠ self := by
    intro heq
    rw [heq] at hl
    exact hl hnull
  rw [hother id hne] at hl ⊢
  have hg := hlive id hid hl
  have hkne : h id ≠ h self := by
    intro heq
    rw [heq, hlive self hself hk] at hg
    exact hne (Option.some.inj hg).symm
  exact ObjectCache.get_of_mem
    (ObjectCache.nodup_of_sublist (ObjectCache.erase_sublist _ _) hok.1)
    (ObjectCache.mem_erase.2 ⟨ObjectCache.mem_of_get hg, hkne⟩)


theorem List.set_length_append_singleton {α : Type} (l : List α) (a b : α) :
    (l ++ [a]).set l.length b = l ++ [b] := by
  induction l with
  | nil => rfl
  | cons x l ih => simp [List.set, ih]

theorem List.getD_length_append_singleton {α : Type} (l : List α) (a d : α) :
    (l ++ [a]).getD l.length d = a := by
  induction l with
  | nil => rfl
  | cons x l ih => simp [List.getD_cons_succ, ih]

theorem List.getD_append_singleton_of_lt {α : Type} (l : List α) (a d : α) (i : Nat)
    (h : i < l.length) : (l ++ [a]).getD i d = l.getD i d :=
  List.getD_append l [a] d i h

theorem Layer.New_miss_layer (w : World) (raw raw_parent : Ptr) (result_set : Bool)
    (hraw : raw ≠ 0) (hhas : w.layer_cache.has raw = false) :
    Layer.New w raw raw_parent result_set =
      ({ w with
          layers := w.layers ++ [Layer.fresh w raw raw_parent result_set],
          layer_cache := ⟨(raw, w.layers.length) :: w.layer_cache.entries⟩ },
        if raw_parent ≠ 0 ∧ w.dataset_cache.has raw_parent = false then
          .throw "Layer's parent dataset disappeared from cache"
        else .ret (.object .Layer w.layers.length)) := by
  simp only [Layer.New, hraw, hhas, ObjectCache.add, if_false, Bool.false_eq_true, Layer.fresh]
  by_cases hp : raw_parent = 0
  · simp [hp]
  · by_cases hd : w.dataset_cache.has raw_parent = true
    · simp [hp, hd, World.setLayer, World.layer, List.set_length_append_singleton,
        List.getD_length_append_singleton]
    · simp [hp, hd]

theorem RasterBand.New_miss_band (w : World) (raw raw_parent : Ptr)
    (hraw : raw ≠ 0) (hhas : w.band_cache.has raw = false) :
    RasterBand.New w raw raw_parent =
      ({ w with
          bands := w.bands ++ [RasterBand.fresh w raw raw_parent],
          band_cache := ⟨(raw, w.bands.length) :: w.band_cache.entries⟩ },
        if raw_parent ≠ 0 ∧ w.dataset_cache.has raw_parent = false then
          .throw "Band's parent dataset disappeared from cache"
        else .ret (.object .RasterBand w.bands.length)) := by
  simp only [RasterBand.New, hraw, hhas, ObjectCache.add, if_false, Bool.false_eq_true,
    RasterBand.fresh]
  by_cases hp : raw_parent = 0
  · simp [hp]
  · by_cases hd : w.dataset_cache.has raw_parent = true
    · simp [hp, hd, World.setBand, World.band, List.set_length_append_singleton,
        List.getD_length_append_singleton]
    · simp [hp, hd]

theorem Layer.fresh_this_layer (w : World) (raw raw_parent : Ptr) (result_set : Bool) :
    (Layer.fresh w raw raw_parent result_set).this_ = raw := by
  unfold Layer.fresh; split <;> rfl

theorem RasterBand.fresh_this_band (w : World) (raw raw_parent : Ptr) :
    (RasterBand.fresh w raw raw_parent).this_ = raw := by
  unfold RasterBand.fresh; split <;> rfl

theorem Layer.New_hit_layer (w : World) (raw raw_parent : Ptr) (result_set : Bool) (id : ObjId)
    (hraw : raw ≠ 0) (h : w.layer_cache.get raw = some id) :
    Layer.New w raw raw_parent result_set = (w, .ret (.object .Layer id)) := by
  have hhas : w.layer_cache.has raw = true := (ObjectCache.has_iff_get _ _).2 ⟨id, h⟩
  simp [Layer.New, hraw, hhas, ObjectCache.handle_of_get _ h]

theorem RasterBand.New_hit_band (w : World) (raw raw_parent : Ptr) (id : ObjId)
    (hraw : raw ≠ 0) (h : w.band_cache.get raw = some id) :
    RasterBand.New w raw raw_parent = (w, .ret (.object .RasterBand id)) := by
  have hhas : w.band_cache.has raw = true := (ObjectCache.has_iff_get _ _).2 ⟨id, h⟩
  simp [RasterBand.New, hraw, hhas, ObjectCache.handle_of_get _ h]

theorem Layer.New_null_layer (w : World) (raw_parent : Ptr) (result_set : Bool) :
    Layer.New w 0 raw_parent result_set = (w, .ret .null) := by
  simp [Layer.New]

theorem RasterBand.New_null_band (w : World) (raw_parent : Ptr) :
    RasterBand.New w 0 raw_parent = (w, .ret .null) := by
  simp [RasterBand.New]

/-- The world `Layer::New` leaves is the old one, or the old one with one more
wrapper and one more cache entry. -/
theorem Layer.New_world_layer (w : World) (raw raw_parent : Ptr) (result_set : Bool) :
    (Layer.New w raw raw_parent result_set).1 = w ∨
      (raw ≠ 0 ∧ w.layer_cache.has raw = false ∧
        (Layer.New w raw raw_parent result_set).1 =
          { w with
            layers := w.layers ++ [Layer.fresh w raw raw_parent result_set],
            layer_cache := ⟨(raw, w.layers.length) :: w.layer_cache.entries⟩ }) := by
  by_cases hraw : raw = 0
  · subst hraw; left; rw [Layer.New_null_layer]
  · by_cases hhas : w.layer_cache.has raw = true
    · obtain ⟨id, hid⟩ := (ObjectCache.has_iff_get _ _).1 hhas
      left; rw [Layer.New_hit_layer w raw raw_parent result_set id hraw hid]
    · simp only [Bool.not_eq_true] at hhas
      right
      exact ⟨hraw, hhas, by rw [Layer.New_miss_layer w raw raw_parent result_set hraw hhas]⟩

theorem RasterBand.New_world_band (w : World) (raw raw_parent : Ptr) :
    (RasterBand.New w raw raw_parent).1 = w ∨
      (raw ≠ 0 ∧ w.band_cache.has raw = false ∧
        (RasterBand.New w raw raw_parent).1 =
          { w with
            bands := w.bands ++ [RasterBand.fresh w raw raw_parent],
            band_cache := ⟨(raw, w.bands.length) :: w.band_cache.entries⟩ }) := by
  by_cases hraw : raw = 0
  · subst hraw; left; rw [RasterBand.New_null_band]
  · by_cases hhas : w.band_cache.has raw = true
    · obtain ⟨id, hid⟩ := (ObjectCache.has_iff_get _ _).1 hhas
      left; rw [RasterBand.New_hit_band w raw raw_parent id hraw hid]
    · simp only [Bool.not_eq_true] at hhas
      right
      exact ⟨hraw, hhas, by rw [RasterBand.New_miss_band w raw raw_parent hraw hhas]⟩

theorem World.layer_setLayer (w : World) (id j : ObjId) (l : Layer) :
    (w.setLayer id l).layer j = if id = j ∧ id < w.layers.length then l else w.layer j := by
  simp only [World.setLayer, World.layer, List.getD_eq_getElem?_getD, List.getElem?_set]
  by_cases h1 : id = j
  · subst h1
    by_cases h2 : id < w.layers.length
    · simp [h2]
    · simp [h2, List.getElem?_eq_none (Nat.le_of_not_lt h2)]
  · simp [h1]

theorem World.layer_of_ge (w : World) (id : ObjId) (h : w.layers.length ≤ id) :
    w.layer id = {} := by
  simp [World.layer, List.getD_eq_getElem?_getD, List.getElem?_eq_none h]

theorem Layer.dispose_dead_layer (w : World) (self : ObjId) (h : (w.layer self).this_ = 0) :
    Layer.dispose w self = w := by
  simp [Layer.dispose, h]

theorem Layer.dispose_live_layer (w : World) (self : ObjId) (h : (w.layer self).this_ ≠ 0) :
    Layer.dispose w self =
      { w with
        layer_cache := w.layer_cache.erase (w.layer self).this_,
        layers := w.layers.set self { w.layer self with this_ := 0 },
        trace :=
          if (w.layer self).is_result_set = true ∧ (w.layer self).parent_ds ≠ 0 then
            w.trace ++ [⟨"ReleaseResultSet", (w.layer self).parent_ds, [.ptr (w.layer self).this_]⟩]
          else w.trace } := by
  unfold Layer.dispose
  simp only [h, ne_eq, not_false_eq_true, and_true, if_true]
  by_cases hr : (w.layer self).is_result_set = true ∧ ¬ (w.layer self).parent_ds = 0
  · rw [if_pos hr, if_pos hr]; rfl
  · rw [if_neg hr, if_neg hr]; rfl

/-! ## `RasterBand::dispose` -/

theorem Native.Linked.trans_linked {nat : Native} {a b c : Ptr} (h1 : nat.Linked a b)
    (h2 : nat.Linked b c) : nat.Linked a c := by
  induction h2 with
  | refl => exact h1
  | step x y _ hl ih => exact Native.Linked.step x y ih hl

theorem Native.Linked.of_link {nat : Native} {a b : Ptr} (h : nat.link a b) : nat.Linked a b :=
  Native.Linked.step a b Native.Linked.refl h

@[simp] theorem World.band_log (w : World) (c : NativeCall) (id : ObjId) :
    (w.log c).band id = w.band id := rfl

@[simp] theorem World.band_cache_log (w : World) (c : NativeCall) :
    (w.log c).band_cache = w.band_cache := rfl

@[simp] theorem World.bands_log (w : World) (c : NativeCall) :
    (w.log c).bands = w.bands := rfl

theorem World.band_setBand (w : World) (id j : ObjId) (b : RasterBand) :
    (w.setBand id b).band j = if id = j ∧ id < w.bands.length then b else w.band j := by
  simp only [World.setBand, World.band, List.getD_eq_getElem?_getD, List.getElem?_set]
  by_cases h1 : id = j
  · subst h1
    by_cases h2 : id < w.bands.length
    · simp [h2]
    · simp [h2, List.getElem?_eq_none (Nat.le_of_not_lt h2)]
  · simp [h1]

theorem World.band_of_ge (w : World) (id : ObjId) (h : w.bands.length ≤ id) :
    w.band id = {} := by
  simp [World.band, List.getD_eq_getElem?_getD, List.getElem?_eq_none h]

theorem BandStep.refl (nat : Native) (root : Ptr) (w : World) : BandStep nat root w w :=
  { layers := rfl, geometries := rfl, feature_defns := rfl, datasets := rfl, layer_cache := rfl,
    dataset_cache := rfl, stats_file_err := rfl, len := rfl, sub := List.Sublist.refl _,
    linked := fun _ he hne => absurd he hne, bands := fun _ => Or.inl rfl }

theorem BandStep.log (nat : Native) (root : Ptr) (w : World) (c : NativeCall) :
    BandStep nat root w (w.log c) :=
  { layers := rfl, geometries := rfl, feature_defns := rfl, datasets := rfl, layer_cache := rfl,
    dataset_cache := rfl, stats_file_err := rfl, len := rfl, sub := List.Sublist.refl _,
    linked := fun _ he hne => absurd he hne, bands := fun _ => Or.inl rfl }

theorem BandStep.trans {nat : Native} {root : Ptr} {a b c : World}
    (h1 : BandStep nat root a b) (h2 : BandStep nat root b c) : BandStep nat root a c where
  layers := h2.layers.trans h1.layers
  geometries := h2.geometries.trans h1.geometries
  feature_defns := h2.feature_defns.trans h1.feature_defns
  datasets := h2.datasets.trans h1.datasets
  layer_cache := h2.layer_cache.trans h1.layer_cache
  dataset_cache := h2.dataset_cache.trans h1.dataset_cache
  stats_file_err := h2.stats_file_err.trans h1.stats_file_err
  len := h2.len.trans h1.len
  sub := h2.sub.trans h1.sub
  linked := by
    intro e he hne
    by_cases hb : e ∈ b.band_cache.entries
    · exact h2.linked e hb hne
    · exact h1.linked e he hb
  bands := by
    intro id
    rcases h1.bands id with e1 | ⟨e1, p, hp, hnp⟩
    · rcases h2.bands id with e2 | ⟨e2, q, hq, hnq⟩
      · exact Or.inl (e2.trans e1)
      · refine Or.inr ⟨by rw [e2, e1], q, h1.sub.subset hq, hnq⟩
    · refine Or.inr ⟨?_, p, hp, fun hc => hnp (h2.sub.subset hc)⟩
      rcases h2.bands id with e2 | ⟨e2, _⟩
      · rw [e2, e1]
      · rw [e2, e1]

theorem BandStep.mono {nat : Native} {root r : Ptr} {a b : World}
    (h : BandStep nat r a b) (hl : nat.Linked root r) : BandStep nat root a b :=
  { h with linked := fun e he hne => hl.trans_linked (h.linked e he hne) }

theorem BandStep.erase (nat : Native) (w : World) (k : Ptr) :
    BandStep nat k w { w with band_cache := w.band_cache.erase k } where
  layers := rfl
  geometries := rfl
  feature_defns := rfl
  datasets := rfl
  layer_cache := rfl
  dataset_cache := rfl
  stats_file_err := rfl
  len := rfl
  sub := ObjectCache.erase_sublist _ _
  linked := by
    intro e he hne
    have : e.1 = k := by
      by_contra hk
      exact hne (ObjectCache.mem_erase.2 ⟨he, hk⟩)
    rw [this]
    exact Native.Linked.refl
  bands := fun _ => Or.inl rfl


theorem BandsOk.mem {w : World} (h : BandsOk w) {e : Ptr × ObjId} (he : e ∈ w.band_cache.entries) :
    e.2 < w.bands.length ∧ (w.band e.2).this_ = e.1 ∧ e.1 ≠ 0 := h.2 e he

theorem BandsOk.of_get {w : World} (h : BandsOk w) {k : Ptr} {id : ObjId}
    (hg : w.band_cache.get k = some id) :
    id < w.bands.length ∧ (w.band id).this_ = k ∧ k ≠ 0 :=
  h.mem (ObjectCache.mem_of_get hg)

theorem BandStep.band_self {nat : Native} {root k : Ptr} {w w1 : World} {self : ObjId}
    (hs : BandStep nat root w w1) (hok : BandsOk w) (hself : (w.band self).this_ = k)
    (hk : w.band_cache.has k = false) : w1.band self = w.band self := by
  rcases hs.bands self with e | ⟨_, p, hp, _⟩
  · exact e
  · exfalso
    have h1 := (hok.mem hp).2.1
    simp only at h1
    rw [hself] at h1
    exact (ObjectCache.has_eq_false_iff _ _).1 hk _ hp h1.symm

theorem disposeCached_spec {nat : Native} {P : ObjId → Prop} {fuel : Nat}
    {rec : World → ObjId → Option World} (hrec : DisposeSpec nat P fuel rec)
    (w : World) (band : Ptr) (hok : BandsOk w) (hlive : BandsLive P w)
    (hsize : w.band_cache.size ≤ fuel) :
    ∃ w1, RasterBand.disposeCached rec w band = some w1 ∧ BandsOk w1 ∧ BandsLive P w1 ∧
      BandStep nat band w w1 ∧ w1.band_cache.has band = false := by
  unfold RasterBand.disposeCached
  by_cases hhas : w.band_cache.has band = true
  · obtain ⟨x, hx⟩ := (ObjectCache.has_iff_get _ _).1 hhas
    have hb := hok.of_get hx
    have hne : (w.band x).this_ ≠ 0 := by rw [hb.2.1]; exact hb.2.2
    obtain ⟨w1, hw1, hpost⟩ := hrec w x hok hlive hne (by rw [hb.2.1]; exact hx) hsize
    rw [hb.2.1] at hpost
    exact ⟨w1, by simp [hhas, hx, hw1], hpost.ok, hpost.live, hpost.step, hpost.erased⟩
  · simp only [Bool.not_eq_true] at hhas
    exact ⟨w, by simp [hhas], hok, hlive, BandStep.refl _ _ _, hhas⟩

theorem disposeOverviews_spec {nat : Native} {P : ObjId → Prop} {fuel : Nat}
    {rec : World → ObjId → Option World} (hrec : DisposeSpec nat P fuel rec)
    (self : ObjId) (k : Ptr) (hk0 : k ≠ 0) :
    ∀ (r : Nat) (i : Int) (w : World), 0 ≤ i → (r = 0 ∨ i + r ≤ nat.GetOverviewCount k) →
      BandsOk w → BandsLive P w → (w.band self).this_ = k → w.band_cache.has k = false →
      w.band_cache.size ≤ fuel →
      ∃ w1, RasterBand.disposeOverviews nat rec self r i w = some w1 ∧ BandsOk w1 ∧
        BandsLive P w1 ∧ BandStep nat k w w1 ∧ (w1.band self).this_ = k ∧
        w1.band_cache.has k = false ∧
        ∀ j : Int, i ≤ j → j < i + r → w1.band_cache.has (nat.GetOverview k j) = false := by
  intro r
  induction r with
  | zero =>
    intro i w _ _ hok hlive hself hk _
    refine ⟨w, rfl, hok, hlive, BandStep.refl _ _ _, hself, hk, ?_⟩
    intro j h1 h2
    simp at h2
    omega
  | succ r ih =>
    intro i w hi hn hok hlive hself hk hsize
    have hn1 : i + (r + 1 : Nat) ≤ nat.GetOverviewCount k := by
      rcases hn with h | h
      · omega
      · exact h
    have hlink : nat.link k (nat.GetOverview k i) := Or.inl ⟨i, hi, by push_cast at hn1; omega, rfl⟩
    obtain ⟨w2, hw2, hok2, hlive2, hstep2, hhas2⟩ :=
      disposeCached_spec hrec (w.log ⟨"GetOverview", k, [.int i]⟩) (nat.GetOverview k i)
        hok hlive hsize
    have hstep2k : BandStep nat k w w2 :=
      (BandStep.log nat k w _).trans (hstep2.mono (Native.Linked.of_link hlink))
    have hself2 : (w2.band self).this_ = k := by
      rw [hstep2k.band_self hok hself hk]; exact hself
    have hk2 : w2.band_cache.has k = false := ObjectCache.has_false_of_sublist hstep2k.sub hk
    have hsize2 : w2.band_cache.size ≤ fuel :=
      le_trans (ObjectCache.size_le_of_sublist hstep2k.sub) hsize
    obtain ⟨w3, hw3, hok3, hlive3, hstep3, hself3, hk3, hch3⟩ :=
      ih (i + 1) w2 (by omega) (Or.inr (by push_cast at hn1 ⊢; omega)) hok2 hlive2 hself2 hk2 hsize2
    refine ⟨w3, ?_, hok3, hlive3, hstep2k.trans hstep3, hself3, hk3, ?_⟩
    · simp only [RasterBand.disposeOverviews, hself, hk0, if_false, hw2, hw3]
    · intro j h1 h2
      by_cases hj : j = i
      · subst hj
        exact ObjectCache.has_false_of_sublist hstep3.sub hhas2
      · exact hch3 j (by omega) (by push_cast at h2 ⊢; omega)


theorem RasterBand.dispose_spec (nat : Native) :
    ∀ (fuel : Nat) (P : ObjId → Prop), DisposeSpec nat P fuel (RasterBand.dispose nat fuel) := by
  intro fuel
  induction fuel with
  | zero =>
    intro P w x _ _ _ hget hsize
    have hpos : 0 < w.band_cache.size := List.length_pos_of_mem (ObjectCache.mem_of_get hget)
    omega
  | succ fuel ih =>
    intro P w self hok hlive hne hget hsize
    generalize hk : (w.band self).this_ = k at hne hget ⊢
    have hmem : (k, self) ∈ w.band_cache.entries := ObjectCache.mem_of_get hget
    have hselflen : self < w.bands.length := (hok.mem hmem).1
    -- the state after `cache.erase(this_)` and `GetOverviewCount()`
    let w2 : World :=
      ({ w with band_cache := w.band_cache.erase k } : World).log ⟨"GetOverviewCount", k, []⟩
    have hstep2 : BandStep nat k w w2 := (BandStep.erase nat w k).trans (BandStep.log _ _ _ _)
    have hok2 : BandsOk w2 :=
      ⟨ObjectCache.nodup_of_sublist (ObjectCache.erase_sublist _ _) hok.1,
        fun e he => hok.mem (ObjectCache.mem_erase.1 he).1⟩
    have hk2 : w2.band_cache.has k = false := ObjectCache.has_erase_self _ _
    have hself2 : (w2.band self).this_ = k := hk
    have hsize2 : w2.band_cache.size ≤ fuel := by
      have h1 : w2.band_cache.size < w.band_cache.size := ObjectCache.size_erase_lt hmem
      omega
    have hlive2 : BandsLive (fun id => P id ∨ id = self) w2 := by
      intro id hid hP hl
      have hP1 : ¬ P id := fun h => hP (Or.inl h)
      have hne1 : id ≠ self := fun h => hP (Or.inr h)
      have hg : w.band_cache.get (w.band id).this_ = some id := hlive id hid hP1 hl
      have hmem1 := ObjectCache.mem_of_get hg
      have hkne : (w.band id).this_ ≠ k := by
        intro hkk
        rw [hkk] at hg
        rw [hget] at hg
        exact hne1 (Option.some.inj hg).symm
      exact ObjectCache.get_of_mem hok2.1 (ObjectCache.mem_erase.2 ⟨hmem1, hkne⟩)
    -- the loop over the overviews
    obtain ⟨w3, hw3, hok3, hlive3, hstep3, hself3, hk3, hch3⟩ :=
      disposeOverviews_spec (ih (fun id => P id ∨ id = self)) self k hne
        (nat.GetOverviewCount k).toNat 0 w2 (le_refl _)
        (by
          by_cases hn : 0 ≤ nat.GetOverviewCount k
          · right; rw [Int.toNat_of_nonneg hn]; omega
          · left; exact Int.toNat_eq_zero.2 (by omega))
        hok2 hlive2 hself2 hk2 hsize2
    have hsize3 : w3.band_cache.size ≤ fuel :=
      le_trans (ObjectCache.size_le_of_sublist hstep3.sub) hsize2
    -- the mask band
    obtain ⟨w5, hw5, hok5, hlive5, hstep5, hhas5⟩ :=
      disposeCached_spec (ih (fun id => P id ∨ id = self)) (w3.log ⟨"GetMaskBand", k, []⟩)
        (nat.GetMaskBand k) hok3 hlive3 hsize3
    have hstep35 : BandStep nat k w3 w5 :=
      (BandStep.log nat k w3 _).trans (hstep5.mono (Native.Linked.of_link (Or.inr rfl)))
    have hstep25 : BandStep nat k w2 w5 := hstep3.trans hstep35
    have hstep05 : BandStep nat k w w5 := hstep2.trans hstep25
    have hband5 : w5.band self = w.band self := hstep25.band_self hok2 hself2 hk2
    have hk5 : w5.band_cache.has k = false := ObjectCache.has_false_of_sublist hstep25.sub hk2
    have hlen5 : self < w5.bands.length := by rw [hstep05.len]; exact hselflen
    refine ⟨w5.setBand self { w5.band self with this_ := 0 }, ?_, ?_⟩
    · simp only [RasterBand.dispose, hk, hne, if_false]
      show (match RasterBand.disposeOverviews nat (RasterBand.dispose nat fuel) self
        (nat.GetOverviewCount k).toNat 0 w2 with
        | none => none
        | some w3 => _) = _
      rw [hw3]
      simp only [hself3, hne, if_false, hw5]
    · have hb6 : ∀ id, (w5.setBand self { w5.band self with this_ := 0 }).band id =
          if self = id then { w5.band self with this_ := 0 } else w5.band id := by
        intro id
        rw [World.band_setBand]
        by_cases h : self = id
        · subst h
          simp [hlen5]
        · simp [h]
      refine ⟨⟨hok5.1, ?_⟩, ?_, ?_, ?_, hk5, ?_⟩
      · intro e he
        have h5 := hok5.mem he
        have hne5 : self ≠ e.2 := by
          intro h
          have := h5.2.1
          rw [← h, hband5, hk] at this
          exact (ObjectCache.has_eq_false_iff _ _).1 hk5 e he this.symm
        refine ⟨by simpa [World.setBand] using h5.1, ?_, h5.2.2⟩
        show ((w5.setBand self { w5.band self with this_ := 0 }).band e.2).this_ = e.1
        rw [hb6, if_neg hne5]
        exact h5.2.1
      · intro id hid hP hl
        have hne6 : self ≠ id := by
          intro h
          apply hl
          rw [hb6, if_pos h]
        rw [hb6, if_neg hne6] at hl ⊢
        have hid5 : id < w5.bands.length := by simpa [World.setBand] using hid
        exact hlive5 id hid5 (fun h => h.elim hP (fun h' => hne6 h'.symm)) hl
      · exact
          { layers := hstep05.layers, geometries := hstep05.geometries,
            feature_defns := hstep05.feature_defns, datasets := hstep05.datasets,
            layer_cache := hstep05.layer_cache, dataset_cache := hstep05.dataset_cache,
            stats_file_err := hstep05.stats_file_err,
            len := by simpa [World.setBand] using hstep05.len,
            sub := hstep05.sub, linked := hstep05.linked,
            bands := by
              intro id
              rw [hb6]
              by_cases h : self = id
              · subst h
                rw [if_pos rfl, hband5]
                exact Or.inr ⟨rfl, k, hmem, fun hc =>
                  (ObjectCache.has_eq_false_iff _ _).1 hk5 _ hc rfl⟩
              · rw [if_neg h]
                exact hstep05.bands id }
      · rw [hb6, if_pos rfl]
      · intro c hc
        rcases hc with ⟨i, hi0, hin, hic⟩ | hc
        · have := hch3 i hi0 (by rw [Int.toNat_of_nonneg (by omega)]; omega)
          rw [hic] at this
          exact ObjectCache.has_false_of_sublist hstep35.sub this
        · rw [← hc]
          exact hhas5


theorem RasterBand.disposeCached_mono {rec rec1 : World → ObjId → Option World}
    (h : ∀ w x w1, rec w x = some w1 → rec1 w x = some w1) (w : World) (band : Ptr) (w1 : World)
    (hr : RasterBand.disposeCached rec w band = some w1) :
    RasterBand.disposeCached rec1 w band = some w1 := by
  unfold RasterBand.disposeCached at hr ⊢
  by_cases hhas : w.band_cache.has band = true
  · simp only [hhas, if_true] at hr ⊢
    cases hg : w.band_cache.get band with
    | none => simp [hg] at hr
    | some x =>
      simp only [hg] at hr ⊢
      exact h _ _ _ hr
  · simpa [hhas] using hr

theorem RasterBand.disposeOverviews_mono (nat : Native) {rec rec1 : World → ObjId → Option World}
    (h : ∀ w x w1, rec w x = some w1 → rec1 w x = some w1) (self : ObjId) :
    ∀ (r : Nat) (i : Int) (w w1 : World),
      RasterBand.disposeOverviews nat rec self r i w = some w1 →
      RasterBand.disposeOverviews nat rec1 self r i w = some w1 := by
  intro r
  induction r with
  | zero => intro i w w1 hr; simpa [RasterBand.disposeOverviews] using hr
  | succ r ih =>
    intro i w w1 hr
    simp only [RasterBand.disposeOverviews] at hr ⊢
    by_cases h0 : (w.band self).this_ = 0
    · simp [h0] at hr
    · simp only [h0, if_false] at hr ⊢
      cases hc : RasterBand.disposeCached rec
          (w.log ⟨"GetOverview", (w.band self).this_, [.int i]⟩)
          (nat.GetOverview (w.band self).this_ i) with
      | none => simp [hc] at hr
      | some w2 =>
        rw [hc] at hr
        rw [RasterBand.disposeCached_mono h _ _ _ hc]
        exact ih _ _ _ hr

theorem RasterBand.dispose_mono_succ (nat : Native) :
    ∀ (fuel : Nat) (w : World) (self : ObjId) (w1 : World),
      RasterBand.dispose nat fuel w self = some w1 →
      RasterBand.dispose nat (fuel + 1) w self = some w1 := by
  intro fuel
  induction fuel with
  | zero => intro w self w1 hr; simp [RasterBand.dispose] at hr
  | succ fuel ih =>
    intro w self w1 hr
    rw [RasterBand.dispose] at hr ⊢
    by_cases h0 : (w.band self).this_ = 0
    · simpa [h0] using hr
    · simp only [h0, if_false] at hr ⊢
      cases hl : RasterBand.disposeOverviews nat (RasterBand.dispose nat fuel) self
          (nat.GetOverviewCount (w.band self).this_).toNat 0
          (World.log { w with band_cache := w.band_cache.erase (w.band self).this_ }
            ⟨"GetOverviewCount", (w.band self).this_, []⟩) with
      | none => simp [hl] at hr
      | some w3 =>
        rw [hl] at hr
        rw [RasterBand.disposeOverviews_mono nat ih self _ _ _ _ hl]
        simp only at hr ⊢
        by_cases h3 : (w3.band self).this_ = 0
        · simp [h3] at hr
        · simp only [h3, if_false] at hr ⊢
          cases hm : RasterBand.disposeCached (RasterBand.dispose nat fuel)
              (w3.log ⟨"GetMaskBand", (w3.band self).this_, []⟩)
              (nat.GetMaskBand (w3.band self).this_) with
          | none => simp [hm] at hr
          | some w5 =>
            rw [hm] at hr
            rw [RasterBand.disposeCached_mono ih _ _ _ hm]
            exact hr

theorem RasterBand.dispose_mono (nat : Native) {fuel fuel1 : Nat} (hle : fuel ≤ fuel1)
    (w : World) (self : ObjId) (w1 : World) (hr : RasterBand.dispose nat fuel w self = some w1) :
    RasterBand.dispose nat fuel1 w self = some w1 := by
  induction hle with
  | refl => exact hr
  | step _ ih => exact RasterBand.dispose_mono_succ nat _ _ _ _ ih

/-! ## The invariant holds in every reachable state -/

theorem Inv.init (dataset_cache : ObjectCache) (datasets : List Dataset) :
    Inv { dataset_cache := dataset_cache, datasets := datasets } :=
  { layers_ok := ⟨List.nodup_nil, fun _ he => by cases he⟩
    bands_ok := ⟨List.nodup_nil, fun _ he => by cases he⟩
    layers_live := fun id hid => by simp at hid
    bands_live := fun id hid => by simp at hid }

theorem Inv.datasets {w : World} (h : Inv w) (dataset_cache : ObjectCache)
    (datasets : List Dataset) :
    Inv { w with dataset_cache := dataset_cache, datasets := datasets } :=
  { layers_ok := h.layers_ok, bands_ok := h.bands_ok, layers_live := h.layers_live,
    bands_live := h.bands_live }

theorem Inv.layerNew {w : World} (h : Inv w) (raw raw_parent : Ptr) (result_set : Bool) :
    Inv (Layer.New w raw raw_parent result_set).1 := by
  rcases Layer.New_world_layer w raw raw_parent result_set with he | ⟨hraw, hhas, he⟩
  · rw [he]; exact h
  · rw [he]
    have hold : ∀ id, id < w.layers.length →
        (w.layers ++ [Layer.fresh w raw raw_parent result_set]).getD id {} = w.layers.getD id {} :=
      fun id hid => List.getD_append _ _ _ _ hid
    have hnew : ((w.layers ++ [Layer.fresh w raw raw_parent result_set]).getD
        w.layers.length {}).this_ = raw := by
      rw [List.getD_length_append_singleton, Layer.fresh_this_layer]
    refine ⟨?_, h.bands_ok, ?_, h.bands_live⟩
    · have := CacheOk.add_ok (fun id =>
          ((w.layers ++ [Layer.fresh w raw raw_parent result_set]).getD id {}).this_)
        h.layers_ok hhas hraw (fun id hid => by simp only [hold id hid]; rfl) hnew
      simpa [World.layer] using this
    · have := LiveCached.add_live (fun id =>
          ((w.layers ++ [Layer.fresh w raw raw_parent result_set]).getD id {}).this_)
        h.layers_live hhas (fun id hid => by simp only [hold id hid]; rfl) hnew
      simpa [World.layer] using this

theorem Inv.bandNew {w : World} (h : Inv w) (raw raw_parent : Ptr) :
    Inv (RasterBand.New w raw raw_parent).1 := by
  rcases RasterBand.New_world_band w raw raw_parent with he | ⟨hraw, hhas, he⟩
  · rw [he]; exact h
  · rw [he]
    have hold : ∀ id, id < w.bands.length →
        (w.bands ++ [RasterBand.fresh w raw raw_parent]).getD id {} = w.bands.getD id {} :=
      fun id hid => List.getD_append _ _ _ _ hid
    have hnew : ((w.bands ++ [RasterBand.fresh w raw raw_parent]).getD
        w.bands.length {}).this_ = raw := by
      rw [List.getD_length_append_singleton, RasterBand.fresh_this_band]
    refine ⟨h.layers_ok, ?_, h.layers_live, ?_⟩
    · have := CacheOk.add_ok (fun id =>
          ((w.bands ++ [RasterBand.fresh w raw raw_parent]).getD id {}).this_)
        h.bands_ok hhas hraw (fun id hid => by simp only [hold id hid]; rfl) hnew
      simpa [World.band] using this
    · have := LiveCached.add_live (fun id =>
          ((w.bands ++ [RasterBand.fresh w raw raw_parent]).getD id {}).this_)
        h.bands_live hhas (fun id hid => by simp only [hold id hid]; rfl) hnew
      simpa [World.band] using this

theorem Inv.layerDispose {w : World} (h : Inv w) (self : ObjId) : Inv (Layer.dispose w self) := by
  by_cases h0 : (w.layer self).this_ = 0
  · rw [Layer.dispose_dead_layer w self h0]; exact h
  · have hlen : self < w.layers.length := by
      by_contra hge
      rw [World.layer_of_ge w self (Nat.le_of_not_lt hge)] at h0
      exact h0 rfl
    have hset : ∀ id, ((w.layers.set self { w.layer self with this_ := 0 }).getD id {} : Layer) =
        if self = id then { w.layer self with this_ := 0 } else w.layer id := by
      intro id
      have := World.layer_setLayer w self id { w.layer self with this_ := 0 }
      simp only [World.setLayer, World.layer] at this ⊢
      rw [this]
      by_cases hs : self = id
      · subst hs
        simp [hlen]
      · simp [hs]
    rw [Layer.dispose_live_layer w self h0]
    refine ⟨?_, h.bands_ok, ?_, h.bands_live⟩
    · have := CacheOk.erase_null_ok (fun id =>
          ((w.layers.set self { w.layer self with this_ := 0 }).getD id {}).this_) self
        h.layers_ok (fun id hid => by
          simp only [hset id, if_neg (Ne.symm hid)])
      simpa [World.layer] using this
    · have := LiveCached.erase_null_live (fun id =>
          ((w.layers.set self { w.layer self with this_ := 0 }).getD id {}).this_) self
        h.layers_live h.layers_ok hlen h0 (by simp only [hset self, if_pos]) (fun id hid => by
          simp only [hset id, if_neg (Ne.symm hid)])
      simpa [World.layer] using this


theorem RasterBand.dispose_dead_band (nat : Native) (fuel : Nat) (w : World) (self : ObjId)
    (h : (w.band self).this_ = 0) : RasterBand.dispose nat (fuel + 1) w self = some w := by
  simp [RasterBand.dispose, h]

theorem World.band_live_lt {w : World} {self : ObjId} (h : (w.band self).this_ ≠ 0) :
    self < w.bands.length := by
  by_contra hge
  rw [World.band_of_ge w self (Nat.le_of_not_lt hge)] at h
  exact h rfl

theorem RasterBand.dispose_live_band (nat : Native) {w : World} (h : Inv w) (self : ObjId)
    (fuel : Nat) (hlive : (w.band self).this_ ≠ 0) (hfuel : w.band_cache.size < fuel) :
    ∃ w1, RasterBand.dispose nat fuel w self = some w1 ∧
      DisposePost nat (fun _ => False) (w.band self).this_ self w w1 :=
  RasterBand.dispose_spec nat fuel (fun _ => False) w self h.bands_ok
    (fun id hid _ hl => h.bands_live id hid hl) hlive
    (h.bands_live self (World.band_live_lt hlive) hlive) (Nat.le_of_lt hfuel)

theorem Inv.of_disposePost {nat : Native} {w w1 : World} {k : Ptr} {self : ObjId} (h : Inv w)
    (hp : DisposePost nat (fun _ => False) k self w w1) : Inv w1 := by
  have hl : ∀ id, w1.layer id = w.layer id := by
    intro id
    simp only [World.layer, hp.step.layers]
  refine ⟨?_, hp.ok, ?_, fun id hid hl => hp.live id hid (fun hf => hf) hl⟩
  · have := h.layers_ok
    simpa only [hl, hp.step.layers, hp.step.layer_cache] using this
  · have := h.layers_live
    simpa only [hl, hp.step.layers, hp.step.layer_cache] using this

theorem Inv.bandDispose {nat : Native} {fuel : Nat} {w w1 : World} {self : ObjId} (h : Inv w)
    (hr : RasterBand.dispose nat fuel w self = some w1) : Inv w1 := by
  by_cases h0 : (w.band self).this_ = 0
  · cases fuel with
    | zero => simp [RasterBand.dispose] at hr
    | succ fuel =>
      rw [RasterBand.dispose_dead_band nat fuel w self h0] at hr
      cases hr
      exact h
  · obtain ⟨w2, hw2, hp⟩ := RasterBand.dispose_live_band nat h self
      (max fuel (w.band_cache.size + 1)) h0 (by omega)
    have := RasterBand.dispose_mono nat (le_max_left fuel (w.band_cache.size + 1)) w self w1 hr
    rw [hw2] at this
    cases this
    exact h.of_disposePost hp

theorem Reachable.inv {w : World} (h : Reachable w) : Inv w := by
  induction h with
  | init dc ds => exact Inv.init dc ds
  | datasets w dc ds _ ih => exact ih.datasets dc ds
  | layerNew w raw raw_parent result_set _ ih => exact ih.layerNew raw raw_parent result_set
  | layerDispose w self _ ih => exact ih.layerDispose self
  | bandNew w raw raw_parent _ ih => exact ih.bandNew raw raw_parent
  | bandDispose nat fuel w w1 self _ hr ih => exact ih.bandDispose hr

/-! ## The invariant holds after every sequence of operations -/

theorem keepsCaches_Layer_toString (nat : Native) (w : World) (self : ObjId) (args : List JsValue) :
    KeepsCaches w (Layer.toString nat w self args) := by
  unfold Layer.toString
  repeat' (first | split | simp only [])
  all_goals simp [KeepsCaches, World.log, NODE_THROW_CPLERR, World.statsCall]

theorem keepsCaches_Layer_getExtent (nat : Native) (w : World) (self : ObjId) (args : List JsValue) :
    KeepsCaches w (Layer.getExtent nat w self args) := by
  unfold Layer.getExtent
  repeat' (first | split | simp only [])
  all_goals simp [KeepsCaches, World.log, NODE_THROW_CPLERR, World.statsCall]

theorem keepsCaches_Layer_setAttributeFilter (nat : Native) (w : World) (self : ObjId) (args : List JsValue) :
    KeepsCaches w (Layer.setAttributeFilter nat w self args) := by
  unfold Layer.setAttributeFilter
  simp only [NODE_THROW_OGRERR]
  repeat' (first | split | simp only [])
  all_goals simp [KeepsCaches, World.log]

theorem keepsCaches_Layer_testCapability (nat : Native) (w : World) (self : ObjId) (args : List JsValue) :
    KeepsCaches w (Layer.testCapability nat w self args) := by
  unfold Layer.testCapability
  repeat' (first | split | simp only [])
  all_goals simp [KeepsCaches, World.log, NODE_THROW_CPLERR, World.statsCall]

theorem keepsCaches_Layer_syncToDisk (nat : Native) (w : World) (self : ObjId) (args : List JsValue) :
    KeepsCaches w (Layer.syncToDisk nat w self args) := by
  unfold Layer.syncToDisk
  simp only [NODE_THROW_OGRERR]
  repeat' (first | split | simp only [])
  all_goals simp [KeepsCaches, World.log]

theorem keepsCaches_RasterBand_fill (nat : Native) (w : World) (self : ObjId) (args : List JsValue) :
    KeepsCaches w (RasterBand.fill nat w self args) := by
  unfold RasterBand.fill
  repeat' (first | split | simp only [])
  all_goals simp [KeepsCaches, World.log, NODE_THROW_CPLERR, World.statsCall]

theorem keepsCaches_RasterBand_getStatistics (nat : Native) (w : World) (self : ObjId) (args : List JsValue) :
    KeepsCaches w (RasterBand.getStatistics nat w self args) := by
  unfold RasterBand.getStatistics
  repeat' (first | split | simp only [])
  all_goals simp [KeepsCaches, World.log, NODE_THROW_CPLERR, World.statsCall]

theorem keepsCaches_RasterBand_setStatistics (nat : Native) (w : World) (self : ObjId) (args : List JsValue) :
    KeepsCaches w (RasterBand.setStatistics nat w self args) := by
  unfold RasterBand.setStatistics
  repeat' (first | split | simp only [])
  all_goals simp [KeepsCaches, World.log, NODE_THROW_CPLERR, World.statsCall]

theorem keepsCaches_RasterBand_computeStatistics (nat : Native) (w : World) (self : ObjId) (args : List JsValue) :
    KeepsCaches w (RasterBand.computeStatistics nat w self args) := by
  unfold RasterBand.computeStatistics
  repeat' (first | split | simp only [])
  all_goals simp [KeepsCaches, World.log, NODE_THROW_CPLERR, World.statsCall]

theorem keepsCaches_RasterBand_getMaskFlags (nat : Native) (w : World) (self : ObjId) (args : List JsValue) :
    KeepsCaches w (RasterBand.getMaskFlags nat w self args) := by
  unfold RasterBand.getMaskFlags
  repeat' (first | split | simp only [])
  all_goals simp [KeepsCaches, World.log, NODE_THROW_CPLERR, World.statsCall]

theorem keepsCaches_RasterBand_createMaskBand (nat : Native) (w : World) (self : ObjId) (args : List JsValue) :
    KeepsCaches w (RasterBand.createMaskBand nat w self args) := by
  unfold RasterBand.createMaskBand
  repeat' (first | split | simp only [])
  all_goals simp [KeepsCaches, World.log, NODE_THROW_CPLERR, World.statsCall]

theorem keepsCaches_Layer_setSpatialFilter (w : World) (self : ObjId) (args : List JsValue) :
    KeepsCaches w (Layer.setSpatialFilter w self args) := by
  unfold Layer.setSpatialFilter
  repeat' (first | split | simp only [])
  all_goals simp [KeepsCaches, World.log, NODE_THROW_CPLERR, World.statsCall]

theorem keepsCaches_RasterBand_toString (w : World) (self : ObjId) (args : List JsValue) :
    KeepsCaches w (RasterBand.toString w self args) := by
  simp [RasterBand.toString, KeepsCaches]

theorem keepsCaches_RasterBand_flush (w : World) (self : ObjId) (args : List JsValue) :
    KeepsCaches w (RasterBand.flush w self args) := by
  unfold RasterBand.flush
  repeat' (first | split | simp only [])
  all_goals simp [KeepsCaches, World.log, NODE_THROW_CPLERR, World.statsCall]

theorem keepsCaches_Layer_dsGetter (w : World) (self : ObjId) :
    KeepsCaches w (Layer.dsGetter w self) := by
  simp [Layer.dsGetter, KeepsCaches]

theorem keepsCaches_Layer_featuresGetter (w : World) (self : ObjId) :
    KeepsCaches w (Layer.featuresGetter w self) := by
  simp [Layer.featuresGetter, KeepsCaches]

theorem keepsCaches_Layer_fieldsGetter (w : World) (self : ObjId) :
    KeepsCaches w (Layer.fieldsGetter w self) := by
  simp [Layer.fieldsGetter, KeepsCaches]

theorem keepsCaches_RasterBand_dsGetter (w : World) (self : ObjId) :
    KeepsCaches w (RasterBand.dsGetter w self) := by
  simp [RasterBand.dsGetter, KeepsCaches]

theorem keepsCaches_RasterBand_overviewsGetter (w : World) (self : ObjId) :
    KeepsCaches w (RasterBand.overviewsGetter w self) := by
  simp [RasterBand.overviewsGetter, KeepsCaches]

theorem keepsCaches_RasterBand_pixelsGetter (w : World) (self : ObjId) :
    KeepsCaches w (RasterBand.pixelsGetter w self) := by
  simp [RasterBand.pixelsGetter, KeepsCaches]

theorem keepsCaches_Layer_nameGetter (nat : Native) (w : World) (self : ObjId) :
    KeepsCaches w (Layer.nameGetter nat w self) := by
  unfold Layer.nameGetter
  repeat' (first | split | simp only [])
  all_goals simp [KeepsCaches, World.log, NODE_THROW_CPLERR, World.statsCall]

theorem keepsCaches_Layer_geomTypeGetter (nat : Native) (w : World) (self : ObjId) :
    KeepsCaches w (Layer.geomTypeGetter nat w self) := by
  unfold Layer.geomTypeGetter
  repeat' (first | split | simp only [])
  all_goals simp [KeepsCaches, World.log, NODE_THROW_CPLERR, World.statsCall]

theorem keepsCaches_Layer_geomColumnGetter (nat : Native) (w : World) (self : ObjId) :
    KeepsCaches w (Layer.geomColumnGetter nat w self) := by
  unfold Layer.geomColumnGetter
  repeat' (first | split | simp only [])
  all_goals simp [KeepsCaches, World.log, NODE_THROW_CPLERR, World.statsCall]

theorem keepsCaches_Layer_fidColumnGetter (nat : Native) (w : World) (self : ObjId) :
    KeepsCaches w (Layer.fidColumnGetter nat w self) := by
  unfold Layer.fidColumnGetter
  repeat' (first | split | simp only [])
  all_goals simp [KeepsCaches, World.log, NODE_THROW_CPLERR, World.statsCall]

theorem keepsCaches_RasterBand_idGetter (nat : Native) (w : World) (self : ObjId) :
    KeepsCaches w (RasterBand.idGetter nat w self) := by
  unfold RasterBand.idGetter
  repeat' (first | split | simp only [])
  all_goals simp [KeepsCaches, World.log, NODE_THROW_CPLERR, World.statsCall]

theorem keepsCaches_RasterBand_sizeGetter (nat : Native) (w : World) (self : ObjId) :
    KeepsCaches w (RasterBand.sizeGetter nat w self) := by
  unfold RasterBand.sizeGetter
  repeat' (first | split | simp only [])
  all_goals simp [KeepsCaches, World.log, NODE_THROW_CPLERR, World.statsCall]

theorem keepsCaches_RasterBand_blockSizeGetter (nat : Native) (w : World) (self : ObjId) :
    KeepsCaches w (RasterBand.blockSizeGetter nat w self) := by
  unfold RasterBand.blockSizeGetter
  repeat' (first | split | simp only [])
  all_goals simp [KeepsCaches, World.log, NODE_THROW_CPLERR, World.statsCall]

theorem keepsCaches_RasterBand_minimumGetter (nat : Native) (w : World) (self : ObjId) :
    KeepsCaches w (RasterBand.minimumGetter nat w self) := by
  unfold RasterBand.minimumGetter
  repeat' (first | split | simp only [])
  all_goals simp [KeepsCaches, World.log, NODE_THROW_CPLERR, World.statsCall]

theorem keepsCaches_RasterBand_maximumGetter (nat : Native) (w : World) (self : ObjId) :
    KeepsCaches w (RasterBand.maximumGetter nat w self) := by
  unfold RasterBand.maximumGetter
  repeat' (first | split | simp only [])
  all_goals simp [KeepsCaches, World.log, NODE_THROW_CPLERR, World.statsCall]

theorem keepsCaches_RasterBand_offsetGetter (nat : Native) (w : World) (self : ObjId) :
    KeepsCaches w (RasterBand.offsetGetter nat w self) := by
  unfold RasterBand.offsetGetter
  repeat' (first | split | simp only [])
  all_goals simp [KeepsCaches, World.log, NODE_THROW_CPLERR, World.statsCall]

theorem keepsCaches_RasterBand_scaleGetter (nat : Native) (w : World) (self : ObjId) :
    KeepsCaches w (RasterBand.scaleGetter nat w self) := by
  unfold RasterBand.scaleGetter
  repeat' (first | split | simp only [])
  all_goals simp [KeepsCaches, World.log, NODE_THROW_CPLERR, World.statsCall]

theorem keepsCaches_RasterBand_noDataValueGetter (nat : Native) (w : World) (self : ObjId) :
    KeepsCaches w (RasterBand.noDataValueGetter nat w self) := by
  unfold RasterBand.noDataValueGetter
  repeat' (first | split | simp only [])
  all_goals simp [KeepsCaches, World.log, NODE_THROW_CPLERR, World.statsCall]

theorem keepsCaches_RasterBand_unitTypeGetter (nat : Native) (w : World) (self : ObjId) :
    KeepsCaches w (RasterBand.unitTypeGetter nat w self) := by
  unfold RasterBand.unitTypeGetter
  repeat' (first | split | simp only [])
  all_goals simp [KeepsCaches, World.log, NODE_THROW_CPLERR, World.statsCall]

theorem keepsCaches_RasterBand_dataTypeGetter (nat : Native) (w : World) (self : ObjId) :
    KeepsCaches w (RasterBand.dataTypeGetter nat w self) := by
  unfold RasterBand.dataTypeGetter
  repeat' (first | split | simp only [])
  all_goals simp [KeepsCaches, World.log, NODE_THROW_CPLERR, World.statsCall]

theorem keepsCaches_RasterBand_readOnlyGetter (nat : Native) (w : World) (self : ObjId) :
    KeepsCaches w (RasterBand.readOnlyGetter nat w self) := by
  unfold RasterBand.readOnlyGetter
  repeat' (first | split | simp only [])
  all_goals simp [KeepsCaches, World.log, NODE_THROW_CPLERR, World.statsCall]

theorem keepsCaches_RasterBand_hasArbitraryOverviewsGetter (nat : Native) (w : World) (self : ObjId) :
    KeepsCaches w (RasterBand.hasArbitraryOverviewsGetter nat w self) := by
  unfold RasterBand.hasArbitraryOverviewsGetter
  repeat' (first | split | simp only [])
  all_goals simp [KeepsCaches, World.log, NODE_THROW_CPLERR, World.statsCall]

theorem keepsCaches_RasterBand_categoryNamesGetter (nat : Native) (w : World) (self : ObjId) :
    KeepsCaches w (RasterBand.categoryNamesGetter nat w self) := by
  unfold RasterBand.categoryNamesGetter
  repeat' (first | split | simp only [])
  all_goals simp [KeepsCaches, World.log, NODE_THROW_CPLERR, World.statsCall]

theorem keepsCaches_RasterBand_colorInterpretationGetter (nat : Native) (w : World) (self : ObjId) :
    KeepsCaches w (RasterBand.colorInterpretationGetter nat w self) := by
  unfold RasterBand.colorInterpretationGetter
  repeat' (first | split | simp only [])
  all_goals simp [KeepsCaches, World.log, NODE_THROW_CPLERR, World.statsCall]

theorem keepsCaches_RasterBand_unitTypeSetter (nat : Native) (w : World) (self : ObjId) (value : JsValue) :
    KeepsCaches w (RasterBand.unitTypeSetter nat w self value) := by
  unfold RasterBand.unitTypeSetter
  repeat' (first | split | simp only [])
  all_goals simp [KeepsCaches, World.log, NODE_THROW_CPLERR, World.statsCall]

theorem keepsCaches_RasterBand_noDataValueSetter (nat : Native) (w : World) (self : ObjId) (value : JsValue) :
    KeepsCaches w (RasterBand.noDataValueSetter nat w self value) := by
  unfold RasterBand.noDataValueSetter
  repeat' (first | split | simp only [])
  all_goals simp [KeepsCaches, World.log, NODE_THROW_CPLERR, World.statsCall]

theorem keepsCaches_RasterBand_scaleSetter (nat : Native) (w : World) (self : ObjId) (value : JsValue) :
    KeepsCaches w (RasterBand.scaleSetter nat w self value) := by
  unfold RasterBand.scaleSetter
  repeat' (first | split | simp only [])
  all_goals simp [KeepsCaches, World.log, NODE_THROW_CPLERR, World.statsCall]

theorem keepsCaches_RasterBand_offsetSetter (nat : Native) (w : World) (self : ObjId) (value : JsValue) :
    KeepsCaches w (RasterBand.offsetSetter nat w self value) := by
  unfold RasterBand.offsetSetter
  repeat' (first | split | simp only [])
  all_goals simp [KeepsCaches, World.log, NODE_THROW_CPLERR, World.statsCall]

theorem keepsCaches_RasterBand_categoryNamesSetter (nat : Native) (w : World) (self : ObjId) (value : JsValue) :
    KeepsCaches w (RasterBand.categoryNamesSetter nat w self value) := by
  unfold RasterBand.categoryNamesSetter
  repeat' (first | split | simp only [])
  all_goals simp [KeepsCaches, World.log, NODE_THROW_CPLERR, World.statsCall]

theorem keepsCaches_RasterBand_colorInterpretationSetter (nat : Native) (w : World) (self : ObjId) (value : JsValue) :
    KeepsCaches w (RasterBand.colorInterpretationSetter nat w self value) := by
  unfold RasterBand.colorInterpretationSetter
  repeat' (first | split | simp only [])
  all_goals simp [KeepsCaches, World.log, NODE_THROW_CPLERR, World.statsCall]

theorem Inv.of_handles {w w1 : World} (h : Inv w)
    (hl : ∀ id, (w1.layer id).this_ = (w.layer id).this_)
    (hb : ∀ id, (w1.band id).this_ = (w.band id).this_)
    (hll : w1.layers.length = w.layers.length) (hbl : w1.bands.length = w.bands.length)
    (hlc : w1.layer_cache = w.layer_cache) (hbc : w1.band_cache = w.band_cache) : Inv w1 := by
  refine ⟨?_, ?_, ?_, ?_⟩
  · have := h.layers_ok
    simpa only [hl, hll, hlc] using this
  · have := h.bands_ok
    simpa only [hb, hbl, hbc] using this
  · have := h.layers_live
    simpa only [hl, hll, hlc] using this
  · have := h.bands_live
    simpa only [hb, hbl, hbc] using this

theorem Inv.of_fields {w w1 : World} (h : Inv w) (hl : w1.layers = w.layers)
    (hb : w1.bands = w.bands) (hlc : w1.layer_cache = w.layer_cache)
    (hbc : w1.band_cache = w.band_cache) : Inv w1 :=
  h.of_handles (fun id => by simp [World.layer, hl]) (fun id => by simp [World.band, hb])
    (by rw [hl]) (by rw [hb]) hlc hbc

theorem Inv.of_keeps {w : World} {r : World × Outcome} (h : Inv w) (hk : KeepsCaches w r) :
    Inv r.1 :=
  h.of_fields hk.1 hk.2.1 hk.2.2.1 hk.2.2.2

theorem keepsCaches_trans {a b : World} {o : Outcome} {r : World × Outcome}
    (h1 : KeepsCaches a (b, o)) (h2 : KeepsCaches b r) : KeepsCaches a r :=
  ⟨h2.1.trans h1.1, h2.2.1.trans h1.2.1, h2.2.2.1.trans h1.2.2.1, h2.2.2.2.trans h1.2.2.2⟩

theorem keepsCaches_Geometry_New (nat : Native) (co : Collaborators) (hco : co.KeepCaches)
    (w : World) (geom : Ptr) (owned : Bool) :
    KeepsCaches w (Geometry.New nat co w geom owned) := by
  have h1 : KeepsCaches w ((Geometry.getGeometryType_fixed nat w geom).1, Outcome.abort) := by
    unfold Geometry.getGeometryType_fixed
    simp only []
    split <;> exact ⟨rfl, rfl, rfl, rfl⟩
  unfold Geometry.New
  split
  · exact ⟨rfl, rfl, rfl, rfl⟩
  · simp only []
    repeat' split
    all_goals first
      | exact keepsCaches_trans h1 (hco.1 _ _ _ _)
      | exact h1

theorem keepsCaches_Layer_getSpatialFilter (nat : Native) (co : Collaborators)
    (hco : co.KeepCaches) (w : World) (self : ObjId) (args : List JsValue) :
    KeepsCaches w (Layer.getSpatialFilter nat co w self args) := by
  unfold Layer.getSpatialFilter
  simp only []
  split
  · exact ⟨rfl, rfl, rfl, rfl⟩
  · have h0 : KeepsCaches w
        (w.log ⟨"GetSpatialFilter", (w.layer self).this_, []⟩, Outcome.abort) :=
      ⟨rfl, rfl, rfl, rfl⟩
    exact keepsCaches_trans h0 (keepsCaches_Geometry_New nat co hco _ _ _)

theorem keepsCaches_Layer_srsGetter (nat : Native) (co : Collaborators) (hco : co.KeepCaches)
    (w : World) (self : ObjId) : KeepsCaches w (Layer.srsGetter nat co w self) := by
  unfold Layer.srsGetter
  simp only []
  split
  · exact ⟨rfl, rfl, rfl, rfl⟩
  · have h0 : KeepsCaches w (w.log ⟨"GetSpatialRef", (w.layer self).this_, []⟩, Outcome.abort) :=
      ⟨rfl, rfl, rfl, rfl⟩
    exact keepsCaches_trans h0 (hco.2 _ _ _)

theorem Inv.layerNewArguments {w : World} (h : Inv w) (isConstructCall : Bool)
    (args : List JsValue) : Inv (Layer.NewArguments w isConstructCall args).1 := by
  unfold Layer.NewArguments
  repeat' (first | split | simp only [])
  · exact h
  · next f _ =>
    refine h.of_handles (fun id => ?_) (fun id => rfl) (by simp [World.setLayer]) rfl rfl rfl
    rw [World.layer_setLayer]
    split
    · next hc => obtain ⟨rfl, _⟩ := hc; rfl
    · rfl
  · exact h

theorem Inv.bandNewArguments {w : World} (h : Inv w) (isConstructCall : Bool)
    (args : List JsValue) : Inv (RasterBand.NewArguments w isConstructCall args).1 := by
  unfold RasterBand.NewArguments
  repeat' (first | split | simp only [])
  · exact h
  · next f _ =>
    refine h.of_handles (fun id => rfl) (fun id => ?_) rfl (by simp [World.setBand]) rfl rfl
    rw [World.band_setBand]
    split
    · next hc => obtain ⟨rfl, _⟩ := hc; rfl
    · rfl
  · exact h

theorem Inv.getMaskBand {w : World} (h : Inv w) (nat : Native) (self : ObjId)
    (args : List JsValue) : Inv (RasterBand.getMaskBand nat w self args).1 := by
  unfold RasterBand.getMaskBand
  simp only []
  split
  · exact h
  · split
    · exact h.of_fields rfl rfl rfl rfl
    · have h0 : Inv (w.log ⟨"GetMaskBand", (w.band self).this_, []⟩) :=
        h.of_fields rfl rfl rfl rfl
      exact h0.bandNew _ _

theorem Inv.geometryDestroy {w : World} (h : Inv w) (self : ObjId) :
    Inv (Geometry.destroy w self) := by
  unfold Geometry.destroy
  simp only []
  split
  · split <;> exact h.of_fields rfl rfl rfl rfl
  · exact h

theorem Inv.featureDefnDestroy {w : World} (h : Inv w) (self : ObjId) :
    Inv (FeatureDefn.destroy w self) := by
  unfold FeatureDefn.destroy
  simp only []
  split
  · split <;> exact h.of_fields rfl rfl rfl rfl
  · exact h

theorem keepsCaches_FeatureDefn_New (nat : Native) (w : World) (defn : Ptr) (owned : Bool) :
    KeepsCaches w (FeatureDefn.New nat w defn owned) := by
  unfold FeatureDefn.New
  repeat' (first | split | simp only [])
  all_goals simp [KeepsCaches, World.log]

theorem keepsCaches_FeatureDefn_NewArguments (nat : Native) (w : World)
    (isConstructCall : Bool) (args : List JsValue) :
    KeepsCaches w (FeatureDefn.NewArguments nat w isConstructCall args) := by
  unfold FeatureDefn.NewArguments
  repeat' (first | split | simp only [])
  all_goals simp [KeepsCaches, World.log]

theorem Inv.layerCallMethod {w : World} (h : Inv w) (nat : Native) (co : Collaborators)
    (hco : co.KeepCaches) (m : Layer.Method) (self : ObjId) (args : List JsValue) :
    Inv (Layer.callMethod nat co w m self args).1 := by
  cases m <;> simp only [Layer.callMethod]
  · exact h.of_keeps (keepsCaches_Layer_toString nat w self args)
  · exact h.of_keeps (keepsCaches_Layer_getExtent nat w self args)
  · exact h.of_keeps (keepsCaches_Layer_setAttributeFilter nat w self args)
  · exact h.of_keeps (keepsCaches_Layer_setSpatialFilter w self args)
  · exact h.of_keeps (keepsCaches_Layer_getSpatialFilter nat co hco w self args)
  · exact h.of_keeps (keepsCaches_Layer_testCapability nat w self args)
  · exact h.of_keeps (keepsCaches_Layer_syncToDisk nat w self args)

theorem Inv.layerGetAccessor {w : World} (h : Inv w) (nat : Native) (co : Collaborators)
    (hco : co.KeepCaches) (a : Layer.Accessor) (self : ObjId) :
    Inv (Layer.getAccessor nat co w a self).1 := by
  cases a <;> simp only [Layer.getAccessor]
  · exact h.of_keeps (keepsCaches_Layer_dsGetter w self)
  · exact h.of_keeps (keepsCaches_Layer_srsGetter nat co hco w self)
  · exact h.of_keeps (keepsCaches_Layer_featuresGetter w self)
  · exact h.of_keeps (keepsCaches_Layer_fieldsGetter w self)
  · exact h.of_keeps (keepsCaches_Layer_nameGetter nat w self)
  · exact h.of_keeps (keepsCaches_Layer_geomTypeGetter nat w self)
  · exact h.of_keeps (keepsCaches_Layer_geomColumnGetter nat w self)
  · exact h.of_keeps (keepsCaches_Layer_fidColumnGetter nat w self)

theorem Inv.bandCallMethod {w : World} (h : Inv w) (nat : Native) (m : RasterBand.Method)
    (self : ObjId) (args : List JsValue) : Inv (RasterBand.callMethod nat w m self args).1 := by
  cases m <;> simp only [RasterBand.callMethod]
  · exact h.of_keeps (keepsCaches_RasterBand_toString w self args)
  · exact h.of_keeps (keepsCaches_RasterBand_flush w self args)
  · exact h.of_keeps (keepsCaches_RasterBand_fill nat w self args)
  · exact h.of_keeps (keepsCaches_RasterBand_getStatistics nat w self args)
  · exact h.of_keeps (keepsCaches_RasterBand_setStatistics nat w self args)
  · exact h.of_keeps (keepsCaches_RasterBand_computeStatistics nat w self args)
  · exact h.getMaskBand nat self args
  · exact h.of_keeps (keepsCaches_RasterBand_getMaskFlags nat w self args)
  · exact h.of_keeps (keepsCaches_RasterBand_createMaskBand nat w self args)

theorem Inv.bandGetAccessor {w : World} (h : Inv w) (nat : Native) (a : RasterBand.Accessor)
    (self : ObjId) : Inv (RasterBand.getAccessor nat w a self).1 := by
  cases a <;> simp only [RasterBand.getAccessor]
  · exact h.of_keeps (keepsCaches_RasterBand_dsGetter w self)
  · exact h.of_keeps (keepsCaches_RasterBand_idGetter nat w self)
  · exact h.of_keeps (keepsCaches_RasterBand_sizeGetter nat w self)
  · exact h.of_keeps (keepsCaches_RasterBand_overviewsGetter w self)
  · exact h.of_keeps (keepsCaches_RasterBand_pixelsGetter w self)
  · exact h.of_keeps (keepsCaches_RasterBand_blockSizeGetter nat w self)
  · exact h.of_keeps (keepsCaches_RasterBand_minimumGetter nat w self)
  · exact h.of_keeps (keepsCaches_RasterBand_maximumGetter nat w self)
  · exact h.of_keeps (keepsCaches_RasterBand_readOnlyGetter nat w self)
  · exact h.of_keeps (keepsCaches_RasterBand_dataTypeGetter nat w self)
  · exact h.of_keeps (keepsCaches_RasterBand_hasArbitraryOverviewsGetter nat w self)
  · exact h.of_keeps (keepsCaches_RasterBand_unitTypeGetter nat w self)
  · exact h.of_keeps (keepsCaches_RasterBand_scaleGetter nat w self)
  · exact h.of_keeps (keepsCaches_RasterBand_offsetGetter nat w self)
  · exact h.of_keeps (keepsCaches_RasterBand_noDataValueGetter nat w self)
  · exact h.of_keeps (keepsCaches_RasterBand_categoryNamesGetter nat w self)
  · exact h.of_keeps (keepsCaches_RasterBand_colorInterpretationGetter nat w self)

theorem Inv.bandSetAccessor {w : World} (h : Inv w) (nat : Native) (a : RasterBand.Accessor)
    (self : ObjId) (value : JsValue) : Inv (RasterBand.setAccessor nat w a self value).1 := by
  cases a <;> simp only [RasterBand.setAccessor]
  all_goals first
    | exact h
    | exact h.of_keeps (keepsCaches_RasterBand_unitTypeSetter nat w self value)
    | exact h.of_keeps (keepsCaches_RasterBand_scaleSetter nat w self value)
    | exact h.of_keeps (keepsCaches_RasterBand_offsetSetter nat w self value)
    | exact h.of_keeps (keepsCaches_RasterBand_noDataValueSetter nat w self value)
    | exact h.of_keeps (keepsCaches_RasterBand_categoryNamesSetter nat w self value)
    | exact h.of_keeps (keepsCaches_RasterBand_colorInterpretationSetter nat w self value)

theorem Inv.of_run {w : World} (h : Inv w) (nat : Native) (co : Collaborators)
    (hco : co.KeepCaches) (op : Op) (w1 : World) (hr : op.run nat co w = some w1) : Inv w1 := by
  cases op <;> simp only [Op.run, Option.some.injEq] at hr
  case bandDispose fuel self => exact h.bandDispose hr
  all_goals subst hr
  · exact h.datasets _ _
  · exact h.layerNew _ _ _
  · exact h.layerNew _ _ _
  · exact h.layerNewArguments _ _
  · exact h.layerDispose _
  · exact h.layerCallMethod nat co hco _ _ _
  · exact h.layerGetAccessor nat co hco _ _
  · exact h.bandNew _ _
  · exact h.bandNewArguments _ _
  · exact h.bandCallMethod nat _ _ _
  · exact h.bandGetAccessor nat _ _
  · exact h.bandSetAccessor nat _ _ _
  · exact h.of_keeps (keepsCaches_Geometry_New nat co hco _ _ _)
  · exact h.of_keeps (keepsCaches_Geometry_New nat co hco _ _ _)
  · exact h.geometryDestroy _
  · exact h.of_keeps (keepsCaches_FeatureDefn_New nat _ _ _)
  · exact h.of_keeps (keepsCaches_FeatureDefn_New nat _ _ _)
  · exact h.of_keeps (keepsCaches_FeatureDefn_NewArguments nat _ _ _)
  · exact h.featureDefnDestroy _

theorem Inv.of_runOps (co : Collaborators) (hco : co.KeepCaches) :
    ∀ (ops : List (Native × Op)) (w w1 : World), Inv w → runOps co w ops = some w1 → Inv w1 := by
  intro ops
  induction ops with
  | nil => intro w w1 h hr; simp [runOps] at hr; subst hr; exact h
  | cons x rest ih =>
    intro w w1 h hr
    obtain ⟨nat, op⟩ := x
    rw [runOps] at hr
    split at hr
    · cases hr
    · next w2 hop => exact ih _ _ (h.of_run nat co hco op w2 hop) hr

/-- Recording a native call leaves the wrappers and the caches of layers and
bands as they are. -/
theorem keepsCaches_log (w : World) (c : NativeCall) (o : Outcome) :
    KeepsCaches w (w.log c, o) := ⟨rfl, rfl, rfl, rfl⟩

/-- `Boolean::New` leaves the wrappers and the caches as they are. -/
theorem keepsCaches_Boolean_New (nat : Native) (w : World) (c : NativeCall) :
    KeepsCaches w (Boolean.New nat w c) := ⟨rfl, rfl, rfl, rfl⟩

/-- `Number::New` leaves the wrappers and the caches as they are. -/
theorem keepsCaches_Number_New (nat : Native) (w : World) (c : NativeCall) :
    KeepsCaches w (Number.New nat w c) := ⟨rfl, rfl, rfl, rfl⟩

/-- `Geometry::New` on the answer of a call leaves the layer and band wrappers
and caches as they are. -/
theorem keepsCaches_Geometry_NewOfCall (nat : Native) (co : Collaborators)
    (hco : co.KeepCaches) (w : World) (c : NativeCall) :
    KeepsCaches w (Geometry.NewOfCall nat co w c) :=
  keepsCaches_Geometry_New nat co hco w _ true

/-- A method generated by `NODE_WRAPPED_METHOD_WITH_RESULT_1_WRAPPED_PARAM`
leaves the layer and band wrappers and caches as they are, when
`result_type::New` does. -/
theorem keepsCaches_NODE_WRAPPED_METHOD_WITH_RESULT_1_WRAPPED_PARAM (klass : String)
    (this_ : Ptr) (result_type_New : World → NativeCall → World × Outcome)
    (hres : ∀ w c, KeepsCaches w (result_type_New w c)) (wrapped_method : String)
    (param_type : WrappedType) (param_name : String) (w : World) (args : List JsValue) :
    KeepsCaches w (NODE_WRAPPED_METHOD_WITH_RESULT_1_WRAPPED_PARAM klass this_ result_type_New
      wrapped_method param_type param_name w args) := by
  unfold NODE_WRAPPED_METHOD_WITH_RESULT_1_WRAPPED_PARAM
  split
  · exact ⟨rfl, rfl, rfl, rfl⟩
  · split
    · exact ⟨rfl, rfl, rfl, rfl⟩
    · exact keepsCaches_trans (keepsCaches_log w _ .abort) (hres _ _)

/-- A method generated by `NODE_WRAPPED_METHOD_WITH_RESULT_1_DOUBLE_PARAM`
leaves the layer and band wrappers and caches as they are, when
`result_type::New` does. -/
theorem keepsCaches_NODE_WRAPPED_METHOD_WITH_RESULT_1_DOUBLE_PARAM (klass : String)
    (this_ : Ptr) (result_type_New : World → NativeCall → World × Outcome)
    (hres : ∀ w c, KeepsCaches w (result_type_New w c)) (wrapped_method : String)
    (param_name : String) (w : World) (args : List JsValue) :
    KeepsCaches w (NODE_WRAPPED_METHOD_WITH_RESULT_1_DOUBLE_PARAM klass this_ result_type_New
      wrapped_method param_name w args) := by
  unfold NODE_WRAPPED_METHOD_WITH_RESULT_1_DOUBLE_PARAM
  split
  · exact ⟨rfl, rfl, rfl, rfl⟩
  · split
    · exact ⟨rfl, rfl, rfl, rfl⟩
    · exact keepsCaches_trans (keepsCaches_log w _ .abort) (hres _ _)

/-- A method generated by `NODE_WRAPPED_METHOD_WITH_1_DOUBLE_PARAM` leaves the
layer and band wrappers and caches as they are. -/
theorem keepsCaches_NODE_WRAPPED_METHOD_WITH_1_DOUBLE_PARAM (klass : String)
    (this_ : Ptr) (wrapped_method : String) (param_name : String) (w : World)
    (args : List JsValue) :
    KeepsCaches w (NODE_WRAPPED_METHOD_WITH_1_DOUBLE_PARAM klass this_ wrapped_method
      param_name w args) := by
  unfold NODE_WRAPPED_METHOD_WITH_1_DOUBLE_PARAM
  repeat' (first | split | simp only [])
  all_goals exact ⟨rfl, rfl, rfl, rfl⟩

/-- A method generated by
`NODE_WRAPPED_METHOD_WITH_OGRERR_RESULT_1_WRAPPED_PARAM` leaves the layer and
band wrappers and caches as they are. -/
theorem keepsCaches_NODE_WRAPPED_METHOD_WITH_OGRERR_RESULT_1_WRAPPED_PARAM (nat : Native)
    (klass : String) (this_ : Ptr) (wrapped_method : String) (param_type : WrappedType)
    (param_name : String) (w : World) (args : List JsValue) :
    KeepsCaches w (NODE_WRAPPED_METHOD_WITH_OGRERR_RESULT_1_WRAPPED_PARAM nat klass this_
      wrapped_method param_type param_name w args) := by
  unfold NODE_WRAPPED_METHOD_WITH_OGRERR_RESULT_1_WRAPPED_PARAM
  simp only [NODE_THROW_OGRERR]
  repeat' (first | split | simp only [])
  all_goals simp [KeepsCaches, World.log]

/-- `Geometry::exportToWKB` leaves the layer and band wrappers and caches as
they are. -/
theorem keepsCaches_Geometry_exportToWKB (nat : Native)
    (fastBuffer : NativeCall → Int → JsValue) (major minor : Nat) (w : World) (self : ObjId)
    (args : List JsValue) :
    KeepsCaches w (Geometry.exportToWKB nat fastBuffer major minor w self args) := by
  unfold Geometry.exportToWKB Geometry.exportToWKB.finish
  simp only [NODE_THROW_OGRERR]
  repeat' (first | split | simp only [])
  all_goals simp [KeepsCaches, World.log]

theorem keepCaches_wrapping : Collaborators.wrapping.KeepCaches := by
  refine ⟨fun cls w geom owned => ?_, fun w srs owned => ⟨rfl, rfl, rfl, rfl⟩⟩
  simp only [Collaborators.wrapping]
  split <;> exact ⟨rfl, rfl, rfl, rfl⟩

/-! ## Wrapping: cache hit and null pointer (C1, C2) -/

theorem Layer.New_twice_layer (w : World) (raw parent parent2 : Ptr) (rs rs2 : Bool) (v : JsValue)
    (hraw : raw ≠ 0) (h : (Layer.New w raw parent rs).2 = .ret v) :
    Layer.New (Layer.New w raw parent rs).1 raw parent2 rs2 =
      ((Layer.New w raw parent rs).1, .ret v) := by
  by_cases hhas : w.layer_cache.has raw = true
  · obtain ⟨id, hid⟩ := (ObjectCache.has_iff_get _ _).1 hhas
    rw [Layer.New_hit_layer w raw parent rs id hraw hid] at h ⊢
    cases h
    exact Layer.New_hit_layer w raw parent2 rs2 id hraw hid
  · simp only [Bool.not_eq_true] at hhas
    rw [Layer.New_miss_layer w raw parent rs hraw hhas] at h ⊢
    simp only at h ⊢
    split at h
    · cases h
    · cases h
      exact Layer.New_hit_layer _ raw parent2 rs2 _ hraw (ObjectCache.get_cons_self _ _ _)

theorem RasterBand.New_twice_band (w : World) (raw parent parent2 : Ptr) (v : JsValue)
    (hraw : raw ≠ 0) (h : (RasterBand.New w raw parent).2 = .ret v) :
    RasterBand.New (RasterBand.New w raw parent).1 raw parent2 =
      ((RasterBand.New w raw parent).1, .ret v) := by
  by_cases hhas : w.band_cache.has raw = true
  · obtain ⟨id, hid⟩ := (ObjectCache.has_iff_get _ _).1 hhas
    rw [RasterBand.New_hit_band w raw parent id hraw hid] at h ⊢
    cases h
    exact RasterBand.New_hit_band w raw parent2 id hraw hid
  · simp only [Bool.not_eq_true] at hhas
    rw [RasterBand.New_miss_band w raw parent hraw hhas] at h ⊢
    simp only at h ⊢
    split at h
    · cases h
    · cases h
      exact RasterBand.New_hit_band _ raw parent2 _ hraw (ObjectCache.get_cons_self _ _ _)

/-- C1: for a non-null pointer `raw` that has an entry in the class cache,
`Layer::New` and `RasterBand::New` return exactly the cached wrapper and leave
the whole state (heaps, caches, native calls) as it was; and whenever a call
of `New` on `raw` returns a wrapper, the next call of `New` on `raw`, with any
other arguments, returns the same wrapper and changes nothing. -/
theorem New_returns_cached_wrapper (w : World) (raw raw_parent : Ptr) (result_set : Bool)
    (hraw : raw ≠ 0) :
    (∀ wrapper, w.layer_cache.get raw = some wrapper →
      Layer.New w raw raw_parent result_set = (w, .ret (.object .Layer wrapper))) ∧
    (∀ wrapper, w.band_cache.get raw = some wrapper →
      RasterBand.New w raw raw_parent = (w, .ret (.object .RasterBand wrapper))) ∧
    (∀ v parent2 result_set2, (Layer.New w raw raw_parent result_set).2 = .ret v →
      Layer.New (Layer.New w raw raw_parent result_set).1 raw parent2 result_set2 =
        ((Layer.New w raw raw_parent result_set).1, .ret v)) ∧
    (∀ v parent2, (RasterBand.New w raw raw_parent).2 = .ret v →
      RasterBand.New (RasterBand.New w raw raw_parent).1 raw parent2 =
        ((RasterBand.New w raw raw_parent).1, .ret v)) :=
  ⟨fun wrapper h => Layer.New_hit_layer w raw raw_parent result_set wrapper hraw h,
    fun wrapper h => RasterBand.New_hit_band w raw raw_parent wrapper hraw h,
    fun v parent2 result_set2 h =>
      Layer.New_twice_layer w raw raw_parent parent2 result_set result_set2 v hraw h,
    fun v parent2 h => RasterBand.New_twice_band w raw raw_parent parent2 v hraw h⟩

/-- Witness of `New_returns_cached_wrapper`: in the sample state, where the
pointer 1 is cached in both classes. -/
theorem New_returns_cached_wrapper_witness :
    Layer.New World.sample 1 7 true = (World.sample, .ret (.object .Layer 0)) ∧
    RasterBand.New World.sample 1 7 = (World.sample, .ret (.object .RasterBand 0)) ∧
    Layer.New (Layer.New World.sample 1 7 true).1 1 0 false =
      ((Layer.New World.sample 1 7 true).1, .ret (.object .Layer 0)) ∧
    RasterBand.New (RasterBand.New World.sample 1 7).1 1 0 =
      ((RasterBand.New World.sample 1 7).1, .ret (.object .RasterBand 0)) :=
  have h := New_returns_cached_wrapper World.sample 1 7 true (by decide)
  ⟨h.1 0 (by decide), h.2.1 0 (by decide), h.2.2.1 _ 0 false (by decide),
    h.2.2.2 _ 0 (by decide)⟩

/-- C2: with a null native pointer, `Layer::New`, `RasterBand::New`,
`Geometry::New` and `FeatureDefn::New` return the JS `null`, and the state is
left exactly as it was (no wrapper constructed, no native call recorded, every
cache unchanged), whatever the other arguments. -/
theorem New_null_returns_null (nat : Native) (co : Collaborators) (w : World) (raw_parent : Ptr)
    (result_set owned : Bool) :
    Layer.New w 0 raw_parent result_set = (w, .ret .null) ∧
    RasterBand.New w 0 raw_parent = (w, .ret .null) ∧
    Geometry.New nat co w 0 owned = (w, .ret .null) ∧
    FeatureDefn.New nat w 0 owned = (w, .ret .null) :=
  ⟨Layer.New_null_layer w raw_parent result_set, RasterBand.New_null_band w raw_parent,
    by simp [Geometry.New], by simp [FeatureDefn.New]⟩

/-! ## Dispose and wrap again; idempotence (C3, C4) -/

theorem Layer.New_ret_cached_layer (w : World) (raw raw_parent : Ptr) (result_set : Bool) (A : ObjId)
    (hraw : raw ≠ 0) (h : (Layer.New w raw raw_parent result_set).2 = .ret (.object .Layer A)) :
    (Layer.New w raw raw_parent result_set).1.layer_cache.get raw = some A := by
  by_cases hhas : w.layer_cache.has raw = true
  · obtain ⟨id, hid⟩ := (ObjectCache.has_iff_get _ _).1 hhas
    rw [Layer.New_hit_layer w raw raw_parent result_set id hraw hid] at h ⊢
    cases h
    exact hid
  · simp only [Bool.not_eq_true] at hhas
    rw [Layer.New_miss_layer w raw raw_parent result_set hraw hhas] at h ⊢
    simp only at h ⊢
    split at h
    · cases h
    · cases h
      exact ObjectCache.get_cons_self _ _ _

theorem RasterBand.New_ret_cached_band (w : World) (raw raw_parent : Ptr) (A : ObjId)
    (hraw : raw ≠ 0) (h : (RasterBand.New w raw raw_parent).2 = .ret (.object .RasterBand A)) :
    (RasterBand.New w raw raw_parent).1.band_cache.get raw = some A := by
  by_cases hhas : w.band_cache.has raw = true
  · obtain ⟨id, hid⟩ := (ObjectCache.has_iff_get _ _).1 hhas
    rw [RasterBand.New_hit_band w raw raw_parent id hraw hid] at h ⊢
    cases h
    exact hid
  · simp only [Bool.not_eq_true] at hhas
    rw [RasterBand.New_miss_band w raw raw_parent hraw hhas] at h ⊢
    simp only at h ⊢
    split at h
    · cases h
    · cases h
      exact ObjectCache.get_cons_self _ _ _

theorem Layer.New_dataset_cache_layer (w : World) (raw raw_parent : Ptr) (result_set : Bool) :
    (Layer.New w raw raw_parent result_set).1.dataset_cache = w.dataset_cache ∧
    (Layer.New w raw raw_parent result_set).1.datasets = w.datasets := by
  rcases Layer.New_world_layer w raw raw_parent result_set with he | ⟨_, _, he⟩ <;> rw [he] <;> simp

theorem RasterBand.New_dataset_cache_band (w : World) (raw raw_parent : Ptr) :
    (RasterBand.New w raw raw_parent).1.dataset_cache = w.dataset_cache ∧
    (RasterBand.New w raw raw_parent).1.datasets = w.datasets := by
  rcases RasterBand.New_world_band w raw raw_parent with he | ⟨_, _, he⟩ <;> rw [he] <;> simp

/-- What a cache miss of `Layer::New` with a usable parent leaves: a new
wrapper at the end of the heap, cached for `raw`, the older wrappers as they
were. -/
theorem Layer.New_fresh_layer (w : World) (raw raw_parent : Ptr) (result_set : Bool)
    (hraw : raw ≠ 0) (hhas : w.layer_cache.has raw = false)
    (hp : raw_parent = 0 ∨ w.dataset_cache.has raw_parent = true) :
    (Layer.New w raw raw_parent result_set).2 = .ret (.object .Layer w.layers.length) ∧
    (Layer.New w raw raw_parent result_set).1.layers.length = w.layers.length + 1 ∧
    ((Layer.New w raw raw_parent result_set).1.layer w.layers.length).this_ = raw ∧
    (Layer.New w raw raw_parent result_set).1.layer_cache.get raw = some w.layers.length ∧
    ∀ id, id < w.layers.length →
      (Layer.New w raw raw_parent result_set).1.layer id = w.layer id := by
  rw [Layer.New_miss_layer w raw raw_parent result_set hraw hhas]
  refine ⟨?_, by simp, ?_, ObjectCache.get_cons_self _ _ _, ?_⟩
  · rcases hp with hp | hp <;> simp [hp]
  · simp [World.layer, List.getD_length_append_singleton, Layer.fresh_this_layer]
  · intro id hid
    simp only [World.layer]
    exact List.getD_append _ _ _ _ hid

theorem RasterBand.New_fresh_band (w : World) (raw raw_parent : Ptr)
    (hraw : raw ≠ 0) (hhas : w.band_cache.has raw = false)
    (hp : raw_parent = 0 ∨ w.dataset_cache.has raw_parent = true) :
    (RasterBand.New w raw raw_parent).2 = .ret (.object .RasterBand w.bands.length) ∧
    (RasterBand.New w raw raw_parent).1.bands.length = w.bands.length + 1 ∧
    ((RasterBand.New w raw raw_parent).1.band w.bands.length).this_ = raw ∧
    (RasterBand.New w raw raw_parent).1.band_cache.get raw = some w.bands.length ∧
    ∀ id, id < w.bands.length → (RasterBand.New w raw raw_parent).1.band id = w.band id := by
  rw [RasterBand.New_miss_band w raw raw_parent hraw hhas]
  refine ⟨?_, by simp, ?_, ObjectCache.get_cons_self _ _ _, ?_⟩
  · rcases hp with hp | hp <;> simp [hp]
  · simp [World.band, List.getD_length_append_singleton, RasterBand.fresh_this_band]
  · intro id hid
    simp only [World.band]
    exact List.getD_append _ _ _ _ hid

theorem Layer.dispose_facts (w : World) (self : ObjId) :
    ((Layer.dispose w self).layer self).this_ = 0 ∧
    (Layer.dispose w self).layers.length = w.layers.length ∧
    (Layer.dispose w self).dataset_cache = w.dataset_cache ∧
    ((w.layer self).this_ ≠ 0 →
      (Layer.dispose w self).layer_cache = w.layer_cache.erase (w.layer self).this_) := by
  by_cases h0 : (w.layer self).this_ = 0
  · rw [Layer.dispose_dead_layer w self h0]
    exact ⟨h0, rfl, rfl, fun h => absurd h0 h⟩
  · rw [Layer.dispose_live_layer w self h0]
    refine ⟨?_, by simp, rfl, fun _ => rfl⟩
    have := World.layer_setLayer w self self { w.layer self with this_ := 0 }
    simp only [World.setLayer, World.layer] at this ⊢
    rw [this]
    by_cases hlen : self < w.layers.length
    · simp [hlen]
    · simp only [hlen, and_false, if_false]
      have := World.layer_of_ge w self (Nat.le_of_not_lt hlen)
      simp only [World.layer] at this
      rw [this]


/-- C3 (as amended): in every state that satisfies the cache invariant `Inv`
(which holds from empty caches on after every sequence of calls of `New`,
`dispose`, the methods and the accessors, see `Inv.init` and `Inv.of_runOps`),
for a non-null layer (resp. band) pointer `H`: if `New(H, ...)`
returned the wrapper `A` and `A.dispose()` is then called, the cache has no
entry for `H` and the handle of `A` is null;
and the next `New(H, parent2, ...)`, for `parent2` null or present in the
dataset cache, constructs and returns a brand-new wrapper `B` different from
`A`, with handle `H`, cached for `H`, while the handle of `A` stays null.  For
a band, the dispose returns for every fuel above the size of the cache. -/
theorem rewrap_after_dispose (nat : Native) (w : World) (hw : Inv w)
    (H parent parent2 : Ptr) (result_set result_set2 : Bool) (A : ObjId) (hH : H ≠ 0)
    (hp2 : parent2 = 0 ∨ w.dataset_cache.has parent2 = true) :
    ((Layer.New w H parent result_set).2 = .ret (.object .Layer A) →
      ∀ w2, Layer.dispose (Layer.New w H parent result_set).1 A = w2 →
        w2.layer_cache.has H = false ∧ (w2.layer A).this_ = 0 ∧
        (Layer.New w2 H parent2 result_set2).2 = .ret (.object .Layer w2.layers.length) ∧
        w2.layers.length ≠ A ∧
        (Layer.New w2 H parent2 result_set2).1.layers.length = w2.layers.length + 1 ∧
        ((Layer.New w2 H parent2 result_set2).1.layer w2.layers.length).this_ = H ∧
        (Layer.New w2 H parent2 result_set2).1.layer_cache.get H = some w2.layers.length ∧
        ((Layer.New w2 H parent2 result_set2).1.layer A).this_ = 0) ∧
    ((RasterBand.New w H parent).2 = .ret (.object .RasterBand A) →
      ∀ fuel, (RasterBand.New w H parent).1.band_cache.size < fuel →
      ∃ w2, RasterBand.dispose nat fuel (RasterBand.New w H parent).1 A = some w2 ∧
        w2.band_cache.has H = false ∧ (w2.band A).this_ = 0 ∧
        (RasterBand.New w2 H parent2).2 = .ret (.object .RasterBand w2.bands.length) ∧
        w2.bands.length ≠ A ∧
        (RasterBand.New w2 H parent2).1.bands.length = w2.bands.length + 1 ∧
        ((RasterBand.New w2 H parent2).1.band w2.bands.length).this_ = H ∧
        (RasterBand.New w2 H parent2).1.band_cache.get H = some w2.bands.length ∧
        ((RasterBand.New w2 H parent2).1.band A).this_ = 0) := by
  constructor
  · intro hret w2 hw2
    have hinv : Inv (Layer.New w H parent result_set).1 := hw.layerNew H parent result_set
    have hget := Layer.New_ret_cached_layer w H parent result_set A hH hret
    have hA := hinv.layers_ok.2 _ (ObjectCache.mem_of_get hget)
    simp only at hA
    have hlive : ((Layer.New w H parent result_set).1.layer A).this_ ≠ 0 := by
      rw [hA.2.1]; exact hH
    obtain ⟨hnull, hlen, hdc, hcache⟩ := Layer.dispose_facts (Layer.New w H parent result_set).1 A
    rw [hw2] at hnull hlen hdc hcache
    have hhas : w2.layer_cache.has H = false := by
      rw [hcache hlive, hA.2.1]; exact ObjectCache.has_erase_self _ _
    have hp2' : parent2 = 0 ∨ w2.dataset_cache.has parent2 = true := by
      rw [hdc, (Layer.New_dataset_cache_layer w H parent result_set).1]; exact hp2
    obtain ⟨f1, f2, f3, f4, f5⟩ := Layer.New_fresh_layer w2 H parent2 result_set2 hH hhas hp2'
    have hAlt : A < w2.layers.length := by rw [hlen]; exact hA.1
    exact ⟨hhas, hnull, f1, Nat.ne_of_gt hAlt, f2, f3, f4, by rw [f5 A hAlt]; exact hnull⟩
  · intro hret fuel hfuel
    have hinv : Inv (RasterBand.New w H parent).1 := hw.bandNew H parent
    have hget := RasterBand.New_ret_cached_band w H parent A hH hret
    have hA := hinv.bands_ok.2 _ (ObjectCache.mem_of_get hget)
    simp only at hA
    have hlive : ((RasterBand.New w H parent).1.band A).this_ ≠ 0 := by
      rw [hA.2.1]; exact hH
    obtain ⟨w2, hw2, hpost⟩ := RasterBand.dispose_live_band nat hinv A fuel hlive hfuel
    rw [hA.2.1] at hpost
    have hp2' : parent2 = 0 ∨ w2.dataset_cache.has parent2 = true := by
      rw [hpost.step.dataset_cache, (RasterBand.New_dataset_cache_band w H parent).1]; exact hp2
    obtain ⟨f1, f2, f3, f4, f5⟩ := RasterBand.New_fresh_band w2 H parent2 hH hpost.erased hp2'
    have hAlt : A < w2.bands.length := by rw [hpost.step.len]; exact hA.1
    exact ⟨w2, hw2, hpost.erased, hpost.nulled, f1, Nat.ne_of_gt hAlt, f2, f3, f4,
      by rw [f5 A hAlt]; exact hpost.nulled⟩

/-- Witness of `rewrap_after_dispose`: from the sample state after a
`getStatistics` call that failed, with the pointer 1, no parent, and fuel 2
for the band. -/
theorem rewrap_after_dispose_witness :
    (Layer.New (Layer.dispose (Layer.New World.sampleAfterFailure 1 0 false).1 0) 1 0 false).2 =
      .ret (.object .Layer 1) ∧
    (RasterBand.dispose Native.quiet 2 (RasterBand.New World.sampleAfterFailure 1 0).1
      0).isSome = true :=
  have hr : Reachable World.sample :=
    Reachable.bandNew _ 1 0 (Reachable.layerNew _ 1 0 false (Reachable.init ⟨[]⟩ []))
  have hinv : Inv World.sampleAfterFailure :=
    hr.inv.of_keeps (keepsCaches_RasterBand_getStatistics Native.openFailed World.sample 0
      [.boolean true, .boolean true])
  have h := rewrap_after_dispose Native.quiet World.sampleAfterFailure hinv 1 0 0 false false 0
    (by decide) (Or.inl rfl)
  ⟨(h.1 (by decide) _ rfl).2.2.1,
    (h.2 (by decide) 2 (by decide)).elim fun _ hw2 => by rw [hw2.1]; rfl⟩

/-- C3, counterexample: from empty caches, `Layer::New(1, 5, false)` fails
(the dataset 5 is not cached) and leaves the state `w`.  In `w`,
`Layer::New(1, 5, false)` returns the wrapper 0; after `dispose()` of wrapper 0
the next `Layer::New(1, 5, false)` returns no wrapper: it throws.  The same
holds for `RasterBand::New(1, 5)`. -/
theorem rewrap_after_dispose_counterexample :
    Reachable (Layer.New {} 1 5 false).1 ∧
    (Layer.New (Layer.New {} 1 5 false).1 1 5 false).2 = .ret (.object .Layer 0) ∧
    (Layer.New (Layer.dispose (Layer.New (Layer.New {} 1 5 false).1 1 5 false).1 0) 1 5 false).2
      = .throw "Layer's parent dataset disappeared from cache" ∧
    Reachable (RasterBand.New {} 1 5).1 ∧
    (RasterBand.New (RasterBand.New {} 1 5).1 1 5).2 = .ret (.object .RasterBand 0) ∧
    (RasterBand.dispose Native.quiet 2 (RasterBand.New (RasterBand.New {} 1 5).1 1 5).1 0).map
        (fun w2 => (RasterBand.New w2 1 5).2)
      = some (.throw "Band's parent dataset disappeared from cache") :=
  ⟨Reachable.layerNew _ 1 5 false (Reachable.init ⟨[]⟩ []), by decide, by decide,
    Reachable.bandNew _ 1 5 (Reachable.init ⟨[]⟩ []), by decide, by decide⟩


theorem RasterBand.dispose_nulls (nat : Native) (fuel : Nat) (w w1 : World) (self : ObjId)
    (hr : RasterBand.dispose nat fuel w self = some w1) : (w1.band self).this_ = 0 := by
  cases fuel with
  | zero => simp [RasterBand.dispose] at hr
  | succ fuel =>
    by_cases h0 : (w.band self).this_ = 0
    · rw [RasterBand.dispose_dead_band nat fuel w self h0] at hr
      cases hr
      exact h0
    · rw [RasterBand.dispose] at hr
      simp only [h0, if_false] at hr
      split at hr
      · cases hr
      · rename_i w3 _
        split at hr
        · cases hr
        · split at hr
          · cases hr
          · rename_i w5 _
            cases hr
            rw [World.band_setBand]
            by_cases hlen : self < w5.bands.length
            · simp [hlen]
            · simp only [hlen, and_false, if_false]
              rw [World.band_of_ge w5 self (Nat.le_of_not_lt hlen)]

/-- C4: `Layer::dispose` and `RasterBand::dispose` are idempotent.  A second
`dispose` leaves the whole state, the record of native calls included, exactly
as the first left it, and the handle is null after each of them.  For a band
the first call returns in every reachable state, for every fuel above the size
of the cache; the second returns for every positive fuel. -/
theorem dispose_idempotent (nat nat2 : Native) (w : World) (self : ObjId) :
    Layer.dispose (Layer.dispose w self) self = Layer.dispose w self ∧
    ((Layer.dispose w self).layer self).this_ = 0 ∧
    (∀ fuel fuel2 w1, RasterBand.dispose nat fuel w self = some w1 →
      RasterBand.dispose nat2 (fuel2 + 1) w1 self = some w1 ∧ (w1.band self).this_ = 0) ∧
    (Reachable w → ∀ fuel, w.band_cache.size < fuel →
      ∃ w1, RasterBand.dispose nat fuel w self = some w1) := by
  refine ⟨Layer.dispose_dead_layer _ _ (Layer.dispose_facts w self).1, (Layer.dispose_facts w self).1,
    ?_, ?_⟩
  · intro fuel fuel2 w1 hr
    have h0 := RasterBand.dispose_nulls nat fuel w w1 self hr
    exact ⟨RasterBand.dispose_dead_band nat2 fuel2 w1 self h0, h0⟩
  · intro hw fuel hfuel
    by_cases h0 : (w.band self).this_ = 0
    · cases fuel with
      | zero => exact absurd hfuel (Nat.not_lt_zero _)
      | succ fuel => exact ⟨w, RasterBand.dispose_dead_band nat fuel w self h0⟩
    · obtain ⟨w1, hw1, _⟩ := RasterBand.dispose_live_band nat hw.inv self fuel h0 hfuel
      exact ⟨w1, hw1⟩

/-- Witness of `dispose_idempotent`: the band wrapper 0 of the sample state,
disposed twice. -/
theorem dispose_idempotent_witness :
    (RasterBand.dispose Native.quiet 2 World.sample 0).isSome = true ∧
    ((RasterBand.dispose Native.quiet 2 World.sample 0).bind
        fun w1 => RasterBand.dispose Native.quiet 1 w1 0) =
      RasterBand.dispose Native.quiet 2 World.sample 0 :=
  have h := dispose_idempotent Native.quiet Native.quiet World.sample 0
  have hr : Reachable World.sample :=
    Reachable.bandNew _ 1 0 (Reachable.layerNew _ 1 0 false (Reachable.init ⟨[]⟩ []))
  (h.2.2.2 hr 2 (by decide)).elim fun w1 hw1 =>
    ⟨by rw [hw1]; rfl, by rw [hw1]; exact (h.2.2.1 2 0 w1 hw1).1⟩

/-! ## Operations on a disposed wrapper (C5, C6) -/

/-- C5: after `dispose()`, each native-reading operation of the wrapper fails
with `<Class> object has already been destroyed` and leaves the whole state,
the record of native calls included, as `dispose()` left it, whatever the
arguments or the assigned value: for `Layer`, `getExtent`, `getSpatialFilter`,
`setSpatialFilter`, `setAttributeFilter`, `flush` and the getters of `srs`,
`name`, `geomColumn`, `fidColumn`, `geomType`; for `RasterBand`, `flush`,
`getMaskFlags`, `getMaskBand` and the getters and setters from `idGetter`
through `colorInterpretationSetter`. -/
theorem disposed_wrapper_operations_fail (nat natd : Native) (co : Collaborators) (w : World)
    (self : ObjId) (args : List JsValue) (value : JsValue) :
    (∀ w1, Layer.dispose w self = w1 →
      Layer.getExtent nat w1 self args = (w1, .throw "Layer object has already been destroyed") ∧
      Layer.getSpatialFilter nat co w1 self args =
        (w1, .throw "Layer object has already been destroyed") ∧
      Layer.setSpatialFilter w1 self args =
        (w1, .throw "Layer object has already been destroyed") ∧
      Layer.setAttributeFilter nat w1 self args =
        (w1, .throw "Layer object has already been destroyed") ∧
      Layer.syncToDisk nat w1 self args = (w1, .throw "Layer object has already been destroyed") ∧
      Layer.srsGetter nat co w1 self = (w1, .throw "Layer object has already been destroyed") ∧
      Layer.nameGetter nat w1 self = (w1, .throw "Layer object has already been destroyed") ∧
      Layer.geomColumnGetter nat w1 self =
        (w1, .throw "Layer object has already been destroyed") ∧
      Layer.fidColumnGetter nat w1 self = (w1, .throw "Layer object has already been destroyed") ∧
      Layer.geomTypeGetter nat w1 self = (w1, .throw "Layer object has already been destroyed")) ∧
    (∀ fuel w1, RasterBand.dispose natd fuel w self = some w1 →
      RasterBand.flush w1 self args =
        (w1, .throw "RasterBand object has already been destroyed") ∧
      RasterBand.getMaskFlags nat w1 self args =
        (w1, .throw "RasterBand object has already been destroyed") ∧
      RasterBand.getMaskBand nat w1 self args =
        (w1, .throw "RasterBand object has already been destroyed") ∧
      RasterBand.idGetter nat w1 self =
        (w1, .throw "RasterBand object has already been destroyed") ∧
      RasterBand.sizeGetter nat w1 self =
        (w1, .throw "RasterBand object has already been destroyed") ∧
      RasterBand.blockSizeGetter nat w1 self =
        (w1, .throw "RasterBand object has already been destroyed") ∧
      RasterBand.minimumGetter nat w1 self =
        (w1, .throw "RasterBand object has already been destroyed") ∧
      RasterBand.maximumGetter nat w1 self =
        (w1, .throw "RasterBand object has already been destroyed") ∧
      RasterBand.offsetGetter nat w1 self =
        (w1, .throw "RasterBand object has already been destroyed") ∧
      RasterBand.scaleGetter nat w1 self =
        (w1, .throw "RasterBand object has already been destroyed") ∧
      RasterBand.noDataValueGetter nat w1 self =
        (w1, .throw "RasterBand object has already been destroyed") ∧
      RasterBand.unitTypeGetter nat w1 self =
        (w1, .throw "RasterBand object has already been destroyed") ∧
      RasterBand.dataTypeGetter nat w1 self =
        (w1, .throw "RasterBand object has already been destroyed") ∧
      RasterBand.readOnlyGetter nat w1 self =
        (w1, .throw "RasterBand object has already been destroyed") ∧
      RasterBand.hasArbitraryOverviewsGetter nat w1 self =
        (w1, .throw "RasterBand object has already been destroyed") ∧
      RasterBand.categoryNamesGetter nat w1 self =
        (w1, .throw "RasterBand object has already been destroyed") ∧
      RasterBand.colorInterpretationGetter nat w1 self =
        (w1, .throw "RasterBand object has already been destroyed") ∧
      RasterBand.unitTypeSetter nat w1 self value =
        (w1, .throw "RasterBand object has already been destroyed") ∧
      RasterBand.noDataValueSetter nat w1 self value =
        (w1, .throw "RasterBand object has already been destroyed") ∧
      RasterBand.scaleSetter nat w1 self value =
        (w1, .throw "RasterBand object has already been destroyed") ∧
      RasterBand.offsetSetter nat w1 self value =
        (w1, .throw "RasterBand object has already been destroyed") ∧
      RasterBand.categoryNamesSetter nat w1 self value =
        (w1, .throw "RasterBand object has already been destroyed") ∧
      RasterBand.colorInterpretationSetter nat w1 self value =
        (w1, .throw "RasterBand object has already been destroyed")) := by
  constructor
  · intro w1 hw1
    have h0 : (w1.layer self).this_ = 0 := by rw [← hw1]; exact (Layer.dispose_facts w self).1
    simp [Layer.getExtent, Layer.getSpatialFilter, Layer.setSpatialFilter,
      Layer.setAttributeFilter, Layer.syncToDisk, Layer.srsGetter, Layer.nameGetter,
      Layer.geomColumnGetter, Layer.fidColumnGetter, Layer.geomTypeGetter, h0]
  · intro fuel w1 hw1
    have h0 : (w1.band self).this_ = 0 := RasterBand.dispose_nulls natd fuel w w1 self hw1
    simp [RasterBand.flush, RasterBand.getMaskFlags, RasterBand.getMaskBand, RasterBand.idGetter,
      RasterBand.sizeGetter, RasterBand.blockSizeGetter, RasterBand.minimumGetter,
      RasterBand.maximumGetter, RasterBand.offsetGetter, RasterBand.scaleGetter,
      RasterBand.noDataValueGetter, RasterBand.unitTypeGetter, RasterBand.dataTypeGetter,
      RasterBand.readOnlyGetter, RasterBand.hasArbitraryOverviewsGetter,
      RasterBand.categoryNamesGetter, RasterBand.colorInterpretationGetter,
      RasterBand.unitTypeSetter, RasterBand.noDataValueSetter, RasterBand.scaleSetter,
      RasterBand.offsetSetter, RasterBand.categoryNamesSetter,
      RasterBand.colorInterpretationSetter, h0]

/-- Witness of `disposed_wrapper_operations_fail`: the wrappers 0 of the sample
state, disposed. -/
theorem disposed_wrapper_operations_fail_witness :
    Layer.nameGetter Native.quiet (Layer.dispose World.sample 0) 0 =
      (Layer.dispose World.sample 0, .throw "Layer object has already been destroyed") ∧
    ((RasterBand.dispose Native.quiet 2 World.sample 0).map fun w1 =>
        (RasterBand.idGetter Native.quiet w1 0).2) =
      some (.throw "RasterBand object has already been destroyed") :=
  have h := disposed_wrapper_operations_fail Native.quiet Native.quiet Collaborators.quiet
    World.sample 0 [] .undefined
  ⟨(h.1 _ rfl).2.2.2.2.2.2.1,
    match hd : RasterBand.dispose Native.quiet 2 World.sample 0 with
    | some w1 => by rw [Option.map_some', (h.2 2 w1 hd).2.2.2.1]
    | none => by revert hd; decide⟩


/-- `NODE_WRAPPED_METHOD_WITH_RESULT_1_WRAPPED_PARAM` on a null handle: the
message of the argument validation if it fails, the destroyed-object message
otherwise; the state is unchanged. -/
theorem NODE_WRAPPED_METHOD_WITH_RESULT_1_WRAPPED_PARAM_null (klass : String)
    (result_type_New : World → NativeCall → World × Outcome) (wrapped_method : String)
    (param_type : WrappedType) (param_name : String) (w : World) (args : List JsValue) :
    NODE_WRAPPED_METHOD_WITH_RESULT_1_WRAPPED_PARAM klass 0 result_type_New wrapped_method
        param_type param_name w args = (w, .throw
      (match NODE_ARG_WRAPPED param_type w args 0 param_name with
      | .error msg => msg
      | .ok _ => klass ++ " object has already been destroyed")) := by
  unfold NODE_WRAPPED_METHOD_WITH_RESULT_1_WRAPPED_PARAM
  cases NODE_ARG_WRAPPED param_type w args 0 param_name <;> simp

/-- `NODE_WRAPPED_METHOD_WITH_RESULT_1_DOUBLE_PARAM` on a null handle. -/
theorem NODE_WRAPPED_METHOD_WITH_RESULT_1_DOUBLE_PARAM_null (klass : String)
    (result_type_New : World → NativeCall → World × Outcome) (wrapped_method : String)
    (param_name : String) (w : World) (args : List JsValue) :
    NODE_WRAPPED_METHOD_WITH_RESULT_1_DOUBLE_PARAM klass 0 result_type_New wrapped_method
        param_name w args = (w, .throw
      (match NODE_ARG_DOUBLE args 0 param_name with
      | .error msg => msg
      | .ok _ => klass ++ " object has already been destroyed")) := by
  unfold NODE_WRAPPED_METHOD_WITH_RESULT_1_DOUBLE_PARAM
  cases NODE_ARG_DOUBLE args 0 param_name <;> simp

/-- `NODE_WRAPPED_METHOD_WITH_1_DOUBLE_PARAM` on a null handle. -/
theorem NODE_WRAPPED_METHOD_WITH_1_DOUBLE_PARAM_null (klass : String)
    (wrapped_method : String) (param_name : String) (w : World) (args : List JsValue) :
    NODE_WRAPPED_METHOD_WITH_1_DOUBLE_PARAM klass 0 wrapped_method param_name w args =
      (w, .throw
        (match NODE_ARG_DOUBLE args 0 param_name with
        | .error msg => msg
        | .ok _ => klass ++ " object has already been destroyed")) := by
  unfold NODE_WRAPPED_METHOD_WITH_1_DOUBLE_PARAM
  cases NODE_ARG_DOUBLE args 0 param_name <;> simp

/-- `NODE_WRAPPED_METHOD_WITH_OGRERR_RESULT_1_WRAPPED_PARAM` on a null handle. -/
theorem NODE_WRAPPED_METHOD_WITH_OGRERR_RESULT_1_WRAPPED_PARAM_null (nat : Native)
    (klass : String) (wrapped_method : String) (param_type : WrappedType)
    (param_name : String) (w : World) (args : List JsValue) :
    NODE_WRAPPED_METHOD_WITH_OGRERR_RESULT_1_WRAPPED_PARAM nat klass 0 wrapped_method
        param_type param_name w args = (w, .throw
      (match NODE_ARG_WRAPPED param_type w args 0 param_name with
      | .error msg => msg
      | .ok _ => klass ++ " object has already been destroyed")) := by
  unfold NODE_WRAPPED_METHOD_WITH_OGRERR_RESULT_1_WRAPPED_PARAM
  cases NODE_ARG_WRAPPED param_type w args 0 param_name <;> simp

/-- The messages of `NODE_ARG_WRAPPED`: the argument is missing, is not an
instance of the type, or is a wrapper whose own handle is null; otherwise the
handle of the wrapper, which is not null. -/
theorem NODE_ARG_WRAPPED_cases (type : WrappedType) (w : World) (args : List JsValue)
    (num : Nat) (name : String) :
    NODE_ARG_WRAPPED type w args num name = .error (name ++ " must be given") ∨
    NODE_ARG_WRAPPED type w args num name =
      .error (name ++ " must be an instance of " ++ type.name) ∨
    NODE_ARG_WRAPPED type w args num name =
      .error (type.name ++ " parameter already destroyed") ∨
    (type.get w (argAt args num) ≠ 0 ∧
      NODE_ARG_WRAPPED type w args num name = .ok (type.get w (argAt args num))) := by
  unfold NODE_ARG_WRAPPED
  split
  · exact Or.inl rfl
  · split
    · exact Or.inr (Or.inl rfl)
    · split
      · exact Or.inr (Or.inr (Or.inl rfl))
      · rename_i h
        exact Or.inr (Or.inr (Or.inr ⟨h, rfl⟩))

/-- C6 (as amended): in the wrapped methods that take parameters, the
arguments are validated first.  On a wrapper whose handle is null, for every
argument list, the call fails and leaves the whole state as it was (no native
call): with the message of the first argument that fails the validation if
there is one (it is missing, ill-typed, not an instance of the wrapper class
asked for, or a wrapper whose own handle is null: `<Type> parameter already
destroyed`), and with `<Class> object has already been destroyed` when the
arguments pass the validation.  This holds for the twenty macro-generated
methods, `Layer::testCapability`, `RasterBand::createMaskBand` and the eighteen
methods of `Geometry` (`intersects` to `transformTo`), and for the hand-written
`RasterBand::fill`, `getStatistics`, `computeStatistics` and `setStatistics`. -/
theorem null_handle_checked_after_arguments (nat : Native) (w : World) (self : ObjId)
    (args : List JsValue) :
    ((w.layer self).this_ = 0 →
      Layer.testCapability nat w self args = (w, .throw
        (match NODE_ARG_STR args 0 "\"capability\"" with
        | .error msg => msg
        | .ok _ => "Layer object has already been destroyed"))) ∧
    ((w.band self).this_ = 0 →
      RasterBand.createMaskBand nat w self args = (w, .throw
        (match NODE_ARG_INT nat args 0 "\"number of desired samples\"" with
        | .error msg => msg
        | .ok _ => "RasterBand object has already been destroyed")) ∧
      RasterBand.fill nat w self args = (w, .throw
        (match NODE_ARG_DOUBLE args 0 "real value" with
        | .error msg => msg
        | .ok real =>
          match NODE_ARG_DOUBLE_OPT args 1 "imaginary value" real with
          | .error msg => msg
          | .ok _ => "RasterBand object has already been destroyed")) ∧
      RasterBand.getStatistics nat w self args = (w, .throw
        (match NODE_ARG_BOOL args 0 "allow approximation" with
        | .error msg => msg
        | .ok _ =>
          match NODE_ARG_BOOL args 1 "force" with
          | .error msg => msg
          | .ok _ => "RasterBand object has already been destroyed")) ∧
      RasterBand.computeStatistics nat w self args = (w, .throw
        (match NODE_ARG_BOOL args 0 "allow approximation" with
        | .error msg => msg
        | .ok _ => "RasterBand object has already been destroyed")) ∧
      RasterBand.setStatistics nat w self args = (w, .throw
        (match NODE_ARG_DOUBLE args 0 "min" with
        | .error msg => msg
        | .ok _ =>
          match NODE_ARG_DOUBLE args 1 "max" with
          | .error msg => msg
          | .ok _ =>
            match NODE_ARG_DOUBLE args 2 "mean" with
            | .error msg => msg
            | .ok _ =>
              match NODE_ARG_DOUBLE args 3 "standard deviation" with
              | .error msg => msg
              | .ok _ => "RasterBand object has already been destroyed"))) ∧
    ((w.geometry self).this_ = 0 → ∀ (co : Collaborators) (ct srs : ObjId → Ptr),
      Geometry.intersects nat w self args = (w, .throw
        (match NODE_ARG_WRAPPED WrappedType.Geometry w args 0 "\"geometry to compare\"" with
        | .error msg => msg
        | .ok _ => "Geometry object has already been destroyed")) ∧
      Geometry.equals nat w self args = (w, .throw
        (match NODE_ARG_WRAPPED WrappedType.Geometry w args 0 "\"geometry to compare\"" with
        | .error msg => msg
        | .ok _ => "Geometry object has already been destroyed")) ∧
      Geometry.disjoint nat w self args = (w, .throw
        (match NODE_ARG_WRAPPED WrappedType.Geometry w args 0 "\"geometry to compare\"" with
        | .error msg => msg
        | .ok _ => "Geometry object has already been destroyed")) ∧
      Geometry.touches nat w self args = (w, .throw
        (match NODE_ARG_WRAPPED WrappedType.Geometry w args 0 "\"geometry to compare\"" with
        | .error msg => msg
        | .ok _ => "Geometry object has already been destroyed")) ∧
      Geometry.crosses nat w self args = (w, .throw
        (match NODE_ARG_WRAPPED WrappedType.Geometry w args 0 "\"geometry to compare\"" with
        | .error msg => msg
        | .ok _ => "Geometry object has already been destroyed")) ∧
      Geometry.within nat w self args = (w, .throw
        (match NODE_ARG_WRAPPED WrappedType.Geometry w args 0 "\"geometry to compare\"" with
        | .error msg => msg
        | .ok _ => "Geometry object has already been destroyed")) ∧
      Geometry.contains nat w self args = (w, .throw
        (match NODE_ARG_WRAPPED WrappedType.Geometry w args 0 "\"geometry to compare\"" with
        | .error msg => msg
        | .ok _ => "Geometry object has already been destroyed")) ∧
      Geometry.overlaps nat w self args = (w, .throw
        (match NODE_ARG_WRAPPED WrappedType.Geometry w args 0 "\"geometry to compare\"" with
        | .error msg => msg
        | .ok _ => "Geometry object has already been destroyed")) ∧
      Geometry.distance nat w self args = (w, .throw
        (match NODE_ARG_WRAPPED WrappedType.Geometry w args 0
          "\"geometry to use for distance calculation\"" with
        | .error msg => msg
        | .ok _ => "Geometry object has already been destroyed")) ∧
      Geometry.intersection nat co w self args = (w, .throw
        (match NODE_ARG_WRAPPED WrappedType.Geometry w args 0
          "\"geometry to use for intersection\"" with
        | .error msg => msg
        | .ok _ => "Geometry object has already been destroyed")) ∧
      Geometry.unionGeometry nat co w self args = (w, .throw
        (match NODE_ARG_WRAPPED WrappedType.Geometry w args 0
          "\"geometry to use for union\"" with
        | .error msg => msg
        | .ok _ => "Geometry object has already been destroyed")) ∧
      Geometry.difference nat co w self args = (w, .throw
        (match NODE_ARG_WRAPPED WrappedType.Geometry w args 0
          "\"geometry to use for difference\"" with
        | .error msg => msg
        | .ok _ => "Geometry object has already been destroyed")) ∧
      Geometry.symDifference nat co w self args = (w, .throw
        (match NODE_ARG_WRAPPED WrappedType.Geometry w args 0
          "\"geometry to use for sym difference\"" with
        | .error msg => msg
        | .ok _ => "Geometry object has already been destroyed")) ∧
      Geometry.simplify nat co w self args = (w, .throw
        (match NODE_ARG_DOUBLE args 0 "\"tolerance\"" with
        | .error msg => msg
        | .ok _ => "Geometry object has already been destroyed")) ∧
      Geometry.simplifyPreserveTopology nat co w self args = (w, .throw
        (match NODE_ARG_DOUBLE args 0 "\"tolerance\"" with
        | .error msg => msg
        | .ok _ => "Geometry object has already been destroyed")) ∧
      Geometry.segmentize w self args = (w, .throw
        (match NODE_ARG_DOUBLE args 0 "\"segment length\"" with
        | .error msg => msg
        | .ok _ => "Geometry object has already been destroyed")) ∧
      Geometry.transform nat ct w self args = (w, .throw
        (match NODE_ARG_WRAPPED (WrappedType.CoordinateTransformation ct) w args 0
          "\"transform\"" with
        | .error msg => msg
        | .ok _ => "Geometry object has already been destroyed")) ∧
      Geometry.transformTo nat srs w self args = (w, .throw
        (match NODE_ARG_WRAPPED (WrappedType.SpatialReference srs) w args 0
          "\"spatial reference\"" with
        | .error msg => msg
        | .ok _ => "Geometry object has already been destroyed"))) := by
  refine ⟨?_, ?_, ?_⟩
  · intro h0
    unfold Layer.testCapability
    cases NODE_ARG_STR args 0 "\"capability\"" <;> simp [h0]
  · intro h0
    refine ⟨?_, ?_, ?_, ?_, ?_⟩
    · unfold RasterBand.createMaskBand
      cases NODE_ARG_INT nat args 0 "\"number of desired samples\"" <;> simp [h0]
    · unfold RasterBand.fill
      cases h1 : NODE_ARG_DOUBLE args 0 "real value" with
      | error m => simp
      | ok real =>
        simp only
        cases NODE_ARG_DOUBLE_OPT args 1 "imaginary value" real <;> simp [h0]
    · unfold RasterBand.getStatistics
      cases NODE_ARG_BOOL args 0 "allow approximation" with
      | error m => simp
      | ok a =>
        simp only
        cases NODE_ARG_BOOL args 1 "force" <;> simp [h0]
    · unfold RasterBand.computeStatistics
      cases NODE_ARG_BOOL args 0 "allow approximation" <;> simp [h0]
    · unfold RasterBand.setStatistics
      cases NODE_ARG_DOUBLE args 0 "min" with
      | error m => simp
      | ok a =>
        simp only
        cases NODE_ARG_DOUBLE args 1 "max" with
        | error m => simp
        | ok b =>
          simp only
          cases NODE_ARG_DOUBLE args 2 "mean" with
          | error m => simp
          | ok c =>
            simp only
            cases NODE_ARG_DOUBLE args 3 "standard deviation" <;> simp [h0]
  · intro h0 co ct srs
    have hs : "Geometry" ++ " object has already been destroyed" =
        "Geometry object has already been destroyed" := by decide
    refine ⟨?_, ?_, ?_, ?_, ?_, ?_, ?_, ?_, ?_, ?_, ?_, ?_, ?_, ?_, ?_, ?_, ?_, ?_⟩
    · simp only [Geometry.intersects, h0, NODE_WRAPPED_METHOD_WITH_RESULT_1_WRAPPED_PARAM_null, hs]
    · simp only [Geometry.equals, h0, NODE_WRAPPED_METHOD_WITH_RESULT_1_WRAPPED_PARAM_null, hs]
    · simp only [Geometry.disjoint, h0, NODE_WRAPPED_METHOD_WITH_RESULT_1_WRAPPED_PARAM_null, hs]
    · simp only [Geometry.touches, h0, NODE_WRAPPED_METHOD_WITH_RESULT_1_WRAPPED_PARAM_null, hs]
    · simp only [Geometry.crosses, h0, NODE_WRAPPED_METHOD_WITH_RESULT_1_WRAPPED_PARAM_null, hs]
    · simp only [Geometry.within, h0, NODE_WRAPPED_METHOD_WITH_RESULT_1_WRAPPED_PARAM_null, hs]
    · simp only [Geometry.contains, h0, NODE_WRAPPED_METHOD_WITH_RESULT_1_WRAPPED_PARAM_null, hs]
    · simp only [Geometry.overlaps, h0, NODE_WRAPPED_METHOD_WITH_RESULT_1_WRAPPED_PARAM_null, hs]
    · simp only [Geometry.distance, h0, NODE_WRAPPED_METHOD_WITH_RESULT_1_WRAPPED_PARAM_null, hs]
    · simp only [Geometry.intersection, h0, NODE_WRAPPED_METHOD_WITH_RESULT_1_WRAPPED_PARAM_null, hs]
    · simp only [Geometry.unionGeometry, h0, NODE_WRAPPED_METHOD_WITH_RESULT_1_WRAPPED_PARAM_null, hs]
    · simp only [Geometry.difference, h0, NODE_WRAPPED_METHOD_WITH_RESULT_1_WRAPPED_PARAM_null, hs]
    · simp only [Geometry.symDifference, h0, NODE_WRAPPED_METHOD_WITH_RESULT_1_WRAPPED_PARAM_null, hs]
    · simp only [Geometry.simplify, h0, NODE_WRAPPED_METHOD_WITH_RESULT_1_DOUBLE_PARAM_null, hs]
    · simp only [Geometry.simplifyPreserveTopology, h0, NODE_WRAPPED_METHOD_WITH_RESULT_1_DOUBLE_PARAM_null, hs]
    · simp only [Geometry.segmentize, h0, NODE_WRAPPED_METHOD_WITH_1_DOUBLE_PARAM_null, hs]
    · simp only [Geometry.transform, h0, NODE_WRAPPED_METHOD_WITH_OGRERR_RESULT_1_WRAPPED_PARAM_null, hs]
    · simp only [Geometry.transformTo, h0, NODE_WRAPPED_METHOD_WITH_OGRERR_RESULT_1_WRAPPED_PARAM_null, hs]

/-- Witness of `null_handle_checked_after_arguments`: the disposed wrappers 0
of the sample state, `testCapability` with a string argument and
`createMaskBand` with an integer argument; the destroyed geometry wrapper 0,
`intersects` with the live geometry wrapper 1, with the destroyed wrapper 0
itself, with a number and without argument, and `simplify` with a number. -/
theorem null_handle_checked_after_arguments_witness :
    Layer.testCapability Native.quiet World.sampleDisposed 0 [.string "FastSpatialFilter"]
      = (World.sampleDisposed, .throw "Layer object has already been destroyed") ∧
    RasterBand.createMaskBand Native.quiet World.sampleDisposed 0 [.int32 2]
      = (World.sampleDisposed, .throw "RasterBand object has already been destroyed") ∧
    Geometry.intersects Native.quiet World.geometryDestroyed 0 [.object .Point 1]
      = (World.geometryDestroyed, .throw "Geometry object has already been destroyed") ∧
    Geometry.intersects Native.quiet World.geometryDestroyed 0 [.object .Point 0]
      = (World.geometryDestroyed, .throw "Geometry parameter already destroyed") ∧
    Geometry.intersects Native.quiet World.geometryDestroyed 0 [.int32 3]
      = (World.geometryDestroyed,
        .throw "\"geometry to compare\" must be an instance of Geometry") ∧
    Geometry.intersects Native.quiet World.geometryDestroyed 0 []
      = (World.geometryDestroyed, .throw "\"geometry to compare\" must be given") ∧
    Geometry.simplify Native.quiet Collaborators.quiet World.geometryDestroyed 0 [.int32 3]
      = (World.geometryDestroyed, .throw "Geometry object has already been destroyed") :=
  ⟨(null_handle_checked_after_arguments Native.quiet World.sampleDisposed 0
      [.string "FastSpatialFilter"]).1 (by decide),
    ((null_handle_checked_after_arguments Native.quiet World.sampleDisposed 0
      [.int32 2]).2.1 (by decide)).1,
    ((null_handle_checked_after_arguments Native.quiet World.geometryDestroyed 0
      [.object .Point 1]).2.2 (by decide) Collaborators.quiet (fun _ => 0) (fun _ => 0)).1,
    ((null_handle_checked_after_arguments Native.quiet World.geometryDestroyed 0
      [.object .Point 0]).2.2 (by decide) Collaborators.quiet (fun _ => 0) (fun _ => 0)).1,
    ((null_handle_checked_after_arguments Native.quiet World.geometryDestroyed 0
      [.int32 3]).2.2 (by decide) Collaborators.quiet (fun _ => 0) (fun _ => 0)).1,
    ((null_handle_checked_after_arguments Native.quiet World.geometryDestroyed 0
      []).2.2 (by decide) Collaborators.quiet (fun _ => 0) (fun _ => 0)).1,
    ((null_handle_checked_after_arguments Native.quiet World.geometryDestroyed 0
      [.int32 3]).2.2 (by decide) Collaborators.quiet (fun _ => 0)
        (fun _ => 0)).2.2.2.2.2.2.2.2.2.2.2.2.2.1⟩

/-- C6, counterexample: on the disposed layer wrapper 0 of the sample state,
`testCapability()` without argument fails with the message about the argument,
not with `Layer object has already been destroyed`; on the disposed band
wrapper 0, `fill("x")` fails with `real value must be a number`, not with
`RasterBand object has already been destroyed`. -/
theorem null_handle_checked_after_arguments_counterexample :
    (World.sampleDisposed.layer 0).this_ = 0 ∧
    (Layer.testCapability Native.quiet World.sampleDisposed 0 []).2 =
      .throw "\"capability\" must be given" ∧
    (Layer.testCapability Native.quiet World.sampleDisposed 0 []).2 ≠
      .throw "Layer object has already been destroyed" ∧
    (World.sampleDisposed.band 0).this_ = 0 ∧
    (RasterBand.fill Native.quiet World.sampleDisposed 0 [.string "x"]).2 =
      .throw "real value must be a number" ∧
    (RasterBand.fill Native.quiet World.sampleDisposed 0 [.string "x"]).2 ≠
      .throw "RasterBand object has already been destroyed" := by
  decide

/-! ## Cascade and cache invariant (C7, C8) -/

/-- C7: disposing a raster band cascades to its cached secondary views.  In
every state that satisfies the cache invariant `Inv` (which holds from empty
caches on after every sequence of calls of `New`, `dispose`, the methods and
the accessors, see `Inv.init` and `Inv.of_runOps`), for every live `RasterBand`
wrapper `B` with handle `k` and every fuel above the size of the cache, `B.dispose()` returns, and in the
state it leaves: every overview band `GetOverview(i)`, `0 <= i <
GetOverviewCount()`, and the mask band `GetMaskBand()` of `k` that had a cached
wrapper before the call has that wrapper's handle null and no entry in
`RasterBand::cache`; and a native band that is neither `k` nor reachable from
`k` through overview and mask links keeps its cache entry and its wrapper
unchanged. -/
theorem dispose_cascades (nat : Native) (w : World) (hw : Inv w) (B : ObjId)
    (hlive : (w.band B).this_ ≠ 0) (fuel : Nat) (hfuel : w.band_cache.size < fuel) :
    ∃ w1, RasterBand.dispose nat fuel w B = some w1 ∧
      (∀ i : Int, 0 ≤ i → i < nat.GetOverviewCount (w.band B).this_ →
        ∀ id, w.band_cache.get (nat.GetOverview (w.band B).this_ i) = some id →
          (w1.band id).this_ = 0 ∧
          w1.band_cache.has (nat.GetOverview (w.band B).this_ i) = false) ∧
      (∀ id, w.band_cache.get (nat.GetMaskBand (w.band B).this_) = some id →
        (w1.band id).this_ = 0 ∧
        w1.band_cache.has (nat.GetMaskBand (w.band B).this_) = false) ∧
      (∀ p, ¬ nat.Linked (w.band B).this_ p →
        w1.band_cache.get p = w.band_cache.get p ∧
        ∀ id, w.band_cache.get p = some id → w1.band id = w.band id) := by
  have hinv := hw
  obtain ⟨w1, hw1, hp⟩ := RasterBand.dispose_live_band nat hinv B fuel hlive hfuel
  -- a child that was cached is no longer cached and its wrapper is nulled
  have hchild : ∀ c, nat.link (w.band B).this_ c → ∀ id, w.band_cache.get c = some id →
      (w1.band id).this_ = 0 ∧ w1.band_cache.has c = false := by
    intro c hc id hid
    have hcf := hp.children c hc
    refine ⟨?_, hcf⟩
    have hb := hinv.bands_ok.2 _ (ObjectCache.mem_of_get hid)
    simp only at hb
    rcases hp.step.bands id with e | ⟨e, _⟩
    · by_contra hne
      have hlt : id < w1.bands.length := by rw [hp.step.len]; exact hb.1
      have hg := hp.live id hlt (fun hf => hf) hne
      rw [e, hb.2.1] at hg
      have : w1.band_cache.has c = true := (ObjectCache.has_iff_get _ _).2 ⟨id, hg⟩
      rw [hcf] at this
      cases this
    · rw [e]
  refine ⟨w1, hw1, ?_, ?_, ?_⟩
  · intro i hi0 hin id hid
    exact hchild _ (Or.inl ⟨i, hi0, hin, rfl⟩) id hid
  · intro id hid
    exact hchild _ (Or.inr rfl) id hid
  · intro p hnl
    have hkeep : ∀ id, (p, id) ∈ w.band_cache.entries → (p, id) ∈ w1.band_cache.entries := by
      intro id hmem
      by_contra hnot
      exact hnl (hp.step.linked _ hmem hnot)
    constructor
    · cases hg : w.band_cache.get p with
      | none =>
        have hf : w.band_cache.has p = false := by simp [ObjectCache.has, hg]
        have hf1 := ObjectCache.has_false_of_sublist hp.step.sub hf
        simpa [ObjectCache.has] using hf1
      | some id => exact ObjectCache.get_of_mem hp.ok.1 (hkeep id (ObjectCache.mem_of_get hg))
    · intro id hid
      have hmem := ObjectCache.mem_of_get hid
      rcases hp.step.bands id with e | ⟨_, q, hq, hnq⟩
      · exact e
      · exfalso
        have h1 := (hinv.bands_ok.2 _ hq).2.1
        have h2 := (hinv.bands_ok.2 _ hmem).2.1
        simp only at h1 h2
        rw [h1] at h2
        subst h2
        exact hnq (hkeep id hmem)


/-- Witness of `dispose_cascades`: in the state with wrappers for the bands 1
to 5, after a `getStatistics` call that failed, disposing the wrapper of band 1
nulls the wrappers of its overview 2 and of its mask band 4 and evicts
both. -/
theorem dispose_cascades_witness :
    ((RasterBand.dispose Native.pyramid 6 World.afterOpenFailed 0).map fun w1 =>
        ((w1.band 1).this_, w1.band_cache.has 2, (w1.band 3).this_, w1.band_cache.has 4)) =
      some (0, false, 0, false) :=
  have hr : Reachable World.pyramid :=
    Reachable.bandNew _ 5 0 (Reachable.bandNew _ 4 0 (Reachable.bandNew _ 3 0
      (Reachable.bandNew _ 2 0 (Reachable.bandNew _ 1 0 (Reachable.init ⟨[]⟩ [])))))
  have hinv : Inv World.afterOpenFailed :=
    hr.inv.of_keeps (keepsCaches_RasterBand_getStatistics Native.openFailed World.pyramid 0
      [.boolean true, .boolean true])
  (dispose_cascades Native.pyramid World.afterOpenFailed hinv 0 (by decide) 6 (by decide)).elim
    fun w1 h => by
      have h2 := h.2.1 0 (by decide) (by decide) 1 (by decide)
      have h4 := h.2.2.1 3 (by decide)
      have e2 : Native.pyramid.GetOverview (World.afterOpenFailed.band 0).this_ 0 = 2 := by
        decide
      have e4 : Native.pyramid.GetMaskBand (World.afterOpenFailed.band 0).this_ = 4 := by decide
      rw [e2] at h2
      rw [e4] at h4
      rw [h.1, Option.map_some', h2.1, h2.2, h4.1, h4.2]

theorem List.countP_key_le_one (l : List (Ptr × ObjId)) (h : (l.map Prod.fst).Nodup) (k : Ptr) :
    l.countP (fun e => e.1 == k) ≤ 1 := by
  induction l with
  | nil => simp
  | cons e l ih =>
    simp only [List.map_cons, List.nodup_cons] at h
    by_cases hk : e.1 = k
    · have h0 : l.countP (fun e => e.1 == k) = 0 := by
        rw [List.countP_eq_zero]
        intro a ha hak
        apply h.1
        have : a.1 = e.1 := by rw [hk]; simpa using hak
        rw [← this]
        exact List.mem_map.2 ⟨a, ha, rfl⟩
      have hb : (e.1 == k) = true := by simpa using hk
      rw [List.countP_cons, h0]
      simp [hb]
    · have hb : (e.1 == k) = false := by simpa using hk
      rw [List.countP_cons]
      simpa [hb] using ih h.2

theorem Layer.New_ne_abort_layer (w : World) (raw raw_parent : Ptr) (result_set : Bool) :
    (Layer.New w raw raw_parent result_set).2 ≠ .abort := by
  by_cases hraw : raw = 0
  · subst hraw; rw [Layer.New_null_layer]; simp
  · by_cases hhas : w.layer_cache.has raw = true
    · obtain ⟨id, hid⟩ := (ObjectCache.has_iff_get _ _).1 hhas
      rw [Layer.New_hit_layer w raw raw_parent result_set id hraw hid]; simp
    · simp only [Bool.not_eq_true] at hhas
      rw [Layer.New_miss_layer w raw raw_parent result_set hraw hhas]
      simp only
      split <;> simp

theorem RasterBand.New_ne_abort_band (w : World) (raw raw_parent : Ptr) :
    (RasterBand.New w raw raw_parent).2 ≠ .abort := by
  by_cases hraw : raw = 0
  · subst hraw; rw [RasterBand.New_null_band]; simp
  · by_cases hhas : w.band_cache.has raw = true
    · obtain ⟨id, hid⟩ := (ObjectCache.has_iff_get _ _).1 hhas
      rw [RasterBand.New_hit_band w raw raw_parent id hraw hid]; simp
    · simp only [Bool.not_eq_true] at hhas
      rw [RasterBand.New_miss_band w raw raw_parent hraw hhas]
      simp only
      split <;> simp

/-- C8: the cache invariant.  In every state reachable from empty caches by
calls of `Layer::New`, `Layer::dispose`, `RasterBand::New` and
`RasterBand::dispose` (failing calls of `New` included), each cache holds at
most one entry per native pointer and every entry maps its key to a wrapper
whose handle `this_` is the key; so no wrapper with a null handle is in a
cache; and a call of `New` never ends in the failed assertion of `cache.add`,
that is, `add` is never called for a key already present. -/
theorem cache_invariant (w : World) (hw : Reachable w) :
    (∀ k, w.layer_cache.count k ≤ 1) ∧
    (∀ e ∈ w.layer_cache.entries, (w.layer e.2).this_ = e.1) ∧
    (∀ k, w.band_cache.count k ≤ 1) ∧
    (∀ e ∈ w.band_cache.entries, (w.band e.2).this_ = e.1) ∧
    (∀ e ∈ w.layer_cache.entries, (w.layer e.2).this_ ≠ 0) ∧
    (∀ e ∈ w.band_cache.entries, (w.band e.2).this_ ≠ 0) ∧
    (∀ raw raw_parent result_set, (Layer.New w raw raw_parent result_set).2 ≠ .abort) ∧
    (∀ raw raw_parent, (RasterBand.New w raw raw_parent).2 ≠ .abort) := by
  have hinv := hw.inv
  refine ⟨fun k => List.countP_key_le_one _ hinv.layers_ok.1 k,
    fun e he => (hinv.layers_ok.2 e he).2.1,
    fun k => List.countP_key_le_one _ hinv.bands_ok.1 k,
    fun e he => (hinv.bands_ok.2 e he).2.1, ?_, ?_,
    fun raw raw_parent result_set => Layer.New_ne_abort_layer w raw raw_parent result_set,
    fun raw raw_parent => RasterBand.New_ne_abort_band w raw raw_parent⟩
  · intro e he
    have := hinv.layers_ok.2 e he
    simp only at this
    rw [this.2.1]; exact this.2.2
  · intro e he
    have := hinv.bands_ok.2 e he
    simp only at this
    rw [this.2.1]; exact this.2.2

/-- Witness of `cache_invariant`: the state with wrappers for the bands 1 to
5 is reachable, and its band cache holds one entry for the band 3. -/
theorem cache_invariant_witness :
    World.pyramid.band_cache.count 3 ≤ 1 ∧ (World.pyramid.band 2).this_ = 3 :=
  have hr : Reachable World.pyramid :=
    Reachable.bandNew _ 5 0 (Reachable.bandNew _ 4 0 (Reachable.bandNew _ 3 0
      (Reachable.bandNew _ 2 0 (Reachable.bandNew _ 1 0 (Reachable.init ⟨[]⟩ [])))))
  ⟨(cache_invariant World.pyramid hr).2.2.1 3,
    (cache_invariant World.pyramid hr).2.2.2.1 (3, 2) (by decide)⟩

/-! ## Parent link and missing parent (C9, C10) -/

/-- C9 (as amended): the retention edge is set when the wrapper is built.  In
every state, whenever `Layer::New(raw, parent, result_set)` or
`RasterBand::New(raw, parent)` is called with non-null `raw` that has no entry
in the class cache and non-null `parent`, and returns a value without error,
that value is the newly built wrapper, its `parent_ds` is `parent` and its
hidden value `ds_` is the dataset wrapper cached for `parent`. -/
theorem New_sets_parent_on_miss (w : World) (raw raw_parent : Ptr) (result_set : Bool)
    (v : JsValue) (hraw : raw ≠ 0) (hparent : raw_parent ≠ 0) :
    (w.layer_cache.has raw = false → (Layer.New w raw raw_parent result_set).2 = .ret v →
      ∃ ds, w.dataset_cache.get raw_parent = some ds ∧
        v = .object .Layer w.layers.length ∧
        ((Layer.New w raw raw_parent result_set).1.layer w.layers.length).parent_ds = raw_parent ∧
        ((Layer.New w raw raw_parent result_set).1.layer w.layers.length).ds_ =
          .object .Dataset ds) ∧
    (w.band_cache.has raw = false → (RasterBand.New w raw raw_parent).2 = .ret v →
      ∃ ds, w.dataset_cache.get raw_parent = some ds ∧
        v = .object .RasterBand w.bands.length ∧
        ((RasterBand.New w raw raw_parent).1.band w.bands.length).parent_ds = raw_parent ∧
        ((RasterBand.New w raw raw_parent).1.band w.bands.length).ds_ = .object .Dataset ds) := by
  constructor
  · intro hhas hret
    rw [Layer.New_miss_layer w raw raw_parent result_set hraw hhas] at hret ⊢
    simp only at hret ⊢
    by_cases hd : w.dataset_cache.has raw_parent = true
    · obtain ⟨ds, hds⟩ := (ObjectCache.has_iff_get _ _).1 hd
      simp only [hd, Bool.true_eq_false, and_false, if_false, Outcome.ret.injEq] at hret
      refine ⟨ds, hds, hret.symm, ?_, ?_⟩
      · simp [World.layer, List.getD_length_append_singleton, Layer.fresh, hparent, hd]
      · simp [World.layer, List.getD_length_append_singleton, Layer.fresh, hparent, hd,
          ObjectCache.handle_of_get _ hds]
    · simp [hparent, hd] at hret
  · intro hhas hret
    rw [RasterBand.New_miss_band w raw raw_parent hraw hhas] at hret ⊢
    simp only at hret ⊢
    by_cases hd : w.dataset_cache.has raw_parent = true
    · obtain ⟨ds, hds⟩ := (ObjectCache.has_iff_get _ _).1 hd
      simp only [hd, Bool.true_eq_false, and_false, if_false, Outcome.ret.injEq] at hret
      refine ⟨ds, hds, hret.symm, ?_, ?_⟩
      · simp [World.band, List.getD_length_append_singleton, RasterBand.fresh, hparent, hd]
      · simp [World.band, List.getD_length_append_singleton, RasterBand.fresh, hparent, hd,
          ObjectCache.handle_of_get _ hds]
    · simp [hparent, hd] at hret

/-- Witness of `New_sets_parent_on_miss`: in the state where the dataset 5 is
cached, wrapping the uncached pointer 2 with the parent 5. -/
theorem New_sets_parent_on_miss_witness :
    ((Layer.New World.sampleWithDataset 2 5 true).1.layer 1).parent_ds = 5 ∧
    ((RasterBand.New World.sampleWithDataset 2 5).1.band 1).parent_ds = 5 :=
  have h := New_sets_parent_on_miss World.sampleWithDataset 2 5 true
  ⟨((h (.object .Layer 1) (by decide) (by decide)).1 (by decide) (by decide)).elim
      fun _ hd => hd.2.2.1,
    ((h (.object .RasterBand 1) (by decide) (by decide)).2 (by decide) (by decide)).elim
      fun _ hd => hd.2.2.1⟩

/-- C9, counterexample: in the reachable state where the dataset 5 is cached
and the pointer 1 was wrapped without parent, `Layer::New(1, 5, false)` and
`RasterBand::New(1, 5)` return the cached wrapper 0 without error, whose
`parent_ds` is null, not 5, and whose `ds_` was never set.  Likewise after a
`Layer::New(1, 5, false)` that failed because the dataset 5 was not cached: the
next `Layer::New(1, 5, false)` returns a wrapper whose `parent_ds` is null. -/
theorem New_sets_parent_counterexample :
    Reachable World.sampleWithDataset ∧
    Layer.New World.sampleWithDataset 1 5 false =
      (World.sampleWithDataset, .ret (.object .Layer 0)) ∧
    (World.sampleWithDataset.layer 0).parent_ds = 0 ∧
    (World.sampleWithDataset.layer 0).ds_ = .empty ∧
    RasterBand.New World.sampleWithDataset 1 5 =
      (World.sampleWithDataset, .ret (.object .RasterBand 0)) ∧
    (World.sampleWithDataset.band 0).parent_ds = 0 ∧
    (World.sampleWithDataset.band 0).ds_ = .empty ∧
    Reachable (Layer.New {} 1 5 false).1 ∧
    (Layer.New (Layer.New {} 1 5 false).1 1 5 false).2 = .ret (.object .Layer 0) ∧
    ((Layer.New (Layer.New {} 1 5 false).1 1 5 false).1.layer 0).parent_ds = 0 :=
  ⟨Reachable.bandNew _ 1 0 (Reachable.layerNew _ 1 0 false (Reachable.init ⟨[(5, 0)]⟩ [⟨5⟩])),
    by decide, by decide, by decide, by decide, by decide, by decide,
    Reachable.layerNew _ 1 5 false (Reachable.init ⟨[]⟩ []), by decide, by decide⟩

/-- C10: for a non-null `raw` without entry in the class cache and a non-null
parent without entry in the dataset cache, `Layer::New` fails with "Layer's
parent dataset disappeared from cache" and `RasterBand::New` with "Band's
parent dataset disappeared from cache"; no dataset wrapper is created and the
dataset cache is left unchanged. -/
theorem New_fails_without_cached_parent (w : World) (raw raw_parent : Ptr) (result_set : Bool)
    (hraw : raw ≠ 0) (hparent : raw_parent ≠ 0)
    (hmissing : w.dataset_cache.has raw_parent = false) :
    (w.layer_cache.has raw = false →
      (Layer.New w raw raw_parent result_set).2 =
        .throw "Layer's parent dataset disappeared from cache" ∧
      (Layer.New w raw raw_parent result_set).1.datasets = w.datasets ∧
      (Layer.New w raw raw_parent result_set).1.dataset_cache = w.dataset_cache) ∧
    (w.band_cache.has raw = false →
      (RasterBand.New w raw raw_parent).2 =
        .throw "Band's parent dataset disappeared from cache" ∧
      (RasterBand.New w raw raw_parent).1.datasets = w.datasets ∧
      (RasterBand.New w raw raw_parent).1.dataset_cache = w.dataset_cache) := by
  constructor
  · intro hhas
    refine ⟨?_, (Layer.New_dataset_cache_layer w raw raw_parent result_set).2,
      (Layer.New_dataset_cache_layer w raw raw_parent result_set).1⟩
    rw [Layer.New_miss_layer w raw raw_parent result_set hraw hhas]
    simp [hparent, hmissing]
  · intro hhas
    refine ⟨?_, (RasterBand.New_dataset_cache_band w raw raw_parent).2,
      (RasterBand.New_dataset_cache_band w raw raw_parent).1⟩
    rw [RasterBand.New_miss_band w raw raw_parent hraw hhas]
    simp [hparent, hmissing]

/-- Witness of `New_fails_without_cached_parent`: in the sample state, whose
dataset cache is empty, wrapping the uncached pointer 2 with the parent 5. -/
theorem New_fails_without_cached_parent_witness :
    (Layer.New World.sample 2 5 false).2 =
      .throw "Layer's parent dataset disappeared from cache" ∧
    (RasterBand.New World.sample 2 5).2 =
      .throw "Band's parent dataset disappeared from cache" :=
  have h := New_fails_without_cached_parent World.sample 2 5 false (by decide) (by decide)
    (by decide)
  ⟨(h.1 (by decide)).1, (h.2 (by decide)).1⟩

/-! ## Geometry ownership on destruction (C11) -/

theorem World.geometry_set (w : World) (id j : ObjId) (g : Geometry) :
    ({ w with geometries := w.geometries.set id g } : World).geometry j =
      if id = j ∧ id < w.geometries.length then g else w.geometry j := by
  simp only [World.geometry, List.getD_eq_getElem?_getD, List.getElem?_set]
  by_cases h1 : id = j
  · subst h1
    by_cases h2 : id < w.geometries.length
    · simp [h2]
    · simp [h2, List.getElem?_eq_none (Nat.le_of_not_lt h2)]
  · simp [h1]

theorem World.geometry_of_ge (w : World) (id : ObjId) (h : w.geometries.length ≤ id) :
    w.geometry id = {} := by
  simp [World.geometry, List.getD_eq_getElem?_getD, List.getElem?_eq_none h]

/-- C11: geometry ownership on destruction.  For a geometry wrapper with
non-null handle `g`, the destructor records exactly one native call,
`OGRGeometryFactory::destroyGeometry(g)`, if `owned_` is true, and none if
`owned_` is false; the handle is null afterwards in both cases; and for a
wrapper whose handle is already null the destructor changes nothing and makes
no native call. -/
theorem geometry_destructor_releases_owned (w : World) (self : ObjId) :
    ((w.geometry self).this_ ≠ 0 → (w.geometry self).owned_ = true →
      (Geometry.destroy w self).trace =
        w.trace ++ [⟨"OGRGeometryFactory::destroyGeometry", 0, [.ptr (w.geometry self).this_]⟩]) ∧
    ((w.geometry self).this_ ≠ 0 → (w.geometry self).owned_ = false →
      (Geometry.destroy w self).trace = w.trace) ∧
    ((Geometry.destroy w self).geometry self).this_ = 0 ∧
    ((w.geometry self).this_ = 0 → Geometry.destroy w self = w) := by
  refine ⟨?_, ?_, ?_, ?_⟩
  · intro h0 ho
    simp [Geometry.destroy, h0, ho, World.log]
  · intro h0 ho
    simp [Geometry.destroy, h0, ho]
  · by_cases h0 : (w.geometry self).this_ = 0
    · simp [Geometry.destroy, h0]
    · simp only [Geometry.destroy, h0, ne_eq, not_false_eq_true, if_true]
      rw [World.geometry_set]
      by_cases hlen : self < w.geometries.length
      · split <;> simp_all [World.log]
      · have hd := World.geometry_of_ge w self (Nat.le_of_not_lt hlen)
        rw [hd] at h0
        exact absurd rfl h0
  · intro h0
    simp [Geometry.destroy, h0]

/-- Witness of `geometry_destructor_releases_owned`: the owning wrapper 0 and
the borrowing wrapper 1 of the sample state. -/
theorem geometry_destructor_releases_owned_witness :
    (Geometry.destroy World.geometrySample 0).trace =
      [⟨"OGRGeometryFactory::destroyGeometry", 0, [.ptr 1]⟩] ∧
    (Geometry.destroy World.geometrySample 1).trace = [] ∧
    Geometry.destroy (Geometry.destroy World.geometrySample 0) 0 =
      Geometry.destroy World.geometrySample 0 :=
  ⟨(geometry_destructor_releases_owned World.geometrySample 0).1 (by decide) (by decide),
    (geometry_destructor_releases_owned World.geometrySample 1).2.1 (by decide) (by decide),
    (geometry_destructor_releases_owned (Geometry.destroy World.geometrySample 0) 0).2.2.2
      (by decide)⟩

/-! ## Result-set release (C12) -/

theorem Layer.disposeTimes_dead (self : ObjId) (n : Nat) (w : World)
    (h : (w.layer self).this_ = 0) : Layer.disposeTimes self n w = w := by
  induction n with
  | zero => rfl
  | succ n ih => rw [Layer.disposeTimes, Layer.dispose_dead_layer w self h, ih]

theorem Layer.disposeTimes_succ (self : ObjId) (n : Nat) (w : World) :
    Layer.disposeTimes self (n + 1) w = Layer.dispose w self := by
  rw [Layer.disposeTimes]
  exact Layer.disposeTimes_dead self n _ (Layer.dispose_facts w self).1

theorem Layer.New_created (w : World) (raw raw_parent : Ptr) (result_set : Bool)
    (hraw : raw ≠ 0) (hparent : raw_parent ≠ 0) (hds : w.dataset_cache.has raw_parent = true)
    (hmiss : w.layer_cache.has raw = false) :
    (Layer.New w raw raw_parent result_set).2 = .ret (.object .Layer w.layers.length) ∧
    ((Layer.New w raw raw_parent result_set).1.layer w.layers.length).this_ = raw ∧
    ((Layer.New w raw raw_parent result_set).1.layer w.layers.length).parent_ds = raw_parent ∧
    ((Layer.New w raw raw_parent result_set).1.layer w.layers.length).is_result_set = result_set ∧
    (Layer.New w raw raw_parent result_set).1.trace = w.trace := by
  rw [Layer.New_miss_layer w raw raw_parent result_set hraw hmiss]
  simp [World.layer, List.getD_length_append_singleton, Layer.fresh, hparent, hds]

theorem Layer.dispose_eq_effects (w : World) (self : ObjId) :
    Layer.dispose w self = (Layer.disposeEffects w self).foldl (Layer.Effect.apply self) w := by
  unfold Layer.dispose Layer.disposeEffects
  simp only []
  split
  · split <;> rfl
  · rfl

/-- C12: result-set release.  Let the wrapper `obj` be created by
`Layer::New(raw, parent, result_set)` with non-null `raw` not yet cached and a
non-null parent present in the dataset cache.  Over any number `n + 1` of
`dispose` calls on it (explicit or by the destructor) the native calls recorded
are exactly one `parent->ReleaseResultSet(raw)` if `result_set` is true and
none if it is false, so no other native call is made on `raw`, and the cache
has no entry for `raw` afterwards.  The first `dispose` is the sequence of
effects `cache.erase(raw)`, then the release if `result_set`, then `this_ =
NULL`: the eviction comes first, the cache has the entry before it and has
lost it in the state in which the release is made; every later `dispose` has
no effect at all. -/
theorem result_set_released_once (w : World) (raw raw_parent : Ptr) (result_set : Bool)
    (n : Nat) (hraw : raw ≠ 0) (hparent : raw_parent ≠ 0)
    (hds : w.dataset_cache.has raw_parent = true) (hmiss : w.layer_cache.has raw = false) :
    (Layer.New w raw raw_parent result_set).2 = .ret (.object .Layer w.layers.length) ∧
    (Layer.disposeTimes w.layers.length (n + 1) (Layer.New w raw raw_parent result_set).1).trace =
      (if result_set = true then w.trace ++ [⟨"ReleaseResultSet", raw_parent, [.ptr raw]⟩]
        else w.trace) ∧
    (Layer.disposeTimes w.layers.length (n + 1)
      (Layer.New w raw raw_parent result_set).1).layer_cache.has raw = false ∧
    Layer.disposeEffects (Layer.New w raw raw_parent result_set).1 w.layers.length =
      [Layer.Effect.cacheErase raw] ++
        (if result_set = true then
          [Layer.Effect.native ⟨"ReleaseResultSet", raw_parent, [.ptr raw]⟩]
        else []) ++
        [Layer.Effect.setHandle 0] ∧
    Layer.dispose (Layer.New w raw raw_parent result_set).1 w.layers.length =
      (Layer.disposeEffects (Layer.New w raw raw_parent result_set).1 w.layers.length).foldl
        (Layer.Effect.apply w.layers.length) (Layer.New w raw raw_parent result_set).1 ∧
    (Layer.New w raw raw_parent result_set).1.layer_cache.has raw = true ∧
    (Layer.Effect.apply w.layers.length (Layer.New w raw raw_parent result_set).1
      (.cacheErase raw)).layer_cache.has raw = false ∧
    Layer.disposeEffects
      (Layer.disposeTimes w.layers.length (n + 1) (Layer.New w raw raw_parent result_set).1)
      w.layers.length = [] := by
  obtain ⟨h1, h2, h3, h4, h5⟩ := Layer.New_created w raw raw_parent result_set hraw hparent hds hmiss
  have hlive : ((Layer.New w raw raw_parent result_set).1.layer w.layers.length).this_ ≠ 0 := by
    rw [h2]; exact hraw
  have hd := Layer.dispose_live_layer _ _ hlive
  rw [h2, h3, h4] at hd
  have hcached : (Layer.New w raw raw_parent result_set).1.layer_cache.has raw = true := by
    rw [Layer.New_miss_layer w raw raw_parent result_set hraw hmiss]
    exact ObjectCache.has_cons_self _ _ _
  refine ⟨h1, ?_, ?_, ?_, Layer.dispose_eq_effects _ _, hcached,
    ObjectCache.has_erase_self _ _, ?_⟩
  · rw [Layer.disposeTimes_succ, hd]
    cases result_set <;> simp [hparent, h5]
  · rw [Layer.disposeTimes_succ, hd]
    exact ObjectCache.has_erase_self _ _
  · unfold Layer.disposeEffects
    simp only [h2, h3, h4, hraw, hparent, ne_eq, not_false_eq_true, and_true, if_true]
  · rw [Layer.disposeTimes_succ]
    unfold Layer.disposeEffects
    simp only [(Layer.dispose_facts _ _).1, ne_eq, not_true_eq_false, if_false]

/-- Witness of `result_set_released_once`: in the state where the dataset 5 is
cached, the result set 2 of the dataset 5, disposed three times: one release,
made after the eviction. -/
theorem result_set_released_once_witness :
    (Layer.disposeTimes 1 3 (Layer.New World.sampleWithDataset 2 5 true).1).trace =
      [⟨"ReleaseResultSet", 5, [.ptr 2]⟩] ∧
    Layer.disposeEffects (Layer.New World.sampleWithDataset 2 5 true).1 1 =
      [.cacheErase 2, .native ⟨"ReleaseResultSet", 5, [.ptr 2]⟩, .setHandle 0] :=
  have h := result_set_released_once World.sampleWithDataset 2 5 true 2 (by decide) (by decide)
    (by decide) (by decide)
  ⟨h.2.1, h.2.2.2.1⟩

/-! ## Feature definitions: clone and reference count (C13, C14) -/

theorem World.featureDefn_set (w : World) (id j : ObjId) (f : FeatureDefn) :
    ({ w with feature_defns := w.feature_defns.set id f } : World).featureDefn j =
      if id = j ∧ id < w.feature_defns.length then f else w.featureDefn j := by
  simp only [World.featureDefn, List.getD_eq_getElem?_getD, List.getElem?_set]
  by_cases h1 : id = j
  · subst h1
    by_cases h2 : id < w.feature_defns.length
    · simp [h2]
    · simp [h2, List.getElem?_eq_none (Nat.le_of_not_lt h2)]
  · simp [h1]

/-- The result of `FeatureDefn::New(def, owned)` when the definition the wrapper
is to hold, `def` or its clone, is not null. -/
theorem FeatureDefn.New_eq (nat : Native) (w : World) (defn : Ptr) (owned : Bool)
    (hdef : defn ≠ 0)
    (hheld : (if owned = true then defn else nat.retPtr ⟨"Clone", defn, []⟩) ≠ 0) :
    FeatureDefn.New nat w defn owned =
      ({ w with
          feature_defns := w.feature_defns ++
            [{ this_ := if owned = true then defn else nat.retPtr ⟨"Clone", defn, []⟩,
               owned_ := true,
               fields_ := .collection .FeatureDefnFields w.feature_defns.length }],
          trace := w.trace ++
            (if owned = true then [⟨"Reference", defn, []⟩]
              else [⟨"Clone", defn, []⟩,
                ⟨"Reference", nat.retPtr ⟨"Clone", defn, []⟩, []⟩]) },
        .ret (.object .FeatureDefn w.feature_defns.length)) := by
  cases owned
  · simp only [Bool.false_eq_true, if_false] at hheld
    simp [FeatureDefn.New, hdef, hheld, World.log, World.featureDefn,
      List.set_length_append_singleton, List.getD_length_append_singleton]
  · simp [FeatureDefn.New, hdef, World.log, World.featureDefn,
      List.set_length_append_singleton, List.getD_length_append_singleton]

/-- The result of `FeatureDefn::New(def, false)` when `Clone()` answers null. -/
theorem FeatureDefn.New_clone_null (nat : Native) (w : World) (defn : Ptr) (hdef : defn ≠ 0)
    (hclone : nat.retPtr ⟨"Clone", defn, []⟩ = 0) :
    FeatureDefn.New nat w defn false =
      ({ w with
          feature_defns := w.feature_defns ++ [{ this_ := 0, owned_ := true }],
          trace := w.trace ++ [⟨"Clone", defn, []⟩] }, .abort) := by
  simp [FeatureDefn.New, hdef, hclone, World.log]

/-- The destructor of a `FeatureDefn` wrapper that holds a definition and owns
it. -/
theorem FeatureDefn.destroy_owned (w : World) (self : ObjId)
    (h0 : (w.featureDefn self).this_ ≠ 0) (ho : (w.featureDefn self).owned_ = true) :
    FeatureDefn.destroy w self =
      { w with
        feature_defns := w.feature_defns.set self { w.featureDefn self with this_ := 0 },
        trace := w.trace ++ [⟨"Release", (w.featureDefn self).this_, []⟩] } := by
  unfold FeatureDefn.destroy
  dsimp only
  rw [if_pos h0, if_pos ho]
  rfl

theorem FeatureDefn.destroy_dead (w : World) (self : ObjId)
    (h0 : (w.featureDefn self).this_ = 0) : FeatureDefn.destroy w self = w := by
  simp [FeatureDefn.destroy, h0]

theorem FeatureDefn.New_wrapper (nat : Native) (w : World) (defn : Ptr) (owned : Bool)
    (hdef : defn ≠ 0)
    (hheld : (if owned = true then defn else nat.retPtr ⟨"Clone", defn, []⟩) ≠ 0) :
    (FeatureDefn.New nat w defn owned).1.featureDefn w.feature_defns.length =
      { this_ := if owned = true then defn else nat.retPtr ⟨"Clone", defn, []⟩,
        owned_ := true,
        fields_ := .collection .FeatureDefnFields w.feature_defns.length } := by
  rw [FeatureDefn.New_eq nat w defn owned hdef hheld]
  simp [World.featureDefn, List.getD_length_append_singleton]


/-- The result of the JS constructor `new FeatureDefn()` when the new native
definition is not null. -/
theorem FeatureDefn.NewArguments_eq (nat : Native) (w : World)
    (hnew : nat.retPtr ⟨"new OGRFeatureDefn", 0, []⟩ ≠ 0) :
    FeatureDefn.NewArguments nat w true [] =
      ({ w with
          feature_defns := w.feature_defns ++
            [{ this_ := nat.retPtr ⟨"new OGRFeatureDefn", 0, []⟩, owned_ := true,
               fields_ := .collection .FeatureDefnFields w.feature_defns.length }],
          trace := w.trace ++ [⟨"new OGRFeatureDefn", 0, []⟩,
            ⟨"Reference", nat.retPtr ⟨"new OGRFeatureDefn", 0, []⟩, []⟩] },
        .ret (.object .FeatureDefn w.feature_defns.length)) := by
  simp [FeatureDefn.NewArguments, argAt, hnew, World.log, World.featureDefn,
    List.set_length_append_singleton, List.getD_length_append_singleton]

/-- What the destructor does to a wrapper that was just appended to the heap,
holding the definition `p` and owning it. -/
theorem FeatureDefn.destroy_appended (w : World) (f : FeatureDefn) (t : List NativeCall)
    (hp : f.this_ ≠ 0) (ho : f.owned_ = true) :
    (FeatureDefn.destroy
      { w with feature_defns := w.feature_defns ++ [f], trace := t } w.feature_defns.length).trace
      = t ++ [⟨"Release", f.this_, []⟩] ∧
    ((FeatureDefn.destroy
      { w with feature_defns := w.feature_defns ++ [f], trace := t }
      w.feature_defns.length).featureDefn w.feature_defns.length).this_ = 0 := by
  have hw : ({ w with feature_defns := w.feature_defns ++ [f], trace := t } : World).featureDefn
      w.feature_defns.length = f := by
    simp [World.featureDefn, List.getD_length_append_singleton]
  rw [FeatureDefn.destroy_owned _ _ (by rw [hw]; exact hp) (by rw [hw]; exact ho), hw]
  refine ⟨rfl, ?_⟩
  simp [World.featureDefn, List.set_length_append_singleton, List.getD_length_append_singleton]

theorem referenceCount_append (r : Int) (t u : List NativeCall) (p : Ptr) :
    referenceCount r (t ++ u) p =
      referenceCount r t p + (u.count ⟨"Reference", p, []⟩ : Nat) -
        (u.count ⟨"Release", p, []⟩ : Nat) := by
  simp only [referenceCount, List.count_append]
  push_cast
  ring

/-- C13: a borrowed feature definition is cloned and never re-counted.  For a
non-null `def`, `FeatureDefn::New(def)` is `FeatureDefn::New(def, false)`; when
`Clone()` answers a definition (not null) the call returns a new wrapper that
holds the clone, the native calls it records are `def->Clone()` and
`Reference()` on the clone, and the destructor of that wrapper records
`Release()` on the clone; and, the clone being another object than `def`,
neither creating nor destroying the wrapper records a `Reference()` or a
`Release()` on `def`. -/
theorem borrowed_definition_is_cloned (nat : Native) (w : World) (defn : Ptr)
    (hdef : defn ≠ 0) :
    FeatureDefn.New1 nat w defn = FeatureDefn.New nat w defn false ∧
    (nat.retPtr ⟨"Clone", defn, []⟩ ≠ 0 →
      (FeatureDefn.New nat w defn false).2 = .ret (.object .FeatureDefn w.feature_defns.length) ∧
      ((FeatureDefn.New nat w defn false).1.featureDefn w.feature_defns.length).this_ =
        nat.retPtr ⟨"Clone", defn, []⟩ ∧
      (FeatureDefn.New nat w defn false).1.trace =
        w.trace ++ [⟨"Clone", defn, []⟩, ⟨"Reference", nat.retPtr ⟨"Clone", defn, []⟩, []⟩] ∧
      (FeatureDefn.destroy (FeatureDefn.New nat w defn false).1 w.feature_defns.length).trace =
        w.trace ++ [⟨"Clone", defn, []⟩, ⟨"Reference", nat.retPtr ⟨"Clone", defn, []⟩, []⟩,
          ⟨"Release", nat.retPtr ⟨"Clone", defn, []⟩, []⟩]) ∧
    (nat.retPtr ⟨"Clone", defn, []⟩ ≠ defn →
      ∀ c, c = ⟨"Reference", defn, []⟩ ∨ c = ⟨"Release", defn, []⟩ →
        (FeatureDefn.New nat w defn false).1.trace.count c = w.trace.count c ∧
        (FeatureDefn.destroy (FeatureDefn.New nat w defn false).1
          w.feature_defns.length).trace.count c = w.trace.count c) := by
  refine ⟨rfl, ?_, ?_⟩
  · intro hclone
    have hheld : (if false = true then defn else nat.retPtr ⟨"Clone", defn, []⟩) ≠ 0 := by
      simpa using hclone
    have hw := FeatureDefn.New_wrapper nat w defn false hdef hheld
    rw [FeatureDefn.New_eq nat w defn false hdef hheld] at hw ⊢
    refine ⟨rfl, by rw [hw]; rfl, by simp, ?_⟩
    have := (FeatureDefn.destroy_appended w
      { this_ := nat.retPtr ⟨"Clone", defn, []⟩, owned_ := true,
        fields_ := .collection .FeatureDefnFields w.feature_defns.length }
      (w.trace ++ [⟨"Clone", defn, []⟩, ⟨"Reference", nat.retPtr ⟨"Clone", defn, []⟩, []⟩])
      hclone rfl).1
    simpa using this
  · intro hne c hc
    have hne' : ¬ defn = nat.retPtr ⟨"Clone", defn, []⟩ := fun h => hne h.symm
    by_cases hclone : nat.retPtr ⟨"Clone", defn, []⟩ = 0
    · rw [FeatureDefn.New_clone_null nat w defn hdef hclone]
      rw [FeatureDefn.destroy_dead _ _ (by simp [World.featureDefn,
        List.getD_length_append_singleton])]
      rcases hc with rfl | rfl <;> simp [List.count_append, List.count_cons]
    · have hheld : (if false = true then defn else nat.retPtr ⟨"Clone", defn, []⟩) ≠ 0 := by
        simpa using hclone
      have hd := (FeatureDefn.destroy_appended w
        { this_ := nat.retPtr ⟨"Clone", defn, []⟩, owned_ := true,
          fields_ := .collection .FeatureDefnFields w.feature_defns.length }
        (w.trace ++ [⟨"Clone", defn, []⟩, ⟨"Reference", nat.retPtr ⟨"Clone", defn, []⟩, []⟩])
        hclone rfl).1
      rw [FeatureDefn.New_eq nat w defn false hdef hheld]
      simp only [Bool.false_eq_true, if_false] at hd ⊢
      rw [hd]
      rcases hc with rfl | rfl <;> simp [List.count_append, List.count_cons, hne, hne']


/-- Witness of `borrowed_definition_is_cloned`: wrapping the definition 1,
whose clone is the definition 101, from the empty state. -/
theorem borrowed_definition_is_cloned_witness :
    ((FeatureDefn.New Native.cloning {} 1 false).1.featureDefn 0).this_ = 101 ∧
    (FeatureDefn.destroy (FeatureDefn.New Native.cloning {} 1 false).1 0).trace.count
      ⟨"Release", 1, []⟩ = 0 :=
  have h := borrowed_definition_is_cloned Native.cloning {} 1 (by decide)
  ⟨(h.2.1 (by decide)).2.1, (h.2.2 (by decide) _ (Or.inr rfl)).2⟩

/-- C14: reference-count balance of `FeatureDefn`.  Each way of creating a
wrapper, the JS `new FeatureDefn()` and `FeatureDefn::New(def, owned)` for both
values of `owned`, returns a new wrapper with `owned_` true, and the native
calls it records contain `Reference()` exactly once, on the definition `p` the
wrapper holds (the new definition, `def`, or the clone of `def`); the
destructor of that wrapper records `Release()` exactly once, on `p`, and nulls
the handle.  So the reference count of `p` is one more while wrapped and as
before once the wrapper is destroyed; from 0, for a definition just created or
cloned, it goes 0, 1, 0. -/
theorem feature_defn_reference_balance (nat : Native) (w : World) (defn : Ptr) (owned : Bool)
    (r : Int) :
    (nat.retPtr ⟨"new OGRFeatureDefn", 0, []⟩ ≠ 0 →
      (FeatureDefn.NewArguments nat w true []).2 =
        .ret (.object .FeatureDefn w.feature_defns.length) ∧
      ((FeatureDefn.NewArguments nat w true []).1.featureDefn w.feature_defns.length).this_ =
        nat.retPtr ⟨"new OGRFeatureDefn", 0, []⟩ ∧
      ((FeatureDefn.NewArguments nat w true []).1.featureDefn w.feature_defns.length).owned_ =
        true ∧
      (FeatureDefn.NewArguments nat w true []).1.trace =
        w.trace ++ [⟨"new OGRFeatureDefn", 0, []⟩,
          ⟨"Reference", nat.retPtr ⟨"new OGRFeatureDefn", 0, []⟩, []⟩] ∧
      (FeatureDefn.destroy (FeatureDefn.NewArguments nat w true []).1
          w.feature_defns.length).trace =
        (FeatureDefn.NewArguments nat w true []).1.trace ++
          [⟨"Release", nat.retPtr ⟨"new OGRFeatureDefn", 0, []⟩, []⟩] ∧
      ((FeatureDefn.destroy (FeatureDefn.NewArguments nat w true []).1
          w.feature_defns.length).featureDefn w.feature_defns.length).this_ = 0 ∧
      referenceCount r (FeatureDefn.NewArguments nat w true []).1.trace
          (nat.retPtr ⟨"new OGRFeatureDefn", 0, []⟩) =
        referenceCount r w.trace (nat.retPtr ⟨"new OGRFeatureDefn", 0, []⟩) + 1 ∧
      referenceCount r (FeatureDefn.destroy (FeatureDefn.NewArguments nat w true []).1
          w.feature_defns.length).trace (nat.retPtr ⟨"new OGRFeatureDefn", 0, []⟩) =
        referenceCount r w.trace (nat.retPtr ⟨"new OGRFeatureDefn", 0, []⟩)) ∧
    (defn ≠ 0 → (if owned = true then defn else nat.retPtr ⟨"Clone", defn, []⟩) ≠ 0 →
      (FeatureDefn.New nat w defn owned).2 = .ret (.object .FeatureDefn w.feature_defns.length) ∧
      ((FeatureDefn.New nat w defn owned).1.featureDefn w.feature_defns.length).this_ =
        (if owned = true then defn else nat.retPtr ⟨"Clone", defn, []⟩) ∧
      ((FeatureDefn.New nat w defn owned).1.featureDefn w.feature_defns.length).owned_ = true ∧
      (FeatureDefn.New nat w defn owned).1.trace =
        w.trace ++ (if owned = true then [⟨"Reference", defn, []⟩]
          else [⟨"Clone", defn, []⟩, ⟨"Reference", nat.retPtr ⟨"Clone", defn, []⟩, []⟩]) ∧
      (FeatureDefn.destroy (FeatureDefn.New nat w defn owned).1 w.feature_defns.length).trace =
        (FeatureDefn.New nat w defn owned).1.trace ++
          [⟨"Release", if owned = true then defn else nat.retPtr ⟨"Clone", defn, []⟩, []⟩] ∧
      ((FeatureDefn.destroy (FeatureDefn.New nat w defn owned).1
          w.feature_defns.length).featureDefn w.feature_defns.length).this_ = 0 ∧
      referenceCount r (FeatureDefn.New nat w defn owned).1.trace
          (if owned = true then defn else nat.retPtr ⟨"Clone", defn, []⟩) =
        referenceCount r w.trace
          (if owned = true then defn else nat.retPtr ⟨"Clone", defn, []⟩) + 1 ∧
      referenceCount r (FeatureDefn.destroy (FeatureDefn.New nat w defn owned).1
          w.feature_defns.length).trace
          (if owned = true then defn else nat.retPtr ⟨"Clone", defn, []⟩) =
        referenceCount r w.trace
          (if owned = true then defn else nat.retPtr ⟨"Clone", defn, []⟩)) ∧
    (∀ p, referenceCount 0 w.trace p = 0 →
      referenceCount 0 (w.trace ++ [⟨"Reference", p, []⟩]) p = 1 ∧
      referenceCount 0 (w.trace ++ [⟨"Reference", p, []⟩, ⟨"Release", p, []⟩]) p = 0) := by
  refine ⟨?_, ?_, ?_⟩
  · intro hnew
    have hd := FeatureDefn.destroy_appended w
      { this_ := nat.retPtr ⟨"new OGRFeatureDefn", 0, []⟩, owned_ := true,
        fields_ := .collection .FeatureDefnFields w.feature_defns.length }
      (w.trace ++ [⟨"new OGRFeatureDefn", 0, []⟩,
        ⟨"Reference", nat.retPtr ⟨"new OGRFeatureDefn", 0, []⟩, []⟩]) hnew rfl
    rw [FeatureDefn.NewArguments_eq nat w hnew]
    simp only at hd ⊢
    refine ⟨trivial, by simp [World.featureDefn, List.getD_length_append_singleton],
      by simp [World.featureDefn, List.getD_length_append_singleton], trivial, hd.1, hd.2, ?_, ?_⟩
    · rw [referenceCount_append]
      simp [List.count_cons]
    · rw [hd.1, List.append_assoc, referenceCount_append]
      simp [List.count_cons]
  · intro hdef hheld
    have hw := FeatureDefn.New_wrapper nat w defn owned hdef hheld
    have hd := FeatureDefn.destroy_appended w
      { this_ := if owned = true then defn else nat.retPtr ⟨"Clone", defn, []⟩, owned_ := true,
        fields_ := .collection .FeatureDefnFields w.feature_defns.length }
      (w.trace ++ (if owned = true then [⟨"Reference", defn, []⟩]
          else [⟨"Clone", defn, []⟩, ⟨"Reference", nat.retPtr ⟨"Clone", defn, []⟩, []⟩]))
      hheld rfl
    rw [FeatureDefn.New_eq nat w defn owned hdef hheld] at hw ⊢
    simp only at hd ⊢
    refine ⟨trivial, by rw [hw], by rw [hw], trivial, hd.1, hd.2, ?_, ?_⟩
    · rw [referenceCount_append]
      cases owned <;> simp [List.count_cons]
    · rw [hd.1, List.append_assoc, referenceCount_append]
      cases owned <;> simp [List.count_cons]
  · intro p hp
    rw [referenceCount_append, referenceCount_append, hp]
    simp [List.count_cons]

/-- Witness of `feature_defn_reference_balance`: `new FeatureDefn()` and
`FeatureDefn::New(1, true)` from the empty state. -/
theorem feature_defn_reference_balance_witness :
    (FeatureDefn.NewArguments Native.cloning {} true []).1.trace =
      [⟨"new OGRFeatureDefn", 0, []⟩, ⟨"Reference", 50, []⟩] ∧
    referenceCount 3 (FeatureDefn.New Native.cloning {} 1 true).1.trace 1 = 4 ∧
    referenceCount 3
      (FeatureDefn.destroy (FeatureDefn.New Native.cloning {} 1 true).1 0).trace 1 = 3 :=
  have h := feature_defn_reference_balance Native.cloning {} 1 true 3
  ⟨(h.1 (by decide)).2.2.2.1, (h.2.1 (by decide) (by decide)).2.2.2.2.2.2.1,
    (h.2.1 (by decide) (by decide)).2.2.2.2.2.2.2⟩

/-! ## Geometry dispatch and default ownership, FeatureDefn identity, error table (C15, C16, C18, C19) -/

theorem Geometry.getGeometryType_fixed_world (nat : Native) (w : World) (geom : Ptr) :
    (Geometry.getGeometryType_fixed nat w geom).1 =
      { w with trace := w.trace ++ [⟨"getGeometryType", geom, []⟩, ⟨"getGeometryName", geom, []⟩] }
      := by
  unfold Geometry.getGeometryType_fixed
  simp only [World.log, List.append_assoc, List.singleton_append]
  split <;> rfl

/-- C19: dispatch of `Geometry::New(geom, owned)` for a non-null `geom`.  With
`t = wkbFlatten(getGeometryType_fixed(geom))` and `w1` the state after the two
native calls of `getGeometryType_fixed` (which differs from the state before
only by the record of these calls): if `t` is one of the eight supported codes
the result is the matching subclass `New` on `w1` with the same pointer and the
same `owned`; for every other `t` the call fails with `Tried to create
unsupported geometry type` in the state `w1`, so no wrapper is constructed. -/
theorem geometry_New_dispatch (nat : Native) (co : Collaborators) (w : World) (geom : Ptr)
    (owned : Bool) (hgeom : geom ≠ 0) :
    (Geometry.getGeometryType_fixed nat w geom).1 =
      { w with trace := w.trace ++ [⟨"getGeometryType", geom, []⟩, ⟨"getGeometryName", geom, []⟩] }
      ∧
    (wkbFlatten (Geometry.getGeometryType_fixed nat w geom).2 = wkbPoint →
      Geometry.New nat co w geom owned =
        co.geometryNew .Point (Geometry.getGeometryType_fixed nat w geom).1 geom owned) ∧
    (wkbFlatten (Geometry.getGeometryType_fixed nat w geom).2 = wkbLineString →
      Geometry.New nat co w geom owned =
        co.geometryNew .LineString (Geometry.getGeometryType_fixed nat w geom).1 geom owned) ∧
    (wkbFlatten (Geometry.getGeometryType_fixed nat w geom).2 = wkbLinearRing →
      Geometry.New nat co w geom owned =
        co.geometryNew .LinearRing (Geometry.getGeometryType_fixed nat w geom).1 geom owned) ∧
    (wkbFlatten (Geometry.getGeometryType_fixed nat w geom).2 = wkbPolygon →
      Geometry.New nat co w geom owned =
        co.geometryNew .Polygon (Geometry.getGeometryType_fixed nat w geom).1 geom owned) ∧
    (wkbFlatten (Geometry.getGeometryType_fixed nat w geom).2 = wkbGeometryCollection →
      Geometry.New nat co w geom owned =
        co.geometryNew .GeometryCollection (Geometry.getGeometryType_fixed nat w geom).1 geom
          owned) ∧
    (wkbFlatten (Geometry.getGeometryType_fixed nat w geom).2 = wkbMultiPoint →
      Geometry.New nat co w geom owned =
        co.geometryNew .MultiPoint (Geometry.getGeometryType_fixed nat w geom).1 geom owned) ∧
    (wkbFlatten (Geometry.getGeometryType_fixed nat w geom).2 = wkbMultiLineString →
      Geometry.New nat co w geom owned =
        co.geometryNew .MultiLineString (Geometry.getGeometryType_fixed nat w geom).1 geom
          owned) ∧
    (wkbFlatten (Geometry.getGeometryType_fixed nat w geom).2 = wkbMultiPolygon →
      Geometry.New nat co w geom owned =
        co.geometryNew .MultiPolygon (Geometry.getGeometryType_fixed nat w geom).1 geom owned) ∧
    (wkbFlatten (Geometry.getGeometryType_fixed nat w geom).2 ∉
        [wkbPoint, wkbLineString, wkbLinearRing, wkbPolygon, wkbGeometryCollection,
          wkbMultiPoint, wkbMultiLineString, wkbMultiPolygon] →
      Geometry.New nat co w geom owned =
        ((Geometry.getGeometryType_fixed nat w geom).1,
          .throw "Tried to create unsupported geometry type")) := by
  refine ⟨Geometry.getGeometryType_fixed_world nat w geom, ?_, ?_, ?_, ?_, ?_, ?_, ?_, ?_, ?_⟩
  all_goals
    intro h
    simp only [Geometry.New, hgeom, if_false]
    simp_all [wkbPoint, wkbLineString, wkbLinearRing, wkbPolygon, wkbGeometryCollection,
      wkbMultiPoint, wkbMultiLineString, wkbMultiPolygon]

/-- Witness of `geometry_New_dispatch`: a point, wrapped as owned, and a
geometry of the unknown type 0. -/
theorem geometry_New_dispatch_witness :
    Geometry.New Native.points Collaborators.wrapping {} 1 true =
      Collaborators.wrapping.geometryNew .Point
        (Geometry.getGeometryType_fixed Native.points {} 1).1 1 true ∧
    Geometry.New Native.quiet Collaborators.wrapping {} 1 true =
      ((Geometry.getGeometryType_fixed Native.quiet {} 1).1,
        .throw "Tried to create unsupported geometry type") :=
  ⟨(geometry_New_dispatch Native.points Collaborators.wrapping {} 1 true (by decide)).2.1
      (by decide),
    (geometry_New_dispatch Native.quiet Collaborators.wrapping {} 1 true
      (by decide)).2.2.2.2.2.2.2.2.2 (by decide)⟩

/-- C15 (as amended): the default ownership of `Geometry::New` is "owned".
The one-argument `Geometry::New(geom)` returns the same result as
`Geometry::New(geom, true)`, for every geometry pointer; and with the subclass
`New` of the spec, whenever it returns a wrapper, that wrapper is new and has
`owned_` true: the wrapper is an owner unless the caller passes `owned =
false`. -/
theorem geometry_New_default_owned (nat : Native) (co : Collaborators) (w : World)
    (geom : Ptr) :
    Geometry.New1 nat co w geom = Geometry.New nat co w geom true ∧
    (∀ cls id, (Geometry.New1 nat Collaborators.wrapping w geom).2 = .ret (.object cls id) →
      id = w.geometries.length ∧
      ((Geometry.New1 nat Collaborators.wrapping w geom).1.geometry id).this_ = geom ∧
      ((Geometry.New1 nat Collaborators.wrapping w geom).1.geometry id).owned_ = true) := by
  refine ⟨rfl, ?_⟩
  intro cls id
  by_cases hgeom : geom = 0
  · simp [Geometry.New1, Geometry.New, hgeom]
  · have hw := Geometry.getGeometryType_fixed_world nat w geom
    simp only [Geometry.New1, Geometry.New, hgeom, if_false]
    generalize Geometry.getGeometryType_fixed nat w geom = r at hw
    obtain ⟨w1, t⟩ := r
    simp only at hw
    subst hw
    simp only [Collaborators.wrapping, hgeom, if_false]
    split_ifs <;>
      simp (disch := omega) [World.geometry, List.getD_length_append_singleton] <;>
      intro _ h <;> subst h <;>
      simp [List.getD_length_append_singleton]


/-- Witness of `geometry_New_default_owned`: wrapping the point 1 with the
one-argument `New` builds the wrapper 0, which owns the point. -/
theorem geometry_New_default_owned_witness :
    ((Geometry.New1 Native.points Collaborators.wrapping {} 1).1.geometry 0).this_ = 1 ∧
    ((Geometry.New1 Native.points Collaborators.wrapping {} 1).1.geometry 0).owned_ = true :=
  ((geometry_New_default_owned Native.points Collaborators.wrapping {} 1).2 .Point 0
    (by decide)).2

/-- C15, counterexample: for the point 1, with the subclass `New` of the spec,
the one-argument `Geometry::New(1)` and `Geometry::New(1, false)` return
different results: the first builds a wrapper with `owned_` true, whose
destructor calls `destroyGeometry`, the second a wrapper with `owned_` false,
whose destructor makes no native call. -/
theorem geometry_New_default_owned_counterexample :
    Geometry.New1 Native.points Collaborators.wrapping {} 1 ≠
      Geometry.New Native.points Collaborators.wrapping {} 1 false ∧
    ((Geometry.New1 Native.points Collaborators.wrapping {} 1).1.geometry 0).owned_ = true ∧
    ((Geometry.New Native.points Collaborators.wrapping {} 1 false).1.geometry 0).owned_ = false ∧
    (Geometry.destroy (Geometry.New1 Native.points Collaborators.wrapping {} 1).1 0).trace ≠
      (Geometry.destroy (Geometry.New Native.points Collaborators.wrapping {} 1 false).1 0).trace
    := by
  decide

theorem FeatureDefn.New_ret (nat : Native) (w : World) (defn : Ptr) (owned : Bool) (v : JsValue)
    (hdef : defn ≠ 0) (h : (FeatureDefn.New nat w defn owned).2 = .ret v) :
    v = .object .FeatureDefn w.feature_defns.length ∧
    (FeatureDefn.New nat w defn owned).1.feature_defns.length = w.feature_defns.length + 1 := by
  by_cases hheld : (if owned = true then defn else nat.retPtr ⟨"Clone", defn, []⟩) = 0
  · cases owned
    · simp only [Bool.false_eq_true, if_false] at hheld
      rw [FeatureDefn.New_clone_null nat w defn hdef hheld] at h
      cases h
    · simp only [if_true] at hheld
      exact absurd hheld hdef
  · rw [FeatureDefn.New_eq nat w defn owned hdef hheld] at h ⊢
    simp only [Outcome.ret.injEq] at h
    exact ⟨h.symm, by simp⟩

/-- C16 (as amended): `FeatureDefn` has no identity cache.  For every non-null
definition `def` and each value of `owned`, two successive calls of
`FeatureDefn::New(def, owned)` that return a wrapper return two different
wrapper objects: the first call builds the next wrapper of the heap, the
second the one after it. -/
theorem feature_defn_New_builds_new_wrapper (nat nat2 : Native) (w : World) (defn : Ptr)
    (owned : Bool) (v1 v2 : JsValue) (hdef : defn ≠ 0)
    (h1 : (FeatureDefn.New nat w defn owned).2 = .ret v1)
    (h2 : (FeatureDefn.New nat2 (FeatureDefn.New nat w defn owned).1 defn owned).2 = .ret v2) :
    v1 = .object .FeatureDefn w.feature_defns.length ∧
    v2 = .object .FeatureDefn (w.feature_defns.length + 1) ∧ v1 ≠ v2 := by
  obtain ⟨e1, hlen⟩ := FeatureDefn.New_ret nat w defn owned v1 hdef h1
  obtain ⟨e2, _⟩ := FeatureDefn.New_ret nat2 _ defn owned v2 hdef h2
  rw [hlen] at e2
  refine ⟨e1, e2, ?_⟩
  rw [e1, e2]
  simp

/-- Witness of `feature_defn_New_builds_new_wrapper`: wrapping the definition 1
twice as owned. -/
theorem feature_defn_New_builds_new_wrapper_witness :
    (.object .FeatureDefn 0 : JsValue) ≠ .object .FeatureDefn 1 :=
  (feature_defn_New_builds_new_wrapper Native.cloning Native.cloning {} 1 true
    (.object .FeatureDefn 0) (.object .FeatureDefn 1) (by decide) (by decide) (by decide)).2.2

/-- C16, counterexample: from the empty state, `FeatureDefn::New(1, true)`
returns the wrapper 0 and the next `FeatureDefn::New(1, true)` returns the
wrapper 1, another object for the same native definition; likewise for
`owned = false`, where each wrapper holds a clone of its own. -/
theorem feature_defn_New_builds_new_wrapper_counterexample :
    (FeatureDefn.New Native.cloning {} 1 true).2 = .ret (.object .FeatureDefn 0) ∧
    (FeatureDefn.New Native.cloning (FeatureDefn.New Native.cloning {} 1 true).1 1 true).2 =
      .ret (.object .FeatureDefn 1) ∧
    (FeatureDefn.New Native.cloning {} 1 false).2 = .ret (.object .FeatureDefn 0) ∧
    (FeatureDefn.New Native.cloning (FeatureDefn.New Native.cloning {} 1 false).1 1 false).2 =
      .ret (.object .FeatureDefn 1) := by
  decide

/-- C18: `getOGRErrMsg` is total and maps every `err`: 6 to the native
last-error text `CPLGetLastErrorMsg()`; 0, 1, 2, 3, 4, 5, 7 to `No error`, `Not
enough data`, `Not enough memory`, `Unsupported geometry type`, `Unsupported
operation`, `Corrupt Data`, `Unsupported SRS`; every other value (negative or
above 7) to `Invalid Error`.  The entry `Failure` of the table is never used:
for every `err` other than 6 the result is not `Failure`, and for 6 the result
is the native text. -/
theorem getOGRErrMsg_table (nat : Native) (err : Int) :
    getOGRErrMsg nat 6 = (nat.retStr cplGetLastErrorMsg).getD "" ∧
    getOGRErrMsg nat 0 = "No error" ∧
    getOGRErrMsg nat 1 = "Not enough data" ∧
    getOGRErrMsg nat 2 = "Not enough memory" ∧
    getOGRErrMsg nat 3 = "Unsupported geometry type" ∧
    getOGRErrMsg nat 4 = "Unsupported operation" ∧
    getOGRErrMsg nat 5 = "Corrupt Data" ∧
    getOGRErrMsg nat 7 = "Unsupported SRS" ∧
    (err < 0 ∨ 7 < err → getOGRErrMsg nat err = "Invalid Error") ∧
    (err ≠ 6 → getOGRErrMsg nat err ≠ "Failure") := by
  refine ⟨by simp [getOGRErrMsg], by simp [getOGRErrMsg], by simp [getOGRErrMsg],
    by simp [getOGRErrMsg], by simp [getOGRErrMsg], by simp [getOGRErrMsg],
    by simp [getOGRErrMsg], by simp [getOGRErrMsg], ?_, ?_⟩
  · intro h
    have h0 : err ≠ 0 := by omega
    have h1 : err ≠ 1 := by omega
    have h2 : err ≠ 2 := by omega
    have h3 : err ≠ 3 := by omega
    have h4 : err ≠ 4 := by omega
    have h5 : err ≠ 5 := by omega
    have h6 : err ≠ 6 := by omega
    have h7 : err ≠ 7 := by omega
    simp [getOGRErrMsg, h0, h1, h2, h3, h4, h5, h6, h7]
  · intro h6
    unfold getOGRErrMsg
    rw [if_neg h6]
    split_ifs <;> decide

/-- Witness of `getOGRErrMsg_table`: the codes -1, 8 and 3. -/
theorem getOGRErrMsg_table_witness :
    getOGRErrMsg Native.quiet (-1) = "Invalid Error" ∧
    getOGRErrMsg Native.quiet 8 = "Invalid Error" ∧
    getOGRErrMsg Native.quiet 3 ≠ "Failure" :=
  ⟨(getOGRErrMsg_table Native.quiet (-1)).2.2.2.2.2.2.2.2.1 (Or.inl (by decide)),
    (getOGRErrMsg_table Native.quiet 8).2.2.2.2.2.2.2.2.1 (Or.inr (by decide)),
    (getOGRErrMsg_table Native.quiet 3).2.2.2.2.2.2.2.2.2 (by decide)⟩

/-! ## The handle transition is one-way (C17) -/

theorem keeps_Layer_toString (nat : Native) (w : World) (self : ObjId) (args : List JsValue) :
    KeepsWrappers w (Layer.toString nat w self args) := by
  unfold Layer.toString
  repeat' (first | split | simp only [])
  all_goals simp [KeepsWrappers, World.log, NODE_THROW_CPLERR, World.statsCall]

theorem keeps_Layer_getExtent (nat : Native) (w : World) (self : ObjId) (args : List JsValue) :
    KeepsWrappers w (Layer.getExtent nat w self args) := by
  unfold Layer.getExtent
  repeat' (first | split | simp only [])
  all_goals simp [KeepsWrappers, World.log, NODE_THROW_CPLERR, World.statsCall]

theorem keeps_Layer_setAttributeFilter (nat : Native) (w : World) (self : ObjId) (args : List JsValue) :
    KeepsWrappers w (Layer.setAttributeFilter nat w self args) := by
  unfold Layer.setAttributeFilter
  simp only [NODE_THROW_OGRERR]
  repeat' (first | split | simp only [])
  all_goals simp [KeepsWrappers, World.log]

theorem keeps_Layer_testCapability (nat : Native) (w : World) (self : ObjId) (args : List JsValue) :
    KeepsWrappers w (Layer.testCapability nat w self args) := by
  unfold Layer.testCapability
  repeat' (first | split | simp only [])
  all_goals simp [KeepsWrappers, World.log, NODE_THROW_CPLERR, World.statsCall]

theorem keeps_Layer_syncToDisk (nat : Native) (w : World) (self : ObjId) (args : List JsValue) :
    KeepsWrappers w (Layer.syncToDisk nat w self args) := by
  unfold Layer.syncToDisk
  simp only [NODE_THROW_OGRERR]
  repeat' (first | split | simp only [])
  all_goals simp [KeepsWrappers, World.log]

theorem keeps_RasterBand_fill (nat : Native) (w : World) (self : ObjId) (args : List JsValue) :
    KeepsWrappers w (RasterBand.fill nat w self args) := by
  unfold RasterBand.fill
  repeat' (first | split | simp only [])
  all_goals simp [KeepsWrappers, World.log, NODE_THROW_CPLERR, World.statsCall]

theorem keeps_RasterBand_getStatistics (nat : Native) (w : World) (self : ObjId) (args : List JsValue) :
    KeepsWrappers w (RasterBand.getStatistics nat w self args) := by
  unfold RasterBand.getStatistics
  repeat' (first | split | simp only [])
  all_goals simp [KeepsWrappers, World.log, NODE_THROW_CPLERR, World.statsCall]

theorem keeps_RasterBand_setStatistics (nat : Native) (w : World) (self : ObjId) (args : List JsValue) :
    KeepsWrappers w (RasterBand.setStatistics nat w self args) := by
  unfold RasterBand.setStatistics
  repeat' (first | split | simp only [])
  all_goals simp [KeepsWrappers, World.log, NODE_THROW_CPLERR, World.statsCall]

theorem keeps_RasterBand_computeStatistics (nat : Native) (w : World) (self : ObjId) (args : List JsValue) :
    KeepsWrappers w (RasterBand.computeStatistics nat w self args) := by
  unfold RasterBand.computeStatistics
  repeat' (first | split | simp only [])
  all_goals simp [KeepsWrappers, World.log, NODE_THROW_CPLERR, World.statsCall]

theorem keeps_RasterBand_getMaskFlags (nat : Native) (w : World) (self : ObjId) (args : List JsValue) :
    KeepsWrappers w (RasterBand.getMaskFlags nat w self args) := by
  unfold RasterBand.getMaskFlags
  repeat' (first | split | simp only [])
  all_goals simp [KeepsWrappers, World.log, NODE_THROW_CPLERR, World.statsCall]

theorem keeps_RasterBand_createMaskBand (nat : Native) (w : World) (self : ObjId) (args : List JsValue) :
    KeepsWrappers w (RasterBand.createMaskBand nat w self args) := by
  unfold RasterBand.createMaskBand
  repeat' (first | split | simp only [])
  all_goals simp [KeepsWrappers, World.log, NODE_THROW_CPLERR, World.statsCall]

theorem keeps_Layer_setSpatialFilter (w : World) (self : ObjId) (args : List JsValue) :
    KeepsWrappers w (Layer.setSpatialFilter w self args) := by
  unfold Layer.setSpatialFilter
  repeat' (first | split | simp only [])
  all_goals simp [KeepsWrappers, World.log, NODE_THROW_CPLERR, World.statsCall]

theorem keeps_RasterBand_toString (w : World) (self : ObjId) (args : List JsValue) :
    KeepsWrappers w (RasterBand.toString w self args) := by
  simp [RasterBand.toString, KeepsWrappers]

theorem keeps_RasterBand_flush (w : World) (self : ObjId) (args : List JsValue) :
    KeepsWrappers w (RasterBand.flush w self args) := by
  unfold RasterBand.flush
  repeat' (first | split | simp only [])
  all_goals simp [KeepsWrappers, World.log, NODE_THROW_CPLERR, World.statsCall]

theorem keeps_Layer_dsGetter (w : World) (self : ObjId) :
    KeepsWrappers w (Layer.dsGetter w self) := by
  simp [Layer.dsGetter, KeepsWrappers]

theorem keeps_Layer_featuresGetter (w : World) (self : ObjId) :
    KeepsWrappers w (Layer.featuresGetter w self) := by
  simp [Layer.featuresGetter, KeepsWrappers]

theorem keeps_Layer_fieldsGetter (w : World) (self : ObjId) :
    KeepsWrappers w (Layer.fieldsGetter w self) := by
  simp [Layer.fieldsGetter, KeepsWrappers]

theorem keeps_RasterBand_dsGetter (w : World) (self : ObjId) :
    KeepsWrappers w (RasterBand.dsGetter w self) := by
  simp [RasterBand.dsGetter, KeepsWrappers]

theorem keeps_RasterBand_overviewsGetter (w : World) (self : ObjId) :
    KeepsWrappers w (RasterBand.overviewsGetter w self) := by
  simp [RasterBand.overviewsGetter, KeepsWrappers]

theorem keeps_RasterBand_pixelsGetter (w : World) (self : ObjId) :
    KeepsWrappers w (RasterBand.pixelsGetter w self) := by
  simp [RasterBand.pixelsGetter, KeepsWrappers]

theorem keeps_Layer_nameGetter (nat : Native) (w : World) (self : ObjId) :
    KeepsWrappers w (Layer.nameGetter nat w self) := by
  unfold Layer.nameGetter
  repeat' (first | split | simp only [])
  all_goals simp [KeepsWrappers, World.log, NODE_THROW_CPLERR, World.statsCall]

theorem keeps_Layer_geomTypeGetter (nat : Native) (w : World) (self : ObjId) :
    KeepsWrappers w (Layer.geomTypeGetter nat w self) := by
  unfold Layer.geomTypeGetter
  repeat' (first | split | simp only [])
  all_goals simp [KeepsWrappers, World.log, NODE_THROW_CPLERR, World.statsCall]

theorem keeps_Layer_geomColumnGetter (nat : Native) (w : World) (self : ObjId) :
    KeepsWrappers w (Layer.geomColumnGetter nat w self) := by
  unfold Layer.geomColumnGetter
  repeat' (first | split | simp only [])
  all_goals simp [KeepsWrappers, World.log, NODE_THROW_CPLERR, World.statsCall]

theorem keeps_Layer_fidColumnGetter (nat : Native) (w : World) (self : ObjId) :
    KeepsWrappers w (Layer.fidColumnGetter nat w self) := by
  unfold Layer.fidColumnGetter
  repeat' (first | split | simp only [])
  all_goals simp [KeepsWrappers, World.log, NODE_THROW_CPLERR, World.statsCall]

theorem keeps_RasterBand_idGetter (nat : Native) (w : World) (self : ObjId) :
    KeepsWrappers w (RasterBand.idGetter nat w self) := by
  unfold RasterBand.idGetter
  repeat' (first | split | simp only [])
  all_goals simp [KeepsWrappers, World.log, NODE_THROW_CPLERR, World.statsCall]

theorem keeps_RasterBand_sizeGetter (nat : Native) (w : World) (self : ObjId) :
    KeepsWrappers w (RasterBand.sizeGetter nat w self) := by
  unfold RasterBand.sizeGetter
  repeat' (first | split | simp only [])
  all_goals simp [KeepsWrappers, World.log, NODE_THROW_CPLERR, World.statsCall]

theorem keeps_RasterBand_blockSizeGetter (nat : Native) (w : World) (self : ObjId) :
    KeepsWrappers w (RasterBand.blockSizeGetter nat w self) := by
  unfold RasterBand.blockSizeGetter
  repeat' (first | split | simp only [])
  all_goals simp [KeepsWrappers, World.log, NODE_THROW_CPLERR, World.statsCall]

theorem keeps_RasterBand_minimumGetter (nat : Native) (w : World) (self : ObjId) :
    KeepsWrappers w (RasterBand.minimumGetter nat w self) := by
  unfold RasterBand.minimumGetter
  repeat' (first | split | simp only [])
  all_goals simp [KeepsWrappers, World.log, NODE_THROW_CPLERR, World.statsCall]

theorem keeps_RasterBand_maximumGetter (nat : Native) (w : World) (self : ObjId) :
    KeepsWrappers w (RasterBand.maximumGetter nat w self) := by
  unfold RasterBand.maximumGetter
  repeat' (first | split | simp only [])
  all_goals simp [KeepsWrappers, World.log, NODE_THROW_CPLERR, World.statsCall]

theorem keeps_RasterBand_offsetGetter (nat : Native) (w : World) (self : ObjId) :
    KeepsWrappers w (RasterBand.offsetGetter nat w self) := by
  unfold RasterBand.offsetGetter
  repeat' (first | split | simp only [])
  all_goals simp [KeepsWrappers, World.log, NODE_THROW_CPLERR, World.statsCall]

theorem keeps_RasterBand_scaleGetter (nat : Native) (w : World) (self : ObjId) :
    KeepsWrappers w (RasterBand.scaleGetter nat w self) := by
  unfold RasterBand.scaleGetter
  repeat' (first | split | simp only [])
  all_goals simp [KeepsWrappers, World.log, NODE_THROW_CPLERR, World.statsCall]

theorem keeps_RasterBand_noDataValueGetter (nat : Native) (w : World) (self : ObjId) :
    KeepsWrappers w (RasterBand.noDataValueGetter nat w self) := by
  unfold RasterBand.noDataValueGetter
  repeat' (first | split | simp only [])
  all_goals simp [KeepsWrappers, World.log, NODE_THROW_CPLERR, World.statsCall]

theorem keeps_RasterBand_unitTypeGetter (nat : Native) (w : World) (self : ObjId) :
    KeepsWrappers w (RasterBand.unitTypeGetter nat w self) := by
  unfold RasterBand.unitTypeGetter
  repeat' (first | split | simp only [])
  all_goals simp [KeepsWrappers, World.log, NODE_THROW_CPLERR, World.statsCall]

theorem keeps_RasterBand_dataTypeGetter (nat : Native) (w : World) (self : ObjId) :
    KeepsWrappers w (RasterBand.dataTypeGetter nat w self) := by
  unfold RasterBand.dataTypeGetter
  repeat' (first | split | simp only [])
  all_goals simp [KeepsWrappers, World.log, NODE_THROW_CPLERR, World.statsCall]

theorem keeps_RasterBand_readOnlyGetter (nat : Native) (w : World) (self : ObjId) :
    KeepsWrappers w (RasterBand.readOnlyGetter nat w self) := by
  unfold RasterBand.readOnlyGetter
  repeat' (first | split | simp only [])
  all_goals simp [KeepsWrappers, World.log, NODE_THROW_CPLERR, World.statsCall]

theorem keeps_RasterBand_hasArbitraryOverviewsGetter (nat : Native) (w : World) (self : ObjId) :
    KeepsWrappers w (RasterBand.hasArbitraryOverviewsGetter nat w self) := by
  unfold RasterBand.hasArbitraryOverviewsGetter
  repeat' (first | split | simp only [])
  all_goals simp [KeepsWrappers, World.log, NODE_THROW_CPLERR, World.statsCall]

theorem keeps_RasterBand_categoryNamesGetter (nat : Native) (w : World) (self : ObjId) :
    KeepsWrappers w (RasterBand.categoryNamesGetter nat w self) := by
  unfold RasterBand.categoryNamesGetter
  repeat' (first | split | simp only [])
  all_goals simp [KeepsWrappers, World.log, NODE_THROW_CPLERR, World.statsCall]

theorem keeps_RasterBand_colorInterpretationGetter (nat : Native) (w : World) (self : ObjId) :
    KeepsWrappers w (RasterBand.colorInterpretationGetter nat w self) := by
  unfold RasterBand.colorInterpretationGetter
  repeat' (first | split | simp only [])
  all_goals simp [KeepsWrappers, World.log, NODE_THROW_CPLERR, World.statsCall]

theorem keeps_RasterBand_unitTypeSetter (nat : Native) (w : World) (self : ObjId) (value : JsValue) :
    KeepsWrappers w (RasterBand.unitTypeSetter nat w self value) := by
  unfold RasterBand.unitTypeSetter
  repeat' (first | split | simp only [])
  all_goals simp [KeepsWrappers, World.log, NODE_THROW_CPLERR, World.statsCall]

theorem keeps_RasterBand_noDataValueSetter (nat : Native) (w : World) (self : ObjId) (value : JsValue) :
    KeepsWrappers w (RasterBand.noDataValueSetter nat w self value) := by
  unfold RasterBand.noDataValueSetter
  repeat' (first | split | simp only [])
  all_goals simp [KeepsWrappers, World.log, NODE_THROW_CPLERR, World.statsCall]

theorem keeps_RasterBand_scaleSetter (nat : Native) (w : World) (self : ObjId) (value : JsValue) :
    KeepsWrappers w (RasterBand.scaleSetter nat w self value) := by
  unfold RasterBand.scaleSetter
  repeat' (first | split | simp only [])
  all_goals simp [KeepsWrappers, World.log, NODE_THROW_CPLERR, World.statsCall]

theorem keeps_RasterBand_offsetSetter (nat : Native) (w : World) (self : ObjId) (value : JsValue) :
    KeepsWrappers w (RasterBand.offsetSetter nat w self value) := by
  unfold RasterBand.offsetSetter
  repeat' (first | split | simp only [])
  all_goals simp [KeepsWrappers, World.log, NODE_THROW_CPLERR, World.statsCall]

theorem keeps_RasterBand_categoryNamesSetter (nat : Native) (w : World) (self : ObjId) (value : JsValue) :
    KeepsWrappers w (RasterBand.categoryNamesSetter nat w self value) := by
  unfold RasterBand.categoryNamesSetter
  repeat' (first | split | simp only [])
  all_goals simp [KeepsWrappers, World.log, NODE_THROW_CPLERR, World.statsCall]

theorem keeps_RasterBand_colorInterpretationSetter (nat : Native) (w : World) (self : ObjId) (value : JsValue) :
    KeepsWrappers w (RasterBand.colorInterpretationSetter nat w self value) := by
  unfold RasterBand.colorInterpretationSetter
  repeat' (first | split | simp only [])
  all_goals simp [KeepsWrappers, World.log, NODE_THROW_CPLERR, World.statsCall]

theorem nullStays_refl (w : World) : NullStays w w :=
  ⟨le_refl _, le_refl _, fun _ _ h => h, fun _ _ h => h⟩

theorem nullStays_trans {a b c : World} (h1 : NullStays a b) (h2 : NullStays b c) :
    NullStays a c :=
  ⟨le_trans h1.layers_len h2.layers_len, le_trans h1.bands_len h2.bands_len,
    fun id hid h => h2.layers_null id (lt_of_lt_of_le hid h1.layers_len) (h1.layers_null id hid h),
    fun id hid h => h2.bands_null id (lt_of_lt_of_le hid h1.bands_len) (h1.bands_null id hid h)⟩

theorem nullStays_of_eq {w w1 : World} (hl : w1.layers = w.layers) (hb : w1.bands = w.bands) :
    NullStays w w1 :=
  ⟨by rw [hl], by rw [hb], fun id _ h => by simpa [World.layer, hl] using h,
    fun id _ h => by simpa [World.band, hb] using h⟩

theorem nullStays_of_keeps {w : World} {r : World × Outcome} (h : KeepsWrappers w r) :
    NullStays w r.1 :=
  nullStays_of_eq h.1 h.2

theorem nullStays_setLayer (w w2 : World) (hl : w2.layers = w.layers) (hb : w2.bands = w.bands)
    (id : ObjId) (l : Layer) (h : (w.layer id).this_ = 0 → l.this_ = 0) :
    NullStays w (w2.setLayer id l) := by
  have hlay : ∀ j, w2.layer j = w.layer j := fun j => by simp [World.layer, hl]
  refine ⟨by simp [World.setLayer, hl], by simp [World.setLayer, hb], ?_, ?_⟩
  · intro j _ hj
    rw [World.layer_setLayer]
    split
    · next hc => obtain ⟨rfl, _⟩ := hc; exact h hj
    · rw [hlay]; exact hj
  · intro j _ hj
    simpa [World.band, World.setLayer, hb] using hj

theorem nullStays_setBand (w w2 : World) (hl : w2.layers = w.layers) (hb : w2.bands = w.bands)
    (id : ObjId) (b : RasterBand) (h : (w.band id).this_ = 0 → b.this_ = 0) :
    NullStays w (w2.setBand id b) := by
  have hband : ∀ j, w2.band j = w.band j := fun j => by simp [World.band, hb]
  refine ⟨by simp [World.setBand, hl], by simp [World.setBand, hb], ?_, ?_⟩
  · intro j _ hj
    simpa [World.layer, World.setBand, hl] using hj
  · intro j _ hj
    rw [World.band_setBand]
    split
    · next hc => obtain ⟨rfl, _⟩ := hc; exact h hj
    · rw [hband]; exact hj

theorem nullStays_Layer_New (w : World) (raw raw_parent : Ptr) (result_set : Bool) :
    NullStays w (Layer.New w raw raw_parent result_set).1 := by
  rcases Layer.New_world_layer w raw raw_parent result_set with h | ⟨_, _, h⟩
  · rw [h]; exact nullStays_refl w
  · rw [h]
    refine ⟨by simp, le_refl _, ?_, fun _ _ hj => hj⟩
    intro j hj h0
    simpa [World.layer, List.getElem?_append_left hj] using h0

theorem nullStays_RasterBand_New (w : World) (raw raw_parent : Ptr) :
    NullStays w (RasterBand.New w raw raw_parent).1 := by
  rcases RasterBand.New_world_band w raw raw_parent with h | ⟨_, _, h⟩
  · rw [h]; exact nullStays_refl w
  · rw [h]
    refine ⟨le_refl _, by simp, fun _ _ hj => hj, ?_⟩
    intro j hj h0
    simpa [World.band, List.getElem?_append_left hj] using h0

theorem nullStays_Layer_NewArguments (w : World) (isConstructCall : Bool) (args : List JsValue) :
    NullStays w (Layer.NewArguments w isConstructCall args).1 := by
  unfold Layer.NewArguments
  repeat' (first | split | simp only [])
  · exact nullStays_refl w
  · exact nullStays_setLayer w w rfl rfl _ _ (fun h => h)
  · exact nullStays_refl w

theorem nullStays_RasterBand_NewArguments (w : World) (isConstructCall : Bool)
    (args : List JsValue) : NullStays w (RasterBand.NewArguments w isConstructCall args).1 := by
  unfold RasterBand.NewArguments
  repeat' (first | split | simp only [])
  · exact nullStays_refl w
  · exact nullStays_setBand w w rfl rfl _ _ (fun h => h)
  · exact nullStays_refl w

theorem nullStays_Layer_dispose (w : World) (self : ObjId) : NullStays w (Layer.dispose w self) := by
  unfold Layer.dispose
  simp only []
  split
  · refine nullStays_setLayer w _ ?_ ?_ _ _ (fun _ => rfl)
    · split <;> rfl
    · split <;> rfl
  · exact nullStays_refl w

theorem nullStays_disposeCached (rec : World → ObjId → Option World)
    (hrec : ∀ w x w1, rec w x = some w1 → NullStays w w1) (w : World) (band : Ptr) (w1 : World)
    (h : RasterBand.disposeCached rec w band = some w1) : NullStays w w1 := by
  unfold RasterBand.disposeCached at h
  split at h
  · split at h
    · exact hrec _ _ _ h
    · cases h
  · cases h; exact nullStays_refl w

theorem nullStays_disposeOverviews (nat : Native) (rec : World → ObjId → Option World)
    (hrec : ∀ w x w1, rec w x = some w1 → NullStays w w1) (self : ObjId) :
    ∀ (r : Nat) (i : Int) (w w1 : World),
      RasterBand.disposeOverviews nat rec self r i w = some w1 → NullStays w w1 := by
  intro r
  induction r with
  | zero => intro i w w1 h; simp [RasterBand.disposeOverviews] at h; subst h; exact nullStays_refl w
  | succ r ih =>
    intro i w w1 h
    rw [RasterBand.disposeOverviews] at h
    simp only [] at h
    split at h
    · cases h
    · split at h
      · cases h
      · next w2 hc =>
        have h1 := nullStays_disposeCached rec hrec _ _ _ hc
        have h0 : NullStays w (w.log ⟨"GetOverview", (w.band self).this_, [.int i]⟩) :=
          nullStays_of_eq rfl rfl
        exact nullStays_trans (nullStays_trans h0 h1) (ih _ _ _ h)

theorem nullStays_RasterBand_dispose (nat : Native) :
    ∀ (fuel : Nat) (w : World) (self : ObjId) (w1 : World),
      RasterBand.dispose nat fuel w self = some w1 → NullStays w w1 := by
  intro fuel
  induction fuel with
  | zero => intro w self w1 h; simp [RasterBand.dispose] at h
  | succ fuel ih =>
    intro w self w1 h
    rw [RasterBand.dispose] at h
    simp only [] at h
    split at h
    · cases h; exact nullStays_refl w
    · split at h
      · cases h
      · next w3 ho =>
        split at h
        · cases h
        · split at h
          · cases h
          · next w5 hc =>
            cases h
            have h2 := nullStays_disposeOverviews nat _ ih self _ _ _ _ ho
            have h4 := nullStays_disposeCached _ ih _ _ _ hc
            have h0 : NullStays w
                ({ w with band_cache := w.band_cache.erase (w.band self).this_ }.log
                  ⟨"GetOverviewCount", (w.band self).this_, []⟩) := nullStays_of_eq rfl rfl
            have h3 : NullStays w3 (w3.log ⟨"GetMaskBand", (w3.band self).this_, []⟩) :=
              nullStays_of_eq rfl rfl
            exact nullStays_trans (nullStays_trans (nullStays_trans (nullStays_trans h0 h2) h3) h4)
              (nullStays_setBand w5 w5 rfl rfl _ _ (fun _ => rfl))

theorem nullStays_Geometry_New (nat : Native) (co : Collaborators) (hco : co.KeepNull)
    (w : World) (geom : Ptr) (owned : Bool) : NullStays w (Geometry.New nat co w geom owned).1 := by
  have h1 : NullStays w (Geometry.getGeometryType_fixed nat w geom).1 := by
    rw [Geometry.getGeometryType_fixed_world]; exact nullStays_of_eq rfl rfl
  unfold Geometry.New
  split
  · exact nullStays_refl w
  · simp only []
    repeat' split
    all_goals first
      | exact nullStays_trans h1 (hco.1 _ _ _ _)
      | exact h1

theorem nullStays_Geometry_destroy (w : World) (self : ObjId) :
    NullStays w (Geometry.destroy w self) := by
  unfold Geometry.destroy
  simp only []
  split
  · split <;> exact nullStays_of_eq rfl rfl
  · exact nullStays_refl w

theorem keeps_FeatureDefn_New (nat : Native) (w : World) (defn : Ptr) (owned : Bool) :
    KeepsWrappers w (FeatureDefn.New nat w defn owned) := by
  unfold FeatureDefn.New
  repeat' (first | split | simp only [])
  all_goals simp [KeepsWrappers, World.log]

theorem keeps_FeatureDefn_NewArguments (nat : Native) (w : World) (isConstructCall : Bool)
    (args : List JsValue) : KeepsWrappers w (FeatureDefn.NewArguments nat w isConstructCall args) := by
  unfold FeatureDefn.NewArguments
  repeat' (first | split | simp only [])
  all_goals simp [KeepsWrappers, World.log]

theorem nullStays_FeatureDefn_destroy (w : World) (self : ObjId) :
    NullStays w (FeatureDefn.destroy w self) := by
  unfold FeatureDefn.destroy
  simp only []
  split
  · split <;> exact nullStays_of_eq rfl rfl
  · exact nullStays_refl w

theorem nullStays_Layer_getSpatialFilter (nat : Native) (co : Collaborators) (hco : co.KeepNull)
    (w : World) (self : ObjId) (args : List JsValue) :
    NullStays w (Layer.getSpatialFilter nat co w self args).1 := by
  unfold Layer.getSpatialFilter
  simp only []
  split
  · exact nullStays_refl w
  · have h0 : NullStays w (w.log ⟨"GetSpatialFilter", (w.layer self).this_, []⟩) :=
      nullStays_of_eq rfl rfl
    exact nullStays_trans h0 (nullStays_Geometry_New nat co hco _ _ _)

theorem nullStays_Layer_srsGetter (nat : Native) (co : Collaborators) (hco : co.KeepNull)
    (w : World) (self : ObjId) : NullStays w (Layer.srsGetter nat co w self).1 := by
  unfold Layer.srsGetter
  simp only []
  split
  · exact nullStays_refl w
  · have h0 : NullStays w (w.log ⟨"GetSpatialRef", (w.layer self).this_, []⟩) :=
      nullStays_of_eq rfl rfl
    exact nullStays_trans h0 (hco.2 _ _ _)

theorem nullStays_RasterBand_getMaskBand (nat : Native) (w : World) (self : ObjId)
    (args : List JsValue) : NullStays w (RasterBand.getMaskBand nat w self args).1 := by
  unfold RasterBand.getMaskBand
  simp only []
  split
  · exact nullStays_refl w
  · split
    · exact nullStays_of_eq rfl rfl
    · have h0 : NullStays w (w.log ⟨"GetMaskBand", (w.band self).this_, []⟩) :=
        nullStays_of_eq rfl rfl
      exact nullStays_trans h0 (nullStays_RasterBand_New _ _ _)

theorem nullStays_Layer_callMethod (nat : Native) (co : Collaborators) (hco : co.KeepNull)
    (w : World) (m : Layer.Method) (self : ObjId) (args : List JsValue) :
    NullStays w (Layer.callMethod nat co w m self args).1 := by
  cases m <;> simp only [Layer.callMethod]
  · exact nullStays_of_keeps (keeps_Layer_toString nat w self args)
  · exact nullStays_of_keeps (keeps_Layer_getExtent nat w self args)
  · exact nullStays_of_keeps (keeps_Layer_setAttributeFilter nat w self args)
  · exact nullStays_of_keeps (keeps_Layer_setSpatialFilter w self args)
  · exact nullStays_Layer_getSpatialFilter nat co hco w self args
  · exact nullStays_of_keeps (keeps_Layer_testCapability nat w self args)
  · exact nullStays_of_keeps (keeps_Layer_syncToDisk nat w self args)

theorem nullStays_Layer_getAccessor (nat : Native) (co : Collaborators) (hco : co.KeepNull)
    (w : World) (a : Layer.Accessor) (self : ObjId) :
    NullStays w (Layer.getAccessor nat co w a self).1 := by
  cases a <;> simp only [Layer.getAccessor]
  · exact nullStays_of_keeps (keeps_Layer_dsGetter w self)
  · exact nullStays_Layer_srsGetter nat co hco w self
  · exact nullStays_of_keeps (keeps_Layer_featuresGetter w self)
  · exact nullStays_of_keeps (keeps_Layer_fieldsGetter w self)
  · exact nullStays_of_keeps (keeps_Layer_nameGetter nat w self)
  · exact nullStays_of_keeps (keeps_Layer_geomTypeGetter nat w self)
  · exact nullStays_of_keeps (keeps_Layer_geomColumnGetter nat w self)
  · exact nullStays_of_keeps (keeps_Layer_fidColumnGetter nat w self)

theorem nullStays_RasterBand_callMethod (nat : Native) (w : World) (m : RasterBand.Method)
    (self : ObjId) (args : List JsValue) :
    NullStays w (RasterBand.callMethod nat w m self args).1 := by
  cases m <;> simp only [RasterBand.callMethod]
  · exact nullStays_of_keeps (keeps_RasterBand_toString w self args)
  · exact nullStays_of_keeps (keeps_RasterBand_flush w self args)
  · exact nullStays_of_keeps (keeps_RasterBand_fill nat w self args)
  · exact nullStays_of_keeps (keeps_RasterBand_getStatistics nat w self args)
  · exact nullStays_of_keeps (keeps_RasterBand_setStatistics nat w self args)
  · exact nullStays_of_keeps (keeps_RasterBand_computeStatistics nat w self args)
  · exact nullStays_RasterBand_getMaskBand nat w self args
  · exact nullStays_of_keeps (keeps_RasterBand_getMaskFlags nat w self args)
  · exact nullStays_of_keeps (keeps_RasterBand_createMaskBand nat w self args)

theorem nullStays_RasterBand_getAccessor (nat : Native) (w : World) (a : RasterBand.Accessor)
    (self : ObjId) : NullStays w (RasterBand.getAccessor nat w a self).1 := by
  cases a <;> simp only [RasterBand.getAccessor]
  · exact nullStays_of_keeps (keeps_RasterBand_dsGetter w self)
  · exact nullStays_of_keeps (keeps_RasterBand_idGetter nat w self)
  · exact nullStays_of_keeps (keeps_RasterBand_sizeGetter nat w self)
  · exact nullStays_of_keeps (keeps_RasterBand_overviewsGetter w self)
  · exact nullStays_of_keeps (keeps_RasterBand_pixelsGetter w self)
  · exact nullStays_of_keeps (keeps_RasterBand_blockSizeGetter nat w self)
  · exact nullStays_of_keeps (keeps_RasterBand_minimumGetter nat w self)
  · exact nullStays_of_keeps (keeps_RasterBand_maximumGetter nat w self)
  · exact nullStays_of_keeps (keeps_RasterBand_readOnlyGetter nat w self)
  · exact nullStays_of_keeps (keeps_RasterBand_dataTypeGetter nat w self)
  · exact nullStays_of_keeps (keeps_RasterBand_hasArbitraryOverviewsGetter nat w self)
  · exact nullStays_of_keeps (keeps_RasterBand_unitTypeGetter nat w self)
  · exact nullStays_of_keeps (keeps_RasterBand_scaleGetter nat w self)
  · exact nullStays_of_keeps (keeps_RasterBand_offsetGetter nat w self)
  · exact nullStays_of_keeps (keeps_RasterBand_noDataValueGetter nat w self)
  · exact nullStays_of_keeps (keeps_RasterBand_categoryNamesGetter nat w self)
  · exact nullStays_of_keeps (keeps_RasterBand_colorInterpretationGetter nat w self)

theorem nullStays_RasterBand_setAccessor (nat : Native) (w : World) (a : RasterBand.Accessor)
    (self : ObjId) (value : JsValue) :
    NullStays w (RasterBand.setAccessor nat w a self value).1 := by
  cases a <;> simp only [RasterBand.setAccessor]
  all_goals first
    | exact nullStays_refl w
    | exact nullStays_of_keeps (keeps_RasterBand_unitTypeSetter nat w self value)
    | exact nullStays_of_keeps (keeps_RasterBand_scaleSetter nat w self value)
    | exact nullStays_of_keeps (keeps_RasterBand_offsetSetter nat w self value)
    | exact nullStays_of_keeps (keeps_RasterBand_noDataValueSetter nat w self value)
    | exact nullStays_of_keeps (keeps_RasterBand_categoryNamesSetter nat w self value)
    | exact nullStays_of_keeps (keeps_RasterBand_colorInterpretationSetter nat w self value)

theorem nullStays_Op_run (nat : Native) (co : Collaborators) (hco : co.KeepNull) (w : World)
    (op : Op) (w1 : World) (h : op.run nat co w = some w1) : NullStays w w1 := by
  cases op <;> simp only [Op.run, Option.some.injEq] at h
  case bandDispose fuel self => exact nullStays_RasterBand_dispose nat fuel w self w1 h
  all_goals subst h
  · exact nullStays_of_eq rfl rfl
  · exact nullStays_Layer_New _ _ _ _
  · exact nullStays_Layer_New _ _ _ _
  · exact nullStays_Layer_NewArguments _ _ _
  · exact nullStays_Layer_dispose _ _
  · exact nullStays_Layer_callMethod nat co hco _ _ _ _
  · exact nullStays_Layer_getAccessor nat co hco _ _ _
  · exact nullStays_RasterBand_New _ _ _
  · exact nullStays_RasterBand_NewArguments _ _ _
  · exact nullStays_RasterBand_callMethod nat _ _ _ _
  · exact nullStays_RasterBand_getAccessor nat _ _ _
  · exact nullStays_RasterBand_setAccessor nat _ _ _ _
  · exact nullStays_Geometry_New nat co hco _ _ _
  · exact nullStays_Geometry_New nat co hco _ _ _
  · exact nullStays_Geometry_destroy _ _
  · exact nullStays_of_keeps (keeps_FeatureDefn_New nat _ _ _)
  · exact nullStays_of_keeps (keeps_FeatureDefn_New nat _ _ _)
  · exact nullStays_of_keeps (keeps_FeatureDefn_NewArguments nat _ _ _)
  · exact nullStays_FeatureDefn_destroy _ _

theorem nullStays_runOps (co : Collaborators) (hco : co.KeepNull) :
    ∀ (ops : List (Native × Op)) (w w1 : World), runOps co w ops = some w1 → NullStays w w1 := by
  intro ops
  induction ops with
  | nil => intro w w1 h; simp [runOps] at h; subst h; exact nullStays_refl w
  | cons x rest ih =>
    intro w w1 h
    obtain ⟨nat, op⟩ := x
    rw [runOps] at h
    split at h
    · cases h
    · next w2 hop => exact nullStays_trans (nullStays_Op_run nat co hco w op w2 hop) (ih _ _ h)

theorem keepNull_wrapping : Collaborators.wrapping.KeepNull := by
  refine ⟨fun cls w geom owned => ?_, fun w srs owned => nullStays_refl w⟩
  simp only [Collaborators.wrapping]
  split
  · exact nullStays_refl w
  · exact nullStays_of_eq rfl rfl

/-- C17: the handle transition of the `Layer` and `RasterBand` wrappers is
one-way.  Let `w1` be the state after any sequence `ops` of operations run
from a state `w`: calls of `New` on any pointers, of `dispose` on any
wrappers, of any method, getter or setter of the two classes, of the embedded
functions of the geometry and feature definition classes, and changes of the
dataset cache, with the native library answering in any way at every
operation, the wrapping functions of the classes outside these sources
being assumed not to make a null handle non-null (`co.KeepNull`).  Then a
wrapper whose handle `Layer::dispose` (resp. `RasterBand::dispose`) has just
set to null in `w` has a null handle in `w1`, and so has every existing wrapper
whose handle is null in `w`. -/
theorem null_handle_stays_null (co : Collaborators) (hco : co.KeepNull) (w : World)
    (ops : List (Native × Op)) (w1 : World) (hrun : runOps co w ops = some w1) :
    (∀ w0 self, self < w0.layers.length → w = Layer.dispose w0 self →
      (w1.layer self).this_ = 0) ∧
    (∀ nat fuel w0 self, self < w0.bands.length → RasterBand.dispose nat fuel w0 self = some w →
      (w1.band self).this_ = 0) ∧
    (∀ id, id < w.layers.length → (w.layer id).this_ = 0 → (w1.layer id).this_ = 0) ∧
    (∀ id, id < w.bands.length → (w.band id).this_ = 0 → (w1.band id).this_ = 0) := by
  have hs := nullStays_runOps co hco ops w w1 hrun
  refine ⟨?_, ?_, hs.layers_null, hs.bands_null⟩
  · intro w0 self hlt hw
    subst hw
    exact hs.layers_null self (by rw [(Layer.dispose_facts w0 self).2.1]; exact hlt)
      (Layer.dispose_facts w0 self).1
  · intro nat fuel w0 self hlt hd
    exact hs.bands_null self
      (lt_of_lt_of_le hlt (nullStays_RasterBand_dispose nat fuel w0 self w hd).bands_len)
      (RasterBand.dispose_nulls nat fuel w0 w self hd)

/-- C17 at an instance: from the state in which `dispose` has run on the layer
wrapper 0 and on the band wrapper 0, the native handle 1 of each is wrapped
again (as wrapper 1), methods and accessors are called, `dispose` runs again
and the band handle is wrapped a third time; the handles of the wrappers 0 are
still null afterwards, while three band wrappers exist. -/
theorem null_handle_stays_null_witness :
    Collaborators.wrapping.KeepNull ∧
    runOps Collaborators.wrapping World.sampleDisposed Op.sampleRun = some World.sampleAfterRun ∧
    World.sampleDisposed = Layer.dispose World.sampleDisposed 0 ∧
    World.sampleAfterRun.bands.length = 3 ∧
    (World.sampleAfterRun.layer 0).this_ = 0 ∧ (World.sampleAfterRun.band 0).this_ = 0 :=
  ⟨keepNull_wrapping, rfl, by decide, by decide,
    (null_handle_stays_null Collaborators.wrapping keepNull_wrapping World.sampleDisposed
      Op.sampleRun World.sampleAfterRun rfl).1 World.sampleDisposed 0 (by decide) (by decide),
    (null_handle_stays_null Collaborators.wrapping keepNull_wrapping World.sampleDisposed
      Op.sampleRun World.sampleAfterRun rfl).2.2.2 0 (by decide) (by decide)⟩

/-! ## Statistics and the error text kept between calls (C20) -/

theorem getStatistics_clean (nat : Native) (w : World) (self : ObjId) (approx force : Bool)
    (hlive : (w.band self).this_ ≠ 0) (hclean : w.stats_file_err = "")
    (herr : nat.retInt ⟨"GetStatistics", (w.band self).this_,
      [.int (if approx then 1 else 0), .int (if force then 1 else 0)]⟩ = 0)
    (hrep : ∀ e ∈ nat.reported ⟨"GetStatistics", (w.band self).this_,
      [.int (if approx then 1 else 0), .int (if force then 1 else 0)]⟩, e.1 ≠ CPLE_OpenFailed) :
    (RasterBand.getStatistics nat w self [.boolean approx, .boolean force]).2 =
      .ret (statsResult nat ⟨"GetStatistics", (w.band self).this_,
        [.int (if approx then 1 else 0), .int (if force then 1 else 0)]⟩) := by
  have hh : ∀ (l : List (Int × String)) (s : String), (∀ e ∈ l, e.1 ≠ CPLE_OpenFailed) →
      statisticsErrorHandler s l = s := by
    intro l
    induction l with
    | nil => intro s _; rfl
    | cons e rest ih =>
      intro s hl
      obtain ⟨n, m⟩ := e
      rw [statisticsErrorHandler, if_neg (hl (n, m) (List.mem_cons_self _ _))]
      exact ih s (fun e he => hl e (List.mem_cons_of_mem _ he))
  have he : ("" : String).isEmpty = true := by decide
  simp [RasterBand.getStatistics, NODE_ARG_BOOL, argAt, hlive, herr, World.statsCall, World.log,
    hh _ _ hrep, hclean, he]

/-- C20 fails on the code: `stats_file_err` is a global that
`statisticsErrorHandler` sets and nothing clears.  On the five band wrappers of
`World.pyramid`, `getStatistics(true, true)` on the wrapper 0 throws the
message of the `CPLE_OpenFailed` error its native call reports.  After that,
with a native library whose statistics calls answer `CE_None` and report no
error, `getStatistics(true, true)` and `computeStatistics(true)`, on the same
wrapper and on the wrapper 1 of another band, still throw that message,
although the same calls return the object of the native outputs in the state
before the failure. -/
theorem stale_statistics_error_rethrown :
    (World.pyramid.band 0).this_ = 1 ∧ (World.pyramid.band 1).this_ = 2 ∧
    World.pyramid.stats_file_err = "" ∧
    (RasterBand.getStatistics Native.openFailed World.pyramid 0 [.boolean true, .boolean true]).2 =
      .throw "cannot open stats file" ∧
    (∀ c, Native.quiet.retInt c = 0 ∧ Native.quiet.reported c = []) ∧
    (RasterBand.getStatistics Native.quiet World.afterOpenFailed 0 [.boolean true, .boolean true]).2 =
      .throw "cannot open stats file" ∧
    (RasterBand.getStatistics Native.quiet World.afterOpenFailed 1 [.boolean true, .boolean true]).2 =
      .throw "cannot open stats file" ∧
    (RasterBand.computeStatistics Native.quiet World.afterOpenFailed 0 [.boolean true]).2 =
      .throw "cannot open stats file" ∧
    (RasterBand.computeStatistics Native.quiet World.afterOpenFailed 1 [.boolean true]).2 =
      .throw "cannot open stats file" ∧
    (RasterBand.getStatistics Native.quiet World.pyramid 1 [.boolean true, .boolean true]).2 =
      .ret (statsResult Native.quiet ⟨"GetStatistics", 2, [.int 1, .int 1]⟩) ∧
    (RasterBand.computeStatistics Native.quiet World.pyramid 1 [.boolean true]).2 =
      .ret (statsResult Native.quiet ⟨"ComputeStatistics", 2, [.int 1]⟩) := by
  refine ⟨by decide, by decide, by decide, by decide, fun c => ⟨rfl, rfl⟩, by decide, by decide,
    by decide, by decide, by decide, by decide⟩

/-! ## Fill, exportToWKB, failed New, linear rings (C21, C25, C27, C28) -/

theorem RasterBand.fill_two_numbers (nat : Native) (w : World) (self : ObjId) (r i : JsValue)
    (hr : r.IsNumber = true) (hi : i.IsNumber = true) (hlive : (w.band self).this_ ≠ 0) :
    ∃ rest, (RasterBand.fill nat w self [r, i]).1.trace =
      w.trace ++ ⟨"Fill", (w.band self).this_, [.num i.NumberValue, .num (.finite 0)]⟩ :: rest := by
  unfold RasterBand.fill
  simp only [NODE_ARG_DOUBLE, NODE_ARG_DOUBLE_OPT, argAt, List.length_cons, List.length_nil,
    List.getD_cons_zero, List.getD_cons_succ, hr, hi, hlive]
  simp only [show ¬ (0 + 1 + 1 < 0 + 1) by omega, show (0 + 1 + 1 > 1) by omega, if_true,
    if_false, Bool.not_true, Bool.false_eq_true]
  split
  · exact ⟨[cplGetLastErrorMsg], by simp [NODE_THROW_CPLERR, World.log]⟩
  · exact ⟨[], by simp [World.log]⟩

/-- C21 fails on the code: `RasterBand::fill` reads its second argument into
`real`, not into `imaginary`.  On the band wrapper 0 of the sample state,
whose native band is 1, `fill(3, 4)` calls the native `Fill(4, 0)`, not
`Fill(3, 4)`; with the second argument absent, `null` or `undefined`, `fill(3)`
calls `Fill(3, 0)`, as the claim says. -/
theorem fill_second_argument_overwrites_real :
    (World.sample.band 0).this_ = 1 ∧ World.sample.trace = [] ∧
    (RasterBand.fill Native.quiet World.sample 0 [.int32 3, .int32 4]) =
      (World.sample.log ⟨"Fill", 1, [.num (.finite 4), .num (.finite 0)]⟩, .ret .undefined) ∧
    (RasterBand.fill Native.quiet World.sample 0 [.int32 3, .int32 4]).1.trace ≠
      [⟨"Fill", 1, [.num (.finite 3), .num (.finite 4)]⟩] ∧
    (RasterBand.fill Native.quiet World.sample 0 [.int32 3]).1.trace =
      [⟨"Fill", 1, [.num (.finite 3), .num (.finite 0)]⟩] ∧
    (RasterBand.fill Native.quiet World.sample 0 [.int32 3, .null]).1.trace =
      [⟨"Fill", 1, [.num (.finite 3), .num (.finite 0)]⟩] ∧
    (RasterBand.fill Native.quiet World.sample 0 [.int32 3, .undefined]).1.trace =
      [⟨"Fill", 1, [.num (.finite 3), .num (.finite 0)]⟩] := by
  refine ⟨by decide, by decide, by decide, by decide, by decide, by decide, by decide⟩

theorem Geometry.exportToWKB_iso (nat : Native) (fastBuffer : NativeCall → Int → JsValue)
    (major minor : Nat) (w : World) (self : ObjId) (order : String)
    (hv : major > 1 ∨ minor > 10) (hlive : (w.geometry self).this_ ≠ 0)
    (ho : order = "MSB" ∨ order = "LSB") :
    Geometry.exportToWKB nat fastBuffer major minor w self [.string order, .string "ISO"] =
      (w.log ⟨"WkbSize", (w.geometry self).this_, []⟩,
        .throw "byte order must be 'OGC' or 'ISO'") := by
  have h1 : ("ISO" : String) ≠ "OGC" := by decide
  have h2 : order ≠ "ISO" := by
    rcases ho with h | h <;> (subst h; decide)
  have h3 : ¬ (order ≠ "MSB" ∧ order ≠ "LSB") := by
    rcases ho with h | h <;> simp [h]
  have hI : TOSTR "ISO" = "ISO" := by decide
  have hO : TOSTR order = order := by
    rcases ho with h | h <;> (subst h; decide)
  unfold Geometry.exportToWKB
  simp only [hlive, if_false, NODE_ARG_OPT_STR, argAt, List.length_cons, List.length_nil,
    List.getD_cons_zero, List.getD_cons_succ, hI, hO]
  simp only [show (0 + 1 + 1 > 0) by omega, show (0 + 1 + 1 > 1) by omega, if_true, h3,
    if_false, hv, h1, h2]

/-- C25 fails on the code: on a build where the variant argument exists (GDAL
2.0 here), `exportToWKB` tests `order == "ISO"` where the variant is meant, so
the variant `ISO` is rejected for every valid byte order, with the message
`byte order must be 'OGC' or 'ISO'` and without a native `exportToWkb` call.
The byte orders and the variant `OGC` (also as defaults) select what the claim
says: `wkbXDR` (0) for `MSB`, `wkbNDR` (1) for `LSB`, `wkbVariantOgc` (0). -/
theorem exportToWKB_rejects_iso_variant :
    (World.geometrySample.geometry 0).this_ = 1 ∧
    (∀ (nat : Native) (fastBuffer : NativeCall → Int → JsValue) (order : String),
      order = "MSB" ∨ order = "LSB" →
      Geometry.exportToWKB nat fastBuffer 2 0 World.geometrySample 0
          [.string order, .string "ISO"] =
        (World.geometrySample.log ⟨"WkbSize", 1, []⟩,
          .throw "byte order must be 'OGC' or 'ISO'")) ∧
    (Geometry.exportToWKB Native.quiet FastBuffer.sample 2 0 World.geometrySample 0
        [.string "MSB", .string "ISO"]).2 = .throw "byte order must be 'OGC' or 'ISO'" ∧
    (Geometry.exportToWKB Native.quiet FastBuffer.sample 2 0 World.geometrySample 0
        [.string "MSB", .string "OGC"]).1.trace =
      [⟨"WkbSize", 1, []⟩, ⟨"exportToWkb", 1, [.int wkbXDR, .int wkbVariantOgc]⟩] ∧
    (Geometry.exportToWKB Native.quiet FastBuffer.sample 2 0 World.geometrySample 0
        [.string "LSB"]).1.trace =
      [⟨"WkbSize", 1, []⟩, ⟨"exportToWkb", 1, [.int wkbNDR, .int wkbVariantOgc]⟩] ∧
    (Geometry.exportToWKB Native.quiet FastBuffer.sample 2 0 World.geometrySample 0 []).1.trace =
      [⟨"WkbSize", 1, []⟩, ⟨"exportToWkb", 1, [.int wkbXDR, .int wkbVariantOgc]⟩] ∧
    (Geometry.exportToWKB Native.quiet FastBuffer.sample 2 0 World.geometrySample 0
        [.string "ISO"]).2 = .throw "byte order must be 'MSB' or 'LSB'" := by
  refine ⟨by decide, ?_, by decide, by decide, by decide, by decide, by decide⟩
  intro nat fastBuffer order ho
  exact Geometry.exportToWKB_iso nat fastBuffer 2 0 World.geometrySample 0 order
    (Or.inl (by decide)) (by decide) ho

/-- C27: the failure for a parent missing from the dataset cache is not rolled
back in the child cache.  For a non-null `raw` cached neither as layer nor as
band, and a non-null `parent` that is not in the dataset cache,
`Layer::New(raw, parent, result_set)` and `RasterBand::New(raw, parent)` throw
the `disappeared from cache` message and leave a state in which the class
cache has the new wrapper for `raw`, whose `parent_ds` is null and whose `ds_`
is not set; every later `New` on `raw` in that state, with any parent and
whatever the dataset cache has become, returns that wrapper through the
cache-hit path, leaving the state as it is. -/
theorem failed_New_leaves_child_cached (w : World) (raw raw_parent : Ptr) (result_set : Bool)
    (hraw : raw ≠ 0) (hparent : raw_parent ≠ 0)
    (hds : w.dataset_cache.has raw_parent = false)
    (hmissL : w.layer_cache.has raw = false) (hmissB : w.band_cache.has raw = false) :
    ((Layer.New w raw raw_parent result_set).2 =
        .throw "Layer's parent dataset disappeared from cache" ∧
      (Layer.New w raw raw_parent result_set).1.layer_cache.has raw = true ∧
      (Layer.New w raw raw_parent result_set).1.layer_cache.get raw = some w.layers.length ∧
      ((Layer.New w raw raw_parent result_set).1.layer w.layers.length).this_ = raw ∧
      ((Layer.New w raw raw_parent result_set).1.layer w.layers.length).parent_ds = 0 ∧
      ((Layer.New w raw raw_parent result_set).1.layer w.layers.length).ds_ = .empty ∧
      ∀ (dc : ObjectCache) (p2 : Ptr) (rs2 : Bool),
        Layer.New { (Layer.New w raw raw_parent result_set).1 with dataset_cache := dc }
            raw p2 rs2 =
          ({ (Layer.New w raw raw_parent result_set).1 with dataset_cache := dc },
            .ret (.object .Layer w.layers.length))) ∧
    ((RasterBand.New w raw raw_parent).2 =
        .throw "Band's parent dataset disappeared from cache" ∧
      (RasterBand.New w raw raw_parent).1.band_cache.has raw = true ∧
      (RasterBand.New w raw raw_parent).1.band_cache.get raw = some w.bands.length ∧
      ((RasterBand.New w raw raw_parent).1.band w.bands.length).this_ = raw ∧
      ((RasterBand.New w raw raw_parent).1.band w.bands.length).parent_ds = 0 ∧
      ((RasterBand.New w raw raw_parent).1.band w.bands.length).ds_ = .empty ∧
      ∀ (dc : ObjectCache) (p2 : Ptr),
        RasterBand.New { (RasterBand.New w raw raw_parent).1 with dataset_cache := dc } raw p2 =
          ({ (RasterBand.New w raw raw_parent).1 with dataset_cache := dc },
            .ret (.object .RasterBand w.bands.length))) := by
  constructor
  · rw [Layer.New_miss_layer w raw raw_parent result_set hraw hmissL]
    have hf : Layer.fresh w raw raw_parent result_set =
        { this_ := raw, parent_ds := 0, is_result_set := result_set,
          features_ := .collection .LayerFeatures w.layers.length,
          fields_ := .collection .LayerFields w.layers.length } := by
      simp [Layer.fresh, hds]
    refine ⟨by simp [hparent, hds], ObjectCache.has_cons_self _ _ _,
      ObjectCache.get_cons_self _ _ _, ?_, ?_, ?_, ?_⟩
    · simp [World.layer, List.getD_length_append_singleton, hf]
    · simp [World.layer, List.getD_length_append_singleton, hf]
    · simp [World.layer, List.getD_length_append_singleton, hf]
    · intro dc p2 rs2
      exact Layer.New_hit_layer _ raw p2 rs2 w.layers.length hraw
        (ObjectCache.get_cons_self _ _ _)
  · rw [RasterBand.New_miss_band w raw raw_parent hraw hmissB]
    have hf : RasterBand.fresh w raw raw_parent =
        { this_ := raw, parent_ds := 0,
          overviews_ := .collection .RasterBandOverviews w.bands.length,
          pixels_ := .collection .RasterBandPixels w.bands.length } := by
      simp [RasterBand.fresh, hds]
    refine ⟨by simp [hparent, hds], ObjectCache.has_cons_self _ _ _,
      ObjectCache.get_cons_self _ _ _, ?_, ?_, ?_, ?_⟩
    · simp [World.band, List.getD_length_append_singleton, hf]
    · simp [World.band, List.getD_length_append_singleton, hf]
    · simp [World.band, List.getD_length_append_singleton, hf]
    · intro dc p2
      exact RasterBand.New_hit_band _ raw p2 w.bands.length hraw
        (ObjectCache.get_cons_self _ _ _)

/-- Witness of `failed_New_leaves_child_cached`: from empty caches, the handle
1 with the parent 5, which is not cached; once the dataset 5 is cached (as the
dataset wrapper 0), `New(1, 5)` still returns the wrapper 0 built by the failed
call, whose `parent_ds` is null. -/
theorem failed_New_leaves_child_cached_witness :
    (Layer.New {} 1 5 true).2 = .throw "Layer's parent dataset disappeared from cache" ∧
    (Layer.New { (Layer.New {} 1 5 true).1 with dataset_cache := ⟨[(5, 0)]⟩ } 1 5 true).2 =
      .ret (.object .Layer 0) ∧
    ((Layer.New {} 1 5 true).1.layer 0).parent_ds = 0 ∧
    (RasterBand.New { (RasterBand.New {} 1 5).1 with dataset_cache := ⟨[(5, 0)]⟩ } 1 5).2 =
      .ret (.object .RasterBand 0) :=
  have h := failed_New_leaves_child_cached {} 1 5 true (by decide) (by decide) (by decide)
    (by decide) (by decide)
  ⟨h.1.1, congrArg Prod.snd (h.1.2.2.2.2.2.2 ⟨[(5, 0)]⟩ 5 true), h.1.2.2.2.2.1,
    congrArg Prod.snd (h.2.2.2.2.2.2.2 ⟨[(5, 0)]⟩ 5)⟩

theorem and_wkb25DBit (t : Nat) : t &&& wkb25DBit = 0 ∨ t &&& wkb25DBit = 2147483648 := by
  have h := Nat.and_two_pow t 31
  norm_num at h
  show t &&& 2147483648 = 0 ∨ t &&& 2147483648 = 2147483648
  cases hb : t.testBit 31 <;> simp [hb] at h <;> omega

/-- C28: `getGeometryType_fixed`.  With `t` the native type
`geom->getGeometryType()`: if the geometry name is `LINEARRING` the result is
`wkbLinearRing | (t & wkb25DBit)`, its 2.5D bit is that of `t`, and
`wkbFlatten` of it is `wkbLinearRing`, so that `Geometry::New` on a non-null
`geom` is the `New` of `LinearRing`, whether or not the 2.5D bit is set; for
every other name the result is `t`. -/
theorem linear_ring_type_fixed (nat : Native) (co : Collaborators) (w : World) (geom : Ptr)
    (owned : Bool) :
    (nat.retStr ⟨"getGeometryName", geom, []⟩ = some "LINEARRING" →
      (Geometry.getGeometryType_fixed nat w geom).2 =
        wkbLinearRing |||
          (((nat.retInt ⟨"getGeometryType", geom, []⟩) % 2 ^ 32).toNat &&& wkb25DBit) ∧
      (Geometry.getGeometryType_fixed nat w geom).2 &&& wkb25DBit =
        ((nat.retInt ⟨"getGeometryType", geom, []⟩) % 2 ^ 32).toNat &&& wkb25DBit ∧
      wkbFlatten (Geometry.getGeometryType_fixed nat w geom).2 = wkbLinearRing ∧
      (geom ≠ 0 → Geometry.New nat co w geom owned =
        co.geometryNew .LinearRing (Geometry.getGeometryType_fixed nat w geom).1 geom owned)) ∧
    (nat.retStr ⟨"getGeometryName", geom, []⟩ ≠ some "LINEARRING" →
      (Geometry.getGeometryType_fixed nat w geom).2 =
        ((nat.retInt ⟨"getGeometryType", geom, []⟩) % 2 ^ 32).toNat) := by
  constructor
  · intro hname
    have h2 : (Geometry.getGeometryType_fixed nat w geom).2 =
        wkbLinearRing |||
          (((nat.retInt ⟨"getGeometryType", geom, []⟩) % 2 ^ 32).toNat &&& wkb25DBit) := by
      simp [Geometry.getGeometryType_fixed, hname]
    have hflat : wkbFlatten (Geometry.getGeometryType_fixed nat w geom).2 = wkbLinearRing := by
      rw [h2]
      rcases and_wkb25DBit ((nat.retInt ⟨"getGeometryType", geom, []⟩) % 2 ^ 32).toNat
        with h | h <;> rw [h] <;> decide
    refine ⟨h2, ?_, hflat, ?_⟩
    · rw [h2]
      rcases and_wkb25DBit ((nat.retInt ⟨"getGeometryType", geom, []⟩) % 2 ^ 32).toNat
        with h | h <;> rw [h] <;> decide
    · intro hgeom
      unfold Geometry.New
      rw [if_neg hgeom]
      simp only [hflat]
      simp [wkbLinearRing, wkbPoint, wkbLineString]
  · intro hname
    simp [Geometry.getGeometryType_fixed, hname]

/-- Witness of `linear_ring_type_fixed`: a ring whose native type is
`wkbLineString` with the 2.5D bit set. -/
theorem linear_ring_type_fixed_witness :
    (Geometry.getGeometryType_fixed Native.rings {} 1).2 = 0x80000065 ∧
    (Geometry.New Native.rings Collaborators.wrapping {} 1 true).2 = .ret (.object .LinearRing 0) :=
  have h := (linear_ring_type_fixed Native.rings Collaborators.wrapping {} 1 true).1 (by decide)
  ⟨by rw [h.1]; decide, by rw [h.2.2.2 (by decide)]; decide⟩

/-! ## Typed arrays, termination (C29, C26) -/

theorem toCInt_of_int32 (i : Int) (h1 : -(2 ^ 31 : Int) ≤ i) (h2 : i < 2 ^ 31) : toCInt i = i := by
  unfold toCInt
  omega

/-- C29: `TypedArray::New` and `TypedArray::Identify`.  For each of the seven
supported types, `New(t, n)` instantiates the global constructor of the name
`Uint8Array`, `Int16Array`, `Uint16Array`, `Int32Array`, `Uint32Array`,
`Float32Array`, `Float64Array` with the size `n`; with the typed arrays of the
engine in place the result is an array of the length `n` whose kind `Identify`
maps back to `t`.  For every other type `New` fails with `Unsupported array
type`.  `Identify` answers `GDT_Unknown` exactly for the objects whose kind is
none of the eight kinds listed, and `GDT_Byte` for both byte kinds. -/
theorem typed_array_round_trip (g : JsGlobal) (n : Nat) :
    (∀ (t : Int) (name : String),
      (t, name) ∈ [(GDT_Byte, "Uint8Array"), (GDT_Int16, "Int16Array"),
        (GDT_UInt16, "Uint16Array"), (GDT_Int32, "Int32Array"), (GDT_UInt32, "Uint32Array"),
        (GDT_Float32, "Float32Array"), (GDT_Float64, "Float64Array")] →
      TypedArray.New g t n =
        (match g.get name with
          | none => .error "Error getting typed array constructor"
          | some constructor =>
            match constructor n with
            | none => .error "Error allocating array"
            | some array => .ok array) ∧
      (∃ a, TypedArray.New JsGlobal.standard t n = .ok a ∧ a.kind = typedArrayKind name ∧
        a.length = n ∧ TypedArray.Identify a = t)) ∧
    (∀ t : Int, t ∉ [GDT_Byte, GDT_Int16, GDT_UInt16, GDT_Int32, GDT_UInt32, GDT_Float32,
        GDT_Float64] → TypedArray.New g t n = .error "Unsupported array type") ∧
    (∀ obj : ArrayObject, TypedArray.Identify obj = GDT_Unknown ↔
      obj.kind ∉ [some .kExternalByteArray, some .kExternalUnsignedByteArray,
        some .kExternalShortArray, some .kExternalUnsignedShortArray, some .kExternalIntArray,
        some .kExternalUnsignedIntArray, some .kExternalFloatArray,
        some ExternalArrayType.kExternalDoubleArray]) ∧
    TypedArray.Identify ⟨some .kExternalByteArray, n⟩ = GDT_Byte ∧
    TypedArray.Identify ⟨some .kExternalUnsignedByteArray, n⟩ = GDT_Byte := by
  refine ⟨?_, ?_, ?_, rfl, rfl⟩
  · intro t name h
    simp only [List.mem_cons, Prod.mk.injEq, List.mem_singleton, List.not_mem_nil, or_false] at h
    rcases h with ⟨rfl, rfl⟩ | ⟨rfl, rfl⟩ | ⟨rfl, rfl⟩ | ⟨rfl, rfl⟩ | ⟨rfl, rfl⟩ | ⟨rfl, rfl⟩ |
      ⟨rfl, rfl⟩
    all_goals exact ⟨rfl, _, rfl, rfl, rfl, rfl⟩
  · intro t ht
    simp only [List.mem_cons, List.mem_singleton, List.not_mem_nil, or_false, not_or] at ht
    obtain ⟨h1, h2, h3, h4, h5, h6, h7⟩ := ht
    simp [TypedArray.New, h1, h2, h3, h4, h5, h6, h7]
  · intro obj
    obtain ⟨kind, len⟩ := obj
    cases kind with
    | none => simp [TypedArray.Identify]
    | some k => cases k <;> simp [TypedArray.Identify, GDT_Byte, GDT_Int16, GDT_UInt16,
        GDT_Int32, GDT_UInt32, GDT_Float32, GDT_Float64, GDT_Unknown]

/-- Witness of `typed_array_round_trip`: with the typed arrays of the engine in
place, `New(GDT_Float32, 4)` builds a float array of length 4; the type 8
(`GDT_CInt16`) is not supported; an object whose data is a pixel array
(`Uint8ClampedArray`) is identified as `GDT_Unknown`. -/
theorem typed_array_round_trip_witness :
    TypedArray.New JsGlobal.standard GDT_Float32 4 = .ok ⟨some .kExternalFloatArray, 4⟩ ∧
    TypedArray.Identify ⟨some .kExternalFloatArray, 4⟩ = GDT_Float32 ∧
    TypedArray.New JsGlobal.standard 8 4 = .error "Unsupported array type" ∧
    TypedArray.Identify ⟨some .kExternalPixelArray, 4⟩ = GDT_Unknown :=
  have h := typed_array_round_trip JsGlobal.standard 4
  ⟨(h.1 GDT_Float32 "Float32Array" (by decide)).1.trans rfl, rfl, h.2.1 8 (by decide),
    (h.2.2.1 ⟨some .kExternalPixelArray, 4⟩).2 (by decide)⟩

theorem RasterBand.dispose_returns (nat : Native) (w : World) (hok : BandsOk w) (self : ObjId)
    (fuel : Nat) (hfuel : w.band_cache.size ≤ fuel) :
    ∃ w1, RasterBand.dispose nat (fuel + 1) w self = some w1 := by
  by_cases hne : (w.band self).this_ = 0
  · exact ⟨w, RasterBand.dispose_dead_band nat fuel w self hne⟩
  · generalize hk : (w.band self).this_ = k at hne
    -- the state after `cache.erase(this_)` and `GetOverviewCount()`
    let w2 : World :=
      ({ w with band_cache := w.band_cache.erase k } : World).log ⟨"GetOverviewCount", k, []⟩
    have hok2 : BandsOk w2 :=
      ⟨ObjectCache.nodup_of_sublist (ObjectCache.erase_sublist _ _) hok.1,
        fun e he => hok.mem (ObjectCache.mem_erase.1 he).1⟩
    have hk2 : w2.band_cache.has k = false := ObjectCache.has_erase_self _ _
    have hself2 : (w2.band self).this_ = k := hk
    have hsize2 : w2.band_cache.size ≤ fuel :=
      le_trans (ObjectCache.size_le_of_sublist (ObjectCache.erase_sublist _ _)) hfuel
    have hlive2 : BandsLive (fun _ => True) w2 := fun _ _ hP _ => absurd trivial hP
    obtain ⟨w3, hw3, hok3, hlive3, hstep3, hself3, _, _⟩ :=
      disposeOverviews_spec (RasterBand.dispose_spec nat fuel (fun _ => True)) self k hne
        (nat.GetOverviewCount k).toNat 0 w2 (le_refl _)
        (by
          by_cases hn : 0 ≤ nat.GetOverviewCount k
          · right; rw [Int.toNat_of_nonneg hn]; omega
          · left; exact Int.toNat_eq_zero.2 (by omega))
        hok2 hlive2 hself2 hk2 hsize2
    have hsize3 : w3.band_cache.size ≤ fuel :=
      le_trans (ObjectCache.size_le_of_sublist hstep3.sub) hsize2
    obtain ⟨w5, hw5, _, _, _, _⟩ :=
      disposeCached_spec (RasterBand.dispose_spec nat fuel (fun _ => True))
        (w3.log ⟨"GetMaskBand", k, []⟩) (nat.GetMaskBand k) hok3 hlive3 hsize3
    refine ⟨w5.setBand self { w5.band self with this_ := 0 }, ?_⟩
    simp only [RasterBand.dispose, hk, hne, if_false]
    show (match RasterBand.disposeOverviews nat (RasterBand.dispose nat fuel) self
      (nat.GetOverviewCount k).toNat 0 w2 with
      | none => none
      | some w3 => _) = _
    rw [hw3]
    simp only [hself3, hne, if_false, hw5]

/-- C26: `RasterBand::dispose` terminates.  In every state whose band cache
satisfies the cache invariant (one entry per key, each entry's wrapper exists
and has the key as its non-null handle), for every native overview and mask
relation, self links and cycles included, `dispose` returns on every wrapper
when its nesting depth is bounded by the number of cache entries plus one (the
outermost call and at most one nested call per entry), and with any larger
bound the result is the same; on a wrapper that is cached under its handle it
returns within a depth of the number of cache entries. -/
theorem dispose_terminates (nat : Native) (w : World) (self : ObjId) (hok : BandsOk w) :
    (∃ w1, RasterBand.dispose nat (w.band_cache.size + 1) w self = some w1 ∧
      ∀ fuel, w.band_cache.size + 1 ≤ fuel → RasterBand.dispose nat fuel w self = some w1) ∧
    ((w.band self).this_ ≠ 0 → w.band_cache.get (w.band self).this_ = some self →
      ∃ w1, RasterBand.dispose nat w.band_cache.size w self = some w1) := by
  constructor
  · obtain ⟨w1, h1⟩ := RasterBand.dispose_returns nat w hok self w.band_cache.size (le_refl _)
    exact ⟨w1, h1, fun fuel hf => RasterBand.dispose_mono nat hf w self w1 h1⟩
  · intro hlive hget
    obtain ⟨w1, h1, _⟩ := RasterBand.dispose_spec nat w.band_cache.size (fun _ => True) w self hok
      (fun _ _ hP _ => absurd trivial hP) hlive hget (le_refl _)
    exact ⟨w1, h1⟩

/-- Witness of `dispose_terminates`: the five cached bands of `World.pyramid`
with a native library in which every band is its own overview and the bands 1
and 2 are the mask band of each other; `dispose` of the wrapper of band 1
returns within the depth 5, having emptied the handles of the wrappers of the
bands 1 and 2. -/
theorem dispose_terminates_witness :
    World.pyramid.band_cache.size = 5 ∧
    ((RasterBand.dispose Native.cyclic 5 World.pyramid 0).map fun w1 =>
      ((w1.band 0).this_, (w1.band 1).this_, (w1.band 2).this_)) = some (0, 0, 3) :=
  have hr : Reachable World.pyramid :=
    Reachable.bandNew _ 5 0 (Reachable.bandNew _ 4 0 (Reachable.bandNew _ 3 0
      (Reachable.bandNew _ 2 0 (Reachable.bandNew _ 1 0 (Reachable.init ⟨[]⟩ [])))))
  ⟨by decide,
    ((dispose_terminates Native.cyclic World.pyramid 0 hr.inv.bands_ok).2 (by decide)
      (by decide)).elim fun w1 h => by
        have h5 : RasterBand.dispose Native.cyclic 5 World.pyramid 0 = some w1 := h
        have hd : RasterBand.dispose Native.cyclic 5 World.pyramid 0 =
            some ((RasterBand.dispose Native.cyclic 5 World.pyramid 0).getD {}) := by
          rw [h5]; rfl
        rw [hd]
        decide⟩

/-! ## Opening, field references and optional arguments, with strings read as C strings (C22, C23, C24) -/

/-- C22 (as amended): `gdal.open(path, mode)` with a string `path`.  A mode
that is absent, `null` or `undefined` gives the result of the mode `r`.  A
string mode counts as the C string it is read as, `TOSTR(mode)`, its
characters before the first NUL: if that is neither `r` nor `r+` the call
fails with the `Invalid open mode` message in the unchanged state, so no
native call is made; if it is `r` (access `GA_ReadOnly`) or `r+` (access
`GA_Update`) the OGR open is called first, and its non-null answer is wrapped;
if it answers null the GDAL open is called with the same access, and its
non-null answer is wrapped; if both answer null the call fails with `Error
opening dataset`. -/
theorem open_validates_mode (nat : Native) (ds : DatasetCollaborators) (w : World)
    (path : String) :
    gdal_open nat ds w [.string path] = gdal_open nat ds w [.string path, .string "r"] ∧
    gdal_open nat ds w [.string path, .null] = gdal_open nat ds w [.string path, .string "r"] ∧
    gdal_open nat ds w [.string path, .undefined] =
      gdal_open nat ds w [.string path, .string "r"] ∧
    (∀ mode : String, TOSTR mode ≠ "r" → TOSTR mode ≠ "r+" →
      gdal_open nat ds w [.string path, .string mode] =
        (w, .throw "Invalid open mode. Must be \"r\" or \"r+\"")) ∧
    (∀ (mode : String) (access : Int),
      (TOSTR mode = "r" ∧ access = GA_ReadOnly) ∨ (TOSTR mode = "r+" ∧ access = GA_Update) →
      (nat.retPtr ⟨"OGRSFDriverRegistrar::Open", 0, [.str (some (TOSTR path)), .int access]⟩ ≠ 0 →
        gdal_open nat ds w [.string path, .string mode] =
          ds.newOGR
            (w.log ⟨"OGRSFDriverRegistrar::Open", 0, [.str (some (TOSTR path)), .int access]⟩)
            (nat.retPtr
              ⟨"OGRSFDriverRegistrar::Open", 0, [.str (some (TOSTR path)), .int access]⟩)) ∧
      (nat.retPtr ⟨"OGRSFDriverRegistrar::Open", 0, [.str (some (TOSTR path)), .int access]⟩ = 0 →
        nat.retPtr ⟨"GDALOpen", 0, [.str (some (TOSTR path)), .int access]⟩ ≠ 0 →
        gdal_open nat ds w [.string path, .string mode] =
          ds.newGDAL
            ((w.log
                ⟨"OGRSFDriverRegistrar::Open", 0, [.str (some (TOSTR path)), .int access]⟩).log
              ⟨"GDALOpen", 0, [.str (some (TOSTR path)), .int access]⟩)
            (nat.retPtr ⟨"GDALOpen", 0, [.str (some (TOSTR path)), .int access]⟩)) ∧
      (nat.retPtr ⟨"OGRSFDriverRegistrar::Open", 0, [.str (some (TOSTR path)), .int access]⟩ = 0 →
        nat.retPtr ⟨"GDALOpen", 0, [.str (some (TOSTR path)), .int access]⟩ = 0 →
        gdal_open nat ds w [.string path, .string mode] =
          ((w.log
                ⟨"OGRSFDriverRegistrar::Open", 0, [.str (some (TOSTR path)), .int access]⟩).log
              ⟨"GDALOpen", 0, [.str (some (TOSTR path)), .int access]⟩,
            .throw "Error opening dataset"))) := by
  have hrr : ("r" : String) ≠ "r+" := by decide
  have hr : TOSTR "r" = "r" := by decide
  refine ⟨?_, ?_, ?_, ?_, ?_⟩
  · simp [gdal_open, NODE_ARG_STR, NODE_ARG_OPT_STR, argAt, hr]
  · simp [gdal_open, NODE_ARG_STR, NODE_ARG_OPT_STR, argAt, JsValue.IsNullOrUndefined, hr]
  · simp [gdal_open, NODE_ARG_STR, NODE_ARG_OPT_STR, argAt, JsValue.IsNullOrUndefined, hr]
  · intro mode h1 h2
    simp [gdal_open, NODE_ARG_STR, NODE_ARG_OPT_STR, argAt, h1, h2]
  · intro mode access hm
    rcases hm with ⟨hm, ha⟩ | ⟨hm, ha⟩ <;> subst ha
    · refine ⟨fun h1 => ?_, fun h1 h2 => ?_, fun h1 h2 => ?_⟩
      · simp [gdal_open, NODE_ARG_STR, NODE_ARG_OPT_STR, argAt, hm, hrr, h1]
      · simp [gdal_open, NODE_ARG_STR, NODE_ARG_OPT_STR, argAt, hm, hrr, h1, h2]
      · simp [gdal_open, NODE_ARG_STR, NODE_ARG_OPT_STR, argAt, hm, hrr, h1, h2]
    · refine ⟨fun h1 => ?_, fun h1 h2 => ?_, fun h1 h2 => ?_⟩
      · simp [gdal_open, NODE_ARG_STR, NODE_ARG_OPT_STR, argAt, hm, h1]
      · simp [gdal_open, NODE_ARG_STR, NODE_ARG_OPT_STR, argAt, hm, h1, h2]
      · simp [gdal_open, NODE_ARG_STR, NODE_ARG_OPT_STR, argAt, hm, h1, h2]

/-- Witness of `open_validates_mode`: a raster file, which OGR does not open;
read-only it is opened by GDAL and wrapped, for update both opens fail, and
the mode `w` is refused before any native call. -/
theorem open_validates_mode_witness :
    gdal_open Native.rasterOnly DatasetCollaborators.sample {} [.string "a.tif"] =
      ({ datasets := [{ this_ := 7 }], dataset_cache := ⟨[(7, 0)]⟩,
         trace := [⟨"OGRSFDriverRegistrar::Open", 0, [.str (some "a.tif"), .int 0]⟩,
           ⟨"GDALOpen", 0, [.str (some "a.tif"), .int 0]⟩] },
        .ret (.object .Dataset 0)) ∧
    (gdal_open Native.rasterOnly DatasetCollaborators.sample {} [.string "a.tif", .string "r+"]).2 =
      .throw "Error opening dataset" ∧
    gdal_open Native.rasterOnly DatasetCollaborators.sample {} [.string "a.tif", .string "w"] =
      ({}, .throw "Invalid open mode. Must be \"r\" or \"r+\"") :=
  have h := open_validates_mode Native.rasterOnly DatasetCollaborators.sample {} "a.tif"
  ⟨by rw [h.1, (h.2.2.2.2 "r" GA_ReadOnly (Or.inl ⟨by decide, rfl⟩)).2.1 (by decide)
      (by decide)]; decide,
    by rw [(h.2.2.2.2 "r+" GA_Update (Or.inr ⟨by decide, rfl⟩)).2.2 (by decide) (by decide)],
    h.2.2.2.1 "w" (by decide) (by decide)⟩

/-- C22, counterexample: the string mode `r`, NUL, `junk` is a string other
than `r` and `r+`, and `gdal.open("a.tif", mode)` with it does not fail with
`Invalid open mode`: the mode is read as the C string `r`, both native opens
are called with read-only access and the dataset GDAL opens is returned. -/
theorem open_validates_mode_counterexample :
    modeWithNul ≠ "r" ∧ modeWithNul ≠ "r+" ∧
    gdal_open Native.rasterOnly DatasetCollaborators.sample {}
        [.string "a.tif", .string modeWithNul] =
      ({ datasets := [{ this_ := 7 }], dataset_cache := ⟨[(7, 0)]⟩,
         trace := [⟨"OGRSFDriverRegistrar::Open", 0, [.str (some "a.tif"), .int 0]⟩,
           ⟨"GDALOpen", 0, [.str (some "a.tif"), .int 0]⟩] },
        .ret (.object .Dataset 0)) ∧
    (gdal_open Native.rasterOnly DatasetCollaborators.sample {}
        [.string "a.tif", .string modeWithNul]).2 ≠
      .throw "Invalid open mode. Must be \"r\" or \"r+\"" := by
  refine ⟨by decide, by decide, by decide, by decide⟩

/-- C23: `ARG_FIELD_ID`, with `var` the variable `field_index` of the calling
function, on an object `f` with `n = GetFieldCount()` fields.  An Int32
argument `i` is accepted iff `0 <= i < n`, with `var = i`, and fails with
`Invalid field index` otherwise; a string argument is handed to
`GetFieldIndex` as the C string `TOSTR(name)`, its characters before the first
NUL, and is accepted iff the answer is not -1, with `var` that index, and
fails with `Specified field name does not exist` otherwise; any other argument
fails with `Field index must be integer or string`. -/
theorem field_id_resolution (nat : Native) (w : World) (args : List JsValue) (num : Nat)
    (f : Ptr) :
    (∀ i : Int, argAt args num = .int32 i →
      ((0 ≤ i ∧ i < nat.retInt ⟨"GetFieldCount", f, []⟩) →
        (ARG_FIELD_ID nat w args num f none).2 = .ok i) ∧
      (¬ (0 ≤ i ∧ i < nat.retInt ⟨"GetFieldCount", f, []⟩) →
        (ARG_FIELD_ID nat w args num f none).2 = .error "Invalid field index")) ∧
    (∀ name : String, argAt args num = .string name →
      (nat.retInt ⟨"GetFieldIndex", f, [.str (some (TOSTR name))]⟩ ≠ -1 →
        (ARG_FIELD_ID nat w args num f none).2 =
          .ok (nat.retInt ⟨"GetFieldIndex", f, [.str (some (TOSTR name))]⟩)) ∧
      (nat.retInt ⟨"GetFieldIndex", f, [.str (some (TOSTR name))]⟩ = -1 →
        (ARG_FIELD_ID nat w args num f none).2 =
          .error "Specified field name does not exist")) ∧
    ((argAt args num).IsInt32 = false → (argAt args num).IsString = false →
      ARG_FIELD_ID nat w args num f none =
        (w, .error "Field index must be integer or string")) := by
  refine ⟨?_, ?_, ?_⟩
  · intro i hi
    unfold ARG_FIELD_ID
    rw [hi]
    constructor
    · intro h
      have h1 : ¬ i < 0 := by omega
      have h2 : ¬ i ≥ nat.retInt ⟨"GetFieldCount", f, []⟩ := by omega
      simp only [h1, h2, if_false]
    · intro h
      by_cases h1 : i < 0
      · simp only [h1, if_true]
      · have h2 : i ≥ nat.retInt ⟨"GetFieldCount", f, []⟩ := by omega
        simp only [h1, h2, if_false, if_true]
  · intro name hn
    unfold ARG_FIELD_ID
    rw [hn]
    constructor
    · intro h
      simp only [Option.getD_none, h, if_false]
    · intro h
      simp only [Option.getD_none, h, if_true]
  · intro h1 h2
    unfold ARG_FIELD_ID
    cases hv : argAt args num <;> simp_all [JsValue.IsInt32, JsValue.IsString]


/-- Witness of `field_id_resolution`: a definition of three fields; the index
2, the name `name` and the name `name`, NUL, `junk` are accepted, the index 3
and the name `nom` are not. -/
theorem field_id_resolution_witness :
    (ARG_FIELD_ID Native.threeFields {} [.int32 2] 0 9 none).2 = .ok 2 ∧
    (ARG_FIELD_ID Native.threeFields {} [.int32 3] 0 9 none).2 = .error "Invalid field index" ∧
    (ARG_FIELD_ID Native.threeFields {} [.string "name"] 0 9 none).2 = .ok 1 ∧
    (ARG_FIELD_ID Native.threeFields {} [.string nameWithNul] 0 9 none).2 = .ok 1 ∧
    (ARG_FIELD_ID Native.threeFields {} [.string "nom"] 0 9 none).2 =
      .error "Specified field name does not exist" ∧
    ARG_FIELD_ID Native.threeFields {} [.boolean true] 0 9 none =
      ({}, .error "Field index must be integer or string") :=
  have h := field_id_resolution Native.threeFields {} [.int32 2] 0 9
  have h3 := field_id_resolution Native.threeFields {} [.int32 3] 0 9
  have hn := field_id_resolution Native.threeFields {} [.string "name"] 0 9
  have hz := field_id_resolution Native.threeFields {} [.string nameWithNul] 0 9
  have hm := field_id_resolution Native.threeFields {} [.string "nom"] 0 9
  have hb := field_id_resolution Native.threeFields {} [.boolean true] 0 9
  ⟨(h.1 2 rfl).1 (by decide), (h3.1 3 rfl).2 (by decide), (hn.2.1 "name" rfl).1 (by decide),
    (hz.2.1 nameWithNul rfl).1 (by decide), (hm.2.1 "nom" rfl).2 (by decide), hb.2.2 rfl rfl⟩


/-- C24: the optional-argument macros `NODE_ARG_INT_OPT`, `NODE_ARG_ENUM_OPT`,
`NODE_ARG_BOOL_OPT`, `NODE_ARG_OPT_STR`, `NODE_ARG_DOUBLE_OPT` and
`NODE_ARG_ARRAY_OPT`, for every argument list and position `num`.  If the
argument is absent (`args.Length() <= num`), `null` or `undefined`, the
variable keeps its value and nothing is thrown.  If the argument has the type
the macro tests for (Int32, Int32, boolean, string, number, array) the
variable gets the converted value; for a string that is `TOSTR` of it, the C
string of its characters before the first NUL.  In every other case the macro throws the
name followed by ` must be an integer`, ` must be an integer`, ` must be an
boolean`, ` must be an string`, ` must be a number`, ` must be an array`, and
nothing is assigned. -/
theorem optional_argument_marshalling (nat : Native) (args : List JsValue) (num : Nat)
    (name : String) (vi : Int) (vb : Bool) (vs : String) (vd : Dbl) (va : JsValue) :
    ((args.length ≤ num ∨ (argAt args num).IsNullOrUndefined = true) →
      NODE_ARG_INT_OPT nat args num name vi = .ok vi ∧
      NODE_ARG_ENUM_OPT nat args num name vi = .ok vi ∧
      NODE_ARG_BOOL_OPT args num name vb = .ok vb ∧
      NODE_ARG_OPT_STR args num name vs = .ok vs ∧
      NODE_ARG_DOUBLE_OPT args num name vd = .ok vd ∧
      NODE_ARG_ARRAY_OPT args num name va = .ok va) ∧
    (num < args.length →
      (∀ i : Int, argAt args num = .int32 i →
        NODE_ARG_INT_OPT nat args num name vi = .ok (toCInt i) ∧
        NODE_ARG_ENUM_OPT nat args num name vi = .ok (toCInt i) ∧
        (-(2 ^ 31 : Int) ≤ i → i < 2 ^ 31 → toCInt i = i)) ∧
      (∀ b : Bool, argAt args num = .boolean b → NODE_ARG_BOOL_OPT args num name vb = .ok b) ∧
      (∀ s : String, argAt args num = .string s →
        NODE_ARG_OPT_STR args num name vs = .ok (TOSTR s)) ∧
      ((argAt args num).IsNumber = true →
        NODE_ARG_DOUBLE_OPT args num name vd = .ok (argAt args num).NumberValue) ∧
      ((argAt args num).IsArray = true →
        NODE_ARG_ARRAY_OPT args num name va = .ok (argAt args num)) ∧
      ((argAt args num).IsNullOrUndefined = false →
        ((argAt args num).IsInt32 = false →
          NODE_ARG_INT_OPT nat args num name vi = .error (name ++ " must be an integer") ∧
          NODE_ARG_ENUM_OPT nat args num name vi = .error (name ++ " must be an integer")) ∧
        ((argAt args num).IsBoolean = false →
          NODE_ARG_BOOL_OPT args num name vb = .error (name ++ " must be an boolean")) ∧
        ((argAt args num).IsString = false →
          NODE_ARG_OPT_STR args num name vs = .error (name ++ " must be an string")) ∧
        ((argAt args num).IsNumber = false →
          NODE_ARG_DOUBLE_OPT args num name vd = .error (name ++ " must be a number")) ∧
        ((argAt args num).IsArray = false →
          NODE_ARG_ARRAY_OPT args num name va = .error (name ++ " must be an array")))) := by
  constructor
  · intro h
    by_cases hlen : args.length > num
    · have hnu : (argAt args num).IsNullOrUndefined = true := by
        rcases h with h | h
        · omega
        · exact h
      unfold NODE_ARG_INT_OPT NODE_ARG_ENUM_OPT NODE_ARG_BOOL_OPT NODE_ARG_OPT_STR
        NODE_ARG_DOUBLE_OPT NODE_ARG_ARRAY_OPT
      simp only [hlen, if_true]
      cases hv : argAt args num <;> simp_all [JsValue.IsNullOrUndefined, JsValue.IsInt32,
        JsValue.IsNumber, JsValue.IsArray]
    · simp [NODE_ARG_INT_OPT, NODE_ARG_ENUM_OPT, NODE_ARG_BOOL_OPT, NODE_ARG_OPT_STR,
        NODE_ARG_DOUBLE_OPT, NODE_ARG_ARRAY_OPT, hlen]
  · intro hlen
    have hlen1 : args.length > num := hlen
    refine ⟨?_, ?_, ?_, ?_, ?_, ?_⟩
    · intro i hi
      refine ⟨?_, ?_, toCInt_of_int32 i⟩
      · simp [NODE_ARG_INT_OPT, hlen1, hi, JsValue.IsInt32, JsValue.IntegerValue]
      · simp [NODE_ARG_ENUM_OPT, hlen1, hi, JsValue.IsInt32, JsValue.IntegerValue]
    · intro b hb
      simp [NODE_ARG_BOOL_OPT, hlen1, hb]
    · intro s hs
      simp [NODE_ARG_OPT_STR, hlen1, hs]
    · intro hn
      simp [NODE_ARG_DOUBLE_OPT, hlen1, hn]
    · intro ha
      simp [NODE_ARG_ARRAY_OPT, hlen1, ha]
    · intro hnu
      refine ⟨?_, ?_, ?_, ?_, ?_⟩
      · intro ht
        simp [NODE_ARG_INT_OPT, NODE_ARG_ENUM_OPT, hlen1, hnu, ht]
      · intro ht
        unfold NODE_ARG_BOOL_OPT
        simp only [hlen1, if_true]
        cases hv : argAt args num <;> simp_all [JsValue.IsNullOrUndefined, JsValue.IsBoolean]
      · intro ht
        unfold NODE_ARG_OPT_STR
        simp only [hlen1, if_true]
        cases hv : argAt args num <;> simp_all [JsValue.IsNullOrUndefined, JsValue.IsString]
      · intro ht
        simp [NODE_ARG_DOUBLE_OPT, hlen1, hnu, ht]
      · intro ht
        simp [NODE_ARG_ARRAY_OPT, hlen1, hnu, ht]


/-- Witness of `optional_argument_marshalling`: the argument list
`(7, "x", null)` read at the positions 0, 1, 2 and 3, and a string with a NUL
character. -/
theorem optional_argument_marshalling_witness :
    NODE_ARG_INT_OPT Native.quiet [.int32 7, .string "x", .null] 0 "n" 2 = .ok 7 ∧
    NODE_ARG_INT_OPT Native.quiet [.int32 7, .string "x", .null] 1 "n" 2 =
      .error "n must be an integer" ∧
    NODE_ARG_BOOL_OPT [.int32 7, .string "x", .null] 2 "flag" true = .ok true ∧
    NODE_ARG_OPT_STR [.int32 7, .string "x", .null] 3 "s" "dflt" = .ok "dflt" ∧
    NODE_ARG_OPT_STR [.int32 7, .string "x", .null] 0 "s" "dflt" = .error "s must be an string" ∧
    NODE_ARG_OPT_STR [.int32 7, .string "x", .null] 1 "s" "dflt" = .ok "x" ∧
    NODE_ARG_OPT_STR [.string nameWithNul] 0 "s" "dflt" = .ok "name" :=
  have h0 := optional_argument_marshalling Native.quiet [.int32 7, .string "x", .null] 0 "n"
    2 true "dflt" (.finite 0) .undefined
  have h1 := optional_argument_marshalling Native.quiet [.int32 7, .string "x", .null] 1 "n"
    2 true "dflt" (.finite 0) .undefined
  have h2 := optional_argument_marshalling Native.quiet [.int32 7, .string "x", .null] 2 "flag"
    2 true "dflt" (.finite 0) .undefined
  have h3 := optional_argument_marshalling Native.quiet [.int32 7, .string "x", .null] 3 "s"
    2 true "dflt" (.finite 0) .undefined
  have h4 := optional_argument_marshalling Native.quiet [.int32 7, .string "x", .null] 0 "s"
    2 true "dflt" (.finite 0) .undefined
  ⟨((h0.2 (by decide)).1 7 rfl).1, ((h1.2 (by decide)).2.2.2.2.2 rfl).1 rfl |>.1,
    (h2.1 (Or.inr rfl)).2.2.1, (h3.1 (Or.inl (by decide))).2.2.2.1,
    ((h4.2 (by decide)).2.2.2.2.2 rfl).2.2.1 rfl,
    ((optional_argument_marshalling Native.quiet [.int32 7, .string "x", .null] 1 "s"
      2 true "dflt" (.finite 0) .undefined).2 (by decide)).2.2.1 "x" rfl
      |>.trans (congrArg Except.ok (by decide)),
    ((optional_argument_marshalling Native.quiet [.string nameWithNul] 0 "s"
      2 true "dflt" (.finite 0) .undefined).2 (by decide)).2.2.1 nameWithNul rfl
      |>.trans (congrArg Except.ok (by decide))⟩

end node_gdal
